import Mathlib

/-!
# Artifact generation and persistence (`src/artifact.cpp`)

A shallow embedding of the artifact generator of `artifact.cpp`: the effect
cost catalogs, the static content tables, the pool builders, the selection
loops of `new_artifact`, the rejection loop of `new_natural_artifact`, the
armor-mod rules and the JSON codec, followed by theorems about them.

Conventions of the embedding:
* C++ `int`/`long` values are `Int`; enumerators and array indices are `Nat`;
* volumes are millilitres and masses are grams, both `Int`;
* `std::vector` / `std::array` are `List`; an index outside the array (undefined
  behaviour in C++) reads a default element;
* the shared random source is threaded explicitly as a stream of raw draws.
-/

namespace Artifact

/-! ## Random source -/

/-- Modelled from the spec: the pseudo-random service of `rng.h` (absent from
the sources) is "deterministic when seeded"; it is embedded as the infinite
stream of raw draws that the seed determines. Quantifying over all streams
quantifies over all outcomes of the generator. -/
abbrev RNG := Nat → Nat

/-- The stream after one draw has been consumed. -/
def RNG.advance (g : RNG) : RNG := fun n => g (n + 1)

/-- Modelled from the spec: `rng(min, max)` is the uniform integer primitive of
`rng.h` (absent). The raw draw is reduced into the closed interval between the
two bounds (given in either order), so every value of the interval is a
possible result and no other value is. -/
def rng (val1 val2 : Int) (g : RNG) : Int × RNG :=
  let minVal := if val1 < val2 then val1 else val2
  let maxVal := if val1 < val2 then val2 else val1
  (minVal + (g 0 : Int) % (maxVal - minVal + 1), g.advance)

/-- A condition whose evaluation may consume randomness. -/
abbrev Cond := RNG → Bool × RNG

/-- A condition that consumes no randomness. -/
def Cond.pure (b : Bool) : Cond := fun g => (b, g)

/-- C++ `a && b`: `b` is evaluated only when `a` is true. -/
def Cond.and (a b : Cond) : Cond := fun g =>
  if (a g).1 then b (a g).2 else (false, (a g).2)

/-- C++ `a || b`: `b` is evaluated only when `a` is false. -/
def Cond.or (a b : Cond) : Cond := fun g =>
  if (a g).1 then (true, (a g).2) else b (a g).2

/-- C++ `!a`. -/
def Cond.not (a : Cond) : Cond := fun g => (!(a g).1, (a g).2)

/-- Modelled from the spec: `one_in(n)` is the Bernoulli(1/n) primitive of
`rng.h` (absent): certain for `n <= 1`, otherwise true when a uniform draw from
`[0, n-1]` is `0`. -/
def one_in (chance : Int) : Cond := fun g =>
  if chance ≤ 1 then (true, g) else ((rng 0 (chance - 1) g).1 == 0, (rng 0 (chance - 1) g).2)

/-- Modelled from the spec: `random_entry_removed` of `rng.h` (absent) removes
one element uniformly at random from the container and returns it together with
the shortened container. -/
def random_entry_removed (container : List Nat) (g : RNG) : Nat × List Nat × RNG :=
  let r := rng 0 ((container.length : Int) - 1) g
  (container.getD r.1.toNat 0, container.eraseIdx r.1.toNat, r.2)

/-- Modelled from the spec: `random_entry_ref` of `rng.h` (absent) returns a
uniformly chosen element of the container, which is left unchanged. -/
def random_entry_ref (container : List String) (g : RNG) : String × RNG :=
  let r := rng 0 ((container.length : Int) - 1) g
  (container.getD r.1.toNat "", r.2)

/-! ## Effect identifiers

Modelled from the spec: the enumerations `art_effect_passive`,
`art_effect_active` and `art_charge` are declared in `artifact.h` (absent). The
enumerators are numbered in the order in which the cost tables and the `io`
name tables of `artifact.cpp` list them: `[0]` is the null sentinel, the good
effects follow, then the split sentinel, then the bad effects. -/

def AEP_NULL : Nat := 0
def AEP_STR_UP : Nat := 1
def AEP_DEX_UP : Nat := 2
def AEP_PER_UP : Nat := 3
def AEP_INT_UP : Nat := 4
def AEP_ALL_UP : Nat := 5
def AEP_SPEED_UP : Nat := 6
def AEP_PBLUE : Nat := 7
def AEP_SNAKES : Nat := 8
def AEP_INVISIBLE : Nat := 9
def AEP_CLAIRVOYANCE : Nat := 10
def AEP_CLAIRVOYANCE_PLUS : Nat := 11
def AEP_SUPER_CLAIRVOYANCE : Nat := 12
def AEP_STEALTH : Nat := 13
def AEP_EXTINGUISH : Nat := 14
def AEP_GLOW : Nat := 15
def AEP_PSYSHIELD : Nat := 16
def AEP_RESIST_ELECTRICITY : Nat := 17
def AEP_CARRY_MORE : Nat := 18
def AEP_SAP_LIFE : Nat := 19
def AEP_SPLIT : Nat := 20
def AEP_HUNGER : Nat := 21
def AEP_THIRST : Nat := 22
def AEP_SMOKE : Nat := 23
def AEP_EVIL : Nat := 24
def AEP_SCHIZO : Nat := 25
def AEP_RADIOACTIVE : Nat := 26
def AEP_MUTAGENIC : Nat := 27
def AEP_ATTENTION : Nat := 28
def AEP_STR_DOWN : Nat := 29
def AEP_DEX_DOWN : Nat := 30
def AEP_PER_DOWN : Nat := 31
def AEP_INT_DOWN : Nat := 32
def AEP_ALL_DOWN : Nat := 33
def AEP_SPEED_DOWN : Nat := 34
def AEP_FORCE_TELEPORT : Nat := 35
def AEP_MOVEMENT_NOISE : Nat := 36
def AEP_BAD_WEATHER : Nat := 37
def AEP_SICK : Nat := 38
def NUM_AEPS : Nat := 39

def AEA_NULL : Nat := 0
def AEA_STORM : Nat := 1
def AEA_FIREBALL : Nat := 2
def AEA_ADRENALINE : Nat := 3
def AEA_MAP : Nat := 4
def AEA_BLOOD : Nat := 5
def AEA_FATIGUE : Nat := 6
def AEA_ACIDBALL : Nat := 7
def AEA_PULSE : Nat := 8
def AEA_HEAL : Nat := 9
def AEA_CONFUSED : Nat := 10
def AEA_ENTRANCE : Nat := 11
def AEA_BUGS : Nat := 12
def AEA_TELEPORT : Nat := 13
def AEA_LIGHT : Nat := 14
def AEA_GROWTH : Nat := 15
def AEA_HURTALL : Nat := 16
def AEA_SPLIT : Nat := 17
def AEA_RADIATION : Nat := 18
def AEA_PAIN : Nat := 19
def AEA_MUTATE : Nat := 20
def AEA_PARALYZE : Nat := 21
def AEA_FIRESTORM : Nat := 22
def AEA_ATTENTION : Nat := 23
def AEA_TELEGLOW : Nat := 24
def AEA_NOISE : Nat := 25
def AEA_SCREAM : Nat := 26
def AEA_DIM : Nat := 27
def AEA_FLASH : Nat := 28
def AEA_VOMIT : Nat := 29
def AEA_SHADOWS : Nat := 30
def NUM_AEAS : Nat := 31

def ARTC_NULL : Nat := 0
def ARTC_TIME : Nat := 1
def ARTC_SOLAR : Nat := 2
def ARTC_PAIN : Nat := 3
def ARTC_HP : Nat := 4
def NUM_ARTCS : Nat := 5

/-! ## Effect cost catalogs -/

/-- The table `passive_effect_cost`, indexed by passive effect id. -/
def passive_effect_cost : List Int := [
  0, -- AEP_NULL
  3, 3, 3, 3, 5, 4, 2, 4, 7, 5, 7, 50, 2, 2, 1, 1, 3, 3, 5,
  0, -- AEP_SPLIT
  -2, -2, -1, -5, -3, -5, -3, -5, -2, -2, -2, -2, -5, -4, -5, -3, -2, -1]

/-- The table `active_effect_cost`, indexed by active effect id. -/
def active_effect_cost : List Int := [
  0, -- AEA_NULL
  2, 4, 5, 4, 0, 0, 4, 5, 4, 3, 3, 3, 5, 1, 4, 6,
  0, -- AEA_SPLIT
  -3, -2, -3, -2, -3, -6, -4, -2, -2, -3, -4, -2, -5]

/-! ## Effect pool builders -/

/-- The loop `for (int i = lo; i < hi; i++) ret.push_back(i)` shared by the four
pool builders. -/
def fill_range (lo hi : Nat) : List Nat := (List.range (hi - lo)).map (fun k => lo + k)

def fill_good_passive : List Nat := fill_range (AEP_NULL + 1) AEP_SPLIT
def fill_bad_passive : List Nat := fill_range (AEP_SPLIT + 1) NUM_AEPS
def fill_good_active : List Nat := fill_range (AEA_NULL + 1) AEA_SPLIT
def fill_bad_active : List Nat := fill_range (AEA_SPLIT + 1) NUM_AEAS

/-! ## Selection loops of `new_artifact` -/

/-- The local variables of one selection loop of `new_artifact`: the random
source, the last effect drawn (`passive_tmp` / `active_tmp`), the counters, the
accumulated value, the two pools, the effect list being filled
(`effects_wielded`, `effects_carried`, `effects_activated` or `effects_worn`)
and, for the activated loop, `tool->max_charges`. -/
structure sel_state where
  rng : RNG
  tmp : Nat
  num_good : Int
  num_bad : Int
  value : Int
  good_effects : List Nat
  bad_effects : List Nat
  effects : List Nat
  max_charges : Int

/-- Condition of the wielded-effects `while` loop. -/
def wielded_cond (s : sel_state) : Cond :=
  .and (.pure (!s.good_effects.isEmpty)) <| .and (.pure (!s.bad_effects.isEmpty)) <|
  .and (.pure (s.num_good < 3)) <| .and (.pure (s.num_bad < 3)) <|
  .or (.pure (s.num_good < 1)) <| .or (.pure (s.num_bad < 1)) <|
  .or (one_in (s.num_good + 1)) <| .or (one_in (s.num_bad + 1)) (.pure (s.value > 1))

/-- Draw from the good pool: `tmp = random_entry_removed(good); num_good++`. -/
def draw_good (s : sel_state) (g : RNG) : sel_state :=
  { s with rng := (random_entry_removed s.good_effects g).2.2,
           tmp := (random_entry_removed s.good_effects g).1,
           good_effects := (random_entry_removed s.good_effects g).2.1,
           num_good := s.num_good + 1 }

/-- Draw from the bad pool: `tmp = random_entry_removed(bad); num_bad++`. -/
def draw_bad (s : sel_state) (g : RNG) : sel_state :=
  { s with rng := (random_entry_removed s.bad_effects g).2.2,
           tmp := (random_entry_removed s.bad_effects g).1,
           bad_effects := (random_entry_removed s.bad_effects g).2.1,
           num_bad := s.num_bad + 1 }

/-- The two statements that end a passive loop body:
`value += passive_effect_cost[passive_tmp]; effects.push_back(passive_tmp)`. -/
def push_passive (s : sel_state) : sel_state :=
  { s with value := s.value + passive_effect_cost.getD s.tmp 0, effects := s.effects ++ [s.tmp] }

/-- Body of the wielded-effects loop. -/
def wielded_body (s : sel_state) : sel_state :=
  let c := Cond.and (.pure (s.value < 1)) (one_in 2) s.rng
  push_passive <|
    if c.1 then draw_good s c.2
    else if !s.bad_effects.isEmpty then draw_bad s c.2
    else { s with rng := c.2 }

/-- The wielded-effects loop of `new_artifact`. -/
@[semireducible] def wielded_loop (s : sel_state) : sel_state :=
  if (wielded_cond s s.rng).1 = true then
    wielded_loop (wielded_body { s with rng := (wielded_cond s s.rng).2 })
  else { s with rng := (wielded_cond s s.rng).2 }
termination_by (3 - s.num_good).toNat + (3 - s.num_bad).toNat
decreasing_by
  rename_i h
  have hand : ∀ (b : Bool) (c : Cond) (g : RNG),
      (Cond.and (Cond.pure b) c g).1 = true → b = true ∧ (c g).1 = true := by
    intro b c g; cases b <;> simp [Cond.and, Cond.pure]
  obtain ⟨-, h⟩ := hand _ _ _ h
  obtain ⟨hb, h⟩ := hand _ _ _ h
  obtain ⟨hg3, h⟩ := hand _ _ _ h
  obtain ⟨hb3, -⟩ := hand _ _ _ h
  simp only [decide_eq_true_eq] at hg3 hb3
  simp only [wielded_body, push_passive]
  split_ifs <;> simp_all [draw_good, draw_bad]

/-- Condition of the carried-effects `while` loop. -/
def carried_cond (s : sel_state) : Cond :=
  .and (one_in 2) <|
  .and (.pure (!s.good_effects.isEmpty)) <| .and (.pure (!s.bad_effects.isEmpty)) <|
  .and (.pure (s.num_good < 3)) <| .and (.pure (s.num_bad < 3)) <|
  .or (.and (.pure (s.num_good > 2)) (one_in (s.num_good + 1))) <|
  .or (.pure (s.num_bad < 1)) <| .or (one_in (s.num_bad + 1)) (.pure (s.value > 1))

/-- Body of the carried-effects loop. -/
def carried_body (s : sel_state) : sel_state :=
  let c := Cond.and (.pure (s.value < 1)) (one_in 3) s.rng
  push_passive <| if c.1 then draw_good s c.2 else draw_bad s c.2

/-- The carried-effects loop of `new_artifact`. -/
@[semireducible] def carried_loop (s : sel_state) : sel_state :=
  if (carried_cond s s.rng).1 = true then
    carried_loop (carried_body { s with rng := (carried_cond s s.rng).2 })
  else { s with rng := (carried_cond s s.rng).2 }
termination_by (3 - s.num_good).toNat + (3 - s.num_bad).toNat
decreasing_by
  rename_i h
  have hand : ∀ (a c : Cond) (g : RNG),
      (Cond.and a c g).1 = true → (a g).1 = true ∧ (c (a g).2).1 = true := by
    intro a c g; unfold Cond.and; split <;> simp_all
  obtain ⟨-, h⟩ := hand _ _ _ h
  obtain ⟨-, h⟩ := hand _ _ _ h
  obtain ⟨-, h⟩ := hand _ _ _ h
  obtain ⟨hg3, h⟩ := hand _ _ _ h
  obtain ⟨hb3, -⟩ := hand _ _ _ h
  simp only [Cond.pure, decide_eq_true_eq] at hg3 hb3
  simp only [carried_body, push_passive]
  split_ifs <;> simp_all [draw_good, draw_bad]

/-- Condition of the activated-effects `while` loop. -/
def activated_cond (s : sel_state) : Cond :=
  .and (.pure (!s.good_effects.isEmpty)) <| .and (.pure (!s.bad_effects.isEmpty)) <|
  .and (.pure (s.num_good < 3)) <| .and (.pure (s.num_bad < 3)) <|
  .or (.pure (s.value > 3)) <|
  .or (.and (.pure (s.num_bad > 0)) (.pure (s.num_good == 0))) <|
  .or (.not (one_in (3 - s.num_good))) (.not (one_in (3 - s.num_bad)))

/-- Body of the activated-effects loop; both branches add
`active_effect_cost[active_tmp]` to `value`, then the effect is appended and
`tool->max_charges += rng(1, 3)`. -/
def activated_body (s : sel_state) : sel_state :=
  let c := Cond.and (.not (one_in 3)) (.pure (s.value ≤ 1)) s.rng
  let s1 := if c.1 then draw_good s c.2 else draw_bad s c.2
  { s1 with value := s1.value + active_effect_cost.getD s1.tmp 0,
            effects := s1.effects ++ [s1.tmp],
            max_charges := s1.max_charges + (rng 1 3 s1.rng).1,
            rng := (rng 1 3 s1.rng).2 }

/-- The activated-effects loop of `new_artifact`. -/
@[semireducible] def activated_loop (s : sel_state) : sel_state :=
  if (activated_cond s s.rng).1 = true then
    activated_loop (activated_body { s with rng := (activated_cond s s.rng).2 })
  else { s with rng := (activated_cond s s.rng).2 }
termination_by (3 - s.num_good).toNat + (3 - s.num_bad).toNat
decreasing_by
  rename_i h
  have hand : ∀ (a c : Cond) (g : RNG),
      (Cond.and a c g).1 = true → (a g).1 = true ∧ (c (a g).2).1 = true := by
    intro a c g; unfold Cond.and; split <;> simp_all
  obtain ⟨-, h⟩ := hand _ _ _ h
  obtain ⟨-, h⟩ := hand _ _ _ h
  obtain ⟨hg3, h⟩ := hand _ _ _ h
  obtain ⟨hb3, -⟩ := hand _ _ _ h
  simp only [Cond.pure, decide_eq_true_eq] at hg3 hb3
  simp only [activated_body]
  split_ifs <;> simp_all [draw_good, draw_bad]

/-- Condition of the worn-effects `while` loop (armor branch). -/
def worn_cond (s : sel_state) : Cond :=
  .and (.pure (!s.good_effects.isEmpty)) <| .and (.pure (!s.bad_effects.isEmpty)) <|
  .and (.pure (s.num_good < 3)) <| .and (.pure (s.num_bad < 3)) <|
  .or (.pure (s.num_good < 1)) <| .or (one_in (s.num_good * 2)) <|
  .or (.pure (s.value > 1)) (.and (.pure (s.num_bad < 3)) (.not (one_in (3 - s.num_bad))))

/-- Body of the worn-effects loop. -/
def worn_body (s : sel_state) : sel_state :=
  let c := Cond.and (.pure (s.value < 1)) (one_in 2) s.rng
  push_passive <| if c.1 then draw_good s c.2 else draw_bad s c.2

/-- The worn-effects loop of `new_artifact`. -/
@[semireducible] def worn_loop (s : sel_state) : sel_state :=
  if (worn_cond s s.rng).1 = true then
    worn_loop (worn_body { s with rng := (worn_cond s s.rng).2 })
  else { s with rng := (worn_cond s s.rng).2 }
termination_by (3 - s.num_good).toNat + (3 - s.num_bad).toNat
decreasing_by
  rename_i h
  have hand : ∀ (a c : Cond) (g : RNG),
      (Cond.and a c g).1 = true → (a g).1 = true ∧ (c (a g).2).1 = true := by
    intro a c g; unfold Cond.and; split <;> simp_all
  obtain ⟨-, h⟩ := hand _ _ _ h
  obtain ⟨-, h⟩ := hand _ _ _ h
  obtain ⟨hg3, h⟩ := hand _ _ _ h
  obtain ⟨hb3, -⟩ := hand _ _ _ h
  simp only [Cond.pure, decide_eq_true_eq] at hg3 hb3
  simp only [worn_body, push_passive]
  split_ifs <;> simp_all [draw_good, draw_bad]

/-- The state in which each selection loop of `new_artifact` starts:
`num_good = num_bad = value = 0`, freshly filled pools, and the effect list and
charge counter as they stand. -/
def sel_init (g : RNG) (tmp : Nat) (good bad effects : List Nat) (max_charges : Int) :
    sel_state :=
  { rng := g, tmp := tmp, num_good := 0, num_bad := 0, value := 0,
    good_effects := good, bad_effects := bad, effects := effects, max_charges := max_charges }

/-! ## Static content catalog -/

def ARTSHAPE_NULL : Nat := 0
def ARTSHAPE_MAX : Nat := 18

/-- Modelled from the spec: `artifact_natural_property` is declared in
`artifact.h` (absent); `ARTPROP_NULL` is its first enumerator and `ARTPROP_MAX`
is the size of `artifact_property_data`, which has 18 rows. -/
def ARTPROP_NULL : Nat := 0
def ARTPROP_MAX : Nat := 18

def ARTWEAP_NULL : Nat := 0
def ARTWEAP_BULK : Nat := 1
def ARTWEAP_CLUB : Nat := 2
def ARTWEAP_SPEAR : Nat := 3
def ARTWEAP_SWORD : Nat := 4
def ARTWEAP_KNIFE : Nat := 5
def NUM_ARTWEAPS : Nat := 6

def ARTTOOLFORM_NULL : Nat := 0
def ARTTOOLFORM_HARP : Nat := 1
def ARTTOOLFORM_STAFF : Nat := 2
def ARTTOOLFORM_SWORD : Nat := 3
def ARTTOOLFORM_KNIFE : Nat := 4
def ARTTOOLFORM_CUBE : Nat := 5
def NUM_ARTTOOLFORMS : Nat := 6

def ARMORMOD_NULL : Nat := 0
def ARMORMOD_LIGHT : Nat := 1
def ARMORMOD_BULKY : Nat := 2
def ARMORMOD_POCKETED : Nat := 3
def ARMORMOD_FURRED : Nat := 4
def ARMORMOD_PADDED : Nat := 5
def ARMORMOD_PLATED : Nat := 6
def NUM_ARMORMODS : Nat := 7

def ARTARMFORM_NULL : Nat := 0
def ARTARMFORM_ROBE : Nat := 1
def ARTARMFORM_COAT : Nat := 2
def ARTARMFORM_MASK : Nat := 3
def ARTARMFORM_HELM : Nat := 4
def ARTARMFORM_GLOVES : Nat := 5
def ARTARMFORM_BOOTS : Nat := 6
def ARTARMFORM_RING : Nat := 7
def NUM_ARTARMFORMS : Nat := 8

/-- Modelled from the spec: the body-part enumerators of `bodypart.h` (absent),
used only as bit positions of the `covers` bitset. -/
def bp_torso : Nat := 0
def bp_head : Nat := 1
def bp_eyes : Nat := 2
def bp_mouth : Nat := 3
def bp_arm_l : Nat := 4
def bp_arm_r : Nat := 5
def bp_hand_l : Nat := 6
def bp_hand_r : Nat := 7
def bp_leg_l : Nat := 8
def bp_leg_r : Nat := 9
def bp_foot_l : Nat := 10
def bp_foot_r : Nat := 11
def num_bp : Nat := 12

/-- The macro `mfb(n)`: the bit of flag `n`. -/
def mfb (n : Nat) : Nat := 1 <<< n

/-- The deferred colors named by the form tables (`color.h` is absent). -/
inductive deferred_color where
  | def_c_white | def_c_yellow | def_c_brown | def_c_ltblue
  | def_c_red | def_c_dkgray | def_c_blue | def_c_ltgreen
deriving DecidableEq, Repr

structure artifact_shape_datum where
  name : String
  desc : String
  volume_min : Int
  volume_max : Int
  weight_min : Int
  weight_max : Int

structure artifact_property_datum where
  name : String
  desc : String
  passive_good : List Nat
  passive_bad : List Nat
  active_good : List Nat
  active_bad : List Nat

structure artifact_tool_form_datum where
  name : String
  sym : String
  color : deferred_color
  material : String
  volume_min : Int
  volume_max : Int
  weight_min : Int
  weight_max : Int
  base_weapon : Nat
  extra_weapons : List Nat

structure artifact_weapon_datum where
  adjective : String
  volume : Int
  weight : Int
  bash_min : Int
  bash_max : Int
  cut_min : Int
  cut_max : Int
  stab_min : Int
  stab_max : Int
  to_hit_min : Int
  to_hit_max : Int
  tag : String

structure artifact_armor_form_datum where
  name : String
  color : deferred_color
  material : String
  volume : Int
  weight : Int
  encumb : Int
  coverage : Int
  thickness : Int
  env_resist : Int
  warmth : Int
  storage : Int
  melee_bash : Int
  melee_cut : Int
  melee_hit : Int
  covers : Nat
  plural : Bool
  available_mods : List Nat

def artifact_shape_data : List artifact_shape_datum := [
  ⟨"BUG", "BUG", 0, 0, 0, 0⟩,
  ⟨"sphere", "smooth sphere", 500, 1000, 1, 1150⟩,
  ⟨"rod", "tapered rod", 250, 1750, 1, 800⟩,
  ⟨"teardrop", "teardrop-shaped stone", 500, 1500, 1, 950⟩,
  ⟨"lamp", "hollow, transparent cube", 1000, 225, 1, 350⟩,
  ⟨"snake", "winding, flexible rod", 0, 2000, 1, 950⟩,
  ⟨"disc", "smooth disc", 1000, 1500, 200, 400⟩,
  ⟨"beads", "string of beads", 750, 1750, 1, 700⟩,
  ⟨"napkin", "very thin sheet", 0, 750, 1, 350⟩,
  ⟨"urchin", "spiked sphere", 750, 1250, 200, 700⟩,
  ⟨"jelly", "malleable blob", 500, 2000, 200, 450⟩,
  ⟨"spiral", "spiraling rod", 1250, 1500, 200, 350⟩,
  ⟨"pin", "pointed rod", 250, 1250, 100, 1050⟩,
  ⟨"tube", "hollow tube", 500, 1250, 350, 700⟩,
  ⟨"pyramid", "regular tetrahedron", 750, 1750, 200, 450⟩,
  ⟨"crystal", "translucent crystal", 250, 1500, 200, 800⟩,
  ⟨"knot", "twisted, knotted cord", 500, 1500, 100, 800⟩,
  ⟨"crescent", "crescent-shaped stone", 500, 1500, 200, 700⟩]

def artifact_property_data : List artifact_property_datum := [
  ⟨"BUG", "BUG",
    [AEP_NULL, AEP_NULL, AEP_NULL, AEP_NULL],
    [AEP_NULL, AEP_NULL, AEP_NULL, AEP_NULL],
    [AEA_NULL, AEA_NULL, AEA_NULL, AEA_NULL],
    [AEA_NULL, AEA_NULL, AEA_NULL, AEA_NULL]⟩,
  ⟨"wriggling", "is constantly wriggling",
    [AEP_SPEED_UP, AEP_SNAKES, AEP_NULL, AEP_NULL],
    [AEP_DEX_DOWN, AEP_FORCE_TELEPORT, AEP_SICK, AEP_NULL],
    [AEA_TELEPORT, AEA_ADRENALINE, AEA_NULL, AEA_NULL],
    [AEA_MUTATE, AEA_ATTENTION, AEA_VOMIT, AEA_NULL]⟩,
  ⟨"glowing", "glows faintly",
    [AEP_INT_UP, AEP_GLOW, AEP_CLAIRVOYANCE, AEP_NULL],
    [AEP_RADIOACTIVE, AEP_MUTAGENIC, AEP_ATTENTION, AEP_NULL],
    [AEA_LIGHT, AEA_LIGHT, AEA_LIGHT, AEA_NULL],
    [AEA_ATTENTION, AEA_TELEGLOW, AEA_FLASH, AEA_SHADOWS]⟩,
  ⟨"humming", "hums very quietly",
    [AEP_ALL_UP, AEP_PSYSHIELD, AEP_NULL, AEP_NULL],
    [AEP_SCHIZO, AEP_PER_DOWN, AEP_INT_DOWN, AEP_NULL],
    [AEA_PULSE, AEA_ENTRANCE, AEA_NULL, AEA_NULL],
    [AEA_NOISE, AEA_NOISE, AEA_SCREAM, AEA_NULL]⟩,
  ⟨"moving", "shifts from side to side slowly",
    [AEP_STR_UP, AEP_DEX_UP, AEP_SPEED_UP, AEP_NULL],
    [AEP_HUNGER, AEP_PER_DOWN, AEP_FORCE_TELEPORT, AEP_NULL],
    [AEA_TELEPORT, AEA_TELEPORT, AEA_MAP, AEA_NULL],
    [AEA_PARALYZE, AEA_VOMIT, AEA_VOMIT, AEA_NULL]⟩,
  ⟨"whispering", "makes very faint whispering sounds",
    [AEP_CLAIRVOYANCE, AEP_EXTINGUISH, AEP_STEALTH, AEP_NULL],
    [AEP_EVIL, AEP_SCHIZO, AEP_ATTENTION, AEP_NULL],
    [AEA_FATIGUE, AEA_ENTRANCE, AEA_ENTRANCE, AEA_NULL],
    [AEA_ATTENTION, AEA_SCREAM, AEA_SCREAM, AEA_SHADOWS]⟩,
  ⟨"breathing", "shrinks and grows very slightly with a regular pulse, as if breathing",
    [AEP_SAP_LIFE, AEP_ALL_UP, AEP_SPEED_UP, AEP_CARRY_MORE],
    [AEP_HUNGER, AEP_THIRST, AEP_SICK, AEP_BAD_WEATHER],
    [AEA_ADRENALINE, AEA_HEAL, AEA_ENTRANCE, AEA_GROWTH],
    [AEA_MUTATE, AEA_ATTENTION, AEA_SHADOWS, AEA_NULL]⟩,
  ⟨"dead", "is icy cold to the touch",
    [AEP_INVISIBLE, AEP_CLAIRVOYANCE, AEP_EXTINGUISH, AEP_SAP_LIFE],
    [AEP_HUNGER, AEP_EVIL, AEP_ALL_DOWN, AEP_SICK],
    [AEA_BLOOD, AEA_HURTALL, AEA_NULL, AEA_NULL],
    [AEA_PAIN, AEA_SHADOWS, AEA_DIM, AEA_VOMIT]⟩,
  ⟨"itchy", "makes your skin itch slightly when it is close",
    [AEP_DEX_UP, AEP_SPEED_UP, AEP_PSYSHIELD, AEP_NULL],
    [AEP_RADIOACTIVE, AEP_MUTAGENIC, AEP_SICK, AEP_NULL],
    [AEA_ADRENALINE, AEA_BLOOD, AEA_HEAL, AEA_BUGS],
    [AEA_RADIATION, AEA_PAIN, AEA_PAIN, AEA_VOMIT]⟩,
  ⟨"glittering", "glitters faintly under direct light",
    [AEP_INT_UP, AEP_EXTINGUISH, AEP_GLOW, AEP_NULL],
    [AEP_SMOKE, AEP_ATTENTION, AEP_NULL, AEP_NULL],
    [AEA_MAP, AEA_LIGHT, AEA_CONFUSED, AEA_ENTRANCE],
    [AEA_RADIATION, AEA_MUTATE, AEA_ATTENTION, AEA_FLASH]⟩,
  ⟨"electric", "very weakly shocks you when touched",
    [AEP_RESIST_ELECTRICITY, AEP_DEX_UP, AEP_SPEED_UP, AEP_PSYSHIELD],
    [AEP_THIRST, AEP_SMOKE, AEP_STR_DOWN, AEP_BAD_WEATHER],
    [AEA_STORM, AEA_ADRENALINE, AEA_LIGHT, AEA_NULL],
    [AEA_PAIN, AEA_PARALYZE, AEA_FLASH, AEA_FLASH]⟩,
  ⟨"slimy", "feels slimy",
    [AEP_SNAKES, AEP_STEALTH, AEP_EXTINGUISH, AEP_SAP_LIFE],
    [AEP_THIRST, AEP_DEX_DOWN, AEP_SPEED_DOWN, AEP_SICK],
    [AEA_BLOOD, AEA_ACIDBALL, AEA_GROWTH, AEA_ACIDBALL],
    [AEA_MUTATE, AEA_MUTATE, AEA_VOMIT, AEA_VOMIT]⟩,
  ⟨"engraved", "is covered with odd etchings",
    [AEP_CLAIRVOYANCE, AEP_INVISIBLE, AEP_PSYSHIELD, AEP_SAP_LIFE],
    [AEP_EVIL, AEP_ATTENTION, AEP_NULL, AEP_NULL],
    [AEA_FATIGUE, AEA_TELEPORT, AEA_HEAL, AEA_FATIGUE],
    [AEA_ATTENTION, AEA_ATTENTION, AEA_TELEGLOW, AEA_DIM]⟩,
  ⟨"crackling", "occasionally makes a soft crackling sound",
    [AEP_EXTINGUISH, AEP_RESIST_ELECTRICITY, AEP_NULL, AEP_NULL],
    [AEP_SMOKE, AEP_RADIOACTIVE, AEP_MOVEMENT_NOISE, AEP_NULL],
    [AEA_STORM, AEA_FIREBALL, AEA_PULSE, AEA_NULL],
    [AEA_PAIN, AEA_PARALYZE, AEA_NOISE, AEA_NOISE]⟩,
  ⟨"warm", "is warm to the touch",
    [AEP_STR_UP, AEP_EXTINGUISH, AEP_GLOW, AEP_NULL],
    [AEP_SMOKE, AEP_RADIOACTIVE, AEP_NULL, AEP_NULL],
    [AEA_FIREBALL, AEA_FIREBALL, AEA_FIREBALL, AEA_LIGHT],
    [AEA_FIRESTORM, AEA_FIRESTORM, AEA_TELEGLOW, AEA_NULL]⟩,
  ⟨"rattling", "makes a rattling sound when moved",
    [AEP_DEX_UP, AEP_SPEED_UP, AEP_SNAKES, AEP_CARRY_MORE],
    [AEP_ATTENTION, AEP_INT_DOWN, AEP_MOVEMENT_NOISE, AEP_MOVEMENT_NOISE],
    [AEA_BLOOD, AEA_PULSE, AEA_BUGS, AEA_NULL],
    [AEA_PAIN, AEA_ATTENTION, AEA_NOISE, AEA_NULL]⟩,
  ⟨"scaled", "has a surface reminiscent of reptile scales",
    [AEP_SNAKES, AEP_SNAKES, AEP_SNAKES, AEP_STEALTH],
    [AEP_THIRST, AEP_MUTAGENIC, AEP_SPEED_DOWN, AEP_NULL],
    [AEA_ADRENALINE, AEA_BUGS, AEA_GROWTH, AEA_NULL],
    [AEA_MUTATE, AEA_SCREAM, AEA_DIM, AEA_NULL]⟩,
  ⟨"fractal", "has a self-similar pattern which repeats until it is too small for you to see",
    [AEP_ALL_UP, AEP_ALL_UP, AEP_CLAIRVOYANCE, AEP_PSYSHIELD],
    [AEP_SCHIZO, AEP_ATTENTION, AEP_FORCE_TELEPORT, AEP_BAD_WEATHER],
    [AEA_STORM, AEA_FATIGUE, AEA_TELEPORT, AEA_NULL],
    [AEA_RADIATION, AEA_MUTATE, AEA_TELEGLOW, AEA_TELEGLOW]⟩]

open deferred_color in
def artifact_tool_form_data : List artifact_tool_form_datum := [
  ⟨"", "*", def_c_white, "null", 0, 0, 0, 0, ARTWEAP_BULK,
    [ARTWEAP_NULL, ARTWEAP_NULL, ARTWEAP_NULL]⟩,
  ⟨"Harp", ";", def_c_yellow, "wood", 5000, 7500, 1150, 2100, ARTWEAP_BULK,
    [ARTWEAP_SPEAR, ARTWEAP_SWORD, ARTWEAP_KNIFE]⟩,
  ⟨"Staff", "/", def_c_brown, "wood", 1500, 3000, 450, 1150, ARTWEAP_CLUB,
    [ARTWEAP_BULK, ARTWEAP_SPEAR, ARTWEAP_KNIFE]⟩,
  ⟨"Sword", "/", def_c_ltblue, "steel", 2000, 3500, 900, 3259, ARTWEAP_SWORD,
    [ARTWEAP_BULK, ARTWEAP_NULL, ARTWEAP_NULL]⟩,
  ⟨"Dagger", ";", def_c_ltblue, "steel", 250, 1000, 100, 700, ARTWEAP_KNIFE,
    [ARTWEAP_NULL, ARTWEAP_NULL, ARTWEAP_NULL]⟩,
  ⟨"Cube", "*", def_c_white, "steel", 250, 750, 100, 2300, ARTWEAP_BULK,
    [ARTWEAP_SPEAR, ARTWEAP_NULL, ARTWEAP_NULL]⟩]

def artifact_weapon_data : List artifact_weapon_datum := [
  ⟨"", 0, 0, 0, 0, 0, 0, 0, 0, 0, 0, ""⟩,
  -- Adjective Vol Weight Bashing Cutting Stabbing To-hit Flag
  ⟨"Heavy", 0, 1400, 10, 20, 0, 0, 0, 0, -2, 0, ""⟩,
  ⟨"Knobbed", 250, 250, 14, 30, 0, 0, 0, 0, -1, 1, ""⟩,
  ⟨"Spiked", 250, 100, 0, 0, 0, 0, 20, 40, -1, 1, ""⟩,
  ⟨"Edged", 500, 450, 0, 0, 20, 50, 0, 0, -1, 2, "SHEATH_SWORD"⟩,
  ⟨"Bladed", 250, 2250, 0, 0, 0, 0, 12, 30, -1, 1, "SHEATH_KNIFE"⟩]

open deferred_color in
def artifact_armor_form_data : List artifact_armor_form_datum := [
  ⟨"", def_c_white, "null", 0, 0, 0, 0, 0, 0, 0, 0, 0, 0, 0,
    0, false,
    [ARMORMOD_NULL, ARMORMOD_NULL, ARMORMOD_NULL, ARMORMOD_NULL, ARMORMOD_NULL]⟩,
  -- Name color Material Vol Wgt Enc Cov Thk Env Wrm Sto Bsh Cut Hit
  ⟨"Robe", def_c_red, "wool", 1500, 700, 1, 90, 3, 0, 2, 0, -8, 0, -3,
    mfb bp_torso ||| mfb bp_leg_l ||| mfb bp_leg_r, false,
    [ARMORMOD_LIGHT, ARMORMOD_BULKY, ARMORMOD_POCKETED, ARMORMOD_FURRED, ARMORMOD_PADDED]⟩,
  ⟨"Coat", def_c_brown, "leather", 3500, 1600, 2, 80, 2, 1, 4, 1000, -6, 0, -3,
    mfb bp_torso, false,
    [ARMORMOD_LIGHT, ARMORMOD_POCKETED, ARMORMOD_FURRED, ARMORMOD_PADDED, ARMORMOD_PLATED]⟩,
  ⟨"Mask", def_c_white, "wood", 1000, 100, 2, 50, 2, 1, 2, 0, 2, 0, -2,
    mfb bp_eyes ||| mfb bp_mouth, false,
    [ARMORMOD_FURRED, ARMORMOD_FURRED, ARMORMOD_NULL, ARMORMOD_NULL, ARMORMOD_NULL]⟩,
  ⟨"Helm", def_c_dkgray, "silver", 1500, 700, 2, 85, 3, 0, 1, 0, 8, 0, -2,
    mfb bp_head, false,
    [ARMORMOD_BULKY, ARMORMOD_FURRED, ARMORMOD_PADDED, ARMORMOD_PLATED, ARMORMOD_NULL]⟩,
  ⟨"Gloves", def_c_ltblue, "leather", 500, 100, 1, 90, 3, 1, 2, 0, -4, 0, -2,
    mfb bp_hand_l ||| mfb bp_hand_r, true,
    [ARMORMOD_BULKY, ARMORMOD_FURRED, ARMORMOD_PADDED, ARMORMOD_PLATED, ARMORMOD_NULL]⟩,
  ⟨"Boots", def_c_blue, "leather", 1500, 250, 1, 75, 3, 1, 3, 0, 4, 0, -1,
    mfb bp_foot_l ||| mfb bp_foot_r, true,
    [ARMORMOD_LIGHT, ARMORMOD_BULKY, ARMORMOD_PADDED, ARMORMOD_PLATED, ARMORMOD_NULL]⟩,
  ⟨"Ring", def_c_ltgreen, "silver", 0, 4, 0, 0, 0, 0, 0, 0, 0, 0, 0,
    0, true,
    [ARMORMOD_NULL, ARMORMOD_NULL, ARMORMOD_NULL, ARMORMOD_NULL, ARMORMOD_NULL]⟩]

open deferred_color in
/-- Armor mods alter the normal values of armor; the table reuses the armor
form record, its numeric fields being deltas. -/
def artifact_armor_mod_data : List artifact_armor_form_datum := [
  ⟨"", def_c_white, "null", 0, 0, 0, 0, 0, 0, 0, 0, 0, 0, 0, 0, false,
    [ARMORMOD_NULL, ARMORMOD_NULL, ARMORMOD_NULL, ARMORMOD_NULL, ARMORMOD_NULL]⟩,
  -- Vol Wgt Enc Cov Thk Env Wrm Sto
  ⟨"very thin and light.", def_c_white, "null",
    -1000, -950, -2, -1, -1, -1, -1, 0, 0, 0, 0, 0, false,
    [ARMORMOD_NULL, ARMORMOD_NULL, ARMORMOD_NULL, ARMORMOD_NULL, ARMORMOD_NULL]⟩,
  ⟨"extremely bulky.", def_c_white, "null",
    2000, 1150, 2, 1, 1, 0, 1, 0, 0, 0, 0, 0, false,
    [ARMORMOD_NULL, ARMORMOD_NULL, ARMORMOD_NULL, ARMORMOD_NULL, ARMORMOD_NULL]⟩,
  ⟨"covered in pockets.", def_c_white, "null",
    250, 150, 1, 0, 0, 0, 0, 4000, 0, 0, 0, 0, false,
    [ARMORMOD_NULL, ARMORMOD_NULL, ARMORMOD_NULL, ARMORMOD_NULL, ARMORMOD_NULL]⟩,
  ⟨"disgustingly furry.", def_c_white, "wool",
    1000, 250, 1, 1, 1, 1, 3, 0, 0, 0, 0, 0, false,
    [ARMORMOD_NULL, ARMORMOD_NULL, ARMORMOD_NULL, ARMORMOD_NULL, ARMORMOD_NULL]⟩,
  ⟨"leather-padded.", def_c_white, "leather",
    1000, 450, 1, 1, 1, 0, 1, -750, 0, 0, 0, 0, false,
    [ARMORMOD_NULL, ARMORMOD_NULL, ARMORMOD_NULL, ARMORMOD_NULL, ARMORMOD_NULL]⟩,
  ⟨"plated in iron.", def_c_white, "iron",
    1000, 1400, 3, 2, 2, 0, 1, -1000, 0, 0, 0, 0, false,
    [ARMORMOD_NULL, ARMORMOD_NULL, ARMORMOD_NULL, ARMORMOD_NULL, ARMORMOD_NULL]⟩]

def artifact_adj : List String := [
  "Forbidden", "Unknown", "Forgotten", "Hideous", "Eldritch",
  "Gelatinous", "Ancient", "Cursed", "Bloody", "Undying",
  "Shadowy", "Silent", "Cyclopean", "Fungal", "Unspeakable",
  "Grotesque", "Frigid", "Shattered", "Sleeping", "Repellent"]

def artifact_noun : List String := [
  "%s Technique", "%s Dreams", "%s Beasts", "%s Evil", "%s Miasma",
  "the %s Abyss", "the %s City", "%s Shadows", "%s Shade", "%s Illusion",
  "%s Justice", "the %s Necropolis", "%s Ichor", "the %s Monolith", "%s Aeons",
  "%s Graves", "%s Horrors", "%s Suffering", "%s Death", "%s Horror"]

/-- The row read when a table index is out of range (undefined behaviour in
C++); the generators never index out of range. -/
def artifact_shape_datum.none : artifact_shape_datum := ⟨"", "", 0, 0, 0, 0⟩
def artifact_property_datum.none : artifact_property_datum := ⟨"", "", [], [], [], []⟩
def artifact_tool_form_datum.none : artifact_tool_form_datum :=
  ⟨"", "", deferred_color.def_c_white, "", 0, 0, 0, 0, 0, []⟩
def artifact_weapon_datum.none : artifact_weapon_datum := ⟨"", 0, 0, 0, 0, 0, 0, 0, 0, 0, 0, ""⟩
def artifact_armor_form_datum.none : artifact_armor_form_datum :=
  ⟨"", deferred_color.def_c_white, "", 0, 0, 0, 0, 0, 0, 0, 0, 0, 0, 0, 0, false, []⟩

/-! ## Records -/

/-- The fields of the generic item type `itype` (declared in `itype.h`, absent)
that `artifact.cpp` reads or writes. `melee_bash`, `melee_cut` and `melee_stab`
are `melee[DT_BASH]`, `melee[DT_CUT]` and `melee[DT_STAB]`; `std::set` and
`std::vector` members are lists (a set is a duplicate-free list, the order in
which a set is enumerated is not modelled). -/
structure itype where
  id : String
  name : String
  name_plural : String
  description : String
  sym : String
  color : Int
  price : Int
  materials : List String
  volume : Int
  weight : Int
  melee_bash : Int
  melee_cut : Int
  melee_stab : Int
  m_to_hit : Int
  item_tags : List String
  techniques : List String
deriving DecidableEq, Repr

structure islot_tool where
  ammo_id : String
  max_charges : Int
  def_charges : Int
  charges_per_use : Int
  turns_per_charge : Int
  revert_to : String
deriving DecidableEq, Repr

structure islot_armor where
  covers : Nat
  encumber : Int
  coverage : Int
  thickness : Int
  env_resist : Int
  warmth : Int
  storage : Int
  power_armor : Bool
deriving DecidableEq, Repr

structure islot_artifact where
  charge_type : Nat
  effects_wielded : List Nat
  effects_activated : List Nat
  effects_carried : List Nat
  effects_worn : List Nat
deriving DecidableEq, Repr

structure it_artifact_tool extends itype where
  tool : islot_tool
  artifact : islot_artifact
deriving DecidableEq, Repr

structure it_artifact_armor extends itype where
  armor : islot_armor
  artifact : islot_artifact
deriving DecidableEq, Repr

/-- Modelled from the spec: the state left by the default constructor `itype()`
(`itype.h`, absent): numbers are zero, strings and containers are empty, but
for `name_plural`, whose default is `"none"`. -/
def itype.init : itype :=
  { id := "", name := "", name_plural := "none", description := "", sym := "", color := 0,
    price := 0, materials := [], volume := 0, weight := 0, melee_bash := 0, melee_cut := 0,
    melee_stab := 0, m_to_hit := 0, item_tags := [], techniques := [] }

/-- Modelled from the spec: a default-constructed `islot_tool` (`itype.h`, absent). -/
def islot_tool.init : islot_tool :=
  { ammo_id := "", max_charges := 0, def_charges := 0, charges_per_use := 0,
    turns_per_charge := 0, revert_to := "" }

/-- Modelled from the spec: a default-constructed `islot_armor` (`itype.h`, absent). -/
def islot_armor.init : islot_armor :=
  { covers := 0, encumber := 0, coverage := 0, thickness := 0, env_resist := 0, warmth := 0,
    storage := 0, power_armor := false }

/-- Modelled from the spec: a default-constructed `islot_artifact` (`itype.h`, absent). -/
def islot_artifact.init : islot_artifact :=
  { charge_type := ARTC_NULL, effects_wielded := [], effects_activated := [],
    effects_carried := [], effects_worn := [] }

/-- Insertion into a `std::set<std::string>`. The set is kept as a list without
duplicates, in the order of insertion; the order in which a `std::set` is
traversed is not modelled, so two lists stand for the same set when they have
the same entries. -/
def set_insert (x : String) (s : List String) : List String := if x ∈ s then s else s ++ [x]

/-- The external collaborators of the generator: translation (`_()`, `pgettext`,
`ngettext` behind `itype::nname`), `string_format`, and the conversion of a
deferred color to the integer of an `nc_color`. They are parameters of the
embedding; the theorems hold for every choice of them. -/
structure Env where
  gettext : String → String
  pgettext : String → String → String
  ngettext : String → String → Int → String
  string_format : String → List String → String
  color : deferred_color → Int

/-- The function `itype::nname(quantity)`. -/
def itype.nname (env : Env) (it : itype) (quantity : Int) : String :=
  env.ngettext it.name it.name_plural quantity

/-- Constructor `it_artifact_tool::it_artifact_tool()`; `id` is the identifier
handed out by `item_controller->create_artifact_id()`. -/
def it_artifact_tool.new (id : String) : it_artifact_tool :=
  { itype.init with
    id := id, price := 0,
    tool := { islot_tool.init with charges_per_use := 1 },
    artifact := { islot_artifact.init with charge_type := ARTC_NULL } }

/-- Constructor `it_artifact_armor::it_artifact_armor()`. -/
def it_artifact_armor.new (id : String) : it_artifact_armor :=
  { itype.init with
    id := id, price := 0,
    armor := islot_armor.init,
    artifact := islot_artifact.init }

/-- The function `artifact_name(type)`. -/
def artifact_name (env : Env) (type : String) (g : RNG) : String × RNG :=
  let noun := random_entry_ref artifact_noun g
  let adj := random_entry_ref artifact_adj noun.2
  let ret := env.string_format (env.gettext noun.1) [env.gettext adj.1]
  (env.string_format (env.pgettext "artifact name (type, noun)" "%1$s of %2$s") [type, ret],
   adj.2)

/-- The function `it_artifact_tool::create_name(type)`. -/
def it_artifact_tool.create_name (art : it_artifact_tool) (env : Env) (type : String)
    (g : RNG) : it_artifact_tool × RNG :=
  ({ art with name := (artifact_name env type g).1, name_plural := (artifact_name env type g).1 },
   (artifact_name env type g).2)

/-- The function `it_artifact_tool::create_name(property_name, shape_name)`. -/
def it_artifact_tool.create_name_natural (art : it_artifact_tool) (env : Env)
    (property_name shape_name : String) : it_artifact_tool :=
  { art with
    name := env.string_format (env.pgettext "artifact name (property, shape)" "%1$s %2$s")
      [property_name, shape_name],
    name_plural := env.string_format (env.pgettext "artifact name (property, shape)" "%1$s %2$s")
      [property_name, shape_name] }

/-- The function `it_artifact_armor::create_name(type)`. -/
def it_artifact_armor.create_name (art : it_artifact_armor) (env : Env) (type : String)
    (g : RNG) : it_artifact_armor × RNG :=
  ({ art with name := (artifact_name env type g).1, name_plural := (artifact_name env type g).1 },
   (artifact_name env type g).2)

/-! ## `new_artifact`: tool branch -/

/-- The statement `if( weapon->tag != "" ) art->item_tags.insert( weapon->tag )`. -/
def insert_weapon_tag (weapon : artifact_weapon_datum) (tags : List String) : List String :=
  if weapon.tag != "" then set_insert weapon.tag tags else tags

/-- Tool branch up to the base weapon: pick the form, name the item, copy color,
symbol and material, sample volume and weight, and sample the melee values of
the base weapon. Returns the record, the form datum and the random source. -/
def tool_base (env : Env) (art : it_artifact_tool) (g : RNG) :
    it_artifact_tool × artifact_tool_form_datum × RNG :=
  let form := rng (ARTTOOLFORM_NULL + 1) (NUM_ARTTOOLFORMS - 1) g
  let info := artifact_tool_form_data.getD form.1.toNat .none
  let named := art.create_name env (env.gettext info.name) form.2
  let volume := rng info.volume_min info.volume_max named.2
  let weight := rng info.weight_min info.weight_max volume.2
  let weapon := artifact_weapon_data.getD info.base_weapon .none
  let bash := rng weapon.bash_min weapon.bash_max weight.2
  let cut := rng weapon.cut_min weapon.cut_max bash.2
  let stab := rng weapon.stab_min weapon.stab_max cut.2
  let to_hit := rng weapon.to_hit_min weapon.to_hit_max stab.2
  ({ named.1 with
      color := env.color info.color,
      sym := info.sym,
      materials := named.1.materials ++ [info.material],
      volume := volume.1,
      weight := weight.1,
      melee_bash := bash.1,
      melee_cut := cut.1,
      melee_stab := stab.1,
      m_to_hit := to_hit.1,
      item_tags := insert_weapon_tag weapon named.1.item_tags },
   info, to_hit.2)

/-- Tool branch, the block `// Add an extra weapon perhaps?`. -/
def tool_extra_weapon (env : Env) (info : artifact_tool_form_datum) (art : it_artifact_tool)
    (g : RNG) : it_artifact_tool × RNG :=
  let c := one_in 2 g
  if c.1 then
    let select := rng 0 2 c.2
    if info.extra_weapons.getD select.1.toNat 0 != ARTWEAP_NULL then
      let weapon := artifact_weapon_data.getD (info.extra_weapons.getD select.1.toNat 0) .none
      let bash := rng weapon.bash_min weapon.bash_max select.2
      let cut := rng weapon.cut_min weapon.cut_max bash.2
      let stab := rng weapon.stab_min weapon.stab_max cut.2
      let to_hit := rng weapon.to_hit_min weapon.to_hit_max stab.2
      let art1 : it_artifact_tool :=
        { art with
          volume := art.volume + weapon.volume,
          weight := art.weight + weapon.weight,
          melee_bash := art.melee_bash + bash.1,
          melee_cut := art.melee_cut + cut.1,
          melee_stab := art.melee_stab + stab.1,
          m_to_hit := art.m_to_hit + to_hit.1,
          item_tags := insert_weapon_tag weapon art.item_tags }
      art1.create_name env (env.gettext weapon.adjective ++ " " ++ env.gettext info.name) to_hit.2
    else (art, select.2)
  else (art, c.2)

/-- Tool branch, `// Finally, pick some powers`: the wielded, carried and
activated loops, then the charges and the recharge mechanism. The counters
`num_good` and `num_bad` tested by the one-in-eight rule are the variables as
the activated loop left them. -/
def tool_effects (art : it_artifact_tool) (g : RNG) : it_artifact_tool × RNG :=
  let w := wielded_loop
    (sel_init g AEP_NULL fill_good_passive fill_bad_passive art.artifact.effects_wielded 0)
  let c := carried_loop
    (sel_init w.rng w.tmp fill_good_passive fill_bad_passive art.artifact.effects_carried 0)
  let a := activated_loop
    (sel_init c.rng AEA_NULL fill_good_active fill_bad_active art.artifact.effects_activated
      art.tool.max_charges)
  let charge := rng (ARTC_NULL + 1) (NUM_ARTCS - 1) a.rng
  let charge_type1 := if a.max_charges > 0 then charge.1.toNat else art.artifact.charge_type
  let g1 := if a.max_charges > 0 then charge.2 else a.rng
  let curse := Cond.and (one_in 8) (.pure (a.num_bad + a.num_good ≥ 4)) g1
  ({ art with
      tool := { art.tool with max_charges := a.max_charges, def_charges := a.max_charges },
      artifact := { art.artifact with
        effects_wielded := w.effects,
        effects_carried := c.effects,
        effects_activated := a.effects,
        charge_type := if curse.1 then ARTC_NULL else charge_type1 } },
   curse.2)

/-- Tool branch up to the description: the base form, the extra weapon, and
the description text. -/
def tool_described (env : Env) (id : String) (g : RNG) : it_artifact_tool × RNG :=
  let base := tool_base env (it_artifact_tool.new id) g
  let extra := tool_extra_weapon env base.2.1 base.1 base.2.2
  ({ extra.1 with
      description := env.string_format
        (env.gettext
          "This is the %s.\nIt is the only one of its kind.\nIt may have unknown powers; try activating them.")
        [extra.1.nname env 1] },
   extra.2)

/-- The tool branch of `new_artifact` (`// Generate a "tool" artifact`); the
record returned is the one handed to `item_controller->add_item_type`. -/
def new_artifact_tool (env : Env) (id : String) (g : RNG) : it_artifact_tool × RNG :=
  tool_effects (tool_described env id g).1 (tool_described env id g).2

/-! ## `new_artifact`: armor branch -/

/-- The function `std::abs` on `int`. -/
def std_abs (x : Int) : Int := if x < 0 then -x else x

/-- Armor branch: the fields copied from the form (`art->volume = info->volume`
up to `art->armor->storage = info->storage`), with symbol, color and material. -/
def armor_copy_form (env : Env) (info : artifact_armor_form_datum) (art : it_artifact_armor) :
    it_artifact_armor :=
  { art with
    sym := "[",
    color := env.color info.color,
    materials := art.materials ++ [info.material],
    volume := info.volume,
    weight := info.weight,
    melee_bash := info.melee_bash,
    melee_cut := info.melee_cut,
    m_to_hit := info.melee_hit,
    armor := { art.armor with
      covers := info.covers,
      encumber := info.encumb,
      coverage := info.coverage,
      thickness := info.thickness,
      env_resist := info.env_resist,
      warmth := info.warmth,
      storage := info.storage } }

/-- Armor branch: the numeric rules by which a mod `modinfo` alters the armor
(the body of `if (info->available_mods[index] != ARMORMOD_NULL)` without the
description text). -/
def apply_armor_mod (modinfo : artifact_armor_form_datum) (art : it_artifact_armor) :
    it_artifact_armor :=
  { art with
    volume :=
      if modinfo.volume ≥ 0 ∨ art.volume > -modinfo.volume then art.volume + modinfo.volume
      else 250,
    weight :=
      if modinfo.weight ≥ 0 ∨ art.weight > std_abs modinfo.weight then art.weight + modinfo.weight
      else 1,
    armor := { art.armor with
      encumber := art.armor.encumber + modinfo.encumb,
      coverage :=
        if modinfo.coverage > 0 ∨ art.armor.coverage > std_abs modinfo.coverage
        then art.armor.coverage + modinfo.coverage else 0,
      thickness :=
        if modinfo.thickness > 0 ∨ art.armor.thickness > std_abs modinfo.thickness
        then art.armor.thickness + modinfo.thickness else 0,
      env_resist :=
        if modinfo.env_resist > 0 ∨ art.armor.env_resist > std_abs modinfo.env_resist
        then art.armor.env_resist + modinfo.env_resist else 0,
      warmth := art.armor.warmth + modinfo.warmth,
      storage :=
        if modinfo.storage > 0 ∨ art.armor.storage > -modinfo.storage
        then art.armor.storage + modinfo.storage else 0 } }

/-- Armor branch, `// Modify the armor further`: returns the record, the text
appended to the description, and the random source. -/
def armor_modify (env : Env) (info : artifact_armor_form_datum) (art : it_artifact_armor)
    (g : RNG) : it_artifact_armor × String × RNG :=
  let c := Cond.not (one_in 4) g
  if c.1 then
    let index := rng 0 4 c.2
    if info.available_mods.getD index.1.toNat 0 != ARMORMOD_NULL then
      let mod := info.available_mods.getD index.1.toNat 0
      let modinfo := artifact_armor_mod_data.getD mod .none
      (apply_armor_mod modinfo art,
       env.string_format (if info.plural then env.gettext "\nThey are %s"
                          else env.gettext "\nIt is %s") [env.gettext modinfo.name],
       index.2)
    else (art, "", index.2)
  else (art, "", c.2)

/-- Armor branch, `// Finally, pick some effects`: the worn loop. -/
def armor_effects (art : it_artifact_armor) (g : RNG) : it_artifact_armor × RNG :=
  let w := worn_loop
    (sel_init g AEP_NULL fill_good_passive fill_bad_passive art.artifact.effects_worn 0)
  ({ art with artifact := { art.artifact with effects_worn := w.effects } }, w.rng)

/-- Armor branch up to the description: the form, its copied values, the mod,
and the description text. -/
def armor_described (env : Env) (id : String) (g : RNG) : it_artifact_armor × RNG :=
  let form := rng (ARTARMFORM_NULL + 1) (NUM_ARTARMFORMS - 1) g
  let info := artifact_armor_form_data.getD form.1.toNat .none
  let named := (it_artifact_armor.new id).create_name env (env.gettext info.name) form.2
  let art := armor_copy_form env info named.1
  let description := env.string_format
    (if info.plural then env.gettext "This is the %s.\nThey are the only ones of their kind."
     else env.gettext "This is the %s.\nIt is the only one of its kind.") [art.nname env 1]
  let modified := armor_modify env info art named.2
  ({ modified.1 with description := description ++ modified.2.1 }, modified.2.2)

/-- The armor branch of `new_artifact` (`// Generate an armor artifact`). -/
def new_artifact_armor (env : Env) (id : String) (g : RNG) : it_artifact_armor × RNG :=
  armor_effects (armor_described env id g).1 (armor_described env id g).2

/-- Modelled from the spec: the item registry (`item_controller`, absent) takes
the finished record by `add_item_type`; a registered artifact is one of the two
variants. -/
inductive artifact_itype where
  | tool (t : it_artifact_tool)
  | armor (a : it_artifact_armor)
deriving DecidableEq, Repr

/-- The function `new_artifact()`: the record it registers and the random
source afterwards. -/
def new_artifact (env : Env) (id : String) (g : RNG) : artifact_itype × RNG :=
  if (one_in 2 g).1 then
    (.tool (new_artifact_tool env id (one_in 2 g).2).1, (new_artifact_tool env id (one_in 2 g).2).2)
  else
    (.armor (new_artifact_armor env id (one_in 2 g).2).1,
     (new_artifact_armor env id (one_in 2 g).2).2)

/-! ## `new_natural_artifact` -/

/-- The local variables of the `do ... while` loop of `new_natural_artifact`. -/
structure natural_state where
  rng : RNG
  value_to_reach : Int
  value : Int
  aep_good : Nat
  aep_bad : Nat
  aea_good : Nat
  aea_bad : Nat

/-- One family pick of the loop body, e.g. for the good passive effect
`aep_good = property_data->passive_good[rng(0, 3)];`
`if (aep_good == AEP_NULL || one_in(4)) aep_good = art_effect_passive(rng(lo, hi));`
with `hints` the hint array of the property and `lo`, `hi` the bounds written at
that pick. -/
def natural_pick (hints : List Nat) (null : Nat) (lo hi : Int) (g : RNG) : Nat × RNG :=
  let i := rng 0 3 g
  let hint := hints.getD i.1.toNat 0
  let c := Cond.or (.pure (hint == null)) (one_in 4) i.2
  if c.1 then ((rng lo hi c.2).1.toNat, (rng lo hi c.2).2) else (hint, c.2)

/-- The four layout flags set by `switch (rng(1, 3))`. -/
structure natural_layout where
  good_passive : Bool
  bad_passive : Bool
  good_active : Bool
  bad_active : Bool
deriving DecidableEq, Repr

/-- The `switch (rng(1, 3))` of `new_natural_artifact`. -/
def natural_layout.of_roll (roll : Int) : natural_layout :=
  if roll = 1 then ⟨true, true, false, false⟩
  else if roll = 2 then ⟨false, false, true, true⟩
  else if roll = 3 then ⟨false, true, true, false⟩
  else ⟨false, false, false, false⟩

/-- Body of the `do ... while` loop: one attempt. The bad passive fallback is
drawn from `rng(AEP_SPLIT + 1, NUM_AEAS - 1)`, as the source has it. -/
def natural_attempt (pd : artifact_property_datum) (l : natural_layout) (s : natural_state) :
    natural_state :=
  let gp := if l.good_passive
    then natural_pick pd.passive_good AEP_NULL (AEP_NULL + 1) (AEP_SPLIT - 1) s.rng
    else (s.aep_good, s.rng)
  let bp := if l.bad_passive
    then natural_pick pd.passive_bad AEP_NULL (AEP_SPLIT + 1) (NUM_AEAS - 1) gp.2
    else (s.aep_bad, gp.2)
  let ga := if l.good_active
    then natural_pick pd.active_good AEA_NULL (AEA_NULL + 1) (AEA_SPLIT - 1) bp.2
    else (s.aea_good, bp.2)
  let ba := if l.bad_active
    then natural_pick pd.active_bad AEA_NULL (AEA_SPLIT + 1) (NUM_AEAS - 1) ga.2
    else (s.aea_bad, ga.2)
  { rng := ba.2,
    value_to_reach := s.value_to_reach + 1,
    value := passive_effect_cost.getD gp.1 0 + passive_effect_cost.getD bp.1 0 +
             active_effect_cost.getD ga.1 0 + active_effect_cost.getD ba.1 0,
    aep_good := gp.1, aep_bad := bp.1, aea_good := ga.1, aea_bad := ba.1 }

/-- The `do ... while (value > value_to_reach)` loop of `new_natural_artifact`. -/
@[semireducible] def natural_loop (pd : artifact_property_datum) (l : natural_layout)
    (s : natural_state) : natural_state :=
  if (natural_attempt pd l s).value > (natural_attempt pd l s).value_to_reach then
    natural_loop pd l (natural_attempt pd l s)
  else natural_attempt pd l s
termination_by (112 - s.value_to_reach).toNat
decreasing_by
  rename_i h
  have hp : ∀ i : Nat, passive_effect_cost.getD i 0 ≤ 50 := by
    intro i
    by_cases hi : i < 39
    · interval_cases i <;> decide
    · rw [List.getD_eq_default _ _ (by simpa [passive_effect_cost] using hi)]; decide
  have ha : ∀ i : Nat, active_effect_cost.getD i 0 ≤ 6 := by
    intro i
    by_cases hi : i < 31
    · interval_cases i <;> decide
    · rw [List.getD_eq_default _ _ (by simpa [active_effect_cost] using hi)]; decide
  have hv : (natural_attempt pd l s).value ≤ 50 + 50 + 6 + 6 :=
    add_le_add (add_le_add (add_le_add (hp _) (hp _)) (ha _)) (ha _)
  have hr : (natural_attempt pd l s).value_to_reach = s.value_to_reach + 1 := rfl
  omega

/-- The four statements `if (aep_good != AEP_NULL) effects_carried.push_back(aep_good)`
... that follow the loop of `new_natural_artifact`: the carried list. -/
def natural_carried (s : natural_state) (carried : List Nat) : List Nat :=
  let c1 := if s.aep_good != AEP_NULL then carried ++ [s.aep_good] else carried
  if s.aep_bad != AEP_NULL then c1 ++ [s.aep_bad] else c1

/-- The activated list built after the loop of `new_natural_artifact`. -/
def natural_activated (s : natural_state) (activated : List Nat) : List Nat :=
  let a1 := if s.aea_good != AEA_NULL then activated ++ [s.aea_good] else activated
  if s.aea_bad != AEA_NULL then a1 ++ [s.aea_bad] else a1

/-- First part of `new_natural_artifact(prop)`, up to the description: pick the
shape and the property, sample volume and weight, name and describe the item.
Returns the record, the property row and the random source. -/
def natural_base (env : Env) (id : String) (prop : Nat) (g : RNG) :
    it_artifact_tool × artifact_property_datum × RNG :=
  let art := it_artifact_tool.new id
  let shape := rng (ARTSHAPE_NULL + 1) (ARTSHAPE_MAX - 1) g
  let shape_data := artifact_shape_data.getD shape.1.toNat .none
  let pick := rng (ARTPROP_NULL + 1) (ARTPROP_MAX - 1) shape.2
  let property := if prop > ARTPROP_NULL then prop else pick.1.toNat
  let g1 := if prop > ARTPROP_NULL then shape.2 else pick.2
  let property_data := artifact_property_data.getD property .none
  let volume := rng shape_data.volume_min shape_data.volume_max g1
  let weight := rng shape_data.weight_min shape_data.weight_max volume.2
  let art1 : it_artifact_tool :=
    { art with
      sym := ":",
      color := env.color deferred_color.def_c_yellow,
      materials := art.materials ++ ["stone"],
      volume := volume.1,
      weight := weight.1,
      melee_bash := 0,
      melee_cut := 0,
      m_to_hit := 0 }
  let art2 := art1.create_name_natural env (env.gettext property_data.name)
    (env.gettext shape_data.name)
  ({ art2 with
      description := env.string_format
        (env.pgettext "artifact description" "This %1$s %2$s.")
        [env.gettext shape_data.desc, env.gettext property_data.desc] },
   property_data, weight.2)

/-- The variables of the rejection loop as `new_natural_artifact` declares them
before the loop: `value_to_reach = 0`, `value = 0` and four null picks. -/
def natural_init (g : RNG) : natural_state :=
  { rng := g, value_to_reach := 0, value := 0,
    aep_good := AEP_NULL, aep_bad := AEP_NULL, aea_good := AEA_NULL, aea_bad := AEA_NULL }

/-- Second part of `new_natural_artifact(prop)`: the layout `switch`, the
rejection loop, the effect lists, and the charges given when an active effect
was chosen. -/
def natural_effects (property_data : artifact_property_datum) (art : it_artifact_tool)
    (g : RNG) : it_artifact_tool × RNG :=
  let roll := rng 1 3 g
  let s := natural_loop property_data (natural_layout.of_roll roll.1) (natural_init roll.2)
  let carried := natural_carried s art.artifact.effects_carried
  let activated := natural_activated s art.artifact.effects_activated
  let charges := rng 1 4 s.rng
  let charge := rng (ARTC_NULL + 1) (NUM_ARTCS - 1) charges.2
  ({ art with
      tool :=
        if !activated.isEmpty then
          { art.tool with def_charges := charges.1, max_charges := charges.1 }
        else art.tool,
      artifact := { art.artifact with
        effects_carried := carried,
        effects_activated := activated,
        charge_type :=
          if !activated.isEmpty then charge.1.toNat else art.artifact.charge_type } },
   if !activated.isEmpty then charge.2 else s.rng)

/-- The function `new_natural_artifact(prop)`: the record it registers and the
random source afterwards. -/
def new_natural_artifact (env : Env) (id : String) (prop : Nat) (g : RNG) :
    it_artifact_tool × RNG :=
  natural_effects (natural_base env id prop g).2.1 (natural_base env id prop g).1
    (natural_base env id prop g).2.2

/-- The function `architects_cube()`: the record it registers and the random
source afterwards. -/
def architects_cube (env : Env) (id : String) (g : RNG) : it_artifact_tool × RNG :=
  let art := it_artifact_tool.new id
  let info := artifact_tool_form_data.getD ARTTOOLFORM_CUBE .none
  let named := art.create_name env (env.gettext info.name) g
  let volume := rng info.volume_min info.volume_max named.2
  let weight := rng info.weight_min info.weight_max volume.2
  let weapon := artifact_weapon_data.getD info.base_weapon .none
  let bash := rng weapon.bash_min weapon.bash_max weight.2
  let cut := rng weapon.cut_min weapon.cut_max bash.2
  let to_hit := rng weapon.to_hit_min weapon.to_hit_max cut.2
  ({ named.1 with
      color := env.color info.color,
      sym := info.sym,
      materials := named.1.materials ++ [info.material],
      volume := volume.1,
      weight := weight.1,
      melee_bash := bash.1,
      melee_cut := cut.1,
      m_to_hit := to_hit.1,
      item_tags := insert_weapon_tag weapon named.1.item_tags,
      description := env.gettext "The architect's cube.",
      artifact := { named.1.artifact with
        effects_carried := named.1.artifact.effects_carried ++ [AEP_SUPER_CLAIRVOYANCE] } },
   to_hit.2)

/-! ## Structured documents

Modelled from the spec: the JSON reader and writer (`json.h`, absent) are "an
abstract structured encode/decode interface". A document object is the list of
its named members. The getters of a single value (`get_string`, `get_int`,
`get_bool`) fail with an error that names the member when it is missing or of
the wrong kind; `get_array` and `get_tags` give an empty array or set for a
missing member and fail only on a member of the wrong kind; `read` leaves the
target as it was when it cannot read the member. -/

/-- Modelled from the spec: the values a member of an artifact document holds.
`bits` is a `std::bitset` member: its text form is the writer's business, only
the bit pattern is modelled. -/
inductive JsonValue where
  | str (s : String)
  | int (n : Int)
  | bool (b : Bool)
  | bits (b : Nat)
  | arr (xs : List JsonValue)

/-- Modelled from the spec: a document object, the members in written order. -/
abbrev JsonObject := List (String × JsonValue)

/-- Modelled from the spec: a reported parse error, with the member it names. -/
structure JsonError where
  msg : String
  member : String
deriving DecidableEq, Repr

/-- Modelled from the spec: the member of the object called `name`, if any. -/
def JsonObject.member : JsonObject → String → Option JsonValue
  | [], _ => none
  | (k, v) :: rest, name => if k = name then some v else JsonObject.member rest name

/-- Modelled from the spec: `JsonObject::has_string`. -/
def JsonObject.has_string (jo : JsonObject) (name : String) : Bool :=
  match jo.member name with
  | some (.str _) => true
  | _ => false

/-- Modelled from the spec: `JsonObject::has_int`. -/
def JsonObject.has_int (jo : JsonObject) (name : String) : Bool :=
  match jo.member name with
  | some (.int _) => true
  | _ => false

/-- Modelled from the spec: `JsonObject::has_array`. -/
def JsonObject.has_array (jo : JsonObject) (name : String) : Bool :=
  match jo.member name with
  | some (.arr _) => true
  | _ => false

/-- Modelled from the spec: `JsonObject::get_string`. -/
def JsonObject.get_string (jo : JsonObject) (name : String) : Except JsonError String :=
  match jo.member name with
  | some (.str s) => .ok s
  | some _ => .error ⟨"expected a string", name⟩
  | none => .error ⟨"member not found", name⟩

/-- Modelled from the spec: `JsonObject::get_int` (and `get_long`). -/
def JsonObject.get_int (jo : JsonObject) (name : String) : Except JsonError Int :=
  match jo.member name with
  | some (.int n) => .ok n
  | some _ => .error ⟨"expected a number", name⟩
  | none => .error ⟨"member not found", name⟩

/-- Modelled from the spec: `JsonObject::get_bool`. -/
def JsonObject.get_bool (jo : JsonObject) (name : String) : Except JsonError Bool :=
  match jo.member name with
  | some (.bool b) => .ok b
  | some _ => .error ⟨"expected a boolean", name⟩
  | none => .error ⟨"member not found", name⟩

/-- Modelled from the spec: `JsonObject::get_array` of `json.h` (absent). A
member that is missing gives the empty array; a member that is there and is not
an array is an error. -/
def JsonObject.get_array (jo : JsonObject) (name : String) :
    Except JsonError (List JsonValue) :=
  match jo.member name with
  | some (.arr xs) => .ok xs
  | some _ => .error ⟨"expected an array", name⟩
  | none => .ok []

/-- Modelled from the spec: an array element read as a string
(`JsonArray::get_string`, `next_string`); `name` is the member the array is. -/
def JsonValue.as_string (name : String) : JsonValue → Except JsonError String
  | .str s => .ok s
  | _ => .error ⟨"expected a string", name⟩

/-- Modelled from the spec: an array element read as a number
(`JsonArray::next_int`). -/
def JsonValue.as_int (name : String) : JsonValue → Except JsonError Int
  | .int n => .ok n
  | _ => .error ⟨"expected a number", name⟩

/-- Reading every element of an array in turn with `f`; the first failure ends
the read. -/
def read_array {α : Type} (f : JsonValue → Except JsonError α) :
    List JsonValue → Except JsonError (List α)
  | [] => .ok []
  | x :: xs =>
    match f x with
    | .ok y =>
      match read_array f xs with
      | .ok ys => .ok (y :: ys)
      | .error e => .error e
    | .error e => .error e

/-- Modelled from the spec: `JsonObject::get_tags` of `json.h` (absent), the
strings of a member collected into a set. A member that is missing gives the
empty set, a single string the set of that string, and an array the set of its
strings; a member of another kind is an error. -/
def JsonObject.get_tags (jo : JsonObject) (name : String) : Except JsonError (List String) :=
  match jo.member name with
  | none => .ok []
  | some (.str s) => .ok [s]
  | some (.arr xs) =>
    (read_array (JsonValue.as_string name) xs).map
      (fun tags => tags.foldl (fun acc t => set_insert t acc) [])
  | some _ => .error ⟨"expected an array", name⟩

/-- Modelled from the spec: `jo.read(name, bitset)`, whose boolean result the
decoder ignores: the bitset is replaced when the member is there and holds a
bitset, and is left as it was otherwise. -/
def JsonObject.read_bits (jo : JsonObject) (name : String) (old : Nat) : Nat :=
  match jo.member name with
  | some (.bits b) => b
  | _ => old

/-- Modelled from the spec: `units::legacy_volume_factor` of `units.h` (absent),
the 250 ml in which documents count volumes. -/
def legacy_volume_factor : Int := 250

/-- An effect list read by `while (ja.has_more()) v.push_back((E)ja.next_int())`. -/
def read_effects (jo : JsonObject) (name : String) (old : List Nat) :
    Except JsonError (List Nat) := do
  let ja ← jo.get_array name
  let ids ← read_array (JsonValue.as_int name) ja
  pure (old ++ ids.map Int.toNat)

/-- The three statements by which both decoders read the materials: `m1`, then
`m2`, then the `materials` array, each appended when present. -/
def read_materials (jo : JsonObject) (materials : List String) :
    Except JsonError (List String) := do
  let with_m1 ←
    if jo.has_string "m1" then (jo.get_string "m1").map (fun m => materials ++ [m])
    else pure materials
  let with_m2 ←
    if jo.has_string "m2" then (jo.get_string "m2").map (fun m => with_m1 ++ [m])
    else pure with_m1
  if jo.has_array "materials" then do
    let jarr ← jo.get_array "materials"
    let ms ← read_array (JsonValue.as_string "materials") jarr
    pure (with_m2 ++ ms)
  else pure with_m2

/-- The statement by which both decoders read the symbol: a number (legacy) is
taken as a character code, otherwise the member is read as a string. -/
def read_sym (jo : JsonObject) : Except JsonError String :=
  if jo.has_int "sym" then
    (jo.get_int "sym").map (fun n => String.singleton (Char.ofNat (n % 256).toNat))
  else jo.get_string "sym"

/-- The statements with which both `it_artifact_tool::deserialize` and
`it_artifact_armor::deserialize` begin (from `id` to `item_flags`). -/
def deserialize_common (self : itype) (jo : JsonObject) : Except JsonError itype := do
  let id ← jo.get_string "id"
  let name ← jo.get_string "name"
  let description ← jo.get_string "description"
  let sym ← read_sym jo
  let color ← jo.get_int "color"
  let price ← jo.get_int "price"
  let materials ← read_materials jo self.materials
  let volume ← jo.get_int "volume"
  let weight ← jo.get_int "weight"
  let melee_dam ← jo.get_int "melee_dam"
  let melee_cut ← jo.get_int "melee_cut"
  let m_to_hit ← jo.get_int "m_to_hit"
  let item_flags ← jo.get_tags "item_flags"
  pure { self with
    id := id, name := name, description := description, sym := sym, color := color,
    price := price, materials := materials,
    volume := volume * legacy_volume_factor,
    weight := weight,
    melee_bash := melee_dam, melee_cut := melee_cut, m_to_hit := m_to_hit,
    item_tags := item_flags }

/-- The function `it_artifact_tool::deserialize(jo)`, run on the record `self`. -/
def it_artifact_tool.deserialize (self : it_artifact_tool) (jo : JsonObject) :
    Except JsonError it_artifact_tool := do
  let common ← deserialize_common self.toitype jo
  let max_charges ← jo.get_int "max_charges"
  let def_charges ← jo.get_int "def_charges"
  let charges_per_use ← jo.get_int "charges_per_use"
  let turns_per_charge ← jo.get_int "turns_per_charge"
  let ammo ← jo.get_string "ammo"
  let revert_to ← jo.get_string "revert_to"
  let charge_type ← jo.get_int "charge_type"
  let effects_wielded ← read_effects jo "effects_wielded" self.artifact.effects_wielded
  let effects_activated ← read_effects jo "effects_activated" self.artifact.effects_activated
  let effects_carried ← read_effects jo "effects_carried" self.artifact.effects_carried
  pure { common with
    tool := { max_charges := max_charges, def_charges := def_charges,
              charges_per_use := charges_per_use, turns_per_charge := turns_per_charge,
              ammo_id := ammo, revert_to := revert_to },
    artifact := { self.artifact with
      charge_type := charge_type.toNat,
      effects_wielded := effects_wielded,
      effects_activated := effects_activated,
      effects_carried := effects_carried } }

/-- The function `it_artifact_armor::deserialize(jo)`, run on the record `self`. -/
def it_artifact_armor.deserialize (self : it_artifact_armor) (jo : JsonObject) :
    Except JsonError it_artifact_armor := do
  let common ← deserialize_common self.toitype jo
  let covers := jo.read_bits "covers" self.armor.covers
  let encumber ← jo.get_int "encumber"
  let coverage ← jo.get_int "coverage"
  let material_thickness ← jo.get_int "material_thickness"
  let env_resist ← jo.get_int "env_resist"
  let warmth ← jo.get_int "warmth"
  let storage ← jo.get_int "storage"
  let power_armor ← jo.get_bool "power_armor"
  let effects_worn ← read_effects jo "effects_worn" self.artifact.effects_worn
  pure { common with
    armor := { covers := covers, encumber := encumber, coverage := coverage,
               thickness := material_thickness, env_resist := env_resist, warmth := warmth,
               storage := storage * legacy_volume_factor, power_armor := power_armor },
    artifact := { self.artifact with effects_worn := effects_worn } }

/-- Constructor `it_artifact_tool::it_artifact_tool(JsonObject &jo)`: a fresh
record (`itype()` with new tool and artifact slots) on which `deserialize` runs. -/
def it_artifact_tool.of_json (jo : JsonObject) : Except JsonError it_artifact_tool :=
  it_artifact_tool.deserialize
    { itype.init with tool := islot_tool.init, artifact := islot_artifact.init } jo

/-- Constructor `it_artifact_armor::it_artifact_armor(JsonObject &jo)`. -/
def it_artifact_armor.of_json (jo : JsonObject) : Except JsonError it_artifact_armor :=
  it_artifact_armor.deserialize
    { itype.init with armor := islot_armor.init, artifact := islot_artifact.init } jo

/-- The function `serialize_enum_vector_as_int(json, member, vec)`. -/
def serialize_enum_vector_as_int (member : String) (vec : List Nat) : String × JsonValue :=
  (member, .arr (vec.map (fun (e : Nat) => JsonValue.int (e : Int))))

/-- The members that both encoders write after `"type"` (`// generic data`). -/
def serialize_common (self : itype) : JsonObject := [
  ("id", .str self.id),
  ("name", .str self.name),
  ("description", .str self.description),
  ("sym", .str self.sym),
  ("color", .int self.color),
  ("price", .int self.price),
  ("materials", .arr (self.materials.map JsonValue.str)),
  ("volume", .int (Int.tdiv self.volume legacy_volume_factor)),
  ("weight", .int self.weight),
  ("melee_dam", .int self.melee_bash),
  ("melee_cut", .int self.melee_cut),
  ("m_to_hit", .int self.m_to_hit),
  ("item_flags", .arr (self.item_tags.map JsonValue.str)),
  ("techniques", .arr (self.techniques.map JsonValue.str))]

/-- The function `it_artifact_tool::serialize(json)`: the object it writes. -/
def it_artifact_tool.serialize (self : it_artifact_tool) : JsonObject :=
  [("type", .str "artifact_tool")] ++ serialize_common self.toitype ++ [
    ("ammo", .str self.tool.ammo_id),
    ("max_charges", .int self.tool.max_charges),
    ("def_charges", .int self.tool.def_charges),
    ("charges_per_use", .int self.tool.charges_per_use),
    ("turns_per_charge", .int self.tool.turns_per_charge),
    ("revert_to", .str self.tool.revert_to),
    ("charge_type", .int (self.artifact.charge_type : Int)),
    serialize_enum_vector_as_int "effects_wielded" self.artifact.effects_wielded,
    serialize_enum_vector_as_int "effects_activated" self.artifact.effects_activated,
    serialize_enum_vector_as_int "effects_carried" self.artifact.effects_carried]

/-- The function `it_artifact_armor::serialize(json)`: the object it writes. -/
def it_artifact_armor.serialize (self : it_artifact_armor) : JsonObject :=
  [("type", .str "artifact_armor")] ++ serialize_common self.toitype ++ [
    ("covers", .bits self.armor.covers),
    ("encumber", .int self.armor.encumber),
    ("coverage", .int self.armor.coverage),
    ("material_thickness", .int self.armor.thickness),
    ("env_resist", .int self.armor.env_resist),
    ("warmth", .int self.armor.warmth),
    ("storage", .int (Int.tdiv self.armor.storage legacy_volume_factor)),
    ("power_armor", .bool self.armor.power_armor),
    serialize_enum_vector_as_int "effects_worn" self.artifact.effects_worn]

/-- One turn of the `while` loop of `load_artifacts`: the element `jo` is decoded
by the constructor its `"type"` selects and the result is added to the registry
(`item_controller->add_item_type`). -/
def load_artifact (jo : JsonObject) (registry : List artifact_itype) :
    Except JsonError (List artifact_itype) := do
  let type ← jo.get_string "type"
  if type = "artifact_tool" then
    (it_artifact_tool.of_json jo).map (fun t => registry ++ [.tool t])
  else if type = "artifact_armor" then
    (it_artifact_armor.of_json jo).map (fun a => registry ++ [.armor a])
  else .error ⟨"unrecognized artifact type.", "type"⟩

/-- The loop of `load_artifacts` over the elements of the array: it stops at the
first error, which leaves the registry as the earlier elements made it. -/
def load_artifacts_array :
    List JsonObject → List artifact_itype → List artifact_itype × Option JsonError
  | [], registry => (registry, none)
  | jo :: rest, registry =>
    match load_artifact jo registry with
    | .ok registry1 => load_artifacts_array rest registry1
    | .error e => (registry, some e)

/-- The function `load_artifacts(artfilename)`; `file` is the array the file
holds, `none` when the file does not exist (`read_from_file_optional_json`). -/
def load_artifacts (file : Option (List JsonObject)) (registry : List artifact_itype) :
    List artifact_itype × Option JsonError :=
  match file with
  | none => (registry, none)
  | some elems => load_artifacts_array elems registry

/-! ## A concrete environment

An instance of the external collaborators, used to run the generators on
concrete inputs: no translation, and a formatter that substitutes the
directives `%s`, `%1$s` and `%2$s`. -/

/-- Substitution of the directives `%s` (next argument), `%1$s` and `%2$s`
(first and second argument) in a template. -/
def format_chars : List Char → List String → List Char
  | '%' :: 's' :: rest, arg :: args => arg.data ++ format_chars rest args
  | '%' :: '1' :: '$' :: 's' :: rest, args => (args.getD 0 "").data ++ format_chars rest args
  | '%' :: '2' :: '$' :: 's' :: rest, args => (args.getD 1 "").data ++ format_chars rest args
  | c :: rest, args => c :: format_chars rest args
  | [], _ => []

/-- The environment without translation: `_()` and `pgettext` return the
message id, `ngettext` picks the singular for quantity 1. -/
def plain_env : Env :=
  { gettext := fun msgid => msgid,
    pgettext := fun _ msgid => msgid,
    ngettext := fun singular plural n => if n = 1 then singular else plural,
    string_format := fun template args => String.mk (format_chars template.data args),
    color := fun c =>
      match c with
      | .def_c_white => 1 | .def_c_yellow => 2 | .def_c_brown => 3 | .def_c_ltblue => 4
      | .def_c_red => 5 | .def_c_dkgray => 6 | .def_c_blue => 7 | .def_c_ltgreen => 8 }

/-! ## Predicates used to state the theorems -/

/-- What a true loop condition guarantees in each of the four selection loops:
both pools are non-empty and both counters are below 3. -/
def sel_state.in_loop (s : sel_state) : Prop :=
  s.good_effects ≠ [] ∧ s.bad_effects ≠ [] ∧ s.num_good < 3 ∧ s.num_bad < 3

/-- One run of a loop body as a relation between the states before and after
it: the entry at some index `i` of one pool is taken out of that pool, that
pool's counter grows by one, and the entry is appended to the effect list. -/
def sel_step (s t : sel_state) : Prop :=
  (∃ i, ∃ h : i < s.good_effects.length,
      t.tmp = s.good_effects[i] ∧ t.num_good = s.num_good + 1 ∧ t.num_bad = s.num_bad ∧
      t.effects = s.effects ++ [s.good_effects[i]] ∧
      t.good_effects = s.good_effects.eraseIdx i ∧ t.bad_effects = s.bad_effects) ∨
  (∃ i, ∃ h : i < s.bad_effects.length,
      t.tmp = s.bad_effects[i] ∧ t.num_good = s.num_good ∧ t.num_bad = s.num_bad + 1 ∧
      t.effects = s.effects ++ [s.bad_effects[i]] ∧
      t.good_effects = s.good_effects ∧ t.bad_effects = s.bad_effects.eraseIdx i)

/-- The counting facts kept by every selection loop: the counters stay within
`[0, 3]`, never both at 3, and the effect list has one entry per count. -/
def sel_counted (s : sel_state) : Prop :=
  0 ≤ s.num_good ∧ 0 ≤ s.num_bad ∧ s.num_good ≤ 3 ∧ s.num_bad ≤ 3 ∧
  s.num_good + s.num_bad ≤ 5 ∧ (s.effects.length : Int) = s.num_good + s.num_bad

/-- The bounds on the state in which a selection loop ends: at most 3 good and
3 bad effects, one list entry per counted effect, at most 5 entries. -/
def sel_bounded (s : sel_state) : Prop :=
  s.num_good ≤ 3 ∧ s.num_bad ≤ 3 ∧ (s.effects.length : Int) = s.num_good + s.num_bad ∧
  s.effects.length ≤ 5

/-- An artifact slot none of whose effect lists holds a null or a split sentinel
of its family. -/
def islot_artifact.no_sentinel (a : islot_artifact) : Prop :=
  (∀ e ∈ a.effects_wielded, e ≠ AEP_NULL ∧ e ≠ AEP_SPLIT) ∧
  (∀ e ∈ a.effects_carried, e ≠ AEP_NULL ∧ e ≠ AEP_SPLIT) ∧
  (∀ e ∈ a.effects_worn, e ≠ AEP_NULL ∧ e ≠ AEP_SPLIT) ∧
  (∀ e ∈ a.effects_activated, e ≠ AEA_NULL ∧ e ≠ AEA_SPLIT)

/-- The artifact slot of a registered record of either variant. -/
def artifact_itype.artifact : artifact_itype → islot_artifact
  | .tool t => t.artifact
  | .armor a => a.artifact

/-- Every entry of both pools and of the effect list satisfies `Q`. -/
def sel_all (Q : Nat → Prop) (s : sel_state) : Prop :=
  (∀ e ∈ s.good_effects, Q e) ∧ (∀ e ∈ s.bad_effects, Q e) ∧ (∀ e ∈ s.effects, Q e)

/-- No hint of the property row is a split sentinel. -/
abbrev artifact_property_datum.no_split (pd : artifact_property_datum) : Prop :=
  (∀ e ∈ pd.passive_good, e ≠ AEP_SPLIT) ∧ (∀ e ∈ pd.passive_bad, e ≠ AEP_SPLIT) ∧
  (∀ e ∈ pd.active_good, e ≠ AEA_SPLIT) ∧ (∀ e ∈ pd.active_bad, e ≠ AEA_SPLIT)

/-- None of the four picks of the natural-artifact loop is a split sentinel. -/
def natural_state.no_split (s : natural_state) : Prop :=
  s.aep_good ≠ AEP_SPLIT ∧ s.aep_bad ≠ AEP_SPLIT ∧ s.aea_good ≠ AEA_SPLIT ∧ s.aea_bad ≠ AEA_SPLIT

/-- Agreement of two records on the common fields other than `name_plural`,
`volume` and `melee[DT_STAB]`: identifier, name, description, symbol, color,
price, materials, weight, bash and cut values, to-hit value, flags, techniques. -/
def itype.agrees (a b : itype) : Prop :=
  a.id = b.id ∧ a.name = b.name ∧ a.description = b.description ∧ a.sym = b.sym ∧
  a.color = b.color ∧ a.price = b.price ∧ a.materials = b.materials ∧ a.weight = b.weight ∧
  a.melee_bash = b.melee_bash ∧ a.melee_cut = b.melee_cut ∧ a.m_to_hit = b.m_to_hit ∧
  a.item_tags = b.item_tags ∧ a.techniques = b.techniques

/-- The stream of raw draws `0, 2, 4, ...`, used to run the generators. -/
def even_stream : RNG := fun n => 2 * n

/-- The floors of the armor-mod rules: volume at least 250 ml, weight at least
1 g, and coverage, thickness, environmental resistance and storage not negative. -/
def it_artifact_armor.floors (r : it_artifact_armor) : Prop :=
  r.volume ≥ 250 ∧ r.weight ≥ 1 ∧ r.armor.coverage ≥ 0 ∧ r.armor.thickness ≥ 0 ∧
  r.armor.env_resist ≥ 0 ∧ r.armor.storage ≥ 0

/-- An armor of the given form with the given mod applied by the rules of
`new_artifact`: the values of the form are copied into `art`, then the mod is
applied. -/
def modded_armor (env : Env) (art : it_artifact_armor) (form mod : Nat) : it_artifact_armor :=
  apply_armor_mod (artifact_armor_mod_data.getD mod .none)
    (armor_copy_form env (artifact_armor_form_data.getD form .none) art)

/-- The largest combined cost that one attempt of the rejection loop can reach
in a layout: 50 for a good passive pick (`AEP_SUPER_CLAIRVOYANCE`), -1 for a bad
passive pick, 6 for a good active pick (`AEA_HURTALL`), -2 for a bad active
pick, and 0 for a pick the layout leaves null. -/
def natural_layout.max_value (l : natural_layout) : Int :=
  (if l.good_passive then 50 else 0) + (if l.bad_passive then -1 else 0) +
  (if l.good_active then 6 else 0) + (if l.bad_active then -2 else 0)

/-- The picks that the layout does not make are null. -/
def natural_state.unpicked_null (l : natural_layout) (s : natural_state) : Prop :=
  (l.good_passive = false → s.aep_good = AEP_NULL) ∧
  (l.bad_passive = false → s.aep_bad = AEP_NULL) ∧
  (l.good_active = false → s.aea_good = AEA_NULL) ∧
  (l.bad_active = false → s.aea_bad = AEA_NULL)

/-- The non-null bad hints of a property row cost at most -1 (passive) and -2
(active). -/
abbrev artifact_property_datum.bad_costs (pd : artifact_property_datum) : Prop :=
  (∀ e ∈ pd.passive_bad, e ≠ AEP_NULL → passive_effect_cost.getD e 0 ≤ -1) ∧
  (∀ e ∈ pd.active_bad, e ≠ AEA_NULL → active_effect_cost.getD e 0 ≤ -2)

/-- A tool document in the legacy shape: materials given by the string members
`m1` and `m2`, no `materials` array. -/
def legacy_tool_doc : JsonObject := [
  ("type", .str "artifact_tool"), ("id", .str "artifact_7"), ("name", .str "Harp of Dreams"),
  ("description", .str "This is the Harp of Dreams."), ("sym", .str ";"), ("color", .int 2),
  ("price", .int 0), ("m1", .str "wood"), ("m2", .str "steel"), ("volume", .int 24),
  ("weight", .int 1500), ("melee_dam", .int 12), ("melee_cut", .int 0), ("m_to_hit", .int (-1)),
  ("item_flags", .arr []), ("techniques", .arr []), ("ammo", .str "NULL"),
  ("max_charges", .int 2), ("def_charges", .int 2), ("charges_per_use", .int 1),
  ("turns_per_charge", .int 0), ("revert_to", .str "null"), ("charge_type", .int 1),
  ("effects_wielded", .arr [JsonValue.int 3, JsonValue.int 22]),
  ("effects_activated", .arr [JsonValue.int 14]),
  ("effects_carried", .arr [])]

/-- An armor document in the legacy shape with the single material member `m1`. -/
def legacy_armor_doc : JsonObject := [
  ("type", .str "artifact_armor"), ("id", .str "artifact_8"), ("name", .str "Robe of Shade"),
  ("description", .str "This is the Robe of Shade."), ("sym", .str "["), ("color", .int 5),
  ("price", .int 0), ("m1", .str "wool"), ("volume", .int 6),
  ("weight", .int 700), ("melee_dam", .int (-8)), ("melee_cut", .int 0), ("m_to_hit", .int (-3)),
  ("item_flags", .arr []), ("techniques", .arr []), ("covers", .bits 769),
  ("encumber", .int 1), ("coverage", .int 90), ("material_thickness", .int 3),
  ("env_resist", .int 0), ("warmth", .int 2), ("storage", .int 0), ("power_armor", .bool false),
  ("effects_worn", .arr [JsonValue.int 5, JsonValue.int 30])]

/-- The document that `it_artifact_tool::serialize` writes for the tool that
`new_artifact` makes from the stream `0, 2, 4, ...`. -/
def written_tool_doc : JsonObject :=
  (new_artifact_tool plain_env "artifact_1" (one_in 2 even_stream).2).1.serialize

/-- The document that `it_artifact_armor::serialize` writes for the armor that
`new_artifact` makes from the stream `3, 10, 17, ...`. -/
def written_armor_doc : JsonObject :=
  (new_artifact_armor plain_env "artifact_1" (one_in 2 (fun n => 7 * n + 3)).2).1.serialize

/-- The error that `load_artifacts` raises for an unrecognized type:
`jo.throw_error( "unrecognized artifact type.", "type" )`. -/
def unrecognized_type_error : JsonError := ⟨"unrecognized artifact type.", "type"⟩

/-- A pool holds, in ascending order and so without repetition, exactly the `n`
ids strictly between `lo` and `hi`. -/
def pool_exact (pool : List Nat) (lo hi n : Nat) : Prop :=
  (∀ e, e ∈ pool ↔ lo < e ∧ e < hi) ∧ pool.Sorted (· < ·) ∧ pool.length = n

/-- The table `io::art_effect_passive_values`: the name of each passive effect
with its enumerator (the two sentinels are commented out in the source). -/
def art_effect_passive_values : List (String × Nat) := [
  ("AEP_STR_UP", AEP_STR_UP), ("AEP_DEX_UP", AEP_DEX_UP), ("AEP_PER_UP", AEP_PER_UP),
  ("AEP_INT_UP", AEP_INT_UP), ("AEP_ALL_UP", AEP_ALL_UP), ("AEP_SPEED_UP", AEP_SPEED_UP),
  ("AEP_PBLUE", AEP_PBLUE), ("AEP_SNAKES", AEP_SNAKES), ("AEP_INVISIBLE", AEP_INVISIBLE),
  ("AEP_CLAIRVOYANCE", AEP_CLAIRVOYANCE), ("AEP_CLAIRVOYANCE_PLUS", AEP_CLAIRVOYANCE_PLUS),
  ("AEP_SUPER_CLAIRVOYANCE", AEP_SUPER_CLAIRVOYANCE), ("AEP_STEALTH", AEP_STEALTH),
  ("AEP_EXTINGUISH", AEP_EXTINGUISH), ("AEP_GLOW", AEP_GLOW), ("AEP_PSYSHIELD", AEP_PSYSHIELD),
  ("AEP_RESIST_ELECTRICITY", AEP_RESIST_ELECTRICITY), ("AEP_CARRY_MORE", AEP_CARRY_MORE),
  ("AEP_SAP_LIFE", AEP_SAP_LIFE),
  ("AEP_HUNGER", AEP_HUNGER), ("AEP_THIRST", AEP_THIRST), ("AEP_SMOKE", AEP_SMOKE),
  ("AEP_EVIL", AEP_EVIL), ("AEP_SCHIZO", AEP_SCHIZO), ("AEP_RADIOACTIVE", AEP_RADIOACTIVE),
  ("AEP_MUTAGENIC", AEP_MUTAGENIC), ("AEP_ATTENTION", AEP_ATTENTION),
  ("AEP_STR_DOWN", AEP_STR_DOWN), ("AEP_DEX_DOWN", AEP_DEX_DOWN), ("AEP_PER_DOWN", AEP_PER_DOWN),
  ("AEP_INT_DOWN", AEP_INT_DOWN), ("AEP_ALL_DOWN", AEP_ALL_DOWN),
  ("AEP_SPEED_DOWN", AEP_SPEED_DOWN), ("AEP_FORCE_TELEPORT", AEP_FORCE_TELEPORT),
  ("AEP_MOVEMENT_NOISE", AEP_MOVEMENT_NOISE), ("AEP_BAD_WEATHER", AEP_BAD_WEATHER),
  ("AEP_SICK", AEP_SICK)]

/-- The table `io::art_effect_active_values`: the name of each active effect
with its enumerator (the two sentinels are commented out in the source). -/
def art_effect_active_values : List (String × Nat) := [
  ("AEA_STORM", AEA_STORM), ("AEA_FIREBALL", AEA_FIREBALL), ("AEA_ADRENALINE", AEA_ADRENALINE),
  ("AEA_MAP", AEA_MAP), ("AEA_BLOOD", AEA_BLOOD), ("AEA_FATIGUE", AEA_FATIGUE),
  ("AEA_ACIDBALL", AEA_ACIDBALL), ("AEA_PULSE", AEA_PULSE), ("AEA_HEAL", AEA_HEAL),
  ("AEA_CONFUSED", AEA_CONFUSED), ("AEA_ENTRANCE", AEA_ENTRANCE), ("AEA_BUGS", AEA_BUGS),
  ("AEA_TELEPORT", AEA_TELEPORT), ("AEA_LIGHT", AEA_LIGHT), ("AEA_GROWTH", AEA_GROWTH),
  ("AEA_HURTALL", AEA_HURTALL),
  ("AEA_RADIATION", AEA_RADIATION), ("AEA_PAIN", AEA_PAIN), ("AEA_MUTATE", AEA_MUTATE),
  ("AEA_PARALYZE", AEA_PARALYZE), ("AEA_FIRESTORM", AEA_FIRESTORM),
  ("AEA_ATTENTION", AEA_ATTENTION), ("AEA_TELEGLOW", AEA_TELEGLOW), ("AEA_NOISE", AEA_NOISE),
  ("AEA_SCREAM", AEA_SCREAM), ("AEA_DIM", AEA_DIM), ("AEA_FLASH", AEA_FLASH),
  ("AEA_VOMIT", AEA_VOMIT), ("AEA_SHADOWS", AEA_SHADOWS)]

/-- The identifiers of a family: the null sentinel, the split sentinel and the
enumerators that the `io` name table lists. -/
def family_ids (null split : Nat) (values : List (String × Nat)) : List Nat :=
  null :: split :: values.map (fun p => p.2)

/-- Every hint of the row is the null sentinel or lies in the sub-range of its slot. -/
abbrev artifact_property_datum.hints_in_range (pd : artifact_property_datum) : Prop :=
  (∀ e ∈ pd.passive_good, e = AEP_NULL ∨ e ∈ fill_good_passive) ∧
  (∀ e ∈ pd.passive_bad, e = AEP_NULL ∨ e ∈ fill_bad_passive) ∧
  (∀ e ∈ pd.active_good, e = AEA_NULL ∨ e ∈ fill_good_active) ∧
  (∀ e ∈ pd.active_bad, e = AEA_NULL ∨ e ∈ fill_bad_active)

/-- After an attempt, a pick that the layout makes is an id of the matching
pool, and a pick that it does not make is null. -/
def natural_state.picked (l : natural_layout) (s : natural_state) : Prop :=
  (if l.good_passive then s.aep_good ∈ fill_good_passive else s.aep_good = AEP_NULL) ∧
  (if l.bad_passive then s.aep_bad ∈ fill_bad_passive else s.aep_bad = AEP_NULL) ∧
  (if l.good_active then s.aea_good ∈ fill_good_active else s.aea_good = AEA_NULL) ∧
  (if l.bad_active then s.aea_bad ∈ fill_bad_active else s.aea_bad = AEA_NULL)

/-- Layout 1 of a natural artifact: a good and a bad passive effect, carried. -/
def natural_layout_passive (a : islot_artifact) : Prop :=
  ∃ x ∈ fill_good_passive, ∃ y ∈ fill_bad_passive,
    a.effects_carried = [x, y] ∧ a.effects_activated = []

/-- Layout 2 of a natural artifact: a good and a bad active effect. -/
def natural_layout_active (a : islot_artifact) : Prop :=
  ∃ x ∈ fill_good_active, ∃ y ∈ fill_bad_active,
    a.effects_carried = [] ∧ a.effects_activated = [x, y]

/-- Layout 3 of a natural artifact: a bad passive effect, carried, and a good
active effect. -/
def natural_layout_mixed (a : islot_artifact) : Prop :=
  ∃ y ∈ fill_bad_passive, ∃ x ∈ fill_good_active,
    a.effects_carried = [y] ∧ a.effects_activated = [x]

/-- The three layouts of a natural artifact. -/
def natural_layouts (a : islot_artifact) : Prop :=
  natural_layout_passive a ∨ natural_layout_active a ∨ natural_layout_mixed a

/-- The state in which the wielded loop of `tool_effects` ends. -/
def tool_wielded_sel (art : it_artifact_tool) (g : RNG) : sel_state :=
  wielded_loop
    (sel_init g AEP_NULL fill_good_passive fill_bad_passive art.artifact.effects_wielded 0)

/-- The state in which the carried loop of `tool_effects` ends. -/
def tool_carried_sel (art : it_artifact_tool) (g : RNG) : sel_state :=
  carried_loop
    (sel_init (tool_wielded_sel art g).rng (tool_wielded_sel art g).tmp fill_good_passive
      fill_bad_passive art.artifact.effects_carried 0)

/-- The state in which the activated loop of `tool_effects` ends. -/
def tool_activated_sel (art : it_artifact_tool) (g : RNG) : sel_state :=
  activated_loop
    (sel_init (tool_carried_sel art g).rng AEA_NULL fill_good_active fill_bad_active
      art.artifact.effects_activated art.tool.max_charges)

/-- The random source of `tool_effects` when `one_in(8)` is evaluated: after the
draw of the recharge mechanism if there are charges, else as the activated loop
left it. -/
def tool_curse_rng (art : it_artifact_tool) (g : RNG) : RNG :=
  if (tool_activated_sel art g).max_charges > 0
  then (rng (ARTC_NULL + 1) (NUM_ARTCS - 1) (tool_activated_sel art g).rng).2
  else (tool_activated_sel art g).rng

/-- The recharge mechanism of `tool_effects` before the one-in-eight rule. -/
def tool_charge_type (art : it_artifact_tool) (g : RNG) : Nat :=
  if (tool_activated_sel art g).max_charges > 0
  then (rng (ARTC_NULL + 1) (NUM_ARTCS - 1) (tool_activated_sel art g).rng).1.toNat
  else art.artifact.charge_type

/-- The value of `one_in(8) && num_bad + num_good >= 4` in `tool_effects`. -/
def tool_curse (art : it_artifact_tool) (g : RNG) : Bool :=
  (Cond.and (one_in 8)
    (.pure ((tool_activated_sel art g).num_bad + (tool_activated_sel art g).num_good ≥ 4))
    (tool_curse_rng art g)).1

/-- The value of `one_in(8)` alone in the one-in-eight rule of `new_artifact`. -/
def new_artifact_curse_roll (env : Env) (id : String) (g : RNG) : Bool :=
  (one_in 8 (tool_curse_rng (tool_described env id (one_in 2 g).2).1
    (tool_described env id (one_in 2 g).2).2)).1

/-- The value of `one_in(8) && num_bad + num_good >= 4` in the tool branch of
`new_artifact`: true when the recharge mechanism is set back to `ARTC_NULL`. -/
def new_artifact_curse (env : Env) (id : String) (g : RNG) : Bool :=
  tool_curse (tool_described env id (one_in 2 g).2).1 (tool_described env id (one_in 2 g).2).2

/-- The recharge mechanism of the tool branch of `new_artifact` before the
one-in-eight rule. -/
def new_artifact_charge_type (env : Env) (id : String) (g : RNG) : Nat :=
  tool_charge_type (tool_described env id (one_in 2 g).2).1
    (tool_described env id (one_in 2 g).2).2

/-- The tool record that `new_artifact` registers on the stream `12, 16, 20, ...`:
the "Bladed Staff of Forbidden Horrors", with 5 wielded, 3 carried and 1
activated effect. -/
def bladed_staff : it_artifact_tool :=
  (new_artifact_tool plain_env "artifact_0" (one_in 2 (fun n => 4 * n + 12)).2).1

/-- The tool record that `new_artifact` registers on the stream `6, 13, 20, ...`:
3 wielded effects, no carried effect and 4 activated effects. -/
def cursed_tool : it_artifact_tool :=
  (new_artifact_tool plain_env "artifact_0" (one_in 2 (fun n => 7 * n + 6)).2).1

/-- The tool record of a registered record, if it is a tool. -/
def artifact_itype.tool? : artifact_itype → Option it_artifact_tool
  | .tool t => some t
  | .armor _ => none

/-- The charges counted by the activated loop: at least 1 and at most 3 per
entry of the effect list. -/
def sel_charged (s : sel_state) : Prop :=
  (s.effects.length : Int) ≤ s.max_charges ∧ s.max_charges ≤ 3 * (s.effects.length : Int)

/-- The shape picked by `new_natural_artifact`:
`rng(ARTSHAPE_NULL + 1, ARTSHAPE_MAX - 1)`. -/
def natural_shape (g : RNG) : Nat := (rng (ARTSHAPE_NULL + 1) (ARTSHAPE_MAX - 1) g).1.toNat

/-- The property used by `new_natural_artifact(prop)`:
`prop > ARTPROP_NULL ? prop : rng(ARTPROP_NULL + 1, ARTPROP_MAX - 1)`. -/
def natural_property (prop : Nat) (g : RNG) : Nat :=
  if prop > ARTPROP_NULL then prop
  else (rng (ARTPROP_NULL + 1) (ARTPROP_MAX - 1)
    (rng (ARTSHAPE_NULL + 1) (ARTSHAPE_MAX - 1) g).2).1.toNat

/-- The common fields of a document element, as the specification names them. -/
def spec_common_fields : List String :=
  ["id", "name", "description", "sym", "color", "price", "materials", "volume", "weight",
   "melee_dam", "melee_cut", "m_to_hit", "item_flags", "techniques"]

/-- The tool-only fields of a document element, as the specification names them. -/
def spec_tool_fields : List String :=
  ["ammo", "max_charges", "def_charges", "charges_per_use", "turns_per_charge", "revert_to",
   "charge_type", "effects_wielded", "effects_activated", "effects_carried"]

/-- The armor-only fields of a document element, as the specification names
them. -/
def spec_armor_fields : List String :=
  ["covers", "encumber", "coverage", "material_thickness", "env_resist", "warmth", "storage",
   "power_armor", "effects_worn"]

/-- Modelled from the spec: an item type as `item_controller->get_runtime_types()`
lists it (`itype.h` and `item_factory.h`, absent): the common fields and the
tool, armor and artifact slots, each of which may be missing. -/
structure runtime_itype extends itype where
  tool : Option islot_tool
  armor : Option islot_armor
  artifact : Option islot_artifact

/-- What one turn of the `for` loop of `save_artifacts` writes for the item type
`e`: nothing without an artifact slot (`continue`), the tool document of
`it_artifact_tool( *e )` with a tool slot, else the armor document of
`it_artifact_armor( *e )` with an armor slot, else nothing. -/
def save_artifact (e : runtime_itype) : Option JsonObject :=
  match e.artifact with
  | none => none
  | some artifact =>
    match e.tool with
    | some tool => some (it_artifact_tool.serialize { e.toitype with tool, artifact })
    | none =>
      match e.armor with
      | some armor => some (it_artifact_armor.serialize { e.toitype with armor, artifact })
      | none => none

/-- The loop of `save_artifacts` over the runtime types; `json` is the array
written so far. -/
def save_artifacts_loop : List runtime_itype → List JsonObject → List JsonObject
  | [], json => json
  | e :: rest, json =>
    match save_artifact e with
    | some jo => save_artifacts_loop rest (json ++ [jo])
    | none => save_artifacts_loop rest json

/-- The function `save_artifacts(path)`: the array it writes for the runtime
types of the item controller. -/
def save_artifacts (runtime_types : List runtime_itype) : List JsonObject :=
  save_artifacts_loop runtime_types []

/-- The `"type"` that the specification gives the element of an item type: one
element for each type with an artifact slot and a tool or armor slot, a tool
element when it has a tool slot, otherwise an armor element. -/
def runtime_itype.saved_type (e : runtime_itype) : Option String :=
  if e.artifact.isSome ∧ (e.tool.isSome ∨ e.armor.isSome) then
    some (if e.tool.isSome then "artifact_tool" else "artifact_armor")
  else none

/-- Four runtime types: a tool artifact, an armor artifact, an item type with an
artifact slot only, and a plain tool without an artifact slot. -/
def runtime_sample : List runtime_itype := [
  { toitype := { itype.init with id := "artifact_0" },
    tool := some islot_tool.init, armor := none, artifact := some islot_artifact.init },
  { toitype := { itype.init with id := "artifact_1" },
    tool := none, armor := some islot_armor.init, artifact := some islot_artifact.init },
  { toitype := { itype.init with id := "artifact_2" },
    tool := none, armor := none, artifact := some islot_artifact.init },
  { toitype := { itype.init with id := "hammer" },
    tool := some islot_tool.init, armor := none, artifact := none }]

/-- The elements of an array value (none for a value that is no array). -/
def JsonValue.elements : JsonValue → List JsonValue
  | .arr xs => xs
  | _ => []

/-- The armor record that `new_artifact` registers on the stream `5, 7, 9, ...`:
the "Robe of Silent Illusion", a Robe with the "very thin and light" mod. -/
def light_robe : it_artifact_armor :=
  (new_artifact_armor plain_env "artifact_0" (one_in 2 (fun n => 2 * n + 5)).2).1

/-- The fallback of a family pick of `new_natural_artifact`, e.g.
`art_effect_passive(rng(AEP_NULL + 1, AEP_SPLIT - 1))`, with `lo` and `hi` the
bounds written at that pick. -/
def natural_fallback (lo hi : Int) (g : RNG) : Nat := (rng lo hi g).1.toNat

/-- The raw draws `0, 0, 0, 2, 0, 0, 17, 0, 0, ...`: shape 1, the draws of volume
and weight, layout 3, then for the bad passive pick the hint 0, a successful
`one_in(4)` and the raw draw 17 of the fallback. -/
def fallback_stream : RNG := fun n => [0, 0, 0, 2, 0, 0, 17].getD n 0

/-- The condition of the worn-effects loop as the specification words it: the
last disjunct is `nb < 3` and a successful `one_in(3 - nb)`. -/
def spec_worn_cond (s : sel_state) : Cond :=
  .and (.pure (!s.good_effects.isEmpty)) <| .and (.pure (!s.bad_effects.isEmpty)) <|
  .and (.pure (s.num_good < 3)) <| .and (.pure (s.num_bad < 3)) <|
  .or (.pure (s.num_good < 1)) <| .or (one_in (s.num_good * 2)) <|
  .or (.pure (s.value > 1)) (.and (.pure (s.num_bad < 3)) (one_in (3 - s.num_bad)))

/-- The disjunction of the worn-effects loop condition, evaluated from left to
right with short-circuit: `num_good < 1 || one_in(num_good * 2) || value > 1 ||
(num_bad < 3 && !one_in(3 - num_bad))`. -/
def worn_disjunction (s : sel_state) : Cond :=
  .or (.pure (s.num_good < 1)) <| .or (one_in (s.num_good * 2)) <|
  .or (.pure (s.value > 1)) (.and (.pure (s.num_bad < 3)) (.not (one_in (3 - s.num_bad))))

/-- The state in which the worn loop of `new_artifact` starts, on a random
source whose raw draws are 0, 14, 1, 0, 0, ... -/
def worn_start : sel_state :=
  sel_init (fun n => [0, 14, 1, 0].getD n 0) AEP_NULL fill_good_passive fill_bad_passive [] 0

/-- The state of the worn loop after its first turn from `worn_start`: the good
effect 15, of cost 1, was drawn, so `num_good = 1`, `num_bad = 0`, `value = 1`,
and the next raw draws are 1 and 0. -/
def worn_probe : sel_state :=
  worn_body { worn_start with rng := (worn_cond worn_start worn_start.rng).2 }

/-- The value of the gate `!one_in(4)` of `// Modify the armor further`. -/
def armor_mod_gate (g : RNG) : Bool := (Cond.not (one_in 4) g).1

/-- The entry of `available_mods` that the block reads when the gate passes:
`info->available_mods[rng(0, 4)]`. -/
def armor_mod_entry (info : artifact_armor_form_datum) (g : RNG) : Nat :=
  info.available_mods.getD (rng 0 4 (Cond.not (one_in 4) g).2).1.toNat 0

/-- The random source of the armor branch when `// Modify the armor further`
starts: after the draw of the form and the draws of the name. -/
def armor_mod_rng (env : Env) (id : String) (g : RNG) : RNG :=
  ((it_artifact_armor.new id).create_name env
    (env.gettext (artifact_armor_form_data.getD
      (rng (ARTARMFORM_NULL + 1) (NUM_ARTARMFORMS - 1) g).1.toNat .none).name)
    (rng (ARTARMFORM_NULL + 1) (NUM_ARTARMFORMS - 1) g).2).2

/-- The raw draws 1, 3, 0, 0, 1, 4, 0, ...: the armor branch, the form Helm, the
two draws of the name, a gate that passes (`one_in(4)` fails), and the index 4
of `available_mods`. -/
def helm_stream : RNG := fun n => [1, 3, 0, 0, 1, 4].getD n 0

/-- The armor record that `new_artifact` registers on `helm_stream`: the "Helm of
Forbidden Technique". -/
def plain_helm : it_artifact_armor :=
  (new_artifact_armor plain_env "artifact_0" (one_in 2 helm_stream).2).1

/-- The sum of the catalog costs of a list of passive effects. -/
def passive_cost_sum (l : List Nat) : Int := (l.map (fun e => passive_effect_cost.getD e 0)).sum

/-- The sum of the catalog costs of a list of active effects. -/
def active_cost_sum (l : List Nat) : Int := (l.map (fun e => active_effect_cost.getD e 0)).sum

/-- The layout roll `rng(1, 3)` of `new_natural_artifact` and the random source
after it. -/
def natural_roll (env : Env) (id : String) (prop : Nat) (g : RNG) : Int × RNG :=
  rng 1 3 (natural_base env id prop g).2.2

/-- The state in which the rejection loop of `new_natural_artifact` ends. -/
def natural_final (env : Env) (id : String) (prop : Nat) (g : RNG) : natural_state :=
  natural_loop (natural_base env id prop g).2.1
    (natural_layout.of_roll (natural_roll env id prop g).1)
    (natural_init (natural_roll env id prop g).2)

/-- One run of a loop body with its effect on the accumulated value: either an
entry of the good pool is drawn, which happens only when the value is at most
`limit`, or an entry of the bad pool is drawn; the entry leaves its pool, its
counter grows by one, its catalog cost is added to the value, and it is
appended to the effect list. -/
def sel_draw (cost : List Int) (limit : Int) (s t : sel_state) : Prop :=
  (∃ i, ∃ h : i < s.good_effects.length,
      s.value ≤ limit ∧ t.num_good = s.num_good + 1 ∧ t.num_bad = s.num_bad ∧
      t.value = s.value + cost.getD s.good_effects[i] 0 ∧
      t.effects = s.effects ++ [s.good_effects[i]] ∧
      t.good_effects = s.good_effects.eraseIdx i ∧ t.bad_effects = s.bad_effects) ∨
  (∃ i, ∃ h : i < s.bad_effects.length,
      t.num_good = s.num_good ∧ t.num_bad = s.num_bad + 1 ∧
      t.value = s.value + cost.getD s.bad_effects[i] 0 ∧
      t.effects = s.effects ++ [s.bad_effects[i]] ∧
      t.good_effects = s.good_effects ∧ t.bad_effects = s.bad_effects.eraseIdx i)

/-- The value facts kept by the three passive loops: the good pool costs between
1 and 50, the bad pool between -5 and -1, the value is the sum of the catalog
costs of the effect list, at most 50 and at least -5 per bad effect drawn, and
without a bad effect there is at most one good effect, which leaves a value of
at least 1. -/
def sel_valued_passive (s : sel_state) : Prop :=
  (∀ e ∈ s.good_effects,
    1 ≤ passive_effect_cost.getD e 0 ∧ passive_effect_cost.getD e 0 ≤ 50) ∧
  (∀ e ∈ s.bad_effects,
    -5 ≤ passive_effect_cost.getD e 0 ∧ passive_effect_cost.getD e 0 ≤ -1) ∧
  0 ≤ s.num_good ∧ 0 ≤ s.num_bad ∧ s.num_bad ≤ 3 ∧
  s.value = passive_cost_sum s.effects ∧
  s.value ≤ 50 ∧ -5 * s.num_bad ≤ s.value ∧
  (s.num_bad = 0 → s.num_good ≤ 1 ∧ (s.num_good = 1 → 1 ≤ s.value))

/-- The value facts kept by the activated loop: the good pool costs between 0
and 6, the bad pool is duplicate-free and costs at most 0 and at least -4, but
for `AEA_ATTENTION` (-6) and `AEA_SHADOWS` (-5); the value is the sum of the
catalog costs of the effect list, at most 7, and at least -4 per bad effect
drawn, less 2 once `AEA_ATTENTION` is drawn and less 1 once `AEA_SHADOWS` is. -/
def sel_valued_active (s : sel_state) : Prop :=
  (∀ e ∈ s.good_effects,
    0 ≤ active_effect_cost.getD e 0 ∧ active_effect_cost.getD e 0 ≤ 6) ∧
  (∀ e ∈ s.bad_effects, active_effect_cost.getD e 0 ≤ 0 ∧
    (e ≠ AEA_ATTENTION → e ≠ AEA_SHADOWS → -4 ≤ active_effect_cost.getD e 0)) ∧
  s.bad_effects.Nodup ∧
  0 ≤ s.num_bad ∧ s.num_bad ≤ 3 ∧
  s.value = active_cost_sum s.effects ∧
  s.value ≤ 7 ∧
  -4 * s.num_bad - (if AEA_ATTENTION ∈ s.bad_effects then 0 else 2) -
    (if AEA_SHADOWS ∈ s.bad_effects then 0 else 1) ≤ s.value

/-- The bounds on the declared power of a record: the sums of the catalog costs
over the wielded, the carried and the worn effects each lie in `[-15, 50]`, and
the sum over the activated effects lies in `[-15, 7]`. -/
def islot_artifact.cost_bounded (a : islot_artifact) : Prop :=
  (-15 ≤ passive_cost_sum a.effects_wielded ∧ passive_cost_sum a.effects_wielded ≤ 50) ∧
  (-15 ≤ passive_cost_sum a.effects_carried ∧ passive_cost_sum a.effects_carried ≤ 50) ∧
  (-15 ≤ passive_cost_sum a.effects_worn ∧ passive_cost_sum a.effects_worn ≤ 50) ∧
  (-15 ≤ active_cost_sum a.effects_activated ∧ active_cost_sum a.effects_activated ≤ 7)

/-- The facts kept by the wielded loop of `new_artifact`: the value facts of a
passive loop, pools that hold the 19 good and 18 bad ids less those drawn, at
most 3 good effects, one list entry per effect counted, a bad pool of bad ids,
and a bad id in the list once a bad effect was drawn; the counters are at
most 3 and never both 3. -/
def sel_wielded_inv (s : sel_state) : Prop :=
  sel_valued_passive s ∧
  (s.good_effects.length : Int) + s.num_good = 19 ∧
  (s.bad_effects.length : Int) + s.num_bad = 18 ∧
  s.num_good ≤ 3 ∧ s.num_good + s.num_bad ≤ 5 ∧
  (s.effects.length : Int) = s.num_good + s.num_bad ∧
  (∀ e ∈ s.bad_effects, e ∈ fill_bad_passive) ∧
  (1 ≤ s.num_bad → ∃ e ∈ s.effects, e ∈ fill_bad_passive)

/-- The states in which the wielded loop can stop: a good and a bad effect were
drawn, or three bad effects, or three good effects. -/
def wielded_exit (s : sel_state) : Prop :=
  (1 ≤ s.num_good ∧ 1 ≤ s.num_bad) ∨ s.num_bad = 3 ∨ s.num_good = 3

/-- The document `jo` without its member `name`. -/
def JsonObject.without (jo : JsonObject) (name : String) : JsonObject :=
  jo.filter (fun p => p.1 != name)

/-- The members that both decoders read with a getter that fails on a missing
member (`get_string`, `get_int`; `sym` by either of the two). -/
def common_required_members : List String :=
  ["id", "name", "description", "sym", "color", "price", "volume", "weight", "melee_dam",
   "melee_cut", "m_to_hit"]

/-- The members that `it_artifact_tool::deserialize` reads with a getter that
fails on a missing member (`get_string`, `get_int`, `get_long`). -/
def tool_required_members : List String :=
  common_required_members ++
  ["max_charges", "def_charges", "charges_per_use", "turns_per_charge", "ammo", "revert_to",
   "charge_type"]

/-- The members that `it_artifact_armor::deserialize` reads with a getter that
fails on a missing member (`get_string`, `get_int`, `get_bool`). -/
def armor_required_members : List String :=
  common_required_members ++
  ["encumber", "coverage", "material_thickness", "env_resist", "warmth", "storage",
   "power_armor"]

/-- The members of a written tool document that may be missing: `materials` is
read under `has_array`, `item_flags` by `get_tags` and the effect arrays by
`get_array`, which give an empty value for a missing member, and `techniques`
is not read. -/
def tool_optional_members : List String :=
  ["materials", "item_flags", "techniques", "effects_wielded", "effects_activated",
   "effects_carried"]

/-- The members of a written armor document that may be missing: those of the
tool document that the armor document has, `covers`, read by the non-throwing
`jo.read`, and `effects_worn`, read by `get_array`. -/
def armor_optional_members : List String :=
  ["materials", "item_flags", "techniques", "covers", "effects_worn"]

/-- The states in which the worn loop can stop: a good effect was drawn, or
three bad effects. -/
def worn_exit (s : sel_state) : Prop := 1 ≤ s.num_good ∨ s.num_bad = 3

/-- The armor record that `new_artifact` registers on the stream `3, 10, 17, ...`:
the "Helm of Eldritch Suffering", with the worn effects 37, 36 and 21. -/
def sample_armor : it_artifact_armor :=
  (new_artifact_armor plain_env "artifact_1" (one_in 2 (fun n => 7 * n + 3)).2).1

/-- The facts that keep a selection loop free of repetition: the effect list and
both pools are duplicate-free, no listed effect is left in a pool, and the two
pools share no id. -/
def sel_distinct (s : sel_state) : Prop :=
  s.effects.Nodup ∧ s.good_effects.Nodup ∧ s.bad_effects.Nodup ∧
  (∀ e ∈ s.effects, e ∉ s.good_effects ∧ e ∉ s.bad_effects) ∧
  (∀ e ∈ s.good_effects, e ∉ s.bad_effects)

/-- An artifact slot none of whose effect lists holds an id twice. -/
def islot_artifact.distinct (a : islot_artifact) : Prop :=
  a.effects_wielded.Nodup ∧ a.effects_carried.Nodup ∧ a.effects_activated.Nodup ∧
  a.effects_worn.Nodup

/-- The volume that a round trip through a document gives: the division by
`units::legacy_volume_factor` of the encoder (C++ integer division) followed by
the multiplication of the decoder. -/
def legacy_round (v : Int) : Int := Int.tdiv v legacy_volume_factor * legacy_volume_factor

/-- The list `[s]` if the document has the string member `name` with the value
`s`, and the empty list otherwise. -/
def JsonObject.string_field (jo : JsonObject) (name : String) : List String :=
  match jo.member name with
  | some (.str s) => [s]
  | _ => []

/-- The elements of the array member `name` if the document has it, and the
empty list otherwise. -/
def JsonObject.array_field (jo : JsonObject) (name : String) : List JsonValue :=
  match jo.member name with
  | some (.arr xs) => xs
  | _ => []

/-- A document with both legacy members and a `materials` array of one entry. -/
def mixed_materials_doc : JsonObject :=
  ("materials", .arr [.str "stone"]) :: legacy_tool_doc

/-- One evaluation of a subscript expression `table[index]`: the index and the
number of elements of the indexed array. -/
structure subscript where
  index : Int
  extent : Nat
deriving DecidableEq, Repr

/-- The subscript is inside the array: `0 <= index < extent`. -/
abbrev subscript.in_bounds (a : subscript) : Prop := 0 ≤ a.index ∧ a.index < a.extent

/-- The subscripts into a cost catalog made by a selection loop of
`new_artifact`. Each turn evaluates `cost[tmp]` for the effect `tmp` it drew and
then appends `tmp` to the effect list (`value += passive_effect_cost[passive_tmp];`
`effects.push_back(passive_tmp);`), and the list of the record starts empty, so
the subscripts of the loop are the entries of the finished list, in order. -/
def cost_subscripts (cost : List Int) (effects : List Nat) : List subscript :=
  effects.map (fun (e : Nat) => ⟨(e : Int), cost.length⟩)

/-- Tool branch up to the base weapon: `artifact_tool_form_data[form]` and
`artifact_weapon_data[info->base_weapon]`. -/
def tool_base_subscripts (g : RNG) : List subscript :=
  let form := rng (ARTTOOLFORM_NULL + 1) (NUM_ARTTOOLFORMS - 1) g
  let info := artifact_tool_form_data.getD form.1.toNat .none
  [⟨form.1, artifact_tool_form_data.length⟩, ⟨info.base_weapon, artifact_weapon_data.length⟩]

/-- Tool branch, the block `// Add an extra weapon perhaps?`:
`info->extra_weapons[select]` in the test and, when the entry is not
`ARTWEAP_NULL`, once more inside `artifact_weapon_data[ info->extra_weapons[select] ]`. -/
def tool_extra_weapon_subscripts (info : artifact_tool_form_datum) (g : RNG) : List subscript :=
  let c := one_in 2 g
  if c.1 then
    let select := rng 0 2 c.2
    if info.extra_weapons.getD select.1.toNat 0 != ARTWEAP_NULL then
      [⟨select.1, info.extra_weapons.length⟩, ⟨select.1, info.extra_weapons.length⟩,
       ⟨info.extra_weapons.getD select.1.toNat 0, artifact_weapon_data.length⟩]
    else [⟨select.1, info.extra_weapons.length⟩]
  else []

/-- The subscripts evaluated by the tool branch of `new_artifact`, in order: the
form, the base weapon, the extra weapon, and the cost catalogs in the wielded,
the carried and the activated loop. -/
def new_artifact_tool_subscripts (env : Env) (id : String) (g : RNG) : List subscript :=
  let base := tool_base env (it_artifact_tool.new id) g
  let art := (new_artifact_tool env id g).1
  tool_base_subscripts g ++ tool_extra_weapon_subscripts base.2.1 base.2.2 ++
    cost_subscripts passive_effect_cost art.artifact.effects_wielded ++
    cost_subscripts passive_effect_cost art.artifact.effects_carried ++
    cost_subscripts active_effect_cost art.artifact.effects_activated

/-- Armor branch, `// Modify the armor further`: `info->available_mods[index]`
in the test and, when the entry is not `ARMORMOD_NULL`, once more for `mod`,
then `artifact_armor_mod_data[mod]`. -/
def armor_modify_subscripts (info : artifact_armor_form_datum) (g : RNG) : List subscript :=
  let c := Cond.not (one_in 4) g
  if c.1 then
    let index := rng 0 4 c.2
    if info.available_mods.getD index.1.toNat 0 != ARMORMOD_NULL then
      [⟨index.1, info.available_mods.length⟩, ⟨index.1, info.available_mods.length⟩,
       ⟨info.available_mods.getD index.1.toNat 0, artifact_armor_mod_data.length⟩]
    else [⟨index.1, info.available_mods.length⟩]
  else []

/-- The subscripts evaluated by the armor branch of `new_artifact`, in order:
the form, the mod, and the passive cost catalog in the worn loop. -/
def new_artifact_armor_subscripts (env : Env) (id : String) (g : RNG) : List subscript :=
  let form := rng (ARTARMFORM_NULL + 1) (NUM_ARTARMFORMS - 1) g
  let info := artifact_armor_form_data.getD form.1.toNat .none
  let art := (new_artifact_armor env id g).1
  [⟨form.1, artifact_armor_form_data.length⟩] ++
    armor_modify_subscripts info (armor_mod_rng env id g) ++
    cost_subscripts passive_effect_cost art.artifact.effects_worn

/-- The subscripts evaluated by `new_artifact()`: those of the branch taken. -/
def new_artifact_subscripts (env : Env) (id : String) (g : RNG) : List subscript :=
  if (one_in 2 g).1 then new_artifact_tool_subscripts env id (one_in 2 g).2
  else new_artifact_armor_subscripts env id (one_in 2 g).2

/-- First part of `new_natural_artifact(prop)`: `artifact_shape_data[shape]` and
`artifact_property_data[property]`. -/
def natural_base_subscripts (prop : Nat) (g : RNG) : List subscript :=
  let shape := rng (ARTSHAPE_NULL + 1) (ARTSHAPE_MAX - 1) g
  let pick := rng (ARTPROP_NULL + 1) (ARTPROP_MAX - 1) shape.2
  let property : Int := if prop > ARTPROP_NULL then (prop : Int) else pick.1
  [⟨shape.1, artifact_shape_data.length⟩, ⟨property, artifact_property_data.length⟩]

/-- One family pick of the rejection loop: the hint array at `rng(0, 3)`. -/
def natural_pick_subscripts (hints : List Nat) (g : RNG) : List subscript :=
  [⟨(rng 0 3 g).1, hints.length⟩]

/-- One attempt of the rejection loop: a hint array for each pick that the
layout makes, then the two cost catalogs at the four picks
(`passive_effect_cost[aep_good] + passive_effect_cost[aep_bad] +`
`active_effect_cost[aea_good] + active_effect_cost[aea_bad]`). -/
def natural_attempt_subscripts (pd : artifact_property_datum) (l : natural_layout)
    (s : natural_state) : List subscript :=
  let gp := if l.good_passive
    then natural_pick pd.passive_good AEP_NULL (AEP_NULL + 1) (AEP_SPLIT - 1) s.rng
    else (s.aep_good, s.rng)
  let bp := if l.bad_passive
    then natural_pick pd.passive_bad AEP_NULL (AEP_SPLIT + 1) (NUM_AEAS - 1) gp.2
    else (s.aep_bad, gp.2)
  let ga := if l.good_active
    then natural_pick pd.active_good AEA_NULL (AEA_NULL + 1) (AEA_SPLIT - 1) bp.2
    else (s.aea_good, bp.2)
  (if l.good_passive then natural_pick_subscripts pd.passive_good s.rng else []) ++
  (if l.bad_passive then natural_pick_subscripts pd.passive_bad gp.2 else []) ++
  (if l.good_active then natural_pick_subscripts pd.active_good bp.2 else []) ++
  (if l.bad_active then natural_pick_subscripts pd.active_bad ga.2 else []) ++
  [⟨(natural_attempt pd l s).aep_good, passive_effect_cost.length⟩,
   ⟨(natural_attempt pd l s).aep_bad, passive_effect_cost.length⟩,
   ⟨(natural_attempt pd l s).aea_good, active_effect_cost.length⟩,
   ⟨(natural_attempt pd l s).aea_bad, active_effect_cost.length⟩]

/-- The subscripts of the whole `do ... while (value > value_to_reach)` loop:
those of each attempt, in order. -/
@[semireducible] def natural_loop_subscripts (pd : artifact_property_datum)
    (l : natural_layout) (s : natural_state) : List subscript :=
  if (natural_attempt pd l s).value > (natural_attempt pd l s).value_to_reach then
    natural_attempt_subscripts pd l s ++ natural_loop_subscripts pd l (natural_attempt pd l s)
  else natural_attempt_subscripts pd l s
termination_by (112 - s.value_to_reach).toNat
decreasing_by
  rename_i h
  have hp : ∀ i : Nat, passive_effect_cost.getD i 0 ≤ 50 := by
    intro i
    by_cases hi : i < 39
    · interval_cases i <;> decide
    · rw [List.getD_eq_default _ _ (by simpa [passive_effect_cost] using hi)]; decide
  have ha : ∀ i : Nat, active_effect_cost.getD i 0 ≤ 6 := by
    intro i
    by_cases hi : i < 31
    · interval_cases i <;> decide
    · rw [List.getD_eq_default _ _ (by simpa [active_effect_cost] using hi)]; decide
  have hv : (natural_attempt pd l s).value ≤ 50 + 50 + 6 + 6 :=
    add_le_add (add_le_add (add_le_add (hp _) (hp _)) (ha _)) (ha _)
  have hr : (natural_attempt pd l s).value_to_reach = s.value_to_reach + 1 := rfl
  omega

/-- The subscripts evaluated by `new_natural_artifact(prop)`, in order: the
shape, the property, and those of the rejection loop. -/
def new_natural_artifact_subscripts (env : Env) (id : String) (prop : Nat) (g : RNG) :
    List subscript :=
  natural_base_subscripts prop g ++
    natural_loop_subscripts (natural_base env id prop g).2.1
      (natural_layout.of_roll (natural_roll env id prop g).1)
      (natural_init (natural_roll env id prop g).2)

/-- The subscripts evaluated by `architects_cube()`:
`artifact_tool_form_data[ARTTOOLFORM_CUBE]` and
`artifact_weapon_data[info->base_weapon]`. -/
def architects_cube_subscripts : List subscript :=
  let info := artifact_tool_form_data.getD ARTTOOLFORM_CUBE .none
  [⟨(ARTTOOLFORM_CUBE : Nat), artifact_tool_form_data.length⟩,
   ⟨info.base_weapon, artifact_weapon_data.length⟩]

/-! # Theorems -/

/-! ## The random primitives -/

/-- The result of `rng(a, b)` lies between the smaller and the larger bound. -/
theorem rng_between (a b : Int) (g : RNG) :
    min a b ≤ (rng a b g).1 ∧ (rng a b g).1 ≤ max a b := by
  unfold rng
  by_cases h : a < b
  · have hpos : (0 : Int) < b - a + 1 := by omega
    have h1 := Int.emod_nonneg (g 0 : Int) (ne_of_gt hpos)
    have h2 := Int.emod_lt_of_pos (g 0 : Int) hpos
    simp only [h, if_true]
    rw [min_eq_left h.le, max_eq_right h.le]
    constructor <;> omega
  · have hpos : (0 : Int) < a - b + 1 := by omega
    have h1 := Int.emod_nonneg (g 0 : Int) (ne_of_gt hpos)
    have h2 := Int.emod_lt_of_pos (g 0 : Int) hpos
    simp only [h, if_false]
    rw [min_eq_right (not_lt.mp h), max_eq_left (not_lt.mp h)]
    constructor <;> omega

/-- For `a <= b`, the result of `rng(a, b)` lies in `[a, b]`. -/
theorem rng_mem (a b : Int) (g : RNG) (h : a ≤ b) :
    a ≤ (rng a b g).1 ∧ (rng a b g).1 ≤ b := by
  have := rng_between a b g
  rwa [min_eq_left h, max_eq_right h] at this

/-- The index drawn by `random_entry_removed` is inside a non-empty container. -/
theorem random_index_lt (l : List Nat) (g : RNG) (h : l ≠ []) :
    (rng 0 ((l.length : Int) - 1) g).1.toNat < l.length := by
  have hl : 0 < l.length := List.length_pos.mpr h
  have := rng_mem 0 ((l.length : Int) - 1) g (by omega)
  omega

/-- The element returned by `random_entry_removed` belongs to the container. -/
theorem random_entry_removed_mem (l : List Nat) (g : RNG) (h : l ≠ []) :
    (random_entry_removed l g).1 ∈ l := by
  have hi := random_index_lt l g h
  simp only [random_entry_removed]
  rw [List.getD_eq_getElem _ _ hi]
  exact List.getElem_mem _

/-- The container left by `random_entry_removed` is the old one without the
entry at the drawn index. -/
theorem random_entry_removed_rest (l : List Nat) (g : RNG) :
    (random_entry_removed l g).2.1 = l.eraseIdx (rng 0 ((l.length : Int) - 1) g).1.toNat := rfl

/-- A true `a && b` means that both operands were evaluated and true. -/
theorem Cond.and_true {a c : Cond} {g : RNG} (h : (Cond.and a c g).1 = true) :
    (a g).1 = true ∧ (c (a g).2).1 = true := by
  unfold Cond.and at h; split at h <;> simp_all

/-! ## The selection loops -/

/-- Drawing from a non-empty good pool is a step of the loop. -/
theorem draw_good_step (s : sel_state) (g : RNG) (h : s.good_effects ≠ []) :
    sel_step s (push_passive (draw_good s g)) := by
  have hi := random_index_lt s.good_effects g h
  left
  refine ⟨_, hi, ?_⟩
  simp [push_passive, draw_good, random_entry_removed, List.getElem?_eq_getElem hi]

/-- Drawing from a non-empty bad pool is a step of the loop. -/
theorem draw_bad_step (s : sel_state) (g : RNG) (h : s.bad_effects ≠ []) :
    sel_step s (push_passive (draw_bad s g)) := by
  have hi := random_index_lt s.bad_effects g h
  right
  refine ⟨_, hi, ?_⟩
  simp [push_passive, draw_bad, random_entry_removed, List.getElem?_eq_getElem hi]

/-- A true wielded condition puts the state inside the loop. -/
theorem wielded_cond_in_loop {s : sel_state} {g : RNG} (h : (wielded_cond s g).1 = true) :
    s.in_loop := by
  obtain ⟨h1, h⟩ := Cond.and_true h
  obtain ⟨h2, h⟩ := Cond.and_true h
  obtain ⟨h3, h⟩ := Cond.and_true h
  obtain ⟨h4, -⟩ := Cond.and_true h
  simp only [Cond.pure, Bool.not_eq_true', List.isEmpty_eq_false, decide_eq_true_eq] at h1 h2 h3 h4
  exact ⟨h1, h2, h3, h4⟩

/-- Inside the loop, the wielded body is a step. -/
theorem wielded_body_step (s : sel_state) (h : s.in_loop) : sel_step s (wielded_body s) := by
  obtain ⟨hg, hb, -, -⟩ := h
  unfold wielded_body
  simp only
  split
  · exact draw_good_step s _ hg
  · have : s.bad_effects.isEmpty = false := by simpa using hb
    simp only [this, Bool.not_false, if_true]
    exact draw_bad_step s _ hb

/-- Invariance principle for the wielded loop: a property that does not depend
on the random source and is kept by every step holds when the loop ends. -/
theorem wielded_loop_inv (P : sel_state → Prop)
    (hrng : ∀ s g, P s → P { s with rng := g })
    (hstep : ∀ s t, P s → s.in_loop → sel_step s t → P t) (s : sel_state) (h : P s) :
    P (wielded_loop s) := by
  induction s using wielded_loop.induct with
  | case1 s hc ih =>
    rw [wielded_loop, if_pos hc]
    apply ih
    have hin : ({ s with rng := (wielded_cond s s.rng).2 } : sel_state).in_loop :=
      wielded_cond_in_loop hc
    exact hstep _ _ (hrng s _ h) hin (wielded_body_step _ hin)
  | case2 s hc =>
    rw [wielded_loop, if_neg hc]
    exact hrng s _ h

/-- A true carried condition puts the state inside the loop. -/
theorem carried_cond_in_loop {s : sel_state} {g : RNG} (h : (carried_cond s g).1 = true) :
    s.in_loop := by
  obtain ⟨-, h⟩ := Cond.and_true h
  obtain ⟨h1, h⟩ := Cond.and_true h
  obtain ⟨h2, h⟩ := Cond.and_true h
  obtain ⟨h3, h⟩ := Cond.and_true h
  obtain ⟨h4, -⟩ := Cond.and_true h
  simp only [Cond.pure, Bool.not_eq_true', List.isEmpty_eq_false, decide_eq_true_eq] at h1 h2 h3 h4
  exact ⟨h1, h2, h3, h4⟩

/-- Inside the loop, the carried body is a step. -/
theorem carried_body_step (s : sel_state) (h : s.in_loop) : sel_step s (carried_body s) := by
  obtain ⟨hg, hb, -, -⟩ := h
  unfold carried_body
  simp only
  split
  · exact draw_good_step s _ hg
  · exact draw_bad_step s _ hb

/-- Invariance principle for the carried loop: a property that does not depend
on the random source and is kept by every step holds when the loop ends. -/
theorem carried_loop_inv (P : sel_state → Prop)
    (hrng : ∀ s g, P s → P { s with rng := g })
    (hstep : ∀ s t, P s → s.in_loop → sel_step s t → P t) (s : sel_state) (h : P s) :
    P (carried_loop s) := by
  induction s using carried_loop.induct with
  | case1 s hc ih =>
    rw [carried_loop, if_pos hc]
    apply ih
    have hin : ({ s with rng := (carried_cond s s.rng).2 } : sel_state).in_loop :=
      carried_cond_in_loop hc
    exact hstep _ _ (hrng s _ h) hin (carried_body_step _ hin)
  | case2 s hc =>
    rw [carried_loop, if_neg hc]
    exact hrng s _ h

/-- A true activated condition puts the state inside the loop. -/
theorem activated_cond_in_loop {s : sel_state} {g : RNG} (h : (activated_cond s g).1 = true) :
    s.in_loop := by
  obtain ⟨h1, h⟩ := Cond.and_true h
  obtain ⟨h2, h⟩ := Cond.and_true h
  obtain ⟨h3, h⟩ := Cond.and_true h
  obtain ⟨h4, -⟩ := Cond.and_true h
  simp only [Cond.pure, Bool.not_eq_true', List.isEmpty_eq_false, decide_eq_true_eq] at h1 h2 h3 h4
  exact ⟨h1, h2, h3, h4⟩

/-- Inside the loop, the activated body is a step. -/
theorem activated_body_step (s : sel_state) (h : s.in_loop) :
    sel_step s (activated_body s) := by
  obtain ⟨hg, hb, -, -⟩ := h
  unfold activated_body
  simp only
  split
  · have hi := random_index_lt s.good_effects
      (Cond.and (Cond.not (one_in 3)) (Cond.pure (decide (s.value ≤ 1))) s.rng).2 hg
    left
    refine ⟨_, hi, ?_⟩
    simp [draw_good, random_entry_removed, List.getElem?_eq_getElem hi]
  · have hi := random_index_lt s.bad_effects
      (Cond.and (Cond.not (one_in 3)) (Cond.pure (decide (s.value ≤ 1))) s.rng).2 hb
    right
    refine ⟨_, hi, ?_⟩
    simp [draw_bad, random_entry_removed, List.getElem?_eq_getElem hi]

/-- Invariance principle for the activated loop: a property that does not depend
on the random source and is kept by every step holds when the loop ends. -/
theorem activated_loop_inv (P : sel_state → Prop)
    (hrng : ∀ s g, P s → P { s with rng := g })
    (hstep : ∀ s t, P s → s.in_loop → sel_step s t → P t) (s : sel_state) (h : P s) :
    P (activated_loop s) := by
  induction s using activated_loop.induct with
  | case1 s hc ih =>
    rw [activated_loop, if_pos hc]
    apply ih
    have hin : ({ s with rng := (activated_cond s s.rng).2 } : sel_state).in_loop :=
      activated_cond_in_loop hc
    exact hstep _ _ (hrng s _ h) hin (activated_body_step _ hin)
  | case2 s hc =>
    rw [activated_loop, if_neg hc]
    exact hrng s _ h

/-- A true worn condition puts the state inside the loop. -/
theorem worn_cond_in_loop {s : sel_state} {g : RNG} (h : (worn_cond s g).1 = true) :
    s.in_loop := by
  obtain ⟨h1, h⟩ := Cond.and_true h
  obtain ⟨h2, h⟩ := Cond.and_true h
  obtain ⟨h3, h⟩ := Cond.and_true h
  obtain ⟨h4, -⟩ := Cond.and_true h
  simp only [Cond.pure, Bool.not_eq_true', List.isEmpty_eq_false, decide_eq_true_eq] at h1 h2 h3 h4
  exact ⟨h1, h2, h3, h4⟩

/-- Inside the loop, the worn body is a step. -/
theorem worn_body_step (s : sel_state) (h : s.in_loop) : sel_step s (worn_body s) := by
  obtain ⟨hg, hb, -, -⟩ := h
  unfold worn_body
  simp only
  split
  · exact draw_good_step s _ hg
  · exact draw_bad_step s _ hb

/-- Invariance principle for the worn loop: a property that does not depend
on the random source and is kept by every step holds when the loop ends. -/
theorem worn_loop_inv (P : sel_state → Prop)
    (hrng : ∀ s g, P s → P { s with rng := g })
    (hstep : ∀ s t, P s → s.in_loop → sel_step s t → P t) (s : sel_state) (h : P s) :
    P (worn_loop s) := by
  induction s using worn_loop.induct with
  | case1 s hc ih =>
    rw [worn_loop, if_pos hc]
    apply ih
    have hin : ({ s with rng := (worn_cond s s.rng).2 } : sel_state).in_loop :=
      worn_cond_in_loop hc
    exact hstep _ _ (hrng s _ h) hin (worn_body_step _ hin)
  | case2 s hc =>
    rw [worn_loop, if_neg hc]
    exact hrng s _ h

/-- A step inside the loop keeps the counting facts. -/
theorem sel_counted_step (s t : sel_state) (h : sel_counted s) (hin : s.in_loop)
    (hst : sel_step s t) : sel_counted t := by
  obtain ⟨h1, h2, h3, h4, h5, h6⟩ := h
  obtain ⟨-, -, hg, hb⟩ := hin
  rcases hst with ⟨i, hi, -, e1, e2, e3, -, -⟩ | ⟨i, hi, -, e1, e2, e3, -, -⟩
  · refine ⟨by omega, by omega, by omega, by omega, by omega, ?_⟩
    rw [e3, List.length_append, List.length_singleton]; push_cast; omega
  · refine ⟨by omega, by omega, by omega, by omega, by omega, ?_⟩
    rw [e3, List.length_append, List.length_singleton]; push_cast; omega

/-- The counting facts give the bounds of the final state. -/
theorem sel_counted_bounded {s : sel_state} (h : sel_counted s) : sel_bounded s := by
  obtain ⟨h1, h2, h3, h4, h5, h6⟩ := h
  exact ⟨h3, h4, h6, by omega⟩

/-- A loop started with zero counters and an empty effect list starts with the
counting facts. -/
theorem sel_counted_init (g : RNG) (tmp : Nat) (good bad : List Nat) (charges : Int) :
    sel_counted (sel_init g tmp good bad [] charges) := by
  simp [sel_counted, sel_init]

/-- C1: for every random source, each of the four selection loops of
`new_artifact` (wielded, carried and activated for tools, worn for armor), started
as `new_artifact` starts it (zero counters, fresh pools, empty effect list), ends
with `num_good <= 3`, `num_bad <= 3` and an effect list of exactly
`num_good + num_bad` entries, at most 5; each run of a loop body appends exactly
one entry, so each loop runs at most 5 times. -/
theorem selection_loops_bounded (g : RNG) (tmp : Nat) (charges : Int) :
    sel_bounded (wielded_loop (sel_init g tmp fill_good_passive fill_bad_passive [] charges)) ∧
    sel_bounded (carried_loop (sel_init g tmp fill_good_passive fill_bad_passive [] charges)) ∧
    sel_bounded (activated_loop (sel_init g tmp fill_good_active fill_bad_active [] charges)) ∧
    sel_bounded (worn_loop (sel_init g tmp fill_good_passive fill_bad_passive [] charges)) ∧
    (∀ s : sel_state,
      (wielded_body s).effects.length = s.effects.length + 1 ∧
      (carried_body s).effects.length = s.effects.length + 1 ∧
      (activated_body s).effects.length = s.effects.length + 1 ∧
      (worn_body s).effects.length = s.effects.length + 1) := by
  refine ⟨?_, ?_, ?_, ?_, ?_⟩
  · exact sel_counted_bounded (wielded_loop_inv sel_counted (fun _ _ h => h) sel_counted_step _
      (sel_counted_init _ _ _ _ _))
  · exact sel_counted_bounded (carried_loop_inv sel_counted (fun _ _ h => h) sel_counted_step _
      (sel_counted_init _ _ _ _ _))
  · exact sel_counted_bounded (activated_loop_inv sel_counted (fun _ _ h => h) sel_counted_step _
      (sel_counted_init _ _ _ _ _))
  · exact sel_counted_bounded (worn_loop_inv sel_counted (fun _ _ h => h) sel_counted_step _
      (sel_counted_init _ _ _ _ _))
  · intro s
    refine ⟨?_, ?_, ?_, ?_⟩
    · simp only [wielded_body, push_passive]
      split_ifs <;> simp [draw_good, draw_bad]
    · simp only [carried_body, push_passive]
      split_ifs <;> simp [draw_good, draw_bad]
    · simp only [activated_body]
      split_ifs <;> simp [draw_good, draw_bad]
    · simp only [worn_body, push_passive]
      split_ifs <;> simp [draw_good, draw_bad]

/-! ## No sentinel in an effect list -/

/-- A step keeps `sel_all Q`: the entry appended comes from a pool, and the
pools only shrink. -/
theorem sel_all_step (Q : Nat → Prop) (s t : sel_state) (h : sel_all Q s) (_hin : s.in_loop)
    (hst : sel_step s t) : sel_all Q t := by
  obtain ⟨hg, hb, he⟩ := h
  rcases hst with ⟨i, hi, -, -, -, e3, e4, e5⟩ | ⟨i, hi, -, -, -, e3, e4, e5⟩
  · refine ⟨?_, ?_, ?_⟩
    · intro e hm; rw [e4] at hm; exact hg e (List.mem_of_mem_eraseIdx hm)
    · rw [e5]; exact hb
    · intro e hm
      rw [e3, List.mem_append, List.mem_singleton] at hm
      rcases hm with hm | rfl
      · exact he e hm
      · exact hg _ (List.getElem_mem _)
  · refine ⟨?_, ?_, ?_⟩
    · rw [e4]; exact hg
    · intro e hm; rw [e5] at hm; exact hb e (List.mem_of_mem_eraseIdx hm)
    · intro e hm
      rw [e3, List.mem_append, List.mem_singleton] at hm
      rcases hm with hm | rfl
      · exact he e hm
      · exact hb _ (List.getElem_mem _)

/-- The passive pools hold neither the null nor the split sentinel. -/
theorem passive_pools_no_sentinel :
    (∀ e ∈ fill_good_passive, e ≠ AEP_NULL ∧ e ≠ AEP_SPLIT) ∧
    (∀ e ∈ fill_bad_passive, e ≠ AEP_NULL ∧ e ≠ AEP_SPLIT) := by decide

/-- The active pools hold neither the null nor the split sentinel. -/
theorem active_pools_no_sentinel :
    (∀ e ∈ fill_good_active, e ≠ AEA_NULL ∧ e ≠ AEA_SPLIT) ∧
    (∀ e ∈ fill_bad_active, e ≠ AEA_NULL ∧ e ≠ AEA_SPLIT) := by decide

/-- The passive loops start with pools and list free of sentinels. -/
theorem sel_all_init_passive (g : RNG) (tmp : Nat) (charges : Int) :
    sel_all (fun e => e ≠ AEP_NULL ∧ e ≠ AEP_SPLIT)
      (sel_init g tmp fill_good_passive fill_bad_passive [] charges) :=
  ⟨passive_pools_no_sentinel.1, passive_pools_no_sentinel.2, by simp [sel_init]⟩

/-- The activated loop starts with pools and list free of sentinels. -/
theorem sel_all_init_active (g : RNG) (tmp : Nat) (charges : Int) :
    sel_all (fun e => e ≠ AEA_NULL ∧ e ≠ AEA_SPLIT)
      (sel_init g tmp fill_good_active fill_bad_active [] charges) :=
  ⟨active_pools_no_sentinel.1, active_pools_no_sentinel.2, by simp [sel_init]⟩

/-- The block that adds an extra weapon leaves the tool and artifact slots alone. -/
theorem tool_extra_weapon_slots (env : Env) (info : artifact_tool_form_datum)
    (art : it_artifact_tool) (g : RNG) :
    (tool_extra_weapon env info art g).1.artifact = art.artifact ∧
    (tool_extra_weapon env info art g).1.tool = art.tool := by
  unfold tool_extra_weapon
  simp only
  split_ifs <;> exact ⟨rfl, rfl⟩

/-- Before the effects are picked, the tool and artifact slots are still as the
constructor left them. -/
theorem tool_described_slots (env : Env) (id : String) (g : RNG) :
    (tool_described env id g).1.artifact = islot_artifact.init ∧
    (tool_described env id g).1.tool = { islot_tool.init with charges_per_use := 1 } :=
  tool_extra_weapon_slots _ _ _ _

/-- The effect lists filled by `tool_effects` on a fresh artifact slot hold no
sentinel. -/
theorem tool_effects_no_sentinel (art : it_artifact_tool) (g : RNG)
    (h : art.artifact = islot_artifact.init) :
    (tool_effects art g).1.artifact.no_sentinel := by
  simp only [tool_effects, h, islot_artifact.init, islot_artifact.no_sentinel]
  refine ⟨?_, ?_, ?_, ?_⟩
  · exact (wielded_loop_inv _ (fun _ _ h => h) (sel_all_step _) _
      (sel_all_init_passive _ _ _)).2.2
  · exact (carried_loop_inv _ (fun _ _ h => h) (sel_all_step _) _
      (sel_all_init_passive _ _ _)).2.2
  · simp
  · exact (activated_loop_inv _ (fun _ _ h => h) (sel_all_step _) _
      (sel_all_init_active _ _ _)).2.2

/-- The worn list filled by `armor_effects` on a fresh artifact slot holds no
sentinel. -/
theorem armor_effects_no_sentinel (art : it_artifact_armor) (g : RNG)
    (h : art.artifact = islot_artifact.init) :
    (armor_effects art g).1.artifact.no_sentinel := by
  simp only [armor_effects, h, islot_artifact.init, islot_artifact.no_sentinel]
  refine ⟨by simp, by simp, ?_, by simp⟩
  exact (worn_loop_inv _ (fun _ _ h => h) (sel_all_step _) _ (sel_all_init_passive _ _ _)).2.2

/-- The block that modifies the armor leaves the artifact slot alone. -/
theorem armor_modify_artifact (env : Env) (info : artifact_armor_form_datum)
    (art : it_artifact_armor) (g : RNG) :
    (armor_modify env info art g).1.artifact = art.artifact := by
  unfold armor_modify
  simp only
  split_ifs <;> rfl

/-- Before the effects are picked, the artifact slot of the armor is still as
the constructor left it. -/
theorem armor_described_artifact (env : Env) (id : String) (g : RNG) :
    (armor_described env id g).1.artifact = islot_artifact.init :=
  armor_modify_artifact _ _ _ _

/-- A family pick of the natural-artifact loop is not the split sentinel when
no hint is and the fallback range `[lo, hi]` lies on one side of it. -/
theorem natural_pick_ne_split (hints : List Nat) (null split : Nat) (lo hi : Int) (g : RNG)
    (hh : ∀ e ∈ hints, e ≠ split) (h0 : split ≠ 0) (hlo : 0 ≤ lo) (hle : lo ≤ hi)
    (hs : (split : Int) < lo ∨ hi < (split : Int)) :
    (natural_pick hints null lo hi g).1 ≠ split := by
  unfold natural_pick
  simp only
  split
  · have := rng_mem lo hi
      (Cond.or (Cond.pure (hints.getD (rng 0 3 g).1.toNat 0 == null)) (one_in 4) (rng 0 3 g).2).2 hle
    intro h
    simp only at h
    omega
  · intro h
    simp only at h
    rcases Nat.lt_or_ge (rng 0 3 g).1.toNat hints.length with hi | hi
    · rw [List.getD_eq_getElem _ _ hi] at h
      exact hh _ (List.getElem_mem _) h
    · rw [List.getD_eq_default _ _ hi] at h
      exact h0 h.symm

/-- Every row of `artifact_property_data` is free of split sentinels. -/
theorem property_data_no_split : ∀ pd ∈ artifact_property_data, pd.no_split := by decide

/-- One attempt of the natural-artifact loop keeps the picks free of split
sentinels. -/
theorem natural_attempt_no_split (pd : artifact_property_datum) (l : natural_layout)
    (s : natural_state) (hpd : pd.no_split) (h : s.no_split) :
    (natural_attempt pd l s).no_split := by
  obtain ⟨h1, h2, h3, h4⟩ := h
  obtain ⟨p1, p2, p3, p4⟩ := hpd
  unfold natural_attempt natural_state.no_split
  simp only
  refine ⟨?_, ?_, ?_, ?_⟩
  · split
    · exact natural_pick_ne_split _ _ _ _ _ _ p1 (by decide) (by decide) (by decide)
        (Or.inr (by decide))
    · exact h1
  · split
    · exact natural_pick_ne_split _ _ _ _ _ _ p2 (by decide) (by decide) (by decide)
        (Or.inl (by decide))
    · exact h2
  · split
    · exact natural_pick_ne_split _ _ _ _ _ _ p3 (by decide) (by decide) (by decide)
        (Or.inr (by decide))
    · exact h3
  · split
    · exact natural_pick_ne_split _ _ _ _ _ _ p4 (by decide) (by decide) (by decide)
        (Or.inl (by decide))
    · exact h4

/-- The rejection loop ends with picks free of split sentinels. -/
theorem natural_loop_no_split (pd : artifact_property_datum) (l : natural_layout)
    (s : natural_state) (hpd : pd.no_split) (h : s.no_split) :
    (natural_loop pd l s).no_split := by
  induction s using natural_loop.induct pd l with
  | case1 s hc ih =>
    rw [natural_loop, if_pos hc]
    exact ih (natural_attempt_no_split pd l s hpd h)
  | case2 s hc =>
    rw [natural_loop, if_neg hc]
    exact natural_attempt_no_split pd l s hpd h

/-- The lists built after the rejection loop hold no sentinel when the picks
are free of split sentinels. -/
theorem natural_lists_no_sentinel (s : natural_state) (h : s.no_split) :
    (∀ e ∈ natural_carried s [], e ≠ AEP_NULL ∧ e ≠ AEP_SPLIT) ∧
    (∀ e ∈ natural_activated s [], e ≠ AEA_NULL ∧ e ≠ AEA_SPLIT) := by
  obtain ⟨h1, h2, h3, h4⟩ := h
  constructor
  · intro e he
    simp only [natural_carried, bne_iff_ne, ne_eq, List.nil_append] at he
    split_ifs at he <;> simp at he <;> rcases he with rfl | rfl <;> simp_all
  · intro e he
    simp only [natural_activated, bne_iff_ne, ne_eq, List.nil_append] at he
    split_ifs at he <;> simp at he <;> rcases he with rfl | rfl <;> simp_all

/-- The property row used by `new_natural_artifact` is a row of
`artifact_property_data`, hence free of split sentinels. -/
theorem natural_base_row (env : Env) (id : String) (prop : Nat) (g : RNG)
    (hprop : prop < ARTPROP_MAX) :
    (natural_base env id prop g).2.1.no_split := by
  have hpick := rng_mem (ARTPROP_NULL + 1) (ARTPROP_MAX - 1)
    (rng (ARTSHAPE_NULL + 1) (ARTSHAPE_MAX - 1) g).2 (by decide)
  have hlt : (if prop > ARTPROP_NULL then prop
      else (rng (ARTPROP_NULL + 1) (ARTPROP_MAX - 1)
        (rng (ARTSHAPE_NULL + 1) (ARTSHAPE_MAX - 1) g).2).1.toNat) <
      artifact_property_data.length := by
    have : artifact_property_data.length = ARTPROP_MAX := by decide
    rw [this]
    split
    · exact hprop
    · simp only [ARTPROP_NULL, ARTPROP_MAX] at hpick ⊢; omega
  show (artifact_property_data.getD _ _).no_split
  rw [List.getD_eq_getElem _ _ hlt]
  exact property_data_no_split _ (List.getElem_mem _)

/-- The effect lists built by `natural_effects` on a fresh artifact slot hold no
sentinel. -/
theorem natural_effects_no_sentinel (pd : artifact_property_datum) (art : it_artifact_tool)
    (g : RNG) (hpd : pd.no_split) (h : art.artifact = islot_artifact.init) :
    (natural_effects pd art g).1.artifact.no_sentinel := by
  have hp : AEP_NULL ≠ AEP_SPLIT := by decide
  have ha : AEA_NULL ≠ AEA_SPLIT := by decide
  have hs := natural_lists_no_sentinel _
    (natural_loop_no_split pd (natural_layout.of_roll (rng 1 3 g).1) (natural_init (rng 1 3 g).2)
      hpd ⟨hp, hp, ha, ha⟩)
  simp only [natural_effects, h, islot_artifact.init, islot_artifact.no_sentinel]
  exact ⟨by simp, hs.1, by simp, hs.2⟩

/-- C2: for every random source, and every caller-supplied property below
`ARTPROP_MAX`, no effect list of a record produced by `new_artifact`,
`new_natural_artifact` or `architects_cube` contains the null sentinel
(`AEP_NULL` / `AEA_NULL`) or the split sentinel (`AEP_SPLIT` / `AEA_SPLIT`). -/
theorem no_sentinel_in_effect_lists (env : Env) (id : String) (prop : Nat) (g : RNG)
    (hprop : prop < ARTPROP_MAX) :
    (new_artifact env id g).1.artifact.no_sentinel ∧
    (new_natural_artifact env id prop g).1.artifact.no_sentinel ∧
    (architects_cube env id g).1.artifact.no_sentinel := by
  refine ⟨?_, ?_, ?_⟩
  · unfold new_artifact
    split
    · exact tool_effects_no_sentinel _ _ (tool_described_slots env id _).1
    · exact armor_effects_no_sentinel _ _ (armor_described_artifact env id _)
  · exact natural_effects_no_sentinel _ _ _ (natural_base_row env id prop g hprop) rfl
  · simp [architects_cube, islot_artifact.no_sentinel, it_artifact_tool.create_name,
      it_artifact_tool.new, islot_artifact.init]
    decide

/-- Witness of C2: the statement at property 3 with the plain environment and a
concrete random stream. -/
theorem no_sentinel_in_effect_lists_witness :
    (3 < ARTPROP_MAX) ∧
    (new_artifact plain_env "artifact_1" (fun n => 7 * n + 3)).1.artifact.no_sentinel ∧
    (new_natural_artifact plain_env "artifact_1" 3 (fun n => 7 * n + 3)).1.artifact.no_sentinel ∧
    (architects_cube plain_env "artifact_1" (fun n => 7 * n + 3)).1.artifact.no_sentinel :=
  ⟨by decide, no_sentinel_in_effect_lists plain_env "artifact_1" 3 (fun n => 7 * n + 3)
    (by decide)⟩

/-! ## The codec -/

/-- An array of strings written by the encoder is read back unchanged. -/
theorem read_array_strings (name : String) (l : List String) :
    read_array (JsonValue.as_string name) (l.map JsonValue.str) = .ok l := by
  induction l with
  | nil => rfl
  | cons x xs ih => simp only [List.map_cons, read_array, JsonValue.as_string, ih]

/-- An array of effect ids written by `serialize_enum_vector_as_int` is read
back as the integers of the ids. -/
theorem read_array_ints (name : String) (l : List Nat) :
    read_array (JsonValue.as_int name) (l.map (fun (e : Nat) => JsonValue.int (e : Int))) =
      .ok (l.map (fun (e : Nat) => (e : Int))) := by
  induction l with
  | nil => rfl
  | cons x xs ih => simp only [List.map_cons, read_array, JsonValue.as_int, ih]

/-- Casting the integers of effect ids back gives the ids. -/
theorem toNat_cast_list (l : List Nat) :
    l.map (Int.toNat ∘ fun (e : Nat) => (e : Int)) = l := by
  induction l with
  | nil => rfl
  | cons x xs ih => simp [ih]

/-- Inserting the elements of a duplicate-free list one by one into a set that
holds none of them appends them in order. -/
theorem foldl_set_insert (l acc : List String) (h : (acc ++ l).Nodup) :
    l.foldl (fun acc t => set_insert t acc) acc = acc ++ l := by
  induction l generalizing acc with
  | nil => simp
  | cons x xs ih =>
    have hx : x ∉ acc := by
      intro hm
      have := List.nodup_append.mp h
      exact this.2.2 hm (List.mem_cons_self _ _)
    have hstep : set_insert x acc = acc ++ [x] := by simp [set_insert, hx]
    rw [List.foldl_cons, hstep, ih (acc ++ [x]) (by simpa using h)]
    simp

/-- What decoding the document of any tool record gives: the record itself,
except for the fields the document does not carry (`name_plural`,
`melee[DT_STAB]`, `techniques` and the worn list, left as in a fresh record),
the volume, counted in units of `legacy_volume_factor`, and the flag set,
rebuilt by insertion. -/
theorem tool_roundtrip (r : it_artifact_tool) :
    it_artifact_tool.of_json r.serialize = .ok
      { r with
        name_plural := "none", melee_stab := 0, techniques := [],
        volume := Int.tdiv r.volume legacy_volume_factor * legacy_volume_factor,
        item_tags := r.item_tags.foldl (fun acc t => set_insert t acc) [],
        artifact := { r.artifact with effects_worn := [] } } := by
  rcases r with ⟨b, t, a⟩
  simp only [it_artifact_tool.of_json, it_artifact_tool.deserialize, deserialize_common, read_sym,
    it_artifact_tool.serialize, serialize_common, serialize_enum_vector_as_int,
    JsonObject.get_string, JsonObject.get_int, JsonObject.member, JsonObject.has_int,
    JsonObject.has_string, JsonObject.has_array, JsonObject.get_array, JsonObject.get_tags,
    read_materials, read_effects, read_array_strings, read_array_ints,
    itype.init, islot_tool.init, islot_artifact.init, bind, Except.bind, pure, Except.pure,
    Except.map, List.cons_append, List.nil_append, List.append_nil]
  simp [read_array_strings, read_array_ints, toNat_cast_list]

/-- What decoding the document of any armor record gives: the record itself,
except for the fields the document does not carry (`name_plural`,
`melee[DT_STAB]`, `techniques`, and of the artifact slot all but the worn list),
volume and storage, counted in units of `legacy_volume_factor`, and the flag
set, rebuilt by insertion. -/
theorem armor_roundtrip (r : it_artifact_armor) :
    it_artifact_armor.of_json r.serialize = .ok
      { r with
        name_plural := "none", melee_stab := 0, techniques := [],
        volume := Int.tdiv r.volume legacy_volume_factor * legacy_volume_factor,
        item_tags := r.item_tags.foldl (fun acc t => set_insert t acc) [],
        armor := { r.armor with
          storage := Int.tdiv r.armor.storage legacy_volume_factor * legacy_volume_factor },
        artifact := { islot_artifact.init with effects_worn := r.artifact.effects_worn } } := by
  rcases r with ⟨b, t, a⟩
  simp only [it_artifact_armor.of_json, it_artifact_armor.deserialize, deserialize_common,
    read_sym, it_artifact_armor.serialize, serialize_common, serialize_enum_vector_as_int,
    JsonObject.get_string, JsonObject.get_int, JsonObject.member, JsonObject.has_int,
    JsonObject.has_string, JsonObject.has_array, JsonObject.get_array, JsonObject.get_tags,
    JsonObject.get_bool, JsonObject.read_bits,
    read_materials, read_effects, read_array_strings, read_array_ints,
    itype.init, islot_armor.init, islot_artifact.init, bind, Except.bind, pure, Except.pure,
    Except.map, List.cons_append, List.nil_append, List.append_nil]
  simp [read_array_strings, read_array_ints, toNat_cast_list]

/-- Insertion into a set keeps it free of duplicates. -/
theorem set_insert_nodup (x : String) (l : List String) (h : l.Nodup) :
    (set_insert x l).Nodup := by
  unfold set_insert
  split
  · exact h
  · rename_i hx
    exact List.nodup_append.mpr ⟨h, List.nodup_singleton x, by
      intro a ha hb
      rw [List.mem_singleton] at hb
      exact hx (hb ▸ ha)⟩

/-- Adding a weapon tag keeps the flag set free of duplicates. -/
theorem insert_weapon_tag_nodup (weapon : artifact_weapon_datum) (l : List String)
    (h : l.Nodup) : (insert_weapon_tag weapon l).Nodup := by
  unfold insert_weapon_tag
  split
  · exact set_insert_nodup _ _ h
  · exact h

/-- The block that adds an extra weapon keeps the flag set free of duplicates and
leaves the techniques alone. -/
theorem tool_extra_weapon_tags (env : Env) (info : artifact_tool_form_datum)
    (art : it_artifact_tool) (g : RNG) (h : art.item_tags.Nodup) :
    (tool_extra_weapon env info art g).1.item_tags.Nodup ∧
    (tool_extra_weapon env info art g).1.techniques = art.techniques := by
  unfold tool_extra_weapon
  simp only
  split_ifs
  · exact ⟨insert_weapon_tag_nodup _ _ h, rfl⟩
  · exact ⟨h, rfl⟩
  · exact ⟨h, rfl⟩

/-- The effects stage leaves the common fields of the tool alone. -/
theorem tool_effects_toitype (art : it_artifact_tool) (g : RNG) :
    (tool_effects art g).1.toitype = art.toitype := rfl

/-- The effects stage leaves the worn list of the tool alone. -/
theorem tool_effects_worn (art : it_artifact_tool) (g : RNG) :
    (tool_effects art g).1.artifact.effects_worn = art.artifact.effects_worn := rfl

/-- Before the effects are picked, the tool has a duplicate-free flag set and no
techniques. -/
theorem tool_described_tags (env : Env) (id : String) (g : RNG) :
    (tool_described env id g).1.item_tags.Nodup ∧ (tool_described env id g).1.techniques = [] := by
  have hbase : (tool_base env (it_artifact_tool.new id) g).1.item_tags.Nodup :=
    insert_weapon_tag_nodup _ _ List.nodup_nil
  exact tool_extra_weapon_tags env _ _ _ hbase

/-- A tool made by the tool branch of `new_artifact` has a duplicate-free flag
set, no techniques and no worn effects. -/
theorem new_artifact_tool_wf (env : Env) (id : String) (g : RNG) :
    (new_artifact_tool env id g).1.item_tags.Nodup ∧
    (new_artifact_tool env id g).1.techniques = [] ∧
    (new_artifact_tool env id g).1.artifact.effects_worn = [] := by
  unfold new_artifact_tool
  rw [tool_effects_toitype, tool_effects_worn, (tool_described_slots env id g).1]
  exact ⟨(tool_described_tags env id g).1, (tool_described_tags env id g).2, rfl⟩

/-- A tool made by `new_natural_artifact` has an empty flag set, no techniques
and no worn effects. -/
theorem new_natural_artifact_wf (env : Env) (id : String) (prop : Nat) (g : RNG) :
    (new_natural_artifact env id prop g).1.item_tags.Nodup ∧
    (new_natural_artifact env id prop g).1.techniques = [] ∧
    (new_natural_artifact env id prop g).1.artifact.effects_worn = [] :=
  ⟨List.nodup_nil, rfl, rfl⟩

/-- Decoding the document of a tool record with a duplicate-free flag set, no
techniques and no worn effects gives back every field except `name_plural` and
`melee[DT_STAB]`, with the volume rounded to a multiple of
`legacy_volume_factor`. -/
theorem tool_roundtrip_wf (r : it_artifact_tool) (h1 : r.item_tags.Nodup)
    (h2 : r.techniques = []) (h3 : r.artifact.effects_worn = []) :
    ∃ d, it_artifact_tool.of_json r.serialize = .ok d ∧ d.toitype.agrees r.toitype ∧
      d.volume = Int.tdiv r.volume legacy_volume_factor * legacy_volume_factor ∧
      d.tool = r.tool ∧ d.artifact = r.artifact := by
  refine ⟨_, tool_roundtrip r, ?_, rfl, rfl, ?_⟩
  · have := foldl_set_insert r.item_tags [] (by simpa using h1)
    simp only [List.nil_append] at this
    simp [itype.agrees, this, h2]
  · rcases r with ⟨b, t, a⟩
    rcases a with ⟨c, w, ac, ca, wo⟩
    simp only at h3
    simp [h3]

/-- C3 (as amended): for every tool record `r` produced by `new_artifact` or
`new_natural_artifact`, decoding the document written by
`it_artifact_tool::serialize(r)` succeeds and gives a record equal to `r` in
identifier, name, description, symbol, color, price, materials, weight, bash
and cut values, to-hit value, flags, techniques, the tool slot and the artifact
slot, with the volume rounded down to a multiple of `legacy_volume_factor`. -/
theorem tool_roundtrip_generated (env : Env) (id : String) (prop : Nat) (g : RNG)
    (r : it_artifact_tool)
    (h : (new_artifact env id g).1 = .tool r ∨ (new_natural_artifact env id prop g).1 = r) :
    ∃ d, it_artifact_tool.of_json r.serialize = .ok d ∧ d.toitype.agrees r.toitype ∧
      d.volume = Int.tdiv r.volume legacy_volume_factor * legacy_volume_factor ∧
      d.tool = r.tool ∧ d.artifact = r.artifact := by
  rcases h with h | h
  · unfold new_artifact at h
    split at h
    · simp only [artifact_itype.tool.injEq] at h
      subst h
      obtain ⟨h1, h2, h3⟩ := new_artifact_tool_wf env id (one_in 2 g).2
      exact tool_roundtrip_wf _ h1 h2 h3
    · simp at h
  · subst h
    obtain ⟨h1, h2, h3⟩ := new_natural_artifact_wf env id prop g
    exact tool_roundtrip_wf _ h1 h2 h3

/-- Witness of C3 (as amended): the tool that `new_artifact` makes from the
stream `0, 2, 4, ...` in the plain environment. -/
theorem tool_roundtrip_generated_witness :
    ∃ d, it_artifact_tool.of_json
        (new_artifact_tool plain_env "artifact_1" (one_in 2 even_stream).2).1.serialize = .ok d ∧
      d.toitype.agrees (new_artifact_tool plain_env "artifact_1" (one_in 2 even_stream).2).1.toitype ∧
      d.volume = Int.tdiv (new_artifact_tool plain_env "artifact_1"
        (one_in 2 even_stream).2).1.volume legacy_volume_factor * legacy_volume_factor ∧
      d.tool = (new_artifact_tool plain_env "artifact_1" (one_in 2 even_stream).2).1.tool ∧
      d.artifact = (new_artifact_tool plain_env "artifact_1" (one_in 2 even_stream).2).1.artifact :=
  tool_roundtrip_generated plain_env "artifact_1" 0 even_stream
    (new_artifact_tool plain_env "artifact_1" (one_in 2 even_stream).2).1 (Or.inl (by decide))

/-- Counterexample to C3 as stated: from the stream `0, 2, 4, ...` `new_artifact`
makes a tool (a sword) of volume 2008 ml; its document holds `2008 / 250 = 8`
and decodes to volume 2000 ml, so the decoded record differs from the original. -/
theorem tool_roundtrip_counterexample :
    ∃ r : it_artifact_tool,
      (new_artifact plain_env "artifact_1" even_stream).1 = .tool r ∧
      r.volume = 2008 ∧
      (it_artifact_tool.of_json r.serialize).map (fun d => d.volume) = .ok 2000 ∧
      it_artifact_tool.of_json r.serialize ≠ .ok r := by
  have hv : (new_artifact_tool plain_env "artifact_1" (one_in 2 even_stream).2).1.volume = 2008 := by
    decide
  refine ⟨(new_artifact_tool plain_env "artifact_1" (one_in 2 even_stream).2).1,
    by decide, hv, ?_, ?_⟩
  · rw [tool_roundtrip]
    simp only [Except.map, hv]
    exact congrArg Except.ok (by decide)
  · rw [tool_roundtrip]
    intro h
    have h1 := congrArg (fun x => x.map (fun d => d.volume)) h
    simp only [Except.map, hv, Except.ok.injEq] at h1
    exact absurd h1 (by decide)

/-- The block that modifies the armor either leaves the record as it is or
applies one row of `artifact_armor_mod_data` (any index outside the table reads
the all-zero row). -/
theorem armor_modify_cases (env : Env) (info : artifact_armor_form_datum)
    (art : it_artifact_armor) (g : RNG) :
    (armor_modify env info art g).1 = art ∨
    ∃ mod, (armor_modify env info art g).1 =
      apply_armor_mod (artifact_armor_mod_data.getD mod .none) art := by
  unfold armor_modify
  simp only
  split_ifs <;> first | exact Or.inl rfl | exact Or.inr ⟨_, rfl⟩

/-- Every row of the form table, with or without any row of the mod table
applied, has a volume and a storage that are multiples of 250 ml. -/
theorem armor_volumes_multiple :
    ∀ info ∈ artifact_armor_form_datum.none :: artifact_armor_form_data,
    ∀ modinfo ∈ artifact_armor_form_datum.none :: artifact_armor_mod_data,
      info.volume % 250 = 0 ∧ info.storage % 250 = 0 ∧
      (if modinfo.volume ≥ 0 ∨ info.volume > -modinfo.volume then info.volume + modinfo.volume
        else 250) % 250 = 0 ∧
      (if modinfo.storage > 0 ∨ info.storage > -modinfo.storage
        then info.storage + modinfo.storage else 0) % 250 = 0 := by
  decide

/-- Reading a table by `getD` gives the default row or a row of the table. -/
theorem getD_mem_cons {α : Type} (l : List α) (i : Nat) (d : α) : l.getD i d ∈ d :: l := by
  rcases Nat.lt_or_ge i l.length with h | h
  · rw [List.getD_eq_getElem _ _ h]
    exact List.mem_cons_of_mem _ (List.getElem_mem _)
  · rw [List.getD_eq_default _ _ h]
    exact List.mem_cons_self _ _

/-- Before the effects are picked, an armor made by `new_artifact` has a volume
and a storage that are multiples of 250 ml, no stab value, an empty flag set,
no techniques, and an artifact slot as the constructor left it. -/
theorem armor_described_wf (env : Env) (id : String) (g : RNG) :
    (armor_described env id g).1.volume % 250 = 0 ∧
    (armor_described env id g).1.armor.storage % 250 = 0 ∧
    (armor_described env id g).1.melee_stab = 0 ∧
    (armor_described env id g).1.item_tags = [] ∧
    (armor_described env id g).1.techniques = [] := by
  unfold armor_described
  simp only
  generalize hinfo : artifact_armor_form_data.getD
    (rng (ARTARMFORM_NULL + 1) (NUM_ARTARMFORMS - 1) g).1.toNat artifact_armor_form_datum.none = info
  have hmem : info ∈ artifact_armor_form_datum.none :: artifact_armor_form_data := by
    rw [← hinfo]; exact getD_mem_cons _ _ _
  rcases armor_modify_cases env info
    (armor_copy_form env info
      ((it_artifact_armor.new id).create_name env (env.gettext info.name)
        (rng (ARTARMFORM_NULL + 1) (NUM_ARTARMFORMS - 1) g).2).1)
    ((it_artifact_armor.new id).create_name env (env.gettext info.name)
        (rng (ARTARMFORM_NULL + 1) (NUM_ARTARMFORMS - 1) g).2).2 with h | ⟨mod, h⟩
  · rw [h]
    have := armor_volumes_multiple info hmem _ (List.mem_cons_self _ _)
    exact ⟨this.1, this.2.1, rfl, rfl, rfl⟩
  · rw [h]
    have := armor_volumes_multiple info hmem _ (getD_mem_cons artifact_armor_mod_data mod _)
    exact ⟨this.2.2.1, this.2.2.2, rfl, rfl, rfl⟩

/-- A multiple of `legacy_volume_factor` is unchanged by dividing by the factor
and multiplying back. -/
theorem tdiv_mul_legacy (a : Int) (h : a % 250 = 0) :
    Int.tdiv a legacy_volume_factor * legacy_volume_factor = a :=
  Int.tdiv_mul_cancel (Int.dvd_of_emod_eq_zero h)

/-- The effects stage leaves the common fields and the armor slot alone. -/
theorem armor_effects_frame (art : it_artifact_armor) (g : RNG) :
    (armor_effects art g).1.toitype = art.toitype ∧ (armor_effects art g).1.armor = art.armor :=
  ⟨rfl, rfl⟩

/-- The effects stage changes only the worn list of the artifact slot. -/
theorem armor_effects_artifact (art : it_artifact_armor) (g : RNG) :
    (armor_effects art g).1.artifact =
      { art.artifact with effects_worn := (armor_effects art g).1.artifact.effects_worn } := rfl

/-- C4: for every armor record `r` produced by `new_artifact`, decoding with
`it_artifact_armor::deserialize` the document written by
`it_artifact_armor::serialize(r)` succeeds and yields a record equal to `r`
field by field: volume, weight, the melee values (bash, cut, stab, to-hit), the
armor slot (covers, encumber, coverage, thickness, env_resist, warmth, storage,
power_armor), the artifact slot (with `effects_worn`) and the common fields
identifier, name, description, symbol, color, price, materials, flags and
techniques. -/
theorem armor_roundtrip_generated (env : Env) (id : String) (g : RNG) (r : it_artifact_armor)
    (h : (new_artifact env id g).1 = .armor r) :
    ∃ d, it_artifact_armor.of_json r.serialize = .ok d ∧ d.toitype.agrees r.toitype ∧
      d.volume = r.volume ∧ d.melee_stab = r.melee_stab ∧ d.armor = r.armor ∧
      d.artifact = r.artifact := by
  unfold new_artifact at h
  split at h
  · simp at h
  · simp only [artifact_itype.armor.injEq] at h
    subst h
    obtain ⟨h1, h2, h3, h4, h5⟩ := armor_described_wf env id (one_in 2 g).2
    have ha := armor_described_artifact env id (one_in 2 g).2
    refine ⟨_, armor_roundtrip _, ?_, ?_, ?_, ?_, ?_⟩
    · unfold new_artifact_armor
      simp only [(armor_effects_frame _ _).1, itype.agrees, h4, h5, List.foldl_nil, and_self]
    · unfold new_artifact_armor
      simp only [(armor_effects_frame _ _).1]
      exact tdiv_mul_legacy _ h1
    · unfold new_artifact_armor
      simp only [(armor_effects_frame _ _).1, h3]
    · unfold new_artifact_armor
      simp only [(armor_effects_frame _ _).2, tdiv_mul_legacy _ h2]
    · unfold new_artifact_armor
      rw [armor_effects_artifact, ha]

/-- Witness of C4: the armor that `new_artifact` makes from the stream
`3, 10, 17, ...` in the plain environment (a helm). -/
theorem armor_roundtrip_generated_witness :
    ∃ d, it_artifact_armor.of_json
        (new_artifact_armor plain_env "artifact_1" (one_in 2 (fun n => 7 * n + 3)).2).1.serialize
          = .ok d ∧
      d.toitype.agrees
        (new_artifact_armor plain_env "artifact_1" (one_in 2 (fun n => 7 * n + 3)).2).1.toitype ∧
      d.volume =
        (new_artifact_armor plain_env "artifact_1" (one_in 2 (fun n => 7 * n + 3)).2).1.volume ∧
      d.melee_stab =
        (new_artifact_armor plain_env "artifact_1" (one_in 2 (fun n => 7 * n + 3)).2).1.melee_stab ∧
      d.armor =
        (new_artifact_armor plain_env "artifact_1" (one_in 2 (fun n => 7 * n + 3)).2).1.armor ∧
      d.artifact =
        (new_artifact_armor plain_env "artifact_1" (one_in 2 (fun n => 7 * n + 3)).2).1.artifact :=
  armor_roundtrip_generated plain_env "artifact_1" (fun n => 7 * n + 3)
    (new_artifact_armor plain_env "artifact_1" (one_in 2 (fun n => 7 * n + 3)).2).1 (by decide)

/-! ## Armor mods -/

/-- C5: for every non-null armor form of `artifact_armor_form_data` and every
non-null mod of `artifact_armor_mod_data`, applying the mod to an armor that
holds the copied values of the form, by the rules of `new_artifact`, gives
volume >= 250 ml, weight >= 1 g, and coverage, thickness, env_resist and
storage all >= 0. -/
theorem armor_mod_floors (env : Env) (art : it_artifact_armor) (form mod : Nat)
    (hform : ARTARMFORM_NULL < form ∧ form < NUM_ARTARMFORMS)
    (hmod : ARMORMOD_NULL < mod ∧ mod < NUM_ARMORMODS) :
    (modded_armor env art form mod).floors := by
  obtain ⟨hf1, hf2⟩ := hform
  obtain ⟨hm1, hm2⟩ := hmod
  simp only [ARTARMFORM_NULL, NUM_ARTARMFORMS, ARMORMOD_NULL, NUM_ARMORMODS] at hf1 hf2 hm1 hm2
  simp only [it_artifact_armor.floors, modded_armor, apply_armor_mod, armor_copy_form]
  interval_cases form <;> interval_cases mod <;> decide

/-- Witness of C5: the Ring form with the "very thin and light" mod. -/
theorem armor_mod_floors_witness :
    (ARTARMFORM_NULL < ARTARMFORM_RING ∧ ARTARMFORM_RING < NUM_ARTARMFORMS) ∧
    (ARMORMOD_NULL < ARMORMOD_LIGHT ∧ ARMORMOD_LIGHT < NUM_ARMORMODS) ∧
    (modded_armor plain_env (it_artifact_armor.new "artifact_1") ARTARMFORM_RING
      ARMORMOD_LIGHT).floors :=
  ⟨by decide, by decide,
   armor_mod_floors plain_env (it_artifact_armor.new "artifact_1") ARTARMFORM_RING
      ARMORMOD_LIGHT (by decide) (by decide)⟩

/-- C6 (as amended): applying the "plated in iron" mod (`ARMORMOD_PLATED`) to the
Ring base form (volume 0 ml, weight 4 g) by the rules of `new_artifact` yields
volume 1000 ml and weight 1404 g: the mod adds 1000 ml and 1400 g, and neither
clamp applies. -/
theorem plated_ring (env : Env) (art : it_artifact_armor) :
    (artifact_armor_form_data.getD ARTARMFORM_RING .none).volume = 0 ∧
    (artifact_armor_form_data.getD ARTARMFORM_RING .none).weight = 4 ∧
    (modded_armor env art ARTARMFORM_RING ARMORMOD_PLATED).volume = 1000 ∧
    (modded_armor env art ARTARMFORM_RING ARMORMOD_PLATED).weight = 1404 := by
  simp only [modded_armor, apply_armor_mod, armor_copy_form]
  decide

/-- Counterexample to C6 as stated: the plated Ring does not have volume 250 ml
and weight 1 g; its volume is 1000 ml and its weight 1404 g. -/
theorem plated_ring_counterexample :
    ¬ ((modded_armor plain_env (it_artifact_armor.new "artifact_1") ARTARMFORM_RING
          ARMORMOD_PLATED).volume = 250 ∧
       (modded_armor plain_env (it_artifact_armor.new "artifact_1") ARTARMFORM_RING
          ARMORMOD_PLATED).weight = 1) := by
  decide

/-! ## The rejection loop of `new_natural_artifact` -/

/-- No passive effect costs more than 50. -/
theorem passive_cost_le (i : Nat) : passive_effect_cost.getD i 0 ≤ 50 := by
  by_cases hi : i < 39
  · interval_cases i <;> decide
  · rw [List.getD_eq_default _ _ (by simpa [passive_effect_cost] using hi)]; decide

/-- No active effect costs more than 6. -/
theorem active_cost_le (i : Nat) : active_effect_cost.getD i 0 ≤ 6 := by
  by_cases hi : i < 31
  · interval_cases i <;> decide
  · rw [List.getD_eq_default _ _ (by simpa [active_effect_cost] using hi)]; decide

/-- A family pick is a non-null hint of the row or lies in the fallback range. -/
theorem natural_pick_cases (hints : List Nat) (lo hi : Int) (g : RNG) (hlo : 0 ≤ lo)
    (hle : lo ≤ hi) :
    ((natural_pick hints 0 lo hi g).1 ∈ hints ∧ (natural_pick hints 0 lo hi g).1 ≠ 0) ∨
    (lo ≤ ((natural_pick hints 0 lo hi g).1 : Int) ∧
      ((natural_pick hints 0 lo hi g).1 : Int) ≤ hi) := by
  unfold natural_pick
  simp only
  split
  · right
    have := rng_mem lo hi
      (Cond.or (Cond.pure (hints.getD (rng 0 3 g).1.toNat 0 == 0)) (one_in 4) (rng 0 3 g).2).2 hle
    simp only
    omega
  · rename_i hc
    left
    have hne : hints.getD (rng 0 3 g).1.toNat 0 ≠ 0 := by
      intro h0
      apply hc
      simp only [Cond.or, Cond.pure, h0, beq_self_eq_true, if_true]
    simp only
    refine ⟨?_, hne⟩
    rcases Nat.lt_or_ge (rng 0 3 g).1.toNat hints.length with hi | hi
    · rw [List.getD_eq_getElem _ _ hi]
      exact List.getElem_mem _
    · exact absurd (List.getD_eq_default _ _ hi) hne

/-- The bad hints of every row of `artifact_property_data` have negative costs. -/
theorem property_data_bad_costs : ∀ pd ∈ artifact_property_data, pd.bad_costs := by decide

/-- A bad passive pick costs at most -1. -/
theorem bad_passive_pick_cost (pd : artifact_property_datum) (g : RNG) (hpd : pd.bad_costs) :
    passive_effect_cost.getD
      (natural_pick pd.passive_bad AEP_NULL (AEP_SPLIT + 1) (NUM_AEAS - 1) g).1 0 ≤ -1 := by
  rcases natural_pick_cases pd.passive_bad (AEP_SPLIT + 1) (NUM_AEAS - 1) g (by decide)
    (by decide) with ⟨hm, hn⟩ | ⟨h1, h2⟩
  · exact hpd.1 _ hm hn
  · change passive_effect_cost.getD
      (natural_pick pd.passive_bad 0 (AEP_SPLIT + 1) (NUM_AEAS - 1) g).1 0 ≤ -1
    generalize (natural_pick pd.passive_bad 0 (AEP_SPLIT + 1) (NUM_AEAS - 1) g).1 = e at h1 h2
    simp only [AEP_SPLIT, NUM_AEAS] at h1 h2
    have h3 : 21 ≤ e := by omega
    have h4 : e ≤ 30 := by omega
    interval_cases e <;> decide

/-- A bad active pick costs at most -2. -/
theorem bad_active_pick_cost (pd : artifact_property_datum) (g : RNG) (hpd : pd.bad_costs) :
    active_effect_cost.getD
      (natural_pick pd.active_bad AEA_NULL (AEA_SPLIT + 1) (NUM_AEAS - 1) g).1 0 ≤ -2 := by
  rcases natural_pick_cases pd.active_bad (AEA_SPLIT + 1) (NUM_AEAS - 1) g (by decide)
    (by decide) with ⟨hm, hn⟩ | ⟨h1, h2⟩
  · exact hpd.2 _ hm hn
  · change active_effect_cost.getD
      (natural_pick pd.active_bad 0 (AEA_SPLIT + 1) (NUM_AEAS - 1) g).1 0 ≤ -2
    generalize (natural_pick pd.active_bad 0 (AEA_SPLIT + 1) (NUM_AEAS - 1) g).1 = e at h1 h2
    simp only [AEA_SPLIT, NUM_AEAS] at h1 h2
    have h3 : 18 ≤ e := by omega
    have h4 : e ≤ 30 := by omega
    interval_cases e <;> decide

/-- One attempt started with the unpicked effects null ends with them null and
with a combined cost that does not exceed the largest cost of the layout. -/
theorem natural_attempt_value_le (pd : artifact_property_datum) (l : natural_layout)
    (s : natural_state) (hpd : pd.bad_costs) (h : s.unpicked_null l) :
    (natural_attempt pd l s).value ≤ l.max_value ∧ (natural_attempt pd l s).unpicked_null l := by
  obtain ⟨h1, h2, h3, h4⟩ := h
  rcases l with ⟨gp, bp, ga, ba⟩
  simp only at h1 h2 h3 h4
  have c0 : passive_effect_cost.getD AEP_NULL 0 = 0 := by decide
  have d0 : active_effect_cost.getD AEA_NULL 0 = 0 := by decide
  constructor
  · simp only [natural_attempt, natural_layout.max_value]
    refine add_le_add (add_le_add (add_le_add ?_ ?_) ?_) ?_
    · cases gp
      · simp only [Bool.false_eq_true, if_false, h1 rfl, c0, le_refl]
      · simp only [if_true]; exact passive_cost_le _
    · cases bp
      · simp only [Bool.false_eq_true, if_false, h2 rfl, c0, le_refl]
      · simp only [if_true]; exact bad_passive_pick_cost pd _ hpd
    · cases ga
      · simp only [Bool.false_eq_true, if_false, h3 rfl, d0, le_refl]
      · simp only [if_true]; exact active_cost_le _
    · cases ba
      · simp only [Bool.false_eq_true, if_false, h4 rfl, d0, le_refl]
      · simp only [if_true]; exact bad_active_pick_cost pd _ hpd
  · simp only [natural_attempt, natural_state.unpicked_null]
    refine ⟨?_, ?_, ?_, ?_⟩
    · intro hf; simp only [hf, Bool.false_eq_true, if_false]; exact h1 hf
    · intro hf; simp only [hf, Bool.false_eq_true, if_false]; exact h2 hf
    · intro hf; simp only [hf, Bool.false_eq_true, if_false]; exact h3 hf
    · intro hf; simp only [hf, Bool.false_eq_true, if_false]; exact h4 hf

/-- The state in which the rejection loop ends: the threshold is at least 1, no
larger than the larger of the threshold of the next attempt and the largest
cost of the layout, and the combined cost of the last attempt is within it. -/
theorem natural_loop_exit (pd : artifact_property_datum) (l : natural_layout)
    (s : natural_state) (hpd : pd.bad_costs) (h : s.unpicked_null l)
    (h0 : 0 ≤ s.value_to_reach) :
    1 ≤ (natural_loop pd l s).value_to_reach ∧
    (natural_loop pd l s).value_to_reach ≤ max (s.value_to_reach + 1) l.max_value ∧
    (natural_loop pd l s).value ≤ (natural_loop pd l s).value_to_reach := by
  induction s using natural_loop.induct pd l with
  | case1 s hc ih =>
    have ha := natural_attempt_value_le pd l s hpd h
    have hr : (natural_attempt pd l s).value_to_reach = s.value_to_reach + 1 := rfl
    rw [natural_loop, if_pos hc]
    obtain ⟨i1, i2, i3⟩ := ih ha.2 (by omega)
    refine ⟨i1, ?_, i3⟩
    have : max ((natural_attempt pd l s).value_to_reach + 1) l.max_value = l.max_value := by
      apply max_eq_right; omega
    rw [this] at i2
    exact le_trans i2 (le_max_right _ _)
  | case2 s hc =>
    have hr : (natural_attempt pd l s).value_to_reach = s.value_to_reach + 1 := rfl
    rw [natural_loop, if_neg hc]
    refine ⟨by omega, ?_, by omega⟩
    rw [hr]
    exact le_max_left _ _

/-- C7: for every property (row of `artifact_property_data`), every layout (roll
1, 2 or 3) and every random source, the `do ... while` loop of
`new_natural_artifact` terminates (`natural_loop` is a total function);
`value_to_reach` grows by exactly 1 per attempt, so its final value is the
number of attempts; the loop exits with at least 1 and at most as many attempts
as the largest combined cost of the layout (49, 4 and 5 for the three layouts),
hence after at most 49 attempts, with the cost of the last attempt within the
threshold. -/
theorem natural_loop_terminates (property : Nat) (roll : Int) (g : RNG)
    (hprop : property < ARTPROP_MAX) (hroll : 1 ≤ roll ∧ roll ≤ 3) :
    (∀ pd l s, (natural_attempt pd l s).value_to_reach = s.value_to_reach + 1) ∧
    1 ≤ (natural_loop (artifact_property_data.getD property .none)
          (natural_layout.of_roll roll) (natural_init g)).value_to_reach ∧
    (natural_loop (artifact_property_data.getD property .none)
          (natural_layout.of_roll roll) (natural_init g)).value_to_reach ≤
        (natural_layout.of_roll roll).max_value ∧
    (natural_layout.of_roll roll).max_value ≤ 49 ∧
    (natural_loop (artifact_property_data.getD property .none)
          (natural_layout.of_roll roll) (natural_init g)).value ≤
      (natural_loop (artifact_property_data.getD property .none)
          (natural_layout.of_roll roll) (natural_init g)).value_to_reach := by
  have hlen : property < artifact_property_data.length := hprop
  have hpd : (artifact_property_data.getD property .none).bad_costs := by
    rw [List.getD_eq_getElem _ _ hlen]
    exact property_data_bad_costs _ (List.getElem_mem _)
  have hmax : 1 ≤ (natural_layout.of_roll roll).max_value ∧
      (natural_layout.of_roll roll).max_value ≤ 49 := by
    obtain ⟨h1, h2⟩ := hroll
    interval_cases roll <;> decide
  have hinit : (natural_init g).unpicked_null (natural_layout.of_roll roll) :=
    ⟨fun _ => rfl, fun _ => rfl, fun _ => rfl, fun _ => rfl⟩
  obtain ⟨e1, e2, e3⟩ := natural_loop_exit (artifact_property_data.getD property .none)
    (natural_layout.of_roll roll) (natural_init g) hpd hinit (le_refl _)
  refine ⟨fun _ _ _ => rfl, e1, ?_, hmax.2, e3⟩
  have : max ((natural_init g).value_to_reach + 1) (natural_layout.of_roll roll).max_value =
      (natural_layout.of_roll roll).max_value := by
    apply max_eq_right
    show (0 : Int) + 1 ≤ _
    omega
  rw [this] at e2
  exact e2

/-- Witness of C7: the property "humming" (3) in the first layout with the stream
`0, 2, 4, ...`. -/
theorem natural_loop_terminates_witness :
    3 < ARTPROP_MAX ∧ ((1 : Int) ≤ 1 ∧ (1 : Int) ≤ 3) ∧
    (natural_loop (artifact_property_data.getD 3 .none)
          (natural_layout.of_roll 1) (natural_init even_stream)).value_to_reach ≤
        (natural_layout.of_roll 1).max_value :=
  ⟨by decide, by decide,
    (natural_loop_terminates 3 1 even_stream (by decide) (by decide)).2.2.1⟩

/-- The largest combined cost of each layout is reached by an attempt: for the
property "wriggling" there are draws that give 49, 4 and 5 in the three layouts. -/
theorem natural_max_value_reached :
    (natural_attempt (artifact_property_data.getD 1 .none) (natural_layout.of_roll 1)
      (natural_init (fun n => [2, 11, 3, 2].getD n 0))).value = 49 ∧
    (natural_attempt (artifact_property_data.getD 1 .none) (natural_layout.of_roll 2)
      (natural_init (fun n => [2, 15, 3, 1].getD n 0))).value = 4 ∧
    (natural_attempt (artifact_property_data.getD 1 .none) (natural_layout.of_roll 3)
      (natural_init (fun n => [3, 2, 2, 15].getD n 0))).value = 5 := by
  decide

/-! ## Decoding the materials -/

/-- A decoder that succeeds after reading a member has read that member with
success, and the statements that follow succeed on the value read. -/
theorem decode_step {α β : Type} (x : Except JsonError α) (f : α → Except JsonError β) (b : β)
    (h : (do let a ← x; f a) = Except.ok b) : ∃ a, x = Except.ok a ∧ f a = Except.ok b := by
  rcases x with e | a
  · cases h
  · exact ⟨a, rfl, h⟩

/-- When the common part of a decoder succeeds, the materials of its result are
those that the materials statements read. -/
theorem deserialize_common_materials (self : itype) (jo : JsonObject) (c : itype)
    (h : deserialize_common self jo = .ok c) :
    read_materials jo self.materials = .ok c.materials := by
  unfold deserialize_common at h
  obtain ⟨_, -, h⟩ := decode_step _ _ _ h
  obtain ⟨_, -, h⟩ := decode_step _ _ _ h
  obtain ⟨_, -, h⟩ := decode_step _ _ _ h
  obtain ⟨_, -, h⟩ := decode_step _ _ _ h
  obtain ⟨_, -, h⟩ := decode_step _ _ _ h
  obtain ⟨_, -, h⟩ := decode_step _ _ _ h
  obtain ⟨ms, hms, h⟩ := decode_step _ _ _ h
  obtain ⟨_, -, h⟩ := decode_step _ _ _ h
  obtain ⟨_, -, h⟩ := decode_step _ _ _ h
  obtain ⟨_, -, h⟩ := decode_step _ _ _ h
  obtain ⟨_, -, h⟩ := decode_step _ _ _ h
  obtain ⟨_, -, h⟩ := decode_step _ _ _ h
  obtain ⟨_, -, h⟩ := decode_step _ _ _ h
  simp only [pure, Except.pure, Except.ok.injEq] at h
  rw [hms, ← h]

/-- When the tool decoder succeeds on a fresh record, the materials of the
result are those that the materials statements read. -/
theorem tool_of_json_materials (jo : JsonObject) (t : it_artifact_tool)
    (h : it_artifact_tool.of_json jo = .ok t) : read_materials jo [] = .ok t.materials := by
  unfold it_artifact_tool.of_json it_artifact_tool.deserialize at h
  obtain ⟨c, hc, h⟩ := decode_step _ _ _ h
  obtain ⟨_, -, h⟩ := decode_step _ _ _ h
  obtain ⟨_, -, h⟩ := decode_step _ _ _ h
  obtain ⟨_, -, h⟩ := decode_step _ _ _ h
  obtain ⟨_, -, h⟩ := decode_step _ _ _ h
  obtain ⟨_, -, h⟩ := decode_step _ _ _ h
  obtain ⟨_, -, h⟩ := decode_step _ _ _ h
  obtain ⟨_, -, h⟩ := decode_step _ _ _ h
  obtain ⟨_, -, h⟩ := decode_step _ _ _ h
  obtain ⟨_, -, h⟩ := decode_step _ _ _ h
  obtain ⟨_, -, h⟩ := decode_step _ _ _ h
  simp only [pure, Except.pure, Except.ok.injEq] at h
  have := deserialize_common_materials _ jo c hc
  rw [← h]
  exact this

/-- When the armor decoder succeeds on a fresh record, the materials of the
result are those that the materials statements read. -/
theorem armor_of_json_materials (jo : JsonObject) (a : it_artifact_armor)
    (h : it_artifact_armor.of_json jo = .ok a) : read_materials jo [] = .ok a.materials := by
  unfold it_artifact_armor.of_json it_artifact_armor.deserialize at h
  obtain ⟨c, hc, h⟩ := decode_step _ _ _ h
  obtain ⟨_, -, h⟩ := decode_step _ _ _ h
  obtain ⟨_, -, h⟩ := decode_step _ _ _ h
  obtain ⟨_, -, h⟩ := decode_step _ _ _ h
  obtain ⟨_, -, h⟩ := decode_step _ _ _ h
  obtain ⟨_, -, h⟩ := decode_step _ _ _ h
  obtain ⟨_, -, h⟩ := decode_step _ _ _ h
  obtain ⟨_, -, h⟩ := decode_step _ _ _ h
  obtain ⟨_, -, h⟩ := decode_step _ _ _ h
  simp only [pure, Except.pure, Except.ok.injEq] at h
  have := deserialize_common_materials _ jo c hc
  rw [← h]
  exact this

/-- The materials statements on a document with both legacy members and no
`materials` array append `m1` and `m2`. -/
theorem read_materials_m1_m2 (jo : JsonObject) (l : List String) (m1 m2 : String)
    (hm1 : jo.member "m1" = some (.str m1)) (hm2 : jo.member "m2" = some (.str m2))
    (harr : jo.has_array "materials" = false) :
    read_materials jo l = .ok (l ++ [m1, m2]) := by
  have h1 : jo.has_string "m1" = true := by simp [JsonObject.has_string, hm1]
  have g1 : jo.get_string "m1" = .ok m1 := by simp [JsonObject.get_string, hm1]
  have h2 : jo.has_string "m2" = true := by simp [JsonObject.has_string, hm2]
  have g2 : jo.get_string "m2" = .ok m2 := by simp [JsonObject.get_string, hm2]
  simp [read_materials, h1, g1, h2, g2, harr, Except.map, bind, Except.bind, pure, Except.pure]

/-- The materials statements on a document with the legacy member `m1` only and
no `materials` array append `m1`. -/
theorem read_materials_m1 (jo : JsonObject) (l : List String) (m1 : String)
    (hm1 : jo.member "m1" = some (.str m1)) (hm2 : jo.has_string "m2" = false)
    (harr : jo.has_array "materials" = false) :
    read_materials jo l = .ok (l ++ [m1]) := by
  have h1 : jo.has_string "m1" = true := by simp [JsonObject.has_string, hm1]
  have g1 : jo.get_string "m1" = .ok m1 := by simp [JsonObject.get_string, hm1]
  simp [read_materials, h1, g1, hm2, harr, Except.map, bind, Except.bind, pure, Except.pure]

/-- C8: for a tool or armor document that has no `materials` array and has the
string member `m1`, the materials statements of the decoders, run on a fresh
record, succeed, and every record decoded from the document by
`it_artifact_tool::deserialize` or `it_artifact_armor::deserialize` has the
materials list `[m1, m2]` when the string member `m2` is present as well, and
`[m1]` when it is not. -/
theorem legacy_materials_decode (jo : JsonObject) (m1 : String)
    (hm1 : jo.member "m1" = some (.str m1)) (harr : jo.has_array "materials" = false) :
    (∀ m2, jo.member "m2" = some (.str m2) →
      read_materials jo [] = .ok [m1, m2] ∧
      (∀ t, it_artifact_tool.of_json jo = .ok t → t.materials = [m1, m2]) ∧
      (∀ a, it_artifact_armor.of_json jo = .ok a → a.materials = [m1, m2])) ∧
    (jo.has_string "m2" = false →
      read_materials jo [] = .ok [m1] ∧
      (∀ t, it_artifact_tool.of_json jo = .ok t → t.materials = [m1]) ∧
      (∀ a, it_artifact_armor.of_json jo = .ok a → a.materials = [m1])) := by
  constructor
  · intro m2 hm2
    have hr := read_materials_m1_m2 jo [] m1 m2 hm1 hm2 harr
    simp only [List.nil_append] at hr
    refine ⟨hr, ?_, ?_⟩
    · intro t ht
      have := tool_of_json_materials jo t ht
      rw [hr] at this
      exact (Except.ok.inj this).symm
    · intro a ha
      have := armor_of_json_materials jo a ha
      rw [hr] at this
      exact (Except.ok.inj this).symm
  · intro hm2
    have hr := read_materials_m1 jo [] m1 hm1 hm2 harr
    simp only [List.nil_append] at hr
    refine ⟨hr, ?_, ?_⟩
    · intro t ht
      have := tool_of_json_materials jo t ht
      rw [hr] at this
      exact (Except.ok.inj this).symm
    · intro a ha
      have := armor_of_json_materials jo a ha
      rw [hr] at this
      exact (Except.ok.inj this).symm

/-- Witness of C8: the legacy tool document (members `m1` = "wood" and `m2` =
"steel") decodes, to a tool with materials `["wood", "steel"]`; the legacy armor
document (member `m1` = "wool" only) decodes, to an armor with materials
`["wool"]`. -/
theorem legacy_materials_decode_witness :
    (legacy_tool_doc.member "m1" = some (.str "wood") ∧
      legacy_tool_doc.has_array "materials" = false ∧
      legacy_tool_doc.member "m2" = some (.str "steel") ∧
      ∃ t, it_artifact_tool.of_json legacy_tool_doc = .ok t ∧ t.materials = ["wood", "steel"]) ∧
    (legacy_armor_doc.member "m1" = some (.str "wool") ∧
      legacy_armor_doc.has_array "materials" = false ∧
      legacy_armor_doc.has_string "m2" = false ∧
      ∃ a, it_artifact_armor.of_json legacy_armor_doc = .ok a ∧ a.materials = ["wool"]) := by
  refine ⟨⟨rfl, rfl, rfl, ?_⟩, ⟨rfl, rfl, rfl, ?_⟩⟩
  · have hok : (it_artifact_tool.of_json legacy_tool_doc).toOption.isSome = true := by decide
    cases h : it_artifact_tool.of_json legacy_tool_doc with
    | error e => simp [h, Except.toOption] at hok
    | ok t =>
      exact ⟨t, rfl, ((legacy_materials_decode legacy_tool_doc "wood" rfl rfl).1 "steel" rfl).2.1
        t h⟩
  · have hok : (it_artifact_armor.of_json legacy_armor_doc).toOption.isSome = true := by decide
    cases h : it_artifact_armor.of_json legacy_armor_doc with
    | error e => simp [h, Except.toOption] at hok
    | ok a =>
      exact ⟨a, rfl, ((legacy_materials_decode legacy_armor_doc "wool" rfl rfl).2 rfl).2.2 a h⟩

/-- Strings read from an array are its elements, in order. -/
theorem read_array_strings_inv (name : String) (xs : List JsonValue) (ms : List String)
    (h : read_array (JsonValue.as_string name) xs = .ok ms) : ms.map JsonValue.str = xs := by
  induction xs generalizing ms with
  | nil =>
    simp only [read_array, Except.ok.injEq] at h
    subst h; rfl
  | cons x xs ih =>
    cases x with
    | str s =>
      simp only [read_array, JsonValue.as_string] at h
      cases hr : read_array (JsonValue.as_string name) xs with
      | error e => simp [hr] at h
      | ok ys =>
        simp only [hr, Except.ok.injEq] at h
        subst h
        simp [ih ys hr]
    | int n => simp [read_array, JsonValue.as_string] at h
    | bool b => simp [read_array, JsonValue.as_string] at h
    | bits b => simp [read_array, JsonValue.as_string] at h
    | arr ys => simp [read_array, JsonValue.as_string] at h

/-- The materials statements on a document with a `materials` array and no
legacy string members read the array. -/
theorem read_materials_array (jo : JsonObject) (l : List String) (xs : List JsonValue)
    (harr : jo.member "materials" = some (.arr xs)) (h1 : jo.has_string "m1" = false)
    (h2 : jo.has_string "m2" = false) :
    read_materials jo l =
      (read_array (JsonValue.as_string "materials") xs).map (fun ms => l ++ ms) := by
  have ha : jo.has_array "materials" = true := by simp [JsonObject.has_array, harr]
  have ga : jo.get_array "materials" = .ok xs := by simp [JsonObject.get_array, harr]
  simp only [read_materials, h1, h2, ha, ga, Bool.false_eq_true, if_false, if_true, bind,
    Except.bind, pure, Except.pure, Except.map]

/-- C9: for a tool or armor document that has a `materials` array and no `m1` /
`m2` string members, the materials statements of the decoders, run on a fresh
record, read the array: they succeed with the list `ms` when the array holds the
strings `ms`, and every record decoded from the document by
`it_artifact_tool::deserialize` or `it_artifact_armor::deserialize` has a
materials list equal to the array, element for element and in the same order. -/
theorem materials_array_decode (jo : JsonObject) (xs : List JsonValue)
    (harr : jo.member "materials" = some (.arr xs)) (h1 : jo.has_string "m1" = false)
    (h2 : jo.has_string "m2" = false) :
    (∀ ms : List String, xs = ms.map JsonValue.str → read_materials jo [] = .ok ms) ∧
    (∀ t, it_artifact_tool.of_json jo = .ok t → t.materials.map JsonValue.str = xs) ∧
    (∀ a, it_artifact_armor.of_json jo = .ok a → a.materials.map JsonValue.str = xs) := by
  have hr := read_materials_array jo [] xs harr h1 h2
  refine ⟨?_, ?_, ?_⟩
  · intro ms hms
    rw [hr, hms, read_array_strings]
    rfl
  · intro t ht
    have := tool_of_json_materials jo t ht
    rw [hr] at this
    cases hx : read_array (JsonValue.as_string "materials") xs with
    | error e => simp [hx, Except.map] at this
    | ok ms =>
      simp only [hx, Except.map, List.nil_append, Except.ok.injEq] at this
      rw [← this]
      exact read_array_strings_inv _ _ _ hx
  · intro a ha
    have := armor_of_json_materials jo a ha
    rw [hr] at this
    cases hx : read_array (JsonValue.as_string "materials") xs with
    | error e => simp [hx, Except.map] at this
    | ok ms =>
      simp only [hx, Except.map, List.nil_append, Except.ok.injEq] at this
      rw [← this]
      exact read_array_strings_inv _ _ _ hx

/-- Witness of C9: the documents written for a generated tool (materials array
`["steel"]`) and a generated armor (materials array `["silver"]`) decode to
records with these materials. -/
theorem materials_array_decode_witness :
    (written_tool_doc.member "materials" = some (.arr [JsonValue.str "steel"]) ∧
      written_tool_doc.has_string "m1" = false ∧ written_tool_doc.has_string "m2" = false ∧
      ∃ t, it_artifact_tool.of_json written_tool_doc = .ok t ∧
        t.materials.map JsonValue.str = [JsonValue.str "steel"]) ∧
    (written_armor_doc.member "materials" = some (.arr [JsonValue.str "silver"]) ∧
      written_armor_doc.has_string "m1" = false ∧ written_armor_doc.has_string "m2" = false ∧
      ∃ a, it_artifact_armor.of_json written_armor_doc = .ok a ∧
        a.materials.map JsonValue.str = [JsonValue.str "silver"]) := by
  refine ⟨⟨rfl, rfl, rfl, ?_⟩, ⟨rfl, rfl, rfl, ?_⟩⟩
  · exact ⟨_, tool_roundtrip _,
      (materials_array_decode written_tool_doc _ rfl rfl rfl).2.1 _ (tool_roundtrip _)⟩
  · exact ⟨_, armor_roundtrip _,
      (materials_array_decode written_armor_doc _ rfl rfl rfl).2.2 _ (armor_roundtrip _)⟩

/-! ## `load_artifacts` -/

/-- C10: `load_artifacts` decodes an array element whose `"type"` member is the
string `t` with the tool decoder exactly when `t` is `"artifact_tool"` (the
decoded tool is then added to the registry), with the armor decoder exactly when
`t` is `"artifact_armor"`, and for every other `t` raises a parse error that
names the `"type"` member; the loop then stops with the registry as it was before
that element. -/
theorem load_artifact_dispatch (jo : JsonObject) (rest : List JsonObject)
    (registry : List artifact_itype) (t : String) (ht : jo.get_string "type" = .ok t) :
    (t = "artifact_tool" →
      load_artifact jo registry =
        (it_artifact_tool.of_json jo).map (fun r => registry ++ [.tool r])) ∧
    (t = "artifact_armor" →
      load_artifact jo registry =
        (it_artifact_armor.of_json jo).map (fun a => registry ++ [.armor a])) ∧
    (t ≠ "artifact_tool" → t ≠ "artifact_armor" →
      load_artifact jo registry = .error unrecognized_type_error ∧
      unrecognized_type_error.member = "type" ∧
      load_artifacts (some (jo :: rest)) registry = (registry, some unrecognized_type_error)) := by
  refine ⟨?_, ?_, ?_⟩
  · intro h
    simp [load_artifact, ht, h, bind, Except.bind]
  · intro h
    simp [load_artifact, ht, h, bind, Except.bind]
  · intro h1 h2
    have he : load_artifact jo registry = .error unrecognized_type_error := by
      simp [load_artifact, ht, h1, h2, bind, Except.bind, unrecognized_type_error]
    exact ⟨he, rfl, by simp [load_artifacts, load_artifacts_array, he]⟩

/-- Witness of C10: an element of type `"artifact_weapon"` is refused with the
error that names `"type"`, and the written tool document is decoded by the tool
decoder. -/
theorem load_artifact_dispatch_witness :
    JsonObject.get_string [("type", JsonValue.str "artifact_weapon")] "type"
      = .ok "artifact_weapon" ∧
    load_artifact [("type", JsonValue.str "artifact_weapon")] [] =
      .error unrecognized_type_error ∧
    JsonObject.get_string written_tool_doc "type" = .ok "artifact_tool" ∧
    load_artifact written_tool_doc [] =
      (it_artifact_tool.of_json written_tool_doc).map (fun r => [] ++ [.tool r]) :=
  ⟨rfl,
   ((load_artifact_dispatch [("type", JsonValue.str "artifact_weapon")] [] [] "artifact_weapon"
      rfl).2.2 (by decide) (by decide)).1,
   rfl,
   (load_artifact_dispatch written_tool_doc [] [] "artifact_tool" rfl).1 rfl⟩

/-! ## The pool builders and the cost catalogs -/

/-- The loop shared by the pool builders returns the ids from `lo` up to, not
including, `hi`. -/
theorem mem_fill_range (lo hi e : Nat) : e ∈ fill_range lo hi ↔ lo ≤ e ∧ e < hi := by
  simp only [fill_range, List.mem_map, List.mem_range]
  constructor
  · rintro ⟨k, hk, rfl⟩; omega
  · rintro ⟨h1, h2⟩; exact ⟨e - lo, by omega, by omega⟩

/-- C11: `fill_good_passive`, `fill_bad_passive`, `fill_good_active` and
`fill_bad_active` each return, in ascending order and without repetition, exactly
the ids strictly between the null and the split sentinel (good: 19 passive, 16
active) or strictly between the split sentinel and `NUM_AEPS` / `NUM_AEAS` (bad:
18 passive, 13 active); within a family the good and the bad pool are disjoint,
no id occurs twice in the two pools together, and neither sentinel occurs. -/
theorem pool_builders_exact :
    pool_exact fill_good_passive AEP_NULL AEP_SPLIT 19 ∧
    pool_exact fill_bad_passive AEP_SPLIT NUM_AEPS 18 ∧
    pool_exact fill_good_active AEA_NULL AEA_SPLIT 16 ∧
    pool_exact fill_bad_active AEA_SPLIT NUM_AEAS 13 ∧
    (∀ e ∈ fill_good_passive, e ∉ fill_bad_passive) ∧
    (∀ e ∈ fill_good_active, e ∉ fill_bad_active) ∧
    (fill_good_passive ++ fill_bad_passive).Nodup ∧
    (fill_good_active ++ fill_bad_active).Nodup ∧
    (∀ e ∈ fill_good_passive ++ fill_bad_passive, e ≠ AEP_NULL ∧ e ≠ AEP_SPLIT) ∧
    (∀ e ∈ fill_good_active ++ fill_bad_active, e ≠ AEA_NULL ∧ e ≠ AEA_SPLIT) := by
  refine ⟨⟨?_, by decide, by decide⟩, ⟨?_, by decide, by decide⟩, ⟨?_, by decide, by decide⟩,
    ⟨?_, by decide, by decide⟩, by decide, by decide, by decide, by decide, by decide, by decide⟩
  · intro e
    simp only [fill_good_passive, mem_fill_range, AEP_NULL, AEP_SPLIT]
    omega
  · intro e
    simp only [fill_bad_passive, mem_fill_range, AEP_SPLIT, NUM_AEPS]
    omega
  · intro e
    simp only [fill_good_active, mem_fill_range, AEA_NULL, AEA_SPLIT]
    omega
  · intro e
    simp only [fill_bad_active, mem_fill_range, AEA_SPLIT, NUM_AEAS]
    omega

/-- C12: the cost catalogs `passive_effect_cost` and `active_effect_cost` have
exactly one entry per identifier: `NUM_AEPS` and `NUM_AEAS` entries, and the
identifiers of each family (the two sentinels and the enumerators named in the
`io` tables) are, without repetition, the indices of its catalog; the null
sentinel costs 0 in both families, every id of a good pool has a cost >= 0 and
every id of a bad pool has a cost <= 0. -/
theorem cost_catalogs_signs :
    passive_effect_cost.length = NUM_AEPS ∧ active_effect_cost.length = NUM_AEAS ∧
    (family_ids AEP_NULL AEP_SPLIT art_effect_passive_values).Nodup ∧
    (∀ i, i ∈ family_ids AEP_NULL AEP_SPLIT art_effect_passive_values ↔
      i < passive_effect_cost.length) ∧
    (family_ids AEA_NULL AEA_SPLIT art_effect_active_values).Nodup ∧
    (∀ i, i ∈ family_ids AEA_NULL AEA_SPLIT art_effect_active_values ↔
      i < active_effect_cost.length) ∧
    passive_effect_cost.getD AEP_NULL 0 = 0 ∧ active_effect_cost.getD AEA_NULL 0 = 0 ∧
    (∀ e ∈ fill_good_passive, passive_effect_cost.getD e 0 ≥ 0) ∧
    (∀ e ∈ fill_bad_passive, passive_effect_cost.getD e 0 ≤ 0) ∧
    (∀ e ∈ fill_good_active, active_effect_cost.getD e 0 ≥ 0) ∧
    (∀ e ∈ fill_bad_active, active_effect_cost.getD e 0 ≤ 0) := by
  refine ⟨by decide, by decide, by decide, ?_, by decide, ?_, by decide, by decide, by decide,
    by decide, by decide, by decide⟩
  · intro i
    constructor
    · intro h
      have : ∀ j ∈ family_ids AEP_NULL AEP_SPLIT art_effect_passive_values,
          j < passive_effect_cost.length := by decide
      exact this i h
    · intro h
      have : ∀ j ∈ List.range passive_effect_cost.length,
          j ∈ family_ids AEP_NULL AEP_SPLIT art_effect_passive_values := by decide
      exact this i (List.mem_range.mpr h)
  · intro i
    constructor
    · intro h
      have : ∀ j ∈ family_ids AEA_NULL AEA_SPLIT art_effect_active_values,
          j < active_effect_cost.length := by decide
      exact this i h
    · intro h
      have : ∀ j ∈ List.range active_effect_cost.length,
          j ∈ family_ids AEA_NULL AEA_SPLIT art_effect_active_values := by decide
      exact this i (List.mem_range.mpr h)

/-- Every row of `artifact_property_data` has its hints in the sub-range of
their slot. -/
theorem property_data_hints_in_range :
    ∀ pd ∈ artifact_property_data, pd.hints_in_range := by decide

/-- A pick whose hints and fallback range lie in a pool is an id of that pool. -/
theorem natural_pick_mem (hints pool : List Nat) (lo hi : Int) (g : RNG) (plo phi : Nat)
    (hpool : ∀ e, e ∈ pool ↔ plo < e ∧ e < phi)
    (hh : ∀ e ∈ hints, e = 0 ∨ e ∈ pool) (hlo : (plo : Int) < lo) (hle : lo ≤ hi)
    (hhi : hi < (phi : Int)) :
    (natural_pick hints 0 lo hi g).1 ∈ pool := by
  rcases natural_pick_cases hints lo hi g (by omega) hle with ⟨hm, hn⟩ | ⟨h1, h2⟩
  · rcases hh _ hm with h | h
    · exact absurd h hn
    · exact h
  · rw [hpool]
    omega

/-- After one attempt every pick of the layout is an id of its pool and every
other pick is still null. -/
theorem natural_attempt_picked (pd : artifact_property_datum) (l : natural_layout)
    (s : natural_state) (hpd : pd.hints_in_range) (h : s.unpicked_null l) :
    (natural_attempt pd l s).picked l := by
  obtain ⟨h1, h2, h3, h4⟩ := h
  obtain ⟨p1, p2, p3, p4⟩ := hpd
  have e1 : ∀ e, e ∈ fill_good_passive ↔ AEP_NULL < e ∧ e < AEP_SPLIT := fun e => by
    simp only [fill_good_passive, mem_fill_range]; omega
  have e2 : ∀ e, e ∈ fill_bad_passive ↔ AEP_SPLIT < e ∧ e < NUM_AEPS := fun e => by
    simp only [fill_bad_passive, mem_fill_range]; omega
  have e3 : ∀ e, e ∈ fill_good_active ↔ AEA_NULL < e ∧ e < AEA_SPLIT := fun e => by
    simp only [fill_good_active, mem_fill_range]; omega
  have e4 : ∀ e, e ∈ fill_bad_active ↔ AEA_SPLIT < e ∧ e < NUM_AEAS := fun e => by
    simp only [fill_bad_active, mem_fill_range]; omega
  rcases l with ⟨gp, bp, ga, ba⟩
  simp only at h1 h2 h3 h4
  simp only [natural_attempt, natural_state.picked]
  refine ⟨?_, ?_, ?_, ?_⟩
  · cases gp
    · simpa using h1 rfl
    · simp only [if_true]
      exact natural_pick_mem _ _ _ _ _ _ _ e1 p1 (by decide) (by decide) (by decide)
  · cases bp
    · simpa using h2 rfl
    · simp only [if_true]
      exact natural_pick_mem _ _ _ _ _ _ _ e2 p2 (by decide) (by decide) (by decide)
  · cases ga
    · simpa using h3 rfl
    · simp only [if_true]
      exact natural_pick_mem _ _ _ _ _ _ _ e3 p3 (by decide) (by decide) (by decide)
  · cases ba
    · simpa using h4 rfl
    · simp only [if_true]
      exact natural_pick_mem _ _ _ _ _ _ _ e4 p4 (by decide) (by decide) (by decide)

/-- At the exit of the rejection loop every pick of the layout is an id of its
pool and every other pick is null. -/
theorem natural_loop_picked (pd : artifact_property_datum) (l : natural_layout)
    (s : natural_state) (hpd : pd.hints_in_range) (hb : pd.bad_costs) (h : s.unpicked_null l) :
    (natural_loop pd l s).picked l := by
  induction s using natural_loop.induct pd l with
  | case1 s hc ih =>
    rw [natural_loop, if_pos hc]
    exact ih (natural_attempt_value_le pd l s hb h).2
  | case2 s hc =>
    rw [natural_loop, if_neg hc]
    exact natural_attempt_picked pd l s hpd h

/-- The property row used by `new_natural_artifact` is a row of
`artifact_property_data`. -/
theorem natural_base_row_mem (env : Env) (id : String) (prop : Nat) (g : RNG)
    (hprop : prop < ARTPROP_MAX) :
    (natural_base env id prop g).2.1 ∈ artifact_property_data := by
  have hpick := rng_mem (ARTPROP_NULL + 1) (ARTPROP_MAX - 1)
    (rng (ARTSHAPE_NULL + 1) (ARTSHAPE_MAX - 1) g).2 (by decide)
  have hlt : (if prop > ARTPROP_NULL then prop
      else (rng (ARTPROP_NULL + 1) (ARTPROP_MAX - 1)
        (rng (ARTSHAPE_NULL + 1) (ARTSHAPE_MAX - 1) g).2).1.toNat) <
      artifact_property_data.length := by
    have : artifact_property_data.length = ARTPROP_MAX := by decide
    rw [this]
    split
    · exact hprop
    · simp only [ARTPROP_NULL, ARTPROP_MAX] at hpick ⊢; omega
  show artifact_property_data.getD _ _ ∈ artifact_property_data
  rw [List.getD_eq_getElem _ _ hlt]
  exact List.getElem_mem _

/-- The lists built by `natural_effects` on a fresh artifact slot follow one of
the three layouts. -/
theorem natural_effects_layouts (pd : artifact_property_datum) (art : it_artifact_tool)
    (g : RNG) (hpd : pd.hints_in_range) (hb : pd.bad_costs)
    (h : art.artifact = islot_artifact.init) :
    natural_layouts (natural_effects pd art g).1.artifact ∧
    (natural_effects pd art g).1.artifact.effects_wielded = [] ∧
    (natural_effects pd art g).1.artifact.effects_worn = [] := by
  have hroll := rng_mem 1 3 g (by decide)
  have hpick := fun l => natural_loop_picked pd l (natural_init (rng 1 3 g).2) hpd hb
    ⟨fun _ => rfl, fun _ => rfl, fun _ => rfl, fun _ => rfl⟩
  have n1 : ∀ e ∈ fill_good_passive, (e != AEP_NULL) = true := by decide
  have n2 : ∀ e ∈ fill_bad_passive, (e != AEP_NULL) = true := by decide
  have n3 : ∀ e ∈ fill_good_active, (e != AEA_NULL) = true := by decide
  have n4 : ∀ e ∈ fill_bad_active, (e != AEA_NULL) = true := by decide
  refine ⟨?_, by simp [natural_effects, h, islot_artifact.init],
    by simp [natural_effects, h, islot_artifact.init]⟩
  simp only [natural_effects, h, islot_artifact.init, natural_layouts, natural_layout_passive,
    natural_layout_active, natural_layout_mixed]
  generalize (rng 1 3 g).1 = r at hroll hpick
  obtain ⟨r1, r2⟩ := hroll
  interval_cases r
  · rw [show natural_layout.of_roll 1 = ⟨true, true, false, false⟩ from rfl]
    obtain ⟨p1, p2, p3, p4⟩ := hpick ⟨true, true, false, false⟩
    generalize natural_loop pd _ _ = s at p1 p2 p3 p4
    simp only [if_true, Bool.false_eq_true, if_false] at p1 p2 p3 p4
    refine Or.inl ⟨_, p1, _, p2, ?_⟩
    simp [natural_carried, natural_activated, n1 _ p1, n2 _ p2, p3, p4]
  · rw [show natural_layout.of_roll 2 = ⟨false, false, true, true⟩ from rfl]
    obtain ⟨p1, p2, p3, p4⟩ := hpick ⟨false, false, true, true⟩
    generalize natural_loop pd _ _ = s at p1 p2 p3 p4
    simp only [if_true, Bool.false_eq_true, if_false] at p1 p2 p3 p4
    refine Or.inr (Or.inl ⟨_, p3, _, p4, ?_⟩)
    simp [natural_carried, natural_activated, n3 _ p3, n4 _ p4, p1, p2]
  · rw [show natural_layout.of_roll 3 = ⟨false, true, true, false⟩ from rfl]
    obtain ⟨p1, p2, p3, p4⟩ := hpick ⟨false, true, true, false⟩
    generalize natural_loop pd _ _ = s at p1 p2 p3 p4
    simp only [if_true, Bool.false_eq_true, if_false] at p1 p2 p3 p4
    refine Or.inr (Or.inr ⟨_, p2, _, p3, ?_⟩)
    simp [natural_carried, natural_activated, n2 _ p2, n3 _ p3, p1, p4]

/-- The charges set by `natural_effects` on a record without charges: with an
active effect the maximum and default charges are one value in `[1, 4]` and the
recharge mechanism is not null; without, nothing is changed. -/
theorem natural_effects_charges (pd : artifact_property_datum) (art : it_artifact_tool)
    (g : RNG) (h1 : art.tool.max_charges = 0) (h2 : art.tool.def_charges = 0)
    (h3 : art.artifact.charge_type = ARTC_NULL) :
    ((natural_effects pd art g).1.artifact.effects_activated ≠ [] ∧
      (natural_effects pd art g).1.tool.max_charges =
        (natural_effects pd art g).1.tool.def_charges ∧
      1 ≤ (natural_effects pd art g).1.tool.max_charges ∧
      (natural_effects pd art g).1.tool.max_charges ≤ 4 ∧
      ARTC_NULL < (natural_effects pd art g).1.artifact.charge_type ∧
      (natural_effects pd art g).1.artifact.charge_type < NUM_ARTCS) ∨
    ((natural_effects pd art g).1.artifact.effects_activated = [] ∧
      (natural_effects pd art g).1.tool.max_charges = 0 ∧
      (natural_effects pd art g).1.tool.def_charges = 0 ∧
      (natural_effects pd art g).1.artifact.charge_type = ARTC_NULL) := by
  simp only [natural_effects]
  generalize natural_loop pd _ _ = s
  have hc := rng_mem 1 4 s.rng (by decide)
  have ht := rng_mem (ARTC_NULL + 1) (NUM_ARTCS - 1) (rng 1 4 s.rng).2 (by decide)
  by_cases he : natural_activated s art.artifact.effects_activated = []
  · right
    simp [he, h1, h2, h3]
  · left
    have he1 : (natural_activated s art.artifact.effects_activated).isEmpty = false := by
      simpa using he
    refine ⟨he, ?_, ?_, ?_, ?_, ?_⟩
    · simp only [he1, Bool.not_false, if_true]
    · simp only [he1, Bool.not_false, if_true]
      exact hc.1
    · simp only [he1, Bool.not_false, if_true]
      exact hc.2
    · simp only [he1, Bool.not_false, if_true, ARTC_NULL, NUM_ARTCS] at ht ⊢
      omega
    · simp only [he1, Bool.not_false, if_true, ARTC_NULL, NUM_ARTCS] at ht ⊢
      omega

/-- C13: for every property and every random stream, the record made by
`new_natural_artifact` has exactly one of three effect layouts: a good and a
bad passive effect carried and nothing activated; nothing carried and a good
and a bad active effect activated; or one bad passive effect carried and one
good active effect activated. No two layouts hold together,
`effects_wielded` (and `effects_worn`) is empty, and the record has exactly
two effects. -/
theorem natural_three_layouts (env : Env) (id : String) (prop : Nat) (g : RNG)
    (hprop : prop < ARTPROP_MAX) :
    (natural_layout_passive (new_natural_artifact env id prop g).1.artifact ∨
      natural_layout_active (new_natural_artifact env id prop g).1.artifact ∨
      natural_layout_mixed (new_natural_artifact env id prop g).1.artifact) ∧
    ¬ (natural_layout_passive (new_natural_artifact env id prop g).1.artifact ∧
      natural_layout_active (new_natural_artifact env id prop g).1.artifact) ∧
    ¬ (natural_layout_passive (new_natural_artifact env id prop g).1.artifact ∧
      natural_layout_mixed (new_natural_artifact env id prop g).1.artifact) ∧
    ¬ (natural_layout_active (new_natural_artifact env id prop g).1.artifact ∧
      natural_layout_mixed (new_natural_artifact env id prop g).1.artifact) ∧
    (new_natural_artifact env id prop g).1.artifact.effects_wielded = [] ∧
    (new_natural_artifact env id prop g).1.artifact.effects_worn = [] ∧
    (new_natural_artifact env id prop g).1.artifact.effects_wielded.length +
      (new_natural_artifact env id prop g).1.artifact.effects_carried.length +
      (new_natural_artifact env id prop g).1.artifact.effects_activated.length = 2 := by
  have hrow := natural_base_row_mem env id prop g hprop
  obtain ⟨hl, hw, hn⟩ := natural_effects_layouts (natural_base env id prop g).2.1
    (natural_base env id prop g).1 (natural_base env id prop g).2.2
    (property_data_hints_in_range _ hrow) (property_data_bad_costs _ hrow) rfl
  unfold new_natural_artifact
  generalize (natural_effects _ _ _).1.artifact = a at hl hw hn
  refine ⟨hl, ?_, ?_, ?_, hw, hn, ?_⟩
  · rintro ⟨⟨_, _, _, _, h1, _⟩, ⟨_, _, _, _, h2, _⟩⟩
    rw [h1] at h2
    cases h2
  · rintro ⟨⟨_, _, _, _, h1, _⟩, ⟨_, _, _, _, h2, _⟩⟩
    rw [h1] at h2
    cases h2
  · rintro ⟨⟨_, _, _, _, h1, _⟩, ⟨_, _, _, _, h2, _⟩⟩
    rw [h1] at h2
    cases h2
  · rw [hw]
    rcases hl with ⟨_, _, _, _, h1, h2⟩ | ⟨_, _, _, _, h1, h2⟩ | ⟨_, _, _, _, h1, h2⟩ <;>
      rw [h1, h2] <;> rfl

/-- Witness of C13: the property "humming" (3) with the stream `0, 2, 4, ...`
gives the first layout, the good passive effect 5 and the bad passive effect
25. -/
theorem natural_three_layouts_witness :
    3 < ARTPROP_MAX ∧
    (new_natural_artifact plain_env "artifact_0" 3 even_stream).1.artifact.effects_wielded
      = [] ∧
    (new_natural_artifact plain_env "artifact_0" 3 even_stream).1.artifact.effects_carried
      = [5, 25] ∧
    (new_natural_artifact plain_env "artifact_0" 3 even_stream).1.artifact.effects_activated
      = [] :=
  ⟨by decide, (natural_three_layouts plain_env "artifact_0" 3 even_stream (by decide)).2.2.2.2.1,
    by decide, by decide⟩

/-- C14: for every record made by `new_natural_artifact`, either
`effects_activated` is not empty, `max_charges = def_charges`, that value lies
in `[1, 4]` and `charge_type` is a non-null recharge mechanism (above
`ARTC_NULL` and below `NUM_ARTCS`); or `effects_activated` is empty,
`max_charges = def_charges = 0` and `charge_type = ARTC_NULL`. -/
theorem natural_charges (env : Env) (id : String) (prop : Nat) (g : RNG) :
    ((new_natural_artifact env id prop g).1.artifact.effects_activated ≠ [] ∧
      (new_natural_artifact env id prop g).1.tool.max_charges =
        (new_natural_artifact env id prop g).1.tool.def_charges ∧
      1 ≤ (new_natural_artifact env id prop g).1.tool.max_charges ∧
      (new_natural_artifact env id prop g).1.tool.max_charges ≤ 4 ∧
      ARTC_NULL < (new_natural_artifact env id prop g).1.artifact.charge_type ∧
      (new_natural_artifact env id prop g).1.artifact.charge_type < NUM_ARTCS) ∨
    ((new_natural_artifact env id prop g).1.artifact.effects_activated = [] ∧
      (new_natural_artifact env id prop g).1.tool.max_charges = 0 ∧
      (new_natural_artifact env id prop g).1.tool.def_charges = 0 ∧
      (new_natural_artifact env id prop g).1.artifact.charge_type = ARTC_NULL) :=
  natural_effects_charges (natural_base env id prop g).2.1 (natural_base env id prop g).1
    (natural_base env id prop g).2.2 rfl rfl rfl

/-- The stages of `tool_effects`. -/
theorem tool_effects_stages (art : it_artifact_tool) (g : RNG) :
    (tool_effects art g).1.tool.max_charges = (tool_activated_sel art g).max_charges ∧
    (tool_effects art g).1.tool.def_charges = (tool_activated_sel art g).max_charges ∧
    (tool_effects art g).1.artifact.effects_wielded = (tool_wielded_sel art g).effects ∧
    (tool_effects art g).1.artifact.effects_carried = (tool_carried_sel art g).effects ∧
    (tool_effects art g).1.artifact.effects_activated = (tool_activated_sel art g).effects ∧
    (tool_effects art g).1.artifact.charge_type =
      if tool_curse art g then ARTC_NULL else tool_charge_type art g := by
  simp only [tool_effects, tool_curse, tool_charge_type, tool_curse_rng, tool_activated_sel,
    tool_carried_sel, tool_wielded_sel, and_self]

/-- A tool record registered by `new_artifact` is the record of the tool branch. -/
theorem new_artifact_tool_of (env : Env) (id : String) (g : RNG) (t : it_artifact_tool)
    (h : (new_artifact env id g).1 = .tool t) :
    t = (tool_effects (tool_described env id (one_in 2 g).2).1
      (tool_described env id (one_in 2 g).2).2).1 := by
  unfold new_artifact at h
  split at h
  · exact (artifact_itype.tool.inj h).symm
  · cases h

/-- One run of the activated body appends one entry and adds between 1 and 3
charges. -/
theorem activated_body_adds (s : sel_state) :
    (activated_body s).effects.length = s.effects.length + 1 ∧
    s.max_charges + 1 ≤ (activated_body s).max_charges ∧
    (activated_body s).max_charges ≤ s.max_charges + 3 := by
  have hlen : (activated_body s).effects.length = s.effects.length + 1 := by
    simp only [activated_body]
    split_ifs <;> simp [draw_good, draw_bad]
  have hch : ∃ g, (activated_body s).max_charges = s.max_charges + (rng 1 3 g).1 := by
    simp only [activated_body]
    split_ifs
    · exact ⟨_, rfl⟩
    · exact ⟨_, rfl⟩
  obtain ⟨g, hg⟩ := hch
  have hr := rng_mem 1 3 g (by decide)
  rw [hg]
  exact ⟨hlen, by omega, by omega⟩

/-- One run of the activated body keeps the charges within 1 to 3 per entry. -/
theorem activated_body_charged (s : sel_state) (h : sel_charged s) :
    sel_charged (activated_body s) := by
  obtain ⟨h1, h2⟩ := h
  obtain ⟨a1, a2, a3⟩ := activated_body_adds s
  unfold sel_charged
  rw [a1]
  push_cast
  omega

/-- The activated loop keeps the charges within 1 to 3 per entry. -/
theorem activated_loop_charged (s : sel_state) (h : sel_charged s) :
    sel_charged (activated_loop s) := by
  induction s using activated_loop.induct with
  | case1 s hc ih =>
    rw [activated_loop, if_pos hc]
    exact ih (activated_body_charged _ h)
  | case2 s hc =>
    rw [activated_loop, if_neg hc]
    exact h

/-- The charges of a record made by `tool_effects` from a record with no
activated effect and no charge. -/
theorem tool_effects_charged (art : it_artifact_tool) (g : RNG)
    (h1 : art.artifact.effects_activated = []) (h2 : art.tool.max_charges = 0) :
    sel_charged (tool_activated_sel art g) := by
  unfold tool_activated_sel
  apply activated_loop_charged
  simp [sel_charged, sel_init, h1, h2]

/-- The counters of the activated loop of `tool_effects`, started on an empty
list, count the entries of `effects_activated`. -/
theorem tool_activated_counted (art : it_artifact_tool) (g : RNG)
    (h : art.artifact.effects_activated = []) :
    ((tool_activated_sel art g).effects.length : Int) =
      (tool_activated_sel art g).num_good + (tool_activated_sel art g).num_bad := by
  unfold tool_activated_sel
  rw [h]
  exact (activated_loop_inv sel_counted (fun _ _ h => h) sel_counted_step _
    (sel_counted_init _ _ _ _ _)).2.2.2.2.2

/-- The one-in-eight rule is the conjunction of its roll and its count test. -/
theorem tool_curse_eq (art : it_artifact_tool) (g : RNG) :
    tool_curse art g = ((one_in 8 (tool_curse_rng art g)).1 &&
      decide ((tool_activated_sel art g).num_bad + (tool_activated_sel art g).num_good ≥ 4)) := by
  unfold tool_curse Cond.and Cond.pure
  split <;> simp_all

/-- C15: for every tool record produced by `new_artifact`, with `n` the length
of `effects_activated`: `n <= max_charges <= 3 * n` and
`def_charges = max_charges`; each run of the activated loop body appends one
effect and adds a value in `[1, 3]` to `max_charges`. -/
theorem tool_charges_bounds (env : Env) (id : String) (g : RNG) (t : it_artifact_tool)
    (h : (new_artifact env id g).1 = .tool t) :
    (t.artifact.effects_activated.length : Int) ≤ t.tool.max_charges ∧
    t.tool.max_charges ≤ 3 * (t.artifact.effects_activated.length : Int) ∧
    t.tool.def_charges = t.tool.max_charges ∧
    (∀ s : sel_state, (activated_body s).effects.length = s.effects.length + 1 ∧
      s.max_charges + 1 ≤ (activated_body s).max_charges ∧
      (activated_body s).max_charges ≤ s.max_charges + 3) := by
  have ht := new_artifact_tool_of env id g t h
  obtain ⟨hs1, hs2⟩ := tool_described_slots env id (one_in 2 g).2
  have hc := tool_effects_charged (tool_described env id (one_in 2 g).2).1
    (tool_described env id (one_in 2 g).2).2 (by rw [hs1]; rfl) (by rw [hs2]; rfl)
  obtain ⟨e1, e2, -, -, e5, -⟩ := tool_effects_stages (tool_described env id (one_in 2 g).2).1
    (tool_described env id (one_in 2 g).2).2
  rw [← ht] at e1 e2 e5
  rw [e1, e2, e5]
  exact ⟨hc.1, hc.2, rfl, activated_body_adds⟩

/-- Witness of C15: the "Bladed Staff of Forbidden Horrors" has one activated
effect and 2 charges. -/
theorem tool_charges_bounds_witness :
    (new_artifact plain_env "artifact_0" (fun n => 4 * n + 12)).1 = .tool bladed_staff ∧
    bladed_staff.artifact.effects_activated = [5] ∧ bladed_staff.tool.max_charges = 2 ∧
    ((bladed_staff.artifact.effects_activated.length : Int) ≤ bladed_staff.tool.max_charges ∧
      bladed_staff.tool.max_charges ≤ 3 * (bladed_staff.artifact.effects_activated.length : Int) ∧
      bladed_staff.tool.def_charges = bladed_staff.tool.max_charges) :=
  ⟨by decide, by decide, by decide,
    (tool_charges_bounds plain_env "artifact_0" (fun n => 4 * n + 12) bladed_staff (by decide)).1,
    (tool_charges_bounds plain_env "artifact_0" (fun n => 4 * n + 12) bladed_staff
      (by decide)).2.1,
    (tool_charges_bounds plain_env "artifact_0" (fun n => 4 * n + 12) bladed_staff
      (by decide)).2.2.1⟩

/-- The recharge mechanism drawn by `rng(ARTC_NULL + 1, NUM_ARTCS - 1)` is not
null. -/
theorem tool_charge_type_mem (art : it_artifact_tool) (g : RNG)
    (h : (tool_activated_sel art g).max_charges > 0) :
    ARTC_NULL + 1 ≤ tool_charge_type art g ∧ tool_charge_type art g ≤ NUM_ARTCS - 1 := by
  have hr := rng_mem (ARTC_NULL + 1) (NUM_ARTCS - 1) (tool_activated_sel art g).rng (by decide)
  unfold tool_charge_type
  rw [if_pos h]
  simp only [ARTC_NULL, NUM_ARTCS] at hr ⊢
  omega

/-- C16: for every tool record produced by `new_artifact`: if `max_charges = 0`
then `charge_type = ARTC_NULL`; if `max_charges > 0` and the one-in-eight rule
(`one_in(8) && num_bad + num_good >= 4`) does not fire, then `charge_type` lies
in `[ARTC_NULL + 1, NUM_ARTCS - 1]`. -/
theorem tool_charge_type_rule (env : Env) (id : String) (g : RNG) (t : it_artifact_tool)
    (h : (new_artifact env id g).1 = .tool t) :
    (t.tool.max_charges = 0 → t.artifact.charge_type = ARTC_NULL) ∧
    (t.tool.max_charges > 0 → new_artifact_curse env id g = false →
      ARTC_NULL + 1 ≤ t.artifact.charge_type ∧ t.artifact.charge_type ≤ NUM_ARTCS - 1) := by
  have ht := new_artifact_tool_of env id g t h
  obtain ⟨hs1, -⟩ := tool_described_slots env id (one_in 2 g).2
  obtain ⟨e1, -, -, -, -, e6⟩ := tool_effects_stages (tool_described env id (one_in 2 g).2).1
    (tool_described env id (one_in 2 g).2).2
  rw [← ht] at e1 e6
  rw [e1, e6]
  refine ⟨fun h0 => ?_, fun hpos hcurse => ?_⟩
  · split
    · rfl
    · unfold tool_charge_type
      rw [if_neg (by omega), hs1]
      rfl
  · unfold new_artifact_curse at hcurse
    rw [hcurse]
    exact tool_charge_type_mem _ _ hpos

/-- Witness of C16: the "Bladed Staff of Forbidden Horrors" has 2 charges, the
one-in-eight rule does not fire, and its recharge mechanism is 1. -/
theorem tool_charge_type_rule_witness :
    (new_artifact plain_env "artifact_0" (fun n => 4 * n + 12)).1 = .tool bladed_staff ∧
    bladed_staff.tool.max_charges > 0 ∧
    new_artifact_curse plain_env "artifact_0" (fun n => 4 * n + 12) = false ∧
    bladed_staff.artifact.charge_type = 1 ∧
    (ARTC_NULL + 1 ≤ bladed_staff.artifact.charge_type ∧
      bladed_staff.artifact.charge_type ≤ NUM_ARTCS - 1) :=
  ⟨by decide, by decide, by decide, by decide,
    (tool_charge_type_rule plain_env "artifact_0" (fun n => 4 * n + 12) bladed_staff
      (by decide)).2 (by decide) (by decide)⟩

/-- C17 (as amended): in the tool branch of `new_artifact` the recharge
mechanism is set back to `ARTC_NULL` exactly when the `one_in(8)` roll succeeds
and the number of good and bad effects chosen by the activated selection alone,
which is the length of `effects_activated`, is at least 4; the counters are
reset before each selection, so the wielded and carried effects do not count.
The final `charge_type` is `ARTC_NULL` when the rule fires and the mechanism
chosen before otherwise. -/
theorem curse_counts_activated (env : Env) (id : String) (g : RNG) (t : it_artifact_tool)
    (h : (new_artifact env id g).1 = .tool t) :
    (new_artifact_curse env id g = true ↔
      new_artifact_curse_roll env id g = true ∧ 4 ≤ t.artifact.effects_activated.length) ∧
    t.artifact.charge_type =
      (if new_artifact_curse env id g then ARTC_NULL else new_artifact_charge_type env id g) := by
  have ht := new_artifact_tool_of env id g t h
  obtain ⟨hs1, -⟩ := tool_described_slots env id (one_in 2 g).2
  obtain ⟨-, -, -, -, e5, e6⟩ := tool_effects_stages (tool_described env id (one_in 2 g).2).1
    (tool_described env id (one_in 2 g).2).2
  have hn := tool_activated_counted (tool_described env id (one_in 2 g).2).1
    (tool_described env id (one_in 2 g).2).2 (by rw [hs1]; rfl)
  rw [← ht] at e5 e6
  refine ⟨?_, e6⟩
  unfold new_artifact_curse new_artifact_curse_roll
  rw [tool_curse_eq, e5, Bool.and_eq_true, decide_eq_true_eq]
  constructor
  · rintro ⟨h1, h2⟩
    exact ⟨h1, by omega⟩
  · rintro ⟨h1, h2⟩
    exact ⟨h1, by omega⟩

/-- Witness of C17 (as amended): on the stream `6, 13, 20, ...` the roll
succeeds, there are 4 activated effects, the rule fires and the recharge
mechanism is `ARTC_NULL`. -/
theorem curse_counts_activated_witness :
    (new_artifact plain_env "artifact_0" (fun n => 7 * n + 6)).1 = .tool cursed_tool ∧
    cursed_tool.artifact.effects_activated.length = 4 ∧
    (new_artifact_curse plain_env "artifact_0" (fun n => 7 * n + 6) = true ↔
      new_artifact_curse_roll plain_env "artifact_0" (fun n => 7 * n + 6) = true ∧
        4 ≤ cursed_tool.artifact.effects_activated.length) ∧
    cursed_tool.artifact.charge_type = ARTC_NULL :=
  ⟨by decide, by decide,
    (curse_counts_activated plain_env "artifact_0" (fun n => 7 * n + 6) cursed_tool
      (by decide)).1, by decide⟩

/-- Counterexample to C17: on the stream `12, 16, 20, ...` the tool branch of
`new_artifact` makes a record with 5 wielded, 3 carried and 1 activated effect,
9 in all; the `one_in(8)` roll succeeds, yet the recharge mechanism is not set
back to `ARTC_NULL`: it stays 1. -/
theorem curse_counts_activated_counterexample :
    (new_artifact plain_env "artifact_0" (fun n => 4 * n + 12)).1 = .tool bladed_staff ∧
    new_artifact_curse_roll plain_env "artifact_0" (fun n => 4 * n + 12) = true ∧
    bladed_staff.artifact.effects_wielded.length = 5 ∧
    bladed_staff.artifact.effects_carried.length = 3 ∧
    bladed_staff.artifact.effects_activated.length = 1 ∧
    bladed_staff.tool.max_charges = 2 ∧
    new_artifact_curse plain_env "artifact_0" (fun n => 4 * n + 12) = false ∧
    bladed_staff.artifact.charge_type = 1 ∧
    bladed_staff.artifact.charge_type ≠ ARTC_NULL := by
  decide

/-- The shape row and the property row used by `natural_base`. -/
theorem natural_base_rows (env : Env) (id : String) (prop : Nat) (g : RNG) :
    (natural_base env id prop g).2.1 =
      artifact_property_data.getD (natural_property prop g) .none ∧
    (natural_base env id prop g).1.name =
      env.string_format (env.pgettext "artifact name (property, shape)" "%1$s %2$s")
        [env.gettext (artifact_property_data.getD (natural_property prop g) .none).name,
         env.gettext (artifact_shape_data.getD (natural_shape g) .none).name] ∧
    (natural_base env id prop g).1.name_plural = (natural_base env id prop g).1.name ∧
    (∃ g1, (natural_base env id prop g).1.volume =
      (rng (artifact_shape_data.getD (natural_shape g) .none).volume_min
        (artifact_shape_data.getD (natural_shape g) .none).volume_max g1).1) ∧
    (∃ g2, (natural_base env id prop g).1.weight =
      (rng (artifact_shape_data.getD (natural_shape g) .none).weight_min
        (artifact_shape_data.getD (natural_shape g) .none).weight_max g2).1) :=
  ⟨rfl, rfl, rfl, ⟨_, rfl⟩, ⟨_, rfl⟩⟩

/-- The effects stage of `new_natural_artifact` leaves the common fields as
`natural_base` set them. -/
theorem natural_effects_toitype (pd : artifact_property_datum) (art : it_artifact_tool)
    (g : RNG) : (natural_effects pd art g).1.toitype = art.toitype := rfl

/-- The shape picked is not the null shape and is a row of the table. -/
theorem natural_shape_mem (g : RNG) :
    ARTSHAPE_NULL + 1 ≤ natural_shape g ∧ natural_shape g ≤ ARTSHAPE_MAX - 1 := by
  have h := rng_mem (ARTSHAPE_NULL + 1) (ARTSHAPE_MAX - 1) g (by decide)
  unfold natural_shape
  simp only [ARTSHAPE_NULL, ARTSHAPE_MAX] at h ⊢
  omega

/-- The volume and the weight of a natural artifact lie between the two bounds
of the picked shape, whichever of the two is the smaller; every shape has
`weight_min <= weight_max`, and every shape but the lamp has
`volume_min <= volume_max`. -/
theorem natural_volume_weight_between (env : Env) (id : String) (prop : Nat) (g : RNG) :
    min (artifact_shape_data.getD (natural_shape g) .none).volume_min
        (artifact_shape_data.getD (natural_shape g) .none).volume_max ≤
      (new_natural_artifact env id prop g).1.volume ∧
    (new_natural_artifact env id prop g).1.volume ≤
      max (artifact_shape_data.getD (natural_shape g) .none).volume_min
        (artifact_shape_data.getD (natural_shape g) .none).volume_max ∧
    (artifact_shape_data.getD (natural_shape g) .none).weight_min ≤
      (new_natural_artifact env id prop g).1.weight ∧
    (new_natural_artifact env id prop g).1.weight ≤
      (artifact_shape_data.getD (natural_shape g) .none).weight_max ∧
    (∀ sd ∈ artifact_shape_data, sd.name ≠ "lamp" → sd.volume_min ≤ sd.volume_max) := by
  obtain ⟨-, -, -, ⟨g1, hv⟩, ⟨g2, hw⟩⟩ := natural_base_rows env id prop g
  have e1 : (new_natural_artifact env id prop g).1.volume = (natural_base env id prop g).1.volume :=
    rfl
  have e2 : (new_natural_artifact env id prop g).1.weight = (natural_base env id prop g).1.weight :=
    rfl
  have hall : ∀ sd ∈ artifact_shape_data, sd.weight_min ≤ sd.weight_max := by decide
  have hs := natural_shape_mem g
  have hlt : natural_shape g < artifact_shape_data.length := by
    have : artifact_shape_data.length = ARTSHAPE_MAX := by decide
    simp only [ARTSHAPE_NULL, ARTSHAPE_MAX] at hs this
    omega
  have hmem : artifact_shape_data.getD (natural_shape g) .none ∈ artifact_shape_data := by
    rw [List.getD_eq_getElem _ _ hlt]
    exact List.getElem_mem _
  rw [e1, e2, hv, hw]
  have hb := rng_between (artifact_shape_data.getD (natural_shape g) .none).volume_min
    (artifact_shape_data.getD (natural_shape g) .none).volume_max g1
  have hm := rng_mem (artifact_shape_data.getD (natural_shape g) .none).weight_min
    (artifact_shape_data.getD (natural_shape g) .none).weight_max g2 (hall _ hmem)
  exact ⟨hb.1, hb.2, hm.1, hm.2, by decide⟩

/-- C18 fails at the lamp: called with `ARTPROP_NULL` on the stream
`3, 10, 17, ...`, `new_natural_artifact` picks the shape "lamp", whose row has
`volume_min = 1000` and `volume_max = 225`, and gives the record the volume
242, below `volume_min` and above `volume_max`; the weight 25 is within
`[1, 350]`. -/
theorem natural_lamp_volume_out_of_range :
    natural_shape (fun n => 7 * n + 3) = 4 ∧
    (artifact_shape_data.getD (natural_shape (fun n => 7 * n + 3)) .none).name = "lamp" ∧
    (artifact_shape_data.getD (natural_shape (fun n => 7 * n + 3)) .none).volume_min = 1000 ∧
    (artifact_shape_data.getD (natural_shape (fun n => 7 * n + 3)) .none).volume_max = 225 ∧
    (new_natural_artifact plain_env "artifact_0" ARTPROP_NULL (fun n => 7 * n + 3)).1.name =
      "slimy lamp" ∧
    (new_natural_artifact plain_env "artifact_0" ARTPROP_NULL (fun n => 7 * n + 3)).1.volume =
      242 ∧
    (new_natural_artifact plain_env "artifact_0" ARTPROP_NULL (fun n => 7 * n + 3)).1.weight =
      25 ∧
    ¬ ((artifact_shape_data.getD (natural_shape (fun n => 7 * n + 3)) .none).volume_min ≤
        (new_natural_artifact plain_env "artifact_0" ARTPROP_NULL
          (fun n => 7 * n + 3)).1.volume ∧
      (new_natural_artifact plain_env "artifact_0" ARTPROP_NULL (fun n => 7 * n + 3)).1.volume ≤
        (artifact_shape_data.getD (natural_shape (fun n => 7 * n + 3)) .none).volume_max) := by
  decide

/-- C19: called with a property `prop > ARTPROP_NULL` (below `ARTPROP_MAX`),
`new_natural_artifact` builds the record from exactly that property and a
non-null shape: the property used is `prop`, its row is a row of
`artifact_property_data`, the effects come from the hints of that row,
the name is the format `"%1$s %2$s"` applied to the translated name of the
property and the translated name of the picked shape, with no call of
`artifact_name`, and `name_plural` is the same text. Called with
`ARTPROP_NULL`, the property used lies in
`[ARTPROP_NULL + 1, ARTPROP_MAX - 1]`. -/
theorem natural_name_property (env : Env) (id : String) (prop : Nat) (g : RNG)
    (hprop : prop > ARTPROP_NULL) (hmax : prop < ARTPROP_MAX) :
    natural_property prop g = prop ∧
    artifact_property_data.getD prop .none ∈ artifact_property_data ∧
    ARTSHAPE_NULL + 1 ≤ natural_shape g ∧ natural_shape g ≤ ARTSHAPE_MAX - 1 ∧
    (new_natural_artifact env id prop g).1.name =
      env.string_format (env.pgettext "artifact name (property, shape)" "%1$s %2$s")
        [env.gettext (artifact_property_data.getD prop .none).name,
         env.gettext (artifact_shape_data.getD (natural_shape g) .none).name] ∧
    (new_natural_artifact env id prop g).1.name_plural =
      (new_natural_artifact env id prop g).1.name ∧
    new_natural_artifact env id prop g =
      natural_effects (artifact_property_data.getD prop .none) (natural_base env id prop g).1
        (natural_base env id prop g).2.2 ∧
    ARTPROP_NULL + 1 ≤ natural_property ARTPROP_NULL g ∧
    natural_property ARTPROP_NULL g ≤ ARTPROP_MAX - 1 ∧
    new_natural_artifact env id ARTPROP_NULL g =
      natural_effects (artifact_property_data.getD (natural_property ARTPROP_NULL g) .none)
        (natural_base env id ARTPROP_NULL g).1 (natural_base env id ARTPROP_NULL g).2.2 := by
  have hp : natural_property prop g = prop := by
    unfold natural_property
    rw [if_pos hprop]
  obtain ⟨r1, r2, r3, -, -⟩ := natural_base_rows env id prop g
  rw [hp] at r1 r2
  have hs := natural_shape_mem g
  have hpick := rng_mem (ARTPROP_NULL + 1) (ARTPROP_MAX - 1)
    (rng (ARTSHAPE_NULL + 1) (ARTSHAPE_MAX - 1) g).2 (by decide)
  have hn : ARTPROP_NULL + 1 ≤ natural_property ARTPROP_NULL g ∧
      natural_property ARTPROP_NULL g ≤ ARTPROP_MAX - 1 := by
    unfold natural_property
    rw [if_neg (by decide)]
    simp only [ARTPROP_NULL, ARTPROP_MAX] at hpick ⊢
    omega
  refine ⟨hp, ?_, hs.1, hs.2, r2, r3, ?_, hn.1, hn.2, ?_⟩
  · have hlen : prop < artifact_property_data.length := hmax
    rw [List.getD_eq_getElem _ _ hlen]
    exact List.getElem_mem _
  · unfold new_natural_artifact
    rw [r1]
  · unfold new_natural_artifact
    rw [(natural_base_rows env id ARTPROP_NULL g).1]

/-- Witness of C19: called with the property "humming" (3) on the stream
`0, 2, 4, ...`, the record is named "humming sphere". -/
theorem natural_name_property_witness :
    3 > ARTPROP_NULL ∧ 3 < ARTPROP_MAX ∧
    (artifact_property_data.getD 3 .none).name = "humming" ∧
    (artifact_shape_data.getD (natural_shape even_stream) .none).name = "sphere" ∧
    (new_natural_artifact plain_env "artifact_0" 3 even_stream).1.name = "humming sphere" ∧
    (new_natural_artifact plain_env "artifact_0" 3 even_stream).1.name_plural =
      (new_natural_artifact plain_env "artifact_0" 3 even_stream).1.name :=
  ⟨by decide, by decide, by decide, by decide, by decide,
    (natural_name_property plain_env "artifact_0" 3 even_stream (by decide)
      (by decide)).2.2.2.2.2.1⟩

/-- C20: the document written by `it_artifact_tool::serialize` has the member
`"type"` with the value `"artifact_tool"` first, followed by exactly the common
fields and the tool-only fields named in the specification, in that order; the
document written by `it_artifact_armor::serialize` has `"type"` with the value
`"artifact_armor"` first, followed by exactly the common fields and the
armor-only fields; no other member is written and no member is written
twice. -/
theorem serialize_member_names (t : it_artifact_tool) (a : it_artifact_armor) :
    t.serialize.head? = some ("type", JsonValue.str "artifact_tool") ∧
    t.serialize.map Prod.fst = "type" :: (spec_common_fields ++ spec_tool_fields) ∧
    a.serialize.head? = some ("type", JsonValue.str "artifact_armor") ∧
    a.serialize.map Prod.fst = "type" :: (spec_common_fields ++ spec_armor_fields) ∧
    (t.serialize.map Prod.fst).Nodup ∧ (a.serialize.map Prod.fst).Nodup := by
  have ht : t.serialize.map Prod.fst = "type" :: (spec_common_fields ++ spec_tool_fields) := rfl
  have ha : a.serialize.map Prod.fst = "type" :: (spec_common_fields ++ spec_armor_fields) := rfl
  refine ⟨rfl, ht, rfl, ha, ?_, ?_⟩
  · rw [ht]
    decide
  · rw [ha]
    decide

/-- The loop of `save_artifacts` appends the elements of the item types in
order. -/
theorem save_artifacts_loop_eq (l : List runtime_itype) (json : List JsonObject) :
    save_artifacts_loop l json = json ++ l.filterMap save_artifact := by
  induction l generalizing json with
  | nil => simp [save_artifacts_loop]
  | cons e rest ih =>
    cases h : save_artifact e with
    | none => simp [save_artifacts_loop, h, ih]
    | some jo => simp [save_artifacts_loop, h, ih]

/-- The `"type"` of the element written for an item type is the one the
specification gives it. -/
theorem save_artifact_type (e : runtime_itype) :
    (save_artifact e).map (fun jo => jo.get_string "type") = e.saved_type.map Except.ok := by
  rcases e with ⟨b, t, ar, a⟩
  cases a <;> cases t <;> cases ar <;> rfl

/-- A written element is decoded by `load_artifacts` and adds one record to the
registry. -/
theorem load_written (e : runtime_itype) (jo : JsonObject) (registry : List artifact_itype)
    (h : save_artifact e = some jo) :
    ∃ r, load_artifact jo registry = .ok (registry ++ [r]) := by
  rcases e with ⟨b, t, ar, a⟩
  cases a with
  | none => cases h
  | some a =>
    cases t with
    | some t =>
      simp only [save_artifact, Option.some.injEq] at h
      subst h
      have hr := tool_roundtrip { b with tool := t, artifact := a }
      have ht : JsonObject.get_string
          (it_artifact_tool.serialize { b with tool := t, artifact := a }) "type" =
          .ok "artifact_tool" := rfl
      have hl : load_artifact (it_artifact_tool.serialize { b with tool := t, artifact := a })
          registry = (it_artifact_tool.of_json
            (it_artifact_tool.serialize { b with tool := t, artifact := a })).map
            (fun r => registry ++ [.tool r]) := by
        simp only [load_artifact, ht, bind, Except.bind, if_true]
      rw [hl, hr]
      exact ⟨_, rfl⟩
    | none =>
      cases ar with
      | none => cases h
      | some ar =>
        simp only [save_artifact, Option.some.injEq] at h
        subst h
        have hr := armor_roundtrip { b with armor := ar, artifact := a }
        have ht : JsonObject.get_string
            (it_artifact_armor.serialize { b with armor := ar, artifact := a }) "type" =
            .ok "artifact_armor" := rfl
        have hne : ¬ ("artifact_armor" = "artifact_tool") := by decide
        have hl : load_artifact
            (it_artifact_armor.serialize { b with armor := ar, artifact := a }) registry =
            (it_artifact_armor.of_json
              (it_artifact_armor.serialize { b with armor := ar, artifact := a })).map
              (fun r => registry ++ [.armor r]) := by
          simp only [load_artifact, ht, bind, Except.bind, hne, if_false, if_true]
        rw [hl, hr]
        exact ⟨_, rfl⟩

/-- The array written for a list of item types is loaded without error, one
record per element. -/
theorem load_saved (l : List runtime_itype) (registry : List artifact_itype) :
    (load_artifacts_array (l.filterMap save_artifact) registry).2 = none ∧
    (load_artifacts_array (l.filterMap save_artifact) registry).1.length =
      registry.length + (l.filterMap save_artifact).length := by
  induction l generalizing registry with
  | nil => simp [load_artifacts_array]
  | cons e rest ih =>
    cases h : save_artifact e with
    | none =>
      simp only [List.filterMap_cons, h]
      exact ih registry
    | some jo =>
      obtain ⟨r, hr⟩ := load_written e jo registry h
      simp only [List.filterMap_cons, h, load_artifacts_array, hr, List.length_cons]
      obtain ⟨i1, i2⟩ := ih (registry ++ [r])
      refine ⟨i1, ?_⟩
      rw [i2, List.length_append, List.length_singleton]
      omega

/-- C21: `save_artifacts` writes one array element, in the order of the runtime
types, for each item type that has an artifact slot and a tool or armor slot,
an `"artifact_tool"` element when it has a tool slot and an `"artifact_armor"`
element otherwise, and nothing for any other item type; `load_artifacts`
accepts the `"type"` of every element written: it decodes the whole array
without error, one record per element. -/
theorem save_artifacts_elements (runtime_types : List runtime_itype)
    (registry : List artifact_itype) :
    save_artifacts runtime_types = runtime_types.filterMap save_artifact ∧
    (save_artifacts runtime_types).map (fun jo => jo.get_string "type") =
      (runtime_types.filterMap runtime_itype.saved_type).map Except.ok ∧
    (∀ jo ∈ save_artifacts runtime_types,
      jo.get_string "type" = .ok "artifact_tool" ∨
      jo.get_string "type" = .ok "artifact_armor") ∧
    (load_artifacts (some (save_artifacts runtime_types)) registry).2 = none ∧
    (load_artifacts (some (save_artifacts runtime_types)) registry).1.length =
      registry.length + (save_artifacts runtime_types).length := by
  have hty : (runtime_types.filterMap save_artifact).map (fun jo => jo.get_string "type") =
      (runtime_types.filterMap runtime_itype.saved_type).map Except.ok := by
    induction runtime_types with
    | nil => rfl
    | cons e rest ih =>
      have he := save_artifact_type e
      cases h1 : save_artifact e <;> cases h2 : e.saved_type <;>
        simp_all [List.filterMap_cons]
  have hs : save_artifacts runtime_types = runtime_types.filterMap save_artifact := by
    simp [save_artifacts, save_artifacts_loop_eq]
  rw [hs]
  refine ⟨rfl, hty, ?_, (load_saved runtime_types registry).1,
    (load_saved runtime_types registry).2⟩
  intro jo hjo
  have hm : jo.get_string "type" ∈
      (runtime_types.filterMap runtime_itype.saved_type).map Except.ok := by
    rw [← hty]
    exact List.mem_map_of_mem _ hjo
  obtain ⟨t, ht, hjt⟩ := List.mem_map.1 hm
  obtain ⟨e, -, he⟩ := List.mem_filterMap.1 ht
  rw [← hjt]
  unfold runtime_itype.saved_type at he
  split at he
  · cases he
    split
    · exact Or.inl rfl
    · exact Or.inr rfl
  · cases he

/-- Witness of C21: of four runtime types (a tool artifact, an armor artifact,
an item type with an artifact slot only, a plain tool) the first two are
written, in that order, and the array is loaded without error. -/
theorem save_artifacts_elements_witness :
    (save_artifacts runtime_sample).map (fun jo => jo.get_string "type") =
      [.ok "artifact_tool", .ok "artifact_armor"] ∧
    (save_artifacts runtime_sample).map (fun jo => jo.get_string "id") =
      [.ok "artifact_0", .ok "artifact_1"] ∧
    (load_artifacts (some (save_artifacts runtime_sample)) []).2 = none :=
  ⟨(save_artifacts_elements runtime_sample []).2.1, rfl,
    (save_artifacts_elements runtime_sample []).2.2.2.1⟩

/-- The loop `while (ja.has_more()) v.push_back((E)ja.next_int())` run on the
array written for `vec` appends `vec` to the list. -/
theorem read_effects_written (jo : JsonObject) (name : String) (vec old : List Nat)
    (h : jo.member name = some (serialize_enum_vector_as_int name vec).2) :
    read_effects jo name old = .ok (old ++ vec) := by
  simp only [serialize_enum_vector_as_int] at h
  simp [read_effects, JsonObject.get_array, h, read_array_ints, bind, Except.bind, pure,
    Except.pure, toNat_cast_list]

/-- C22: for every list of effect ids, `serialize_enum_vector_as_int` writes
under the given member name an array of the ids as integers, of the same length
and in the same order; the decoder loop over such an array, started from an
empty list, rebuilds the list; and the decoders of both variants give back
`effects_wielded`, `effects_activated`, `effects_carried` (tool) and
`effects_worn` (armor) of the record whose document they read. -/
theorem effect_arrays_roundtrip (member : String) (vec : List Nat) (t : it_artifact_tool)
    (a : it_artifact_armor) :
    (serialize_enum_vector_as_int member vec).1 = member ∧
    (serialize_enum_vector_as_int member vec).2 =
      .arr (vec.map (fun (e : Nat) => JsonValue.int (e : Int))) ∧
    (serialize_enum_vector_as_int member vec).2.elements.length = vec.length ∧
    (∀ i : Nat, (serialize_enum_vector_as_int member vec).2.elements[i]? =
      (vec[i]?).map (fun (e : Nat) => JsonValue.int (e : Int))) ∧
    read_effects [serialize_enum_vector_as_int member vec] member [] = .ok vec ∧
    (∃ d, it_artifact_tool.of_json t.serialize = .ok d ∧
      d.artifact.effects_wielded = t.artifact.effects_wielded ∧
      d.artifact.effects_activated = t.artifact.effects_activated ∧
      d.artifact.effects_carried = t.artifact.effects_carried) ∧
    (∃ d, it_artifact_armor.of_json a.serialize = .ok d ∧
      d.artifact.effects_worn = a.artifact.effects_worn) := by
  refine ⟨rfl, rfl, ?_, ?_, ?_, ⟨_, tool_roundtrip t, rfl, rfl, rfl⟩,
    ⟨_, armor_roundtrip a, rfl⟩⟩
  · simp [serialize_enum_vector_as_int, JsonValue.elements]
  · intro i
    simp [serialize_enum_vector_as_int, JsonValue.elements]
  · have := read_effects_written [serialize_enum_vector_as_int member vec] member vec []
      (by simp [JsonObject.member, serialize_enum_vector_as_int])
    simpa using this

/-- C23: when an armor mod is applied by the rules of `new_artifact`, the
encumbrance and the warmth are the value of the form plus the delta of the
mod, for every form and every mod, with no floor: the statements
`encumber += modinfo->encumb` and `warmth += modinfo->warmth` hold for every
record and every mod row. The Robe (encumbrance 1) with the "very thin and
light" mod (delta -2), one of the Robe's allowed mods, gets the encumbrance
-1; the Ring (warmth 0) with that mod (delta -1) would get the warmth -1. -/
theorem armor_mod_encumber_warmth (env : Env) (art : it_artifact_armor) (form mod : Nat) :
    (modded_armor env art form mod).armor.encumber =
      (artifact_armor_form_data.getD form .none).encumb +
        (artifact_armor_mod_data.getD mod .none).encumb ∧
    (modded_armor env art form mod).armor.warmth =
      (artifact_armor_form_data.getD form .none).warmth +
        (artifact_armor_mod_data.getD mod .none).warmth ∧
    (∀ (modinfo : artifact_armor_form_datum) (a : it_artifact_armor),
      (apply_armor_mod modinfo a).armor.encumber = a.armor.encumber + modinfo.encumb ∧
      (apply_armor_mod modinfo a).armor.warmth = a.armor.warmth + modinfo.warmth) ∧
    (artifact_armor_form_data.getD ARTARMFORM_ROBE .none).name = "Robe" ∧
    (artifact_armor_form_data.getD ARTARMFORM_ROBE .none).encumb = 1 ∧
    (artifact_armor_mod_data.getD ARMORMOD_LIGHT .none).name = "very thin and light." ∧
    (artifact_armor_mod_data.getD ARMORMOD_LIGHT .none).encumb = -2 ∧
    ARMORMOD_LIGHT ∈ (artifact_armor_form_data.getD ARTARMFORM_ROBE .none).available_mods ∧
    (modded_armor env art ARTARMFORM_ROBE ARMORMOD_LIGHT).armor.encumber = -1 ∧
    (modded_armor env art ARTARMFORM_RING ARMORMOD_LIGHT).armor.warmth = -1 := by
  refine ⟨rfl, rfl, fun _ _ => ⟨rfl, rfl⟩, by decide, by decide, by decide, by decide,
    by decide, ?_, ?_⟩
  · show (artifact_armor_form_data.getD ARTARMFORM_ROBE .none).encumb +
      (artifact_armor_mod_data.getD ARMORMOD_LIGHT .none).encumb = -1
    decide
  · show (artifact_armor_form_data.getD ARTARMFORM_RING .none).warmth +
      (artifact_armor_mod_data.getD ARMORMOD_LIGHT .none).warmth = -1
    decide

/-- Witness of C23: on the stream `5, 7, 9, ...` `new_artifact` registers the
"Robe of Silent Illusion", very thin and light, with the encumbrance -1 and the
warmth 1. -/
theorem armor_mod_encumber_warmth_witness :
    (new_artifact plain_env "artifact_0" (fun n => 2 * n + 5)).1 = .armor light_robe ∧
    light_robe.name = "Robe of Silent Illusion" ∧
    light_robe.description =
      "This is the Robe of Silent Illusion.\nIt is the only one of its kind.\nIt is very thin and light." ∧
    light_robe.armor.encumber = -1 ∧ light_robe.armor.warmth = 1 ∧
    (modded_armor plain_env (it_artifact_armor.new "artifact_0") ARTARMFORM_ROBE
      ARMORMOD_LIGHT).armor.encumber = -1 :=
  ⟨by decide, by decide, by decide, by decide, by decide,
    (armor_mod_encumber_warmth plain_env (it_artifact_armor.new "artifact_0") ARTARMFORM_ROBE
      ARMORMOD_LIGHT).2.2.2.2.2.2.2.2.1⟩

/-- A family pick is either the hint read or the fallback drawn with the bounds
of that pick. -/
theorem natural_pick_hint_or_fallback (hints : List Nat) (null : Nat) (lo hi : Int) (g : RNG) :
    (natural_pick hints null lo hi g).1 = hints.getD (rng 0 3 g).1.toNat 0 ∨
    ∃ g1, (natural_pick hints null lo hi g).1 = natural_fallback lo hi g1 := by
  unfold natural_pick
  simp only
  split
  · exact Or.inr ⟨_, rfl⟩
  · exact Or.inl rfl

/-- The results of a fallback with bounds `0 <= lo <= hi` are exactly the ids of
the closed range from `lo` to `hi`. -/
theorem natural_fallback_range (lo hi : Int) (h0 : 0 ≤ lo) (hle : lo ≤ hi) (e : Nat) :
    (∃ g, natural_fallback lo hi g = e) ↔ lo ≤ (e : Int) ∧ (e : Int) ≤ hi := by
  constructor
  · rintro ⟨g, rfl⟩
    have := rng_mem lo hi g hle
    unfold natural_fallback
    omega
  · rintro ⟨h1, h2⟩
    refine ⟨fun _ => ((e : Int) - lo).toNat, ?_⟩
    have hc : (((e : Int) - lo).toNat : Int) = (e : Int) - lo := Int.toNat_of_nonneg (by omega)
    have hmod : ((e : Int) - lo) % (hi - lo + 1) = (e : Int) - lo :=
      Int.emod_eq_of_lt (by omega) (by omega)
    unfold natural_fallback rng
    simp only [hc]
    by_cases h : lo < hi
    · simp only [if_pos h, hmod]
      omega
    · have : lo = hi := by omega
      subst this
      simp only [if_neg h, hmod]
      omega

/-- C24 fails for the bad passive pick: the fallbacks of the good passive, good
active and bad active picks of `new_natural_artifact` range over exactly the ids
of `fill_good_passive`, `fill_good_active` and `fill_bad_active`, but the
fallback of the bad passive pick, written `rng(AEP_SPLIT + 1, NUM_AEAS - 1)`,
ranges over the ids of `fill_bad_passive` below `NUM_AEAS` only: the ids 31 to
38 are never drawn. With the property "humming" (3) on the raw draws
`0, 0, 0, 2, 0, 0, 17, 0, ...` the fallback of the bad passive pick is taken
with the raw draw 17 and gives the id 28, which is no hint of the property;
over the full range, to `NUM_AEPS - 1`, the same draw gives 38. -/
theorem natural_fallback_ranges :
    (∀ e, (∃ g, natural_fallback (AEP_NULL + 1) (AEP_SPLIT - 1) g = e) ↔
      e ∈ fill_good_passive) ∧
    (∀ e, (∃ g, natural_fallback (AEA_NULL + 1) (AEA_SPLIT - 1) g = e) ↔
      e ∈ fill_good_active) ∧
    (∀ e, (∃ g, natural_fallback (AEA_SPLIT + 1) (NUM_AEAS - 1) g = e) ↔
      e ∈ fill_bad_active) ∧
    (∀ e, (∃ g, natural_fallback (AEP_SPLIT + 1) (NUM_AEAS - 1) g = e) ↔
      e ∈ fill_bad_passive ∧ e < NUM_AEAS) ∧
    (∀ e ∈ [31, 32, 33, 34, 35, 36, 37, 38], e ∈ fill_bad_passive ∧
      ∀ g, natural_fallback (AEP_SPLIT + 1) (NUM_AEAS - 1) g ≠ e) ∧
    (new_natural_artifact plain_env "artifact_0" 3 fallback_stream).1.artifact.effects_carried
      = [28] ∧
    28 ∉ (artifact_property_data.getD 3 .none).passive_bad ∧
    natural_fallback (AEP_SPLIT + 1) (NUM_AEAS - 1) (fun _ => 17) = 28 ∧
    natural_fallback (AEP_SPLIT + 1) (NUM_AEPS - 1) (fun _ => 17) = 38 := by
  have hbad : ∀ e, (∃ g, natural_fallback (AEP_SPLIT + 1) (NUM_AEAS - 1) g = e) ↔
      e ∈ fill_bad_passive ∧ e < NUM_AEAS := by
    intro e
    rw [natural_fallback_range _ _ (by decide) (by decide)]
    simp only [fill_bad_passive, mem_fill_range, AEP_SPLIT, NUM_AEAS, NUM_AEPS]
    omega
  refine ⟨?_, ?_, ?_, hbad, ?_, by decide, by decide, by decide, by decide⟩
  · intro e
    rw [natural_fallback_range _ _ (by decide) (by decide)]
    simp only [fill_good_passive, mem_fill_range, AEP_NULL, AEP_SPLIT]
    omega
  · intro e
    rw [natural_fallback_range _ _ (by decide) (by decide)]
    simp only [fill_good_active, mem_fill_range, AEA_NULL, AEA_SPLIT]
    omega
  · intro e
    rw [natural_fallback_range _ _ (by decide) (by decide)]
    simp only [fill_bad_active, mem_fill_range, AEA_SPLIT, NUM_AEAS]
    omega
  · intro e he
    refine ⟨?_, fun g hg => ?_⟩
    · revert e
      decide
    · have h30 := ((hbad e).1 ⟨g, hg⟩).2
      have hge : ∀ x ∈ [31, 32, 33, 34, 35, 36, 37, 38], ¬ x < NUM_AEAS := by decide
      exact hge e he h30

/-- With pools that are not empty and counters below 3, the condition of the
worn loop is its disjunction. -/
theorem worn_cond_in_loop_eq (s : sel_state) (h : s.in_loop) :
    worn_cond s = worn_disjunction s := by
  obtain ⟨h1, h2, h3, h4⟩ := h
  have e1 : (!s.good_effects.isEmpty) = true := by simpa using h1
  have e2 : (!s.bad_effects.isEmpty) = true := by simpa using h2
  have e3 : decide (s.num_good < 3) = true := by simpa using h3
  have e4 : decide (s.num_bad < 3) = true := by simpa using h4
  funext g
  unfold worn_cond worn_disjunction
  rw [e1, e2, e3, e4]
  rfl

/-- C25 (as amended): in the worn-effects loop of `new_artifact`, with both
pools non-empty, `ng < 3` and `nb < 3`, the loop continues exactly when
`ng < 1`, or `one_in(2 * ng)` succeeds, or `v > 1`, or (`nb < 3` and
`one_in(3 - nb)` fails), the disjuncts being evaluated from left to right with
short-circuit: the second roll is drawn after the first, and only when the
three disjuncts before it are false. -/
theorem worn_cond_continues (s : sel_state) (g : RNG) (h : s.in_loop) :
    worn_cond s g = worn_disjunction s g ∧
    ((worn_cond s g).1 = true ↔
      s.num_good < 1 ∨ (one_in (s.num_good * 2) g).1 = true ∨ s.value > 1 ∨
      (s.num_bad < 3 ∧ (one_in (3 - s.num_bad) (one_in (s.num_good * 2) g).2).1 = false)) ∧
    (s.num_good < 1 → (worn_cond s g).2 = g) ∧
    (¬ s.num_good < 1 → ((one_in (s.num_good * 2) g).1 = true ∨ s.value > 1) →
      (worn_cond s g).2 = (one_in (s.num_good * 2) g).2) ∧
    (¬ s.num_good < 1 → (one_in (s.num_good * 2) g).1 = false → ¬ s.value > 1 →
      (worn_cond s g).2 = (one_in (3 - s.num_bad) (one_in (s.num_good * 2) g).2).2) := by
  have hb : decide (s.num_bad < 3) = true := by simpa using h.2.2.2
  rw [worn_cond_in_loop_eq s h]
  unfold worn_disjunction
  refine ⟨rfl, ?_, ?_, ?_, ?_⟩
  · by_cases h1 : s.num_good < 1
    · simp [Cond.or, Cond.and, Cond.not, Cond.pure, h1]
    · by_cases h2 : (one_in (s.num_good * 2) g).1 = true
      · simp [Cond.or, Cond.and, Cond.not, Cond.pure, h1, h2]
      · by_cases h3 : s.value > 1
        · simp [Cond.or, Cond.and, Cond.not, Cond.pure, h1, h2, h3]
        · simp [Cond.or, Cond.and, Cond.not, Cond.pure, h1, h2, h3, hb, h.2.2.2]
  · intro h1
    simp [Cond.or, Cond.pure, h1]
  · intro h1 h23
    by_cases h2 : (one_in (s.num_good * 2) g).1 = true
    · simp [Cond.or, Cond.pure, h1, h2]
    · have h3 : s.value > 1 := h23.resolve_left h2
      simp [Cond.or, Cond.pure, h1, h2, h3]
  · intro h1 h2 h3
    simp [Cond.or, Cond.and, Cond.not, Cond.pure, h1, h2, h3, hb]

/-- Witness of C25 (as amended): in the state after the first turn of the worn
loop on the raw draws 0, 14, 1, 0 (one good effect, no bad effect, value 1),
`one_in(2)` fails and `one_in(3)` succeeds, so the loop stops. -/
theorem worn_cond_continues_witness :
    worn_probe.in_loop ∧
    (one_in (worn_probe.num_good * 2) worn_probe.rng).1 = false ∧
    (one_in (3 - worn_probe.num_bad)
      (one_in (worn_probe.num_good * 2) worn_probe.rng).2).1 = true ∧
    (worn_cond worn_probe worn_probe.rng).1 = false ∧
    worn_cond worn_probe worn_probe.rng = worn_disjunction worn_probe worn_probe.rng :=
  ⟨⟨by decide, by decide, by decide, by decide⟩, by decide, by decide, by decide,
    (worn_cond_continues worn_probe worn_probe.rng
      ⟨by decide, by decide, by decide, by decide⟩).1⟩

/-- Counterexample to C25: on the raw draws 0, 14, 1, 0 the first turn of the
worn loop draws the good effect 15 of cost 1. In the state reached (both pools
non-empty, `ng = 1`, `nb = 0`, `v = 1`) `ng < 1` is false, `one_in(2 * ng)`
fails, `v > 1` is false, and `nb < 3` holds with `one_in(3 - nb)` succeeding:
the condition as the claim words it is true, but the loop condition is false
and the worn loop ends with the single effect 15. -/
theorem worn_cond_counterexample :
    worn_probe.good_effects ≠ [] ∧ worn_probe.bad_effects ≠ [] ∧
    worn_probe.num_good < 3 ∧ worn_probe.num_bad < 3 ∧
    ¬ worn_probe.num_good < 1 ∧
    (one_in (worn_probe.num_good * 2) worn_probe.rng).1 = false ∧
    ¬ worn_probe.value > 1 ∧
    (one_in (3 - worn_probe.num_bad)
      (one_in (worn_probe.num_good * 2) worn_probe.rng).2).1 = true ∧
    (spec_worn_cond worn_probe worn_probe.rng).1 = true ∧
    (worn_cond worn_probe worn_probe.rng).1 = false ∧
    worn_probe.num_good = 1 ∧ worn_probe.num_bad = 0 ∧ worn_probe.value = 1 ∧
    (worn_loop worn_start).effects = [15] := by
  decide

/-- The index drawn by `rng(0, 4)` is one of the five entries of
`available_mods`. -/
theorem armor_mod_entry_mem (info : artifact_armor_form_datum) (g : RNG)
    (h : info.available_mods.length = 5) : armor_mod_entry info g ∈ info.available_mods := by
  have hr := rng_mem 0 4 (Cond.not (one_in 4) g).2 (by decide)
  unfold armor_mod_entry
  rw [List.getD_eq_getElem _ _ (by omega)]
  exact List.getElem_mem _

/-- The armor branch runs `// Modify the armor further` on the form drawn, with
the random source `armor_mod_rng`, and then sets the description. -/
theorem armor_described_modify (env : Env) (id : String) (g : RNG) :
    ∃ art text, armor_described env id g =
      ({ (armor_modify env (artifact_armor_form_data.getD
            (rng (ARTARMFORM_NULL + 1) (NUM_ARTARMFORMS - 1) g).1.toNat .none) art
            (armor_mod_rng env id g)).1 with description := text },
       (armor_modify env (artifact_armor_form_data.getD
            (rng (ARTARMFORM_NULL + 1) (NUM_ARTARMFORMS - 1) g).1.toNat .none) art
            (armor_mod_rng env id g)).2.2) :=
  ⟨_, _, rfl⟩

/-- C26 (as amended): in the armor branch of `new_artifact`, whenever the gate
`!one_in(4)` passes, one entry of the form's `available_mods` (an array of five
entries) is read at the index `rng(0, 4)`; when that entry is not `ARMORMOD_NULL` exactly that
modifier is applied to the armor (once) and named in the description, and when
it is `ARMORMOD_NULL` no modifier is applied and the armor is left as the form
made it. The entries of Robe and Coat are all non-null; Mask, Helm, Gloves,
Boots and Ring have a null entry. -/
theorem armor_modify_gate (env : Env) (info : artifact_armor_form_datum)
    (art : it_artifact_armor) (g : RNG) (hgate : armor_mod_gate g = true)
    (hmods : info.available_mods.length = 5) :
    armor_mod_entry info g ∈ info.available_mods ∧
    (armor_mod_entry info g ≠ ARMORMOD_NULL →
      (armor_modify env info art g).1 =
        apply_armor_mod (artifact_armor_mod_data.getD (armor_mod_entry info g) .none) art ∧
      (armor_modify env info art g).2.1 =
        env.string_format (if info.plural then env.gettext "\nThey are %s"
                           else env.gettext "\nIt is %s")
          [env.gettext (artifact_armor_mod_data.getD (armor_mod_entry info g) .none).name]) ∧
    (armor_mod_entry info g = ARMORMOD_NULL →
      (armor_modify env info art g).1 = art ∧ (armor_modify env info art g).2.1 = "") ∧
    (∀ form, ARTARMFORM_NULL < form → form < NUM_ARTARMFORMS →
      (ARMORMOD_NULL ∉ (artifact_armor_form_data.getD form .none).available_mods ↔
        form = ARTARMFORM_ROBE ∨ form = ARTARMFORM_COAT)) := by
  unfold armor_mod_gate at hgate
  refine ⟨armor_mod_entry_mem info g hmods, ?_, ?_, ?_⟩
  · intro hne
    have hb : (info.available_mods.getD (rng 0 4 (Cond.not (one_in 4) g).2).1.toNat 0
        != ARMORMOD_NULL) = true := by
      simpa [armor_mod_entry] using hne
    simp only [armor_modify, hgate, if_true, hb, armor_mod_entry, and_self]
  · intro he
    have hb : (info.available_mods.getD (rng 0 4 (Cond.not (one_in 4) g).2).1.toNat 0
        != ARMORMOD_NULL) = false := by
      simpa [armor_mod_entry] using he
    simp only [armor_modify, hgate, if_true, hb, and_self]
    simp
  · intro form h1 h2
    simp only [ARTARMFORM_NULL, NUM_ARTARMFORMS] at h1 h2
    interval_cases form <;> decide

/-- Witness of C26 (as amended): for the Helm on the raw draws 1, 3 the gate
passes, the entry read is `ARMORMOD_PLATED`, and that mod is applied. -/
theorem armor_modify_gate_witness :
    armor_mod_gate (fun n => [1, 3].getD n 0) = true ∧
    (artifact_armor_form_data.getD ARTARMFORM_HELM .none).available_mods.length = 5 ∧
    armor_mod_entry (artifact_armor_form_data.getD ARTARMFORM_HELM .none)
      (fun n => [1, 3].getD n 0) = ARMORMOD_PLATED ∧
    (armor_modify plain_env (artifact_armor_form_data.getD ARTARMFORM_HELM .none)
      (it_artifact_armor.new "artifact_0") (fun n => [1, 3].getD n 0)).1 =
      apply_armor_mod (artifact_armor_mod_data.getD (armor_mod_entry
        (artifact_armor_form_data.getD ARTARMFORM_HELM .none) (fun n => [1, 3].getD n 0)) .none)
        (it_artifact_armor.new "artifact_0") :=
  ⟨by decide, by decide, by decide,
    ((armor_modify_gate plain_env (artifact_armor_form_data.getD ARTARMFORM_HELM .none)
      (it_artifact_armor.new "artifact_0") (fun n => [1, 3].getD n 0) (by decide)
      (by decide)).2.1 (by decide)).1⟩

/-- Counterexample to C26: on the raw draws 1, 3, 0, 0, 1, 4, 0, ...
`new_artifact` makes a Helm, the gate `!one_in(4)` passes, and the entry read
from the Helm's `available_mods` is the fifth one, `ARMORMOD_NULL`: no modifier
is applied. The record keeps the volume, weight, encumbrance, coverage,
thickness and warmth of the form, and its description names no modifier. -/
theorem armor_modify_counterexample :
    (new_artifact plain_env "artifact_0" helm_stream).1 = .armor plain_helm ∧
    (rng (ARTARMFORM_NULL + 1) (NUM_ARTARMFORMS - 1) (one_in 2 helm_stream).2).1 =
      ARTARMFORM_HELM ∧
    armor_mod_gate (armor_mod_rng plain_env "artifact_0" (one_in 2 helm_stream).2) = true ∧
    armor_mod_entry (artifact_armor_form_data.getD ARTARMFORM_HELM .none)
      (armor_mod_rng plain_env "artifact_0" (one_in 2 helm_stream).2) = ARMORMOD_NULL ∧
    (artifact_armor_form_data.getD ARTARMFORM_HELM .none).available_mods =
      [ARMORMOD_BULKY, ARMORMOD_FURRED, ARMORMOD_PADDED, ARMORMOD_PLATED, ARMORMOD_NULL] ∧
    plain_helm.description =
      "This is the Helm of Forbidden Technique.
It is the only one of its kind." ∧
    plain_helm.volume = (artifact_armor_form_data.getD ARTARMFORM_HELM .none).volume ∧
    plain_helm.weight = (artifact_armor_form_data.getD ARTARMFORM_HELM .none).weight ∧
    plain_helm.armor.encumber = (artifact_armor_form_data.getD ARTARMFORM_HELM .none).encumb ∧
    plain_helm.armor.coverage = (artifact_armor_form_data.getD ARTARMFORM_HELM .none).coverage ∧
    plain_helm.armor.thickness =
      (artifact_armor_form_data.getD ARTARMFORM_HELM .none).thickness ∧
    plain_helm.armor.warmth = (artifact_armor_form_data.getD ARTARMFORM_HELM .none).warmth ∧
    (∀ mod ∈ List.range NUM_ARMORMODS, ARMORMOD_NULL < mod →
      plain_helm.armor.encumber ≠
        (modded_armor plain_env (it_artifact_armor.new "artifact_0") ARTARMFORM_HELM
          mod).armor.encumber) := by
  decide

/-- The rejection loop is a number `k >= 1` of attempts, of which all but the
last are rejected; the threshold grows by `k`, and the last attempt is within
the threshold. -/
theorem natural_loop_attempts (pd : artifact_property_datum) (l : natural_layout)
    (s : natural_state) :
    ∃ k : Nat, 1 ≤ k ∧ natural_loop pd l s = (natural_attempt pd l)^[k] s ∧
      (∀ j, 1 ≤ j → j < k →
        ((natural_attempt pd l)^[j] s).value > ((natural_attempt pd l)^[j] s).value_to_reach) ∧
      (natural_loop pd l s).value_to_reach = s.value_to_reach + k ∧
      (natural_loop pd l s).value ≤ (natural_loop pd l s).value_to_reach := by
  induction s using natural_loop.induct pd l with
  | case1 s hc ih =>
    obtain ⟨k, hk, e1, e2, e3, e4⟩ := ih
    rw [natural_loop, if_pos hc]
    refine ⟨k + 1, by omega, ?_, ?_, ?_, e4⟩
    · rw [e1, Function.iterate_succ_apply]
    · intro j h1 h2
      rcases Nat.eq_or_lt_of_le h1 with h | h
      · subst h
        exact hc
      · obtain ⟨i, rfl⟩ : ∃ i, j = i + 1 := ⟨j - 1, by omega⟩
        rw [Function.iterate_succ_apply]
        exact e2 i (by omega) (by omega)
    · rw [e3]
      show s.value_to_reach + 1 + (k : Int) = s.value_to_reach + ((k + 1 : Nat) : Int)
      push_cast
      omega
  | case2 s hc =>
    rw [natural_loop, if_neg hc]
    refine ⟨1, le_refl _, rfl, ?_, ?_, ?_⟩
    · intro j h1 h2
      omega
    · show s.value_to_reach + 1 = s.value_to_reach + ((1 : Nat) : Int)
      push_cast
      rfl
    · exact not_lt.1 hc

/-- The combined cost of an attempt is the sum of the catalog costs of the
lists built from its picks: a null pick costs nothing and is not listed. -/
theorem natural_attempt_cost_sum (pd : artifact_property_datum) (l : natural_layout)
    (s : natural_state) :
    (natural_attempt pd l s).value =
      passive_cost_sum (natural_carried (natural_attempt pd l s) []) +
      active_cost_sum (natural_activated (natural_attempt pd l s) []) := by
  have c0 : passive_effect_cost[AEP_NULL]?.getD 0 = 0 := by decide
  have d0 : active_effect_cost[AEA_NULL]?.getD 0 = 0 := by decide
  have hv : (natural_attempt pd l s).value =
      passive_effect_cost.getD (natural_attempt pd l s).aep_good 0 +
      passive_effect_cost.getD (natural_attempt pd l s).aep_bad 0 +
      active_effect_cost.getD (natural_attempt pd l s).aea_good 0 +
      active_effect_cost.getD (natural_attempt pd l s).aea_bad 0 := rfl
  rw [hv]
  generalize natural_attempt pd l s = t
  simp only [natural_carried, natural_activated, passive_cost_sum, active_cost_sum]
  by_cases h1 : t.aep_good = AEP_NULL <;> by_cases h2 : t.aep_bad = AEP_NULL <;>
    by_cases h3 : t.aea_good = AEA_NULL <;> by_cases h4 : t.aea_bad = AEA_NULL <;>
    simp [h1, h2, h3, h4, c0, d0] <;> omega

/-- The effect lists of a natural artifact are built from the picks of the state
in which the rejection loop ends. -/
theorem natural_final_lists (env : Env) (id : String) (prop : Nat) (g : RNG) :
    (new_natural_artifact env id prop g).1.artifact.effects_carried =
      natural_carried (natural_final env id prop g) [] ∧
    (new_natural_artifact env id prop g).1.artifact.effects_activated =
      natural_activated (natural_final env id prop g) [] := by
  simp only [new_natural_artifact, natural_effects, natural_final, natural_roll]
  exact ⟨rfl, rfl⟩

/-- C27: the rejection loop of `new_natural_artifact` exits after some number
`k >= 1` of attempts, each but the last rejected; the threshold is 1 at the
first check and grows by 1 per attempt, so it is `k` at the exit; the combined
cost of the picks of the last attempt is at most `k`, and it equals the sum of
the catalog costs over `effects_carried` and `effects_activated` of the
record. -/
theorem natural_exit_cost (env : Env) (id : String) (prop : Nat) (g : RNG) :
    ∃ k : Nat, 1 ≤ k ∧
      natural_final env id prop g =
        (natural_attempt (natural_base env id prop g).2.1
          (natural_layout.of_roll (natural_roll env id prop g).1))^[k]
          (natural_init (natural_roll env id prop g).2) ∧
      (∀ j, 1 ≤ j → j < k →
        ((natural_attempt (natural_base env id prop g).2.1
          (natural_layout.of_roll (natural_roll env id prop g).1))^[j]
          (natural_init (natural_roll env id prop g).2)).value > (j : Int)) ∧
      (natural_final env id prop g).value_to_reach = k ∧
      (natural_final env id prop g).value ≤ k ∧
      (natural_final env id prop g).value =
        passive_cost_sum (new_natural_artifact env id prop g).1.artifact.effects_carried +
        active_cost_sum (new_natural_artifact env id prop g).1.artifact.effects_activated := by
  obtain ⟨l1, l2⟩ := natural_final_lists env id prop g
  rw [l1, l2]
  unfold natural_final
  generalize (natural_base env id prop g).2.1 = pd
  generalize natural_layout.of_roll (natural_roll env id prop g).1 = l
  generalize natural_roll env id prop g = roll
  obtain ⟨k, hk, e1, e2, e3, e4⟩ := natural_loop_attempts pd l (natural_init roll.2)
  have hthr : ∀ j : Nat, ((natural_attempt pd l)^[j] (natural_init roll.2)).value_to_reach = j := by
    intro j
    induction j with
    | zero => rfl
    | succ n ih =>
      rw [Function.iterate_succ_apply']
      show ((natural_attempt pd l)^[n] (natural_init roll.2)).value_to_reach + 1 = _
      rw [ih]
      push_cast
      rfl
  have e3' : (natural_loop pd l (natural_init roll.2)).value_to_reach = k := by
    rw [e3]
    show (0 : Int) + k = k
    omega
  refine ⟨k, hk, e1, ?_, e3', ?_, ?_⟩
  · intro j h1 h2
    have := e2 j h1 h2
    rwa [hthr j] at this
  · rw [e3'] at e4
    exact e4
  · obtain ⟨i, rfl⟩ : ∃ i, k = i + 1 := ⟨k - 1, by omega⟩
    rw [e1, Function.iterate_succ_apply']
    exact natural_attempt_cost_sum pd l _

/-- Witness of C27: the property "humming" (3) on the stream `0, 2, 4, ...`: the
first attempt is rejected, the second is kept with the threshold 2 and the
combined cost 2, and the record carries the effects 5 and 25, of costs 5 and
-3. -/
theorem natural_exit_cost_witness :
    (new_natural_artifact plain_env "artifact_0" 3 even_stream).1.artifact.effects_carried
      = [5, 25] ∧
    (natural_final plain_env "artifact_0" 3 even_stream).value_to_reach = 2 ∧
    (natural_final plain_env "artifact_0" 3 even_stream).value = 2 ∧
    passive_cost_sum [5, 25] = 2 ∧
    ∃ k : Nat, 1 ≤ k ∧ (natural_final plain_env "artifact_0" 3 even_stream).value ≤ k :=
  ⟨by decide, by decide, by decide, by decide,
    (natural_exit_cost plain_env "artifact_0" 3 even_stream).imp
      (fun _ h => ⟨h.1, h.2.2.2.2.1⟩)⟩

/-- A passive good draw, made with a value below 1, is a draw with limit 0. -/
theorem draw_good_draw (s : sel_state) (g : RNG) (h : s.good_effects ≠ []) (hv : s.value < 1) :
    sel_draw passive_effect_cost 0 s (push_passive (draw_good s g)) := by
  have hi := random_index_lt s.good_effects g h
  left
  refine ⟨_, hi, by omega, ?_⟩
  simp [push_passive, draw_good, random_entry_removed, List.getElem?_eq_getElem hi]

/-- A passive bad draw is a draw. -/
theorem draw_bad_draw (s : sel_state) (g : RNG) (h : s.bad_effects ≠ []) :
    sel_draw passive_effect_cost 0 s (push_passive (draw_bad s g)) := by
  have hi := random_index_lt s.bad_effects g h
  right
  refine ⟨_, hi, ?_⟩
  simp [push_passive, draw_bad, random_entry_removed, List.getElem?_eq_getElem hi]

/-- The test `value < 1 && one_in(n)` of the passive bodies is true only with a
value below 1. -/
theorem good_test_value (s : sel_state) (n : Int)
    (h : (Cond.and (.pure (s.value < 1)) (one_in n) s.rng).1 = true) : s.value < 1 := by
  have := (Cond.and_true h).1
  simpa [Cond.pure] using this

/-- Inside the loop, the wielded body is a draw with limit 0. -/
theorem wielded_body_draw (s : sel_state) (h : s.in_loop) :
    sel_draw passive_effect_cost 0 s (wielded_body s) := by
  obtain ⟨hg, hb, -, -⟩ := h
  unfold wielded_body
  simp only
  split
  · rename_i hc
    exact draw_good_draw s _ hg (good_test_value s 2 hc)
  · have : s.bad_effects.isEmpty = false := by simpa using hb
    simp only [this, Bool.not_false, if_true]
    exact draw_bad_draw s _ hb

/-- Inside the loop, the carried body is a draw with limit 0. -/
theorem carried_body_draw (s : sel_state) (h : s.in_loop) :
    sel_draw passive_effect_cost 0 s (carried_body s) := by
  obtain ⟨hg, hb, -, -⟩ := h
  unfold carried_body
  simp only
  split
  · rename_i hc
    exact draw_good_draw s _ hg (good_test_value s 3 hc)
  · exact draw_bad_draw s _ hb

/-- Inside the loop, the worn body is a draw with limit 0. -/
theorem worn_body_draw (s : sel_state) (h : s.in_loop) :
    sel_draw passive_effect_cost 0 s (worn_body s) := by
  obtain ⟨hg, hb, -, -⟩ := h
  unfold worn_body
  simp only
  split
  · rename_i hc
    exact draw_good_draw s _ hg (good_test_value s 2 hc)
  · exact draw_bad_draw s _ hb

/-- Inside the loop, the activated body is a draw with limit 1. -/
theorem activated_body_draw (s : sel_state) (h : s.in_loop) :
    sel_draw active_effect_cost 1 s (activated_body s) := by
  obtain ⟨hg, hb, -, -⟩ := h
  unfold activated_body
  simp only
  split
  · rename_i hc
    have hv : s.value ≤ 1 := by
      have := (Cond.and_true hc).2
      simpa [Cond.pure] using this
    have hi := random_index_lt s.good_effects
      (Cond.and (Cond.not (one_in 3)) (Cond.pure (decide (s.value ≤ 1))) s.rng).2 hg
    left
    refine ⟨_, hi, hv, ?_⟩
    simp [draw_good, random_entry_removed, List.getElem?_eq_getElem hi]
  · have hi := random_index_lt s.bad_effects
      (Cond.and (Cond.not (one_in 3)) (Cond.pure (decide (s.value ≤ 1))) s.rng).2 hb
    right
    refine ⟨_, hi, ?_⟩
    simp [draw_bad, random_entry_removed, List.getElem?_eq_getElem hi]

/-- Invariance principle for the wielded loop with the accumulated value: a
property that does not depend on the random source and is kept by every draw
holds when the loop ends. -/
theorem wielded_loop_draw_inv (P : sel_state → Prop)
    (hrng : ∀ s g, P s → P { s with rng := g })
    (hstep : ∀ s t, P s → s.in_loop → sel_draw passive_effect_cost 0 s t → P t)
    (s : sel_state) (h : P s) : P (wielded_loop s) := by
  induction s using wielded_loop.induct with
  | case1 s hc ih =>
    rw [wielded_loop, if_pos hc]
    apply ih
    have hin : ({ s with rng := (wielded_cond s s.rng).2 } : sel_state).in_loop :=
      wielded_cond_in_loop hc
    exact hstep _ _ (hrng s _ h) hin (wielded_body_draw _ hin)
  | case2 s hc =>
    rw [wielded_loop, if_neg hc]
    exact hrng s _ h

/-- Invariance principle for the carried loop with the accumulated value: a
property that does not depend on the random source and is kept by every draw
holds when the loop ends. -/
theorem carried_loop_draw_inv (P : sel_state → Prop)
    (hrng : ∀ s g, P s → P { s with rng := g })
    (hstep : ∀ s t, P s → s.in_loop → sel_draw passive_effect_cost 0 s t → P t)
    (s : sel_state) (h : P s) : P (carried_loop s) := by
  induction s using carried_loop.induct with
  | case1 s hc ih =>
    rw [carried_loop, if_pos hc]
    apply ih
    have hin : ({ s with rng := (carried_cond s s.rng).2 } : sel_state).in_loop :=
      carried_cond_in_loop hc
    exact hstep _ _ (hrng s _ h) hin (carried_body_draw _ hin)
  | case2 s hc =>
    rw [carried_loop, if_neg hc]
    exact hrng s _ h

/-- Invariance principle for the activated loop with the accumulated value: a
property that does not depend on the random source and is kept by every draw
holds when the loop ends. -/
theorem activated_loop_draw_inv (P : sel_state → Prop)
    (hrng : ∀ s g, P s → P { s with rng := g })
    (hstep : ∀ s t, P s → s.in_loop → sel_draw active_effect_cost 1 s t → P t)
    (s : sel_state) (h : P s) : P (activated_loop s) := by
  induction s using activated_loop.induct with
  | case1 s hc ih =>
    rw [activated_loop, if_pos hc]
    apply ih
    have hin : ({ s with rng := (activated_cond s s.rng).2 } : sel_state).in_loop :=
      activated_cond_in_loop hc
    exact hstep _ _ (hrng s _ h) hin (activated_body_draw _ hin)
  | case2 s hc =>
    rw [activated_loop, if_neg hc]
    exact hrng s _ h

/-- Invariance principle for the worn loop with the accumulated value: a
property that does not depend on the random source and is kept by every draw
holds when the loop ends. -/
theorem worn_loop_draw_inv (P : sel_state → Prop)
    (hrng : ∀ s g, P s → P { s with rng := g })
    (hstep : ∀ s t, P s → s.in_loop → sel_draw passive_effect_cost 0 s t → P t)
    (s : sel_state) (h : P s) : P (worn_loop s) := by
  induction s using worn_loop.induct with
  | case1 s hc ih =>
    rw [worn_loop, if_pos hc]
    apply ih
    have hin : ({ s with rng := (worn_cond s s.rng).2 } : sel_state).in_loop :=
      worn_cond_in_loop hc
    exact hstep _ _ (hrng s _ h) hin (worn_body_draw _ hin)
  | case2 s hc =>
    rw [worn_loop, if_neg hc]
    exact hrng s _ h

/-- In a duplicate-free list, the entries left by `eraseIdx` are the entries
other than the one erased. -/
theorem mem_eraseIdx_nodup (l : List Nat) (h : l.Nodup) (i : Nat) (hi : i < l.length)
    (y : Nat) : y ∈ l.eraseIdx i ↔ y ≠ l[i] ∧ y ∈ l := by
  rw [List.mem_eraseIdx_iff_getElem]
  constructor
  · rintro ⟨j, hj, hne, rfl⟩
    refine ⟨fun he => hne ((h.getElem_inj_iff).1 he), List.getElem_mem _⟩
  · rintro ⟨hne, hy⟩
    obtain ⟨j, hj, rfl⟩ := List.mem_iff_getElem.1 hy
    exact ⟨j, hj, fun he => hne (by subst he; rfl), rfl⟩

/-- The sum of the passive costs of a list with one more entry. -/
theorem passive_cost_sum_append (l : List Nat) (e : Nat) :
    passive_cost_sum (l ++ [e]) = passive_cost_sum l + passive_effect_cost.getD e 0 := by
  simp [passive_cost_sum]

/-- The sum of the active costs of a list with one more entry. -/
theorem active_cost_sum_append (l : List Nat) (e : Nat) :
    active_cost_sum (l ++ [e]) = active_cost_sum l + active_effect_cost.getD e 0 := by
  simp [active_cost_sum]

/-- A draw inside a passive loop keeps the value facts. -/
theorem sel_valued_passive_step (s t : sel_state) (h : sel_valued_passive s) (hin : s.in_loop)
    (hst : sel_draw passive_effect_cost 0 s t) : sel_valued_passive t := by
  obtain ⟨hg, hb, h1, h2, h3, h4, h5, h6, h7⟩ := h
  obtain ⟨-, -, -, hb3⟩ := hin
  rcases hst with ⟨i, hi, hv, e1, e2, e3, e4, e5, e6⟩ | ⟨i, hi, e1, e2, e3, e4, e5, e6⟩
  · have hc := hg _ (List.getElem_mem hi)
    refine ⟨?_, ?_, by omega, by omega, by omega, ?_, by omega, by omega, ?_⟩
    · intro e he
      rw [e5] at he
      exact hg e (List.mem_of_mem_eraseIdx he)
    · rw [e6]
      exact hb
    · rw [e3, e4, passive_cost_sum_append, h4]
    · intro h0
      have := h7 (by omega)
      omega
  · have hc := hb _ (List.getElem_mem hi)
    refine ⟨?_, ?_, by omega, by omega, by omega, ?_, by omega, by omega, ?_⟩
    · rw [e5]
      exact hg
    · intro e he
      rw [e6] at he
      exact hb e (List.mem_of_mem_eraseIdx he)
    · rw [e3, e4, passive_cost_sum_append, h4]
    · intro h0
      omega

/-- A passive loop starts with the value facts. -/
theorem sel_valued_passive_init (g : RNG) (tmp : Nat) (charges : Int) :
    sel_valued_passive (sel_init g tmp fill_good_passive fill_bad_passive [] charges) := by
  have hg : ∀ e ∈ fill_good_passive,
      1 ≤ passive_effect_cost.getD e 0 ∧ passive_effect_cost.getD e 0 ≤ 50 := by decide
  have hb : ∀ e ∈ fill_bad_passive,
      -5 ≤ passive_effect_cost.getD e 0 ∧ passive_effect_cost.getD e 0 ≤ -1 := by decide
  simp only [sel_valued_passive, sel_init]
  refine ⟨hg, hb, le_refl _, le_refl _, by omega, rfl, by omega, by omega, ?_⟩
  intro _
  exact ⟨by omega, fun h => by omega⟩

/-- A draw inside the activated loop keeps the value facts. -/
theorem sel_valued_active_step (s t : sel_state) (h : sel_valued_active s) (hin : s.in_loop)
    (hst : sel_draw active_effect_cost 1 s t) : sel_valued_active t := by
  obtain ⟨hg, hb, hnd, h2, h3, h4, h5, h6⟩ := h
  obtain ⟨-, -, -, hb3⟩ := hin
  have c23 : active_effect_cost.getD AEA_ATTENTION 0 = -6 := by decide
  have c30 : active_effect_cost.getD AEA_SHADOWS 0 = -5 := by decide
  have hne : AEA_ATTENTION ≠ AEA_SHADOWS := by decide
  rcases hst with ⟨i, hi, hv, e1, e2, e3, e4, e5, e6⟩ | ⟨i, hi, e1, e2, e3, e4, e5, e6⟩
  · have hc := hg _ (List.getElem_mem hi)
    refine ⟨?_, ?_, ?_, by omega, by omega, ?_, by omega, ?_⟩
    · intro e he
      rw [e5] at he
      exact hg e (List.mem_of_mem_eraseIdx he)
    · rw [e6]
      exact hb
    · rw [e6]
      exact hnd
    · rw [e3, e4, active_cost_sum_append, h4]
    · rw [e6, e2, e3]
      omega
  · have hc := hb _ (List.getElem_mem hi)
    have hm := mem_eraseIdx_nodup s.bad_effects hnd i hi
    refine ⟨?_, ?_, ?_, by omega, by omega, ?_, by omega, ?_⟩
    · rw [e5]
      exact hg
    · intro e he
      rw [e6] at he
      exact hb e (List.mem_of_mem_eraseIdx he)
    · rw [e6]
      exact hnd.eraseIdx i
    · rw [e3, e4, active_cost_sum_append, h4]
    · rw [e6, e2, e3]
      by_cases ha : s.bad_effects[i] = AEA_ATTENTION
      · have m1 : AEA_ATTENTION ∈ s.bad_effects := ha ▸ List.getElem_mem hi
        have m2 : AEA_ATTENTION ∉ s.bad_effects.eraseIdx i := by
          rw [hm]
          exact fun hh => hh.1 ha.symm
        have m3 : AEA_SHADOWS ∈ s.bad_effects.eraseIdx i ↔ AEA_SHADOWS ∈ s.bad_effects := by
          rw [hm, ha]
          exact ⟨fun hh => hh.2, fun hh => ⟨hne.symm, hh⟩⟩
        rw [ha, c23]
        rw [if_pos m1] at h6
        rw [if_neg m2]
        by_cases m4 : AEA_SHADOWS ∈ s.bad_effects
        · rw [if_pos m4] at h6
          rw [if_pos (m3.2 m4)]
          omega
        · rw [if_neg m4] at h6
          rw [if_neg (fun hh => m4 (m3.1 hh))]
          omega
      · by_cases hs : s.bad_effects[i] = AEA_SHADOWS
        · have m1 : AEA_SHADOWS ∈ s.bad_effects := hs ▸ List.getElem_mem hi
          have m2 : AEA_SHADOWS ∉ s.bad_effects.eraseIdx i := by
            rw [hm]
            exact fun hh => hh.1 hs.symm
          have m3 : AEA_ATTENTION ∈ s.bad_effects.eraseIdx i ↔
              AEA_ATTENTION ∈ s.bad_effects := by
            rw [hm, hs]
            exact ⟨fun hh => hh.2, fun hh => ⟨hne, hh⟩⟩
          rw [hs, c30]
          rw [if_pos m1] at h6
          rw [if_neg m2]
          by_cases m4 : AEA_ATTENTION ∈ s.bad_effects
          · rw [if_pos m4] at h6
            rw [if_pos (m3.2 m4)]
            omega
          · rw [if_neg m4] at h6
            rw [if_neg (fun hh => m4 (m3.1 hh))]
            omega
        · have hc4 := hc.2 ha hs
          have m3 : AEA_ATTENTION ∈ s.bad_effects.eraseIdx i ↔
              AEA_ATTENTION ∈ s.bad_effects := by
            rw [hm]
            exact ⟨fun hh => hh.2, fun hh => ⟨fun he => ha he.symm, hh⟩⟩
          have m5 : AEA_SHADOWS ∈ s.bad_effects.eraseIdx i ↔
              AEA_SHADOWS ∈ s.bad_effects := by
            rw [hm]
            exact ⟨fun hh => hh.2, fun hh => ⟨fun he => hs he.symm, hh⟩⟩
          simp only [m3, m5]
          omega

/-- The activated loop starts with the value facts. -/
theorem sel_valued_active_init (g : RNG) (tmp : Nat) (charges : Int) :
    sel_valued_active (sel_init g tmp fill_good_active fill_bad_active [] charges) := by
  have hg : ∀ e ∈ fill_good_active,
      0 ≤ active_effect_cost.getD e 0 ∧ active_effect_cost.getD e 0 ≤ 6 := by decide
  have hb : ∀ e ∈ fill_bad_active, active_effect_cost.getD e 0 ≤ 0 ∧
      (e ≠ AEA_ATTENTION → e ≠ AEA_SHADOWS → -4 ≤ active_effect_cost.getD e 0) := by decide
  have hnd : fill_bad_active.Nodup := by decide
  have m1 : AEA_ATTENTION ∈ fill_bad_active := by decide
  have m2 : AEA_SHADOWS ∈ fill_bad_active := by decide
  simp only [sel_valued_active, sel_init, if_pos m1, if_pos m2]
  exact ⟨hg, hb, hnd, le_refl _, by omega, rfl, by omega, by omega⟩

/-- In each loop body the good counter grows only when the good test passed:
with a value below 1 in the passive loops, at most 1 in the activated loop. -/
theorem good_drawn_value (s : sel_state) :
    ((wielded_body s).num_good ≠ s.num_good → s.value < 1) ∧
    ((carried_body s).num_good ≠ s.num_good → s.value < 1) ∧
    ((worn_body s).num_good ≠ s.num_good → s.value < 1) ∧
    ((activated_body s).num_good ≠ s.num_good → s.value ≤ 1) := by
  refine ⟨?_, ?_, ?_, ?_⟩
  · unfold wielded_body
    simp only
    split
    · rename_i hc
      exact fun _ => good_test_value s 2 hc
    · intro h
      exfalso
      apply h
      split <;> rfl
  · unfold carried_body
    simp only
    split
    · rename_i hc
      exact fun _ => good_test_value s 3 hc
    · exact fun h => absurd rfl h
  · unfold worn_body
    simp only
    split
    · rename_i hc
      exact fun _ => good_test_value s 2 hc
    · exact fun h => absurd rfl h
  · unfold activated_body
    simp only
    split
    · rename_i hc
      intro _
      have := (Cond.and_true hc).2
      simpa [Cond.pure] using this
    · exact fun h => absurd rfl h

/-- The cost sums of the three lists filled by `tool_effects` on a fresh artifact
slot. -/
theorem tool_effects_cost_bounds (art : it_artifact_tool) (g : RNG)
    (h : art.artifact = islot_artifact.init) :
    (-15 ≤ passive_cost_sum (tool_effects art g).1.artifact.effects_wielded ∧
      passive_cost_sum (tool_effects art g).1.artifact.effects_wielded ≤ 50) ∧
    (-15 ≤ passive_cost_sum (tool_effects art g).1.artifact.effects_carried ∧
      passive_cost_sum (tool_effects art g).1.artifact.effects_carried ≤ 50) ∧
    (-15 ≤ active_cost_sum (tool_effects art g).1.artifact.effects_activated ∧
      active_cost_sum (tool_effects art g).1.artifact.effects_activated ≤ 7) ∧
    passive_cost_sum (tool_effects art g).1.artifact.effects_worn = 0 := by
  obtain ⟨-, -, e3, e4, e5, -⟩ := tool_effects_stages art g
  have hworn : (tool_effects art g).1.artifact.effects_worn = [] := by
    simp [tool_effects, h, islot_artifact.init]
  rw [e3, e4, e5, hworn]
  have hw := wielded_loop_draw_inv sel_valued_passive (fun _ _ h => h) sel_valued_passive_step
    (sel_init g AEP_NULL fill_good_passive fill_bad_passive [] 0)
    (sel_valued_passive_init _ _ _)
  have hc := carried_loop_draw_inv sel_valued_passive (fun _ _ h => h) sel_valued_passive_step
    (sel_init (tool_wielded_sel art g).rng (tool_wielded_sel art g).tmp fill_good_passive
      fill_bad_passive [] 0) (sel_valued_passive_init _ _ _)
  have ha := activated_loop_draw_inv sel_valued_active (fun _ _ h => h) sel_valued_active_step
    (sel_init (tool_carried_sel art g).rng AEA_NULL fill_good_active fill_bad_active []
      art.tool.max_charges) (sel_valued_active_init _ _ _)
  have l1 : art.artifact.effects_wielded = [] := by rw [h]; rfl
  have l2 : art.artifact.effects_carried = [] := by rw [h]; rfl
  have l3 : art.artifact.effects_activated = [] := by rw [h]; rfl
  unfold tool_activated_sel
  unfold tool_carried_sel
  unfold tool_wielded_sel
  rw [l1, l2, l3]
  unfold tool_wielded_sel at hc ha
  unfold tool_carried_sel at ha
  unfold tool_wielded_sel at ha
  rw [l1] at hc ha
  rw [l2] at ha
  obtain ⟨-, -, -, w2, w3, w4, w5, w6, -⟩ := hw
  obtain ⟨-, -, -, c2, c3, c4, c5, c6, -⟩ := hc
  obtain ⟨-, -, -, a2, a3, a4, a5, a6⟩ := ha
  rw [← w4, ← c4, ← a4]
  refine ⟨⟨by omega, w5⟩, ⟨by omega, c5⟩, ⟨?_, a5⟩, rfl⟩
  split at a6 <;> split at a6 <;> omega

/-- The cost sum of the list filled by `armor_effects` on a fresh artifact slot. -/
theorem armor_effects_cost_bounds (art : it_artifact_armor) (g : RNG)
    (h : art.artifact = islot_artifact.init) :
    -15 ≤ passive_cost_sum (armor_effects art g).1.artifact.effects_worn ∧
    passive_cost_sum (armor_effects art g).1.artifact.effects_worn ≤ 50 ∧
    (armor_effects art g).1.artifact.effects_wielded = [] ∧
    (armor_effects art g).1.artifact.effects_carried = [] ∧
    (armor_effects art g).1.artifact.effects_activated = [] := by
  have hw := worn_loop_draw_inv sel_valued_passive (fun _ _ h => h) sel_valued_passive_step
    (sel_init g AEP_NULL fill_good_passive fill_bad_passive [] 0)
    (sel_valued_passive_init _ _ _)
  have l1 : art.artifact.effects_worn = [] := by rw [h]; rfl
  have e1 : (armor_effects art g).1.artifact.effects_worn =
      (worn_loop (sel_init g AEP_NULL fill_good_passive fill_bad_passive
        art.artifact.effects_worn 0)).effects := rfl
  have e2 : (armor_effects art g).1.artifact.effects_wielded = [] := by
    simp [armor_effects, h, islot_artifact.init]
  have e3 : (armor_effects art g).1.artifact.effects_carried = [] := by
    simp [armor_effects, h, islot_artifact.init]
  have e4 : (armor_effects art g).1.artifact.effects_activated = [] := by
    simp [armor_effects, h, islot_artifact.init]
  rw [e1, l1]
  obtain ⟨-, -, -, w2, w3, w4, w5, w6, -⟩ := hw
  rw [← w4]
  exact ⟨by omega, w5, e2, e3, e4⟩

/-- The record made by `tool_effects` on a fresh artifact slot has a bounded
declared power. -/
theorem tool_effects_cost_bounded (art : it_artifact_tool) (g : RNG)
    (h : art.artifact = islot_artifact.init) :
    (tool_effects art g).1.artifact.cost_bounded := by
  obtain ⟨b1, b2, b3, b4⟩ := tool_effects_cost_bounds art g h
  unfold islot_artifact.cost_bounded
  rw [b4]
  exact ⟨b1, b2, ⟨by decide, by decide⟩, b3⟩

/-- The record made by `armor_effects` on a fresh artifact slot has a bounded
declared power. -/
theorem armor_effects_cost_bounded (art : it_artifact_armor) (g : RNG)
    (h : art.artifact = islot_artifact.init) :
    (armor_effects art g).1.artifact.cost_bounded := by
  obtain ⟨b1, b2, b3, b4, b5⟩ := armor_effects_cost_bounds art g h
  have z : passive_cost_sum [] = 0 := rfl
  have za : active_cost_sum [] = 0 := rfl
  unfold islot_artifact.cost_bounded
  rw [b3, b4, b5, z, za]
  exact ⟨⟨by decide, by decide⟩, ⟨by decide, by decide⟩, ⟨b1, b2⟩, ⟨by decide, by decide⟩⟩

/-- C28: in every selection loop of `new_artifact` a good effect is drawn only
while the accumulated value is below 1 (wielded, carried and worn loops) or at
most 1 (activated loop); and for every random source the sums of the catalog
costs over `effects_wielded`, over `effects_carried` and over `effects_worn` of
the record each lie in `[-15, 50]`, and the sum over `effects_activated` lies
in `[-15, 7]`. -/
theorem selection_cost_bounds (env : Env) (id : String) (g : RNG) :
    (∀ s : sel_state,
      ((wielded_body s).num_good ≠ s.num_good → s.value < 1) ∧
      ((carried_body s).num_good ≠ s.num_good → s.value < 1) ∧
      ((worn_body s).num_good ≠ s.num_good → s.value < 1) ∧
      ((activated_body s).num_good ≠ s.num_good → s.value ≤ 1)) ∧
    (-15 ≤ passive_cost_sum (new_artifact env id g).1.artifact.effects_wielded ∧
      passive_cost_sum (new_artifact env id g).1.artifact.effects_wielded ≤ 50) ∧
    (-15 ≤ passive_cost_sum (new_artifact env id g).1.artifact.effects_carried ∧
      passive_cost_sum (new_artifact env id g).1.artifact.effects_carried ≤ 50) ∧
    (-15 ≤ passive_cost_sum (new_artifact env id g).1.artifact.effects_worn ∧
      passive_cost_sum (new_artifact env id g).1.artifact.effects_worn ≤ 50) ∧
    (-15 ≤ active_cost_sum (new_artifact env id g).1.artifact.effects_activated ∧
      active_cost_sum (new_artifact env id g).1.artifact.effects_activated ≤ 7) := by
  refine ⟨good_drawn_value, ?_⟩
  show (new_artifact env id g).1.artifact.cost_bounded
  unfold new_artifact
  split
  · exact tool_effects_cost_bounded _ _ (tool_described_slots env id _).1
  · exact armor_effects_cost_bounded _ _ (armor_described_artifact env id _)

/-- A draw inside the wielded loop keeps its facts. -/
theorem sel_wielded_inv_step (s t : sel_state) (h : sel_wielded_inv s) (hin : s.in_loop)
    (hst : sel_draw passive_effect_cost 0 s t) : sel_wielded_inv t := by
  obtain ⟨hv, h1, h2, h3, h35, h4, h5, h6⟩ := h
  have hv1 := sel_valued_passive_step s t hv hin hst
  obtain ⟨-, -, hg3, hb3⟩ := hin
  have hvb : 0 ≤ s.num_bad := hv.2.2.2.1
  rcases hst with ⟨i, hi, -, e1, e2, e3, e4, e5, e6⟩ | ⟨i, hi, e1, e2, e3, e4, e5, e6⟩
  · refine ⟨hv1, ?_, ?_, by omega, by omega, ?_, ?_, ?_⟩
    · rw [e5, List.length_eraseIdx, if_pos hi, e1]
      have : 1 ≤ s.good_effects.length := by omega
      push_cast [this]
      omega
    · rw [e6, e2]
      exact h2
    · rw [e4, List.length_append, List.length_singleton, e1, e2]
      push_cast
      omega
    · rw [e6]
      exact h5
    · intro hb
      rw [e2] at hb
      obtain ⟨e, he, hm⟩ := h6 hb
      exact ⟨e, by rw [e4]; exact List.mem_append_left _ he, hm⟩
  · refine ⟨hv1, ?_, ?_, by omega, by omega, ?_, ?_, ?_⟩
    · rw [e5, e1]
      exact h1
    · rw [e6, List.length_eraseIdx, if_pos hi, e2]
      have : 1 ≤ s.bad_effects.length := by omega
      push_cast [this]
      omega
    · rw [e4, List.length_append, List.length_singleton, e1, e2]
      push_cast
      omega
    · intro e he
      rw [e6] at he
      exact h5 e (List.mem_of_mem_eraseIdx he)
    · intro _
      exact ⟨s.bad_effects[i], by rw [e4]; simp, h5 _ (List.getElem_mem hi)⟩

/-- The wielded loop of `new_artifact` starts with its facts. -/
theorem sel_wielded_inv_init (g : RNG) (tmp : Nat) (charges : Int) :
    sel_wielded_inv (sel_init g tmp fill_good_passive fill_bad_passive [] charges) := by
  refine ⟨sel_valued_passive_init g tmp charges, ?_⟩
  have l1 : fill_good_passive.length = 19 := by decide
  have l2 : fill_bad_passive.length = 18 := by decide
  simp only [sel_init, l1, l2]
  refine ⟨by norm_num, by norm_num, by norm_num, by norm_num, by simp, fun e he => he,
    fun h => ?_⟩
  omega

/-- The value of `a || b`. -/
theorem Cond.or_fst (a b : Cond) (g : RNG) :
    (Cond.or a b g).1 = ((a g).1 || (b (a g).2).1) := by
  unfold Cond.or
  split <;> simp_all

/-- The value of `a && b`. -/
theorem Cond.and_fst (a b : Cond) (g : RNG) :
    (Cond.and a b g).1 = ((a g).1 && (b (a g).2).1) := by
  unfold Cond.and
  split <;> simp_all

/-- A false wielded condition: a pool is empty, or a counter reached 3, or a
good and a bad effect were drawn and the value is at most 1. -/
theorem wielded_cond_false (s : sel_state) (g : RNG) (h : (wielded_cond s g).1 = false) :
    s.good_effects = [] ∨ s.bad_effects = [] ∨ ¬ s.num_good < 3 ∨ ¬ s.num_bad < 3 ∨
    (¬ s.num_good < 1 ∧ ¬ s.num_bad < 1 ∧ ¬ s.value > 1) := by
  unfold wielded_cond at h
  simp only [Cond.and_fst, Cond.or_fst, Cond.pure, Bool.and_eq_false_imp, Bool.or_eq_false_iff,
    Bool.not_eq_true', List.isEmpty_eq_false, decide_eq_true_eq, decide_eq_false_iff_not] at h
  by_cases h1 : s.good_effects = []
  · exact Or.inl h1
  by_cases h2 : s.bad_effects = []
  · exact Or.inr (Or.inl h2)
  by_cases h3 : s.num_good < 3
  swap
  · exact Or.inr (Or.inr (Or.inl h3))
  by_cases h4 : s.num_bad < 3
  swap
  · exact Or.inr (Or.inr (Or.inr (Or.inl h4)))
  have := h h1 h2 h3 h4
  exact Or.inr (Or.inr (Or.inr (Or.inr ⟨this.1, this.2.1, this.2.2.2.2⟩)))

/-- The wielded loop keeps its facts and stops only in an exit state. -/
theorem wielded_loop_exit (s : sel_state) (h : sel_wielded_inv s) :
    sel_wielded_inv (wielded_loop s) ∧ wielded_exit (wielded_loop s) := by
  induction s using wielded_loop.induct with
  | case1 s hc ih =>
    rw [wielded_loop, if_pos hc]
    apply ih
    have hin : ({ s with rng := (wielded_cond s s.rng).2 } : sel_state).in_loop :=
      wielded_cond_in_loop hc
    exact sel_wielded_inv_step _ _ h hin (wielded_body_draw _ hin)
  | case2 s hc =>
    rw [wielded_loop, if_neg hc]
    refine ⟨h, ?_⟩
    obtain ⟨hv, h1, h2, h3, h35, h4, h5, h6⟩ := h
    obtain ⟨-, -, hg0, hb0, hb3, -⟩ := hv
    have hf : (wielded_cond s s.rng).1 = false := by simpa using hc
    show (1 ≤ s.num_good ∧ 1 ≤ s.num_bad) ∨ s.num_bad = 3 ∨ s.num_good = 3
    rcases wielded_cond_false s s.rng hf with e | e | e | e | ⟨e1, e2, -⟩
    · rw [e] at h1
      simp only [List.length_nil] at h1
      omega
    · rw [e] at h2
      simp only [List.length_nil] at h2
      omega
    · exact Or.inr (Or.inr (by omega))
    · exact Or.inr (Or.inl (by omega))
    · exact Or.inl ⟨by omega, by omega⟩

/-- The list with which the wielded loop of `new_artifact` ends has between 2
and 5 entries, one of them a bad effect. -/
theorem wielded_loop_effects (g : RNG) (tmp : Nat) (charges : Int) :
    wielded_exit (wielded_loop (sel_init g tmp fill_good_passive fill_bad_passive [] charges)) ∧
    2 ≤ (wielded_loop
      (sel_init g tmp fill_good_passive fill_bad_passive [] charges)).effects.length ∧
    (wielded_loop
      (sel_init g tmp fill_good_passive fill_bad_passive [] charges)).effects.length ≤ 5 ∧
    ∃ e ∈ (wielded_loop (sel_init g tmp fill_good_passive fill_bad_passive [] charges)).effects,
      e ∈ fill_bad_passive := by
  obtain ⟨hi, he⟩ := wielded_loop_exit _ (sel_wielded_inv_init g tmp charges)
  generalize wielded_loop (sel_init g tmp fill_good_passive fill_bad_passive [] charges) = w
    at hi he
  obtain ⟨hv, h1, h2, h3, h35, h4, h5, h6⟩ := hi
  obtain ⟨-, -, hg0, hb0, hb3, -, -, -, h7⟩ := hv
  have hb1 : 1 ≤ w.num_bad := by
    by_contra hn
    have h0 : w.num_bad = 0 := by omega
    have := (h7 h0).1
    rcases he with e | e | e <;> omega
  refine ⟨he, ?_, ?_, h6 hb1⟩
  · rcases he with e | e | e <;> omega
  · omega

/-- C30: for every random source, a tool produced by `new_artifact` has
between 2 and 5 wielded effects and at least one of them is a bad effect (an id
of `fill_bad_passive`); the wielded loop exits only in a state with
(`num_good >= 1` and `num_bad >= 1`) or `num_bad = 3` or `num_good = 3`. -/
theorem wielded_effects_count (env : Env) (id : String) (g : RNG) (t : it_artifact_tool)
    (h : (new_artifact env id g).1 = .tool t) :
    2 ≤ t.artifact.effects_wielded.length ∧ t.artifact.effects_wielded.length ≤ 5 ∧
    (∃ e ∈ t.artifact.effects_wielded, e ∈ fill_bad_passive) ∧
    wielded_exit (tool_wielded_sel (tool_described env id (one_in 2 g).2).1
      (tool_described env id (one_in 2 g).2).2) ∧
    (∀ (g1 : RNG) (tmp : Nat) (charges : Int), wielded_exit
      (wielded_loop (sel_init g1 tmp fill_good_passive fill_bad_passive [] charges))) := by
  have ht := new_artifact_tool_of env id g t h
  obtain ⟨hs1, -⟩ := tool_described_slots env id (one_in 2 g).2
  obtain ⟨-, -, e3, -⟩ := tool_effects_stages (tool_described env id (one_in 2 g).2).1
    (tool_described env id (one_in 2 g).2).2
  rw [← ht] at e3
  have l1 : (tool_described env id (one_in 2 g).2).1.artifact.effects_wielded = [] := by
    rw [hs1]; rfl
  rw [e3]
  unfold tool_wielded_sel
  rw [l1]
  obtain ⟨w1, w2, w3, w4⟩ := wielded_loop_effects (tool_described env id (one_in 2 g).2).2
    AEP_NULL 0
  exact ⟨w2, w3, w4, w1, fun g1 tmp charges => (wielded_loop_effects g1 tmp charges).1⟩

/-- Witness of C30: the "Bladed Staff of Forbidden Horrors" has the five wielded
effects 13, 23, 37, 5 and 34, of which 23, 37 and 34 are bad. -/
theorem wielded_effects_count_witness :
    (new_artifact plain_env "artifact_0" (fun n => 4 * n + 12)).1 = .tool bladed_staff ∧
    bladed_staff.artifact.effects_wielded = [13, 23, 37, 5, 34] ∧
    23 ∈ fill_bad_passive ∧
    (2 ≤ bladed_staff.artifact.effects_wielded.length ∧
      bladed_staff.artifact.effects_wielded.length ≤ 5) :=
  ⟨by decide, by decide, by decide,
    (wielded_effects_count plain_env "artifact_0" (fun n => 4 * n + 12) bladed_staff
      (by decide)).1,
    (wielded_effects_count plain_env "artifact_0" (fun n => 4 * n + 12) bladed_staff
      (by decide)).2.1⟩

/-- A lookup in a document without another member is the lookup in the
document. -/
theorem member_without (jo : JsonObject) (name m : String) (h : m ≠ name) :
    (jo.without name).member m = jo.member m := by
  induction jo with
  | nil => rfl
  | cons p rest ih =>
    rcases p with ⟨k, v⟩
    by_cases hk : k = name
    · subst hk
      have hkm : ¬ k = m := fun e => h e.symm
      simp only [JsonObject.without, List.filter, bne_self_eq_false, JsonObject.member, hkm,
        if_false]
      exact ih
    · have hb : (k != name) = true := by simpa using hk
      simp only [JsonObject.without, List.filter, hb, JsonObject.member]
      split
      · rfl
      · exact ih

/-- A lookup of the member that was taken out finds nothing. -/
theorem member_without_self (jo : JsonObject) (name : String) :
    (jo.without name).member name = none := by
  induction jo with
  | nil => rfl
  | cons p rest ih =>
    rcases p with ⟨k, v⟩
    by_cases hk : k = name
    · subst hk
      simp only [JsonObject.without, List.filter, bne_self_eq_false]
      exact ih
    · have hb : (k != name) = true := by simpa using hk
      simp only [JsonObject.without, List.filter, hb, JsonObject.member, hk, if_false]
      exact ih

/-- A member read with success by `get_string` is there. -/
theorem get_string_member (jo : JsonObject) (n : String) (v : String)
    (h : jo.get_string n = .ok v) : jo.member n ≠ none := by
  intro hn
  simp [JsonObject.get_string, hn] at h

/-- A member read with success by `get_int` is there. -/
theorem get_int_member (jo : JsonObject) (n : String) (v : Int)
    (h : jo.get_int n = .ok v) : jo.member n ≠ none := by
  intro hn
  simp [JsonObject.get_int, hn] at h

/-- A member read with success by `get_bool` is there. -/
theorem get_bool_member (jo : JsonObject) (n : String) (v : Bool)
    (h : jo.get_bool n = .ok v) : jo.member n ≠ none := by
  intro hn
  simp [JsonObject.get_bool, hn] at h

/-- A symbol read with success is there. -/
theorem read_sym_member (jo : JsonObject) (v : String) (h : read_sym jo = .ok v) :
    jo.member "sym" ≠ none := by
  intro hn
  simp [read_sym, JsonObject.has_int, JsonObject.get_string, hn] at h

/-- When the common part of a decoder succeeds, every member it requires is in
the document. -/
theorem deserialize_common_reads (self : itype) (jo : JsonObject) (c : itype)
    (h : deserialize_common self jo = .ok c) :
    ∀ n ∈ common_required_members, jo.member n ≠ none := by
  unfold deserialize_common at h
  obtain ⟨_, r1, h⟩ := decode_step _ _ _ h
  obtain ⟨_, r2, h⟩ := decode_step _ _ _ h
  obtain ⟨_, r3, h⟩ := decode_step _ _ _ h
  obtain ⟨_, r4, h⟩ := decode_step _ _ _ h
  obtain ⟨_, r5, h⟩ := decode_step _ _ _ h
  obtain ⟨_, r6, h⟩ := decode_step _ _ _ h
  obtain ⟨_, -, h⟩ := decode_step _ _ _ h
  obtain ⟨_, r8, h⟩ := decode_step _ _ _ h
  obtain ⟨_, r9, h⟩ := decode_step _ _ _ h
  obtain ⟨_, r10, h⟩ := decode_step _ _ _ h
  obtain ⟨_, r11, h⟩ := decode_step _ _ _ h
  obtain ⟨_, r12, h⟩ := decode_step _ _ _ h
  intro n hn
  simp only [common_required_members, List.mem_cons, List.mem_singleton, List.not_mem_nil,
    or_false] at hn
  rcases hn with rfl | rfl | rfl | rfl | rfl | rfl | rfl | rfl | rfl | rfl | rfl
  · exact get_string_member _ _ _ r1
  · exact get_string_member _ _ _ r2
  · exact get_string_member _ _ _ r3
  · exact read_sym_member _ _ r4
  · exact get_int_member _ _ _ r5
  · exact get_int_member _ _ _ r6
  · exact get_int_member _ _ _ r8
  · exact get_int_member _ _ _ r9
  · exact get_int_member _ _ _ r10
  · exact get_int_member _ _ _ r11
  · exact get_int_member _ _ _ r12

/-- When the tool decoder succeeds, every member it requires is in the
document. -/
theorem tool_of_json_reads (jo : JsonObject) (t : it_artifact_tool)
    (h : it_artifact_tool.of_json jo = .ok t) :
    ∀ n ∈ tool_required_members, jo.member n ≠ none := by
  unfold it_artifact_tool.of_json it_artifact_tool.deserialize at h
  obtain ⟨c, hc, h⟩ := decode_step _ _ _ h
  obtain ⟨_, r1, h⟩ := decode_step _ _ _ h
  obtain ⟨_, r2, h⟩ := decode_step _ _ _ h
  obtain ⟨_, r3, h⟩ := decode_step _ _ _ h
  obtain ⟨_, r4, h⟩ := decode_step _ _ _ h
  obtain ⟨_, r5, h⟩ := decode_step _ _ _ h
  obtain ⟨_, r6, h⟩ := decode_step _ _ _ h
  obtain ⟨_, r7, h⟩ := decode_step _ _ _ h
  intro n hn
  rcases List.mem_append.1 hn with hn | hn
  · exact deserialize_common_reads _ jo c hc n hn
  · simp only [List.mem_cons, List.mem_singleton, List.not_mem_nil, or_false] at hn
    rcases hn with rfl | rfl | rfl | rfl | rfl | rfl | rfl
    · exact get_int_member _ _ _ r1
    · exact get_int_member _ _ _ r2
    · exact get_int_member _ _ _ r3
    · exact get_int_member _ _ _ r4
    · exact get_string_member _ _ _ r5
    · exact get_string_member _ _ _ r6
    · exact get_int_member _ _ _ r7

/-- When the armor decoder succeeds, every member it requires is in the
document. -/
theorem armor_of_json_reads (jo : JsonObject) (a : it_artifact_armor)
    (h : it_artifact_armor.of_json jo = .ok a) :
    ∀ n ∈ armor_required_members, jo.member n ≠ none := by
  unfold it_artifact_armor.of_json it_artifact_armor.deserialize at h
  obtain ⟨c, hc, h⟩ := decode_step _ _ _ h
  obtain ⟨_, r1, h⟩ := decode_step _ _ _ h
  obtain ⟨_, r2, h⟩ := decode_step _ _ _ h
  obtain ⟨_, r3, h⟩ := decode_step _ _ _ h
  obtain ⟨_, r4, h⟩ := decode_step _ _ _ h
  obtain ⟨_, r5, h⟩ := decode_step _ _ _ h
  obtain ⟨_, r6, h⟩ := decode_step _ _ _ h
  obtain ⟨_, r7, h⟩ := decode_step _ _ _ h
  intro n hn
  rcases List.mem_append.1 hn with hn | hn
  · exact deserialize_common_reads _ jo c hc n hn
  · simp only [List.mem_cons, List.mem_singleton, List.not_mem_nil, or_false] at hn
    rcases hn with rfl | rfl | rfl | rfl | rfl | rfl | rfl
    · exact get_int_member _ _ _ r1
    · exact get_int_member _ _ _ r2
    · exact get_int_member _ _ _ r3
    · exact get_int_member _ _ _ r4
    · exact get_int_member _ _ _ r5
    · exact get_int_member _ _ _ r6
    · exact get_bool_member _ _ _ r7

/-- A decoder that does not succeed fails. -/
theorem except_error_of_not_ok {α : Type} (x : Except JsonError α) (h : ∀ a, x ≠ .ok a) :
    ∃ e, x = .error e := by
  rcases x with e | a
  · exact ⟨e, rfl⟩
  · exact absurd rfl (h a)

/-- The tool decoder accepts a written document without its `materials`: the
member is read only when it is there (`has_array`). -/
theorem tool_without_materials (r : it_artifact_tool) :
    ∃ d, it_artifact_tool.of_json (r.serialize.without "materials") = .ok d ∧
      d.materials = [] := by
  rcases r with ⟨b, t, a⟩
  simp only [JsonObject.without, it_artifact_tool.serialize, serialize_common,
    serialize_enum_vector_as_int, List.cons_append, List.nil_append, List.filter,
    it_artifact_tool.of_json, it_artifact_tool.deserialize, deserialize_common, read_sym,
    JsonObject.get_string, JsonObject.get_int, JsonObject.member, JsonObject.has_int,
    JsonObject.has_string, JsonObject.has_array, JsonObject.get_array, JsonObject.get_tags,
    read_materials, read_effects, read_array_strings, read_array_ints,
    itype.init, islot_tool.init, islot_artifact.init, bind, Except.bind, pure, Except.pure,
    Except.map]
  simp [read_array_strings, read_array_ints]

/-- The armor decoder accepts a written document without its `materials` and
without its `covers`: `materials` is read only when it is there, and `covers`
by the non-throwing `jo.read`. -/
theorem armor_without_materials_covers (r : it_artifact_armor) :
    ∃ d, it_artifact_armor.of_json ((r.serialize.without "materials").without "covers") =
      .ok d ∧ d.materials = [] ∧ d.armor.covers = 0 := by
  rcases r with ⟨b, t, a⟩
  simp only [JsonObject.without, it_artifact_armor.serialize, serialize_common,
    serialize_enum_vector_as_int, List.cons_append, List.nil_append, List.filter,
    it_artifact_armor.of_json, it_artifact_armor.deserialize, deserialize_common, read_sym,
    JsonObject.get_string, JsonObject.get_int, JsonObject.member, JsonObject.has_int,
    JsonObject.has_string, JsonObject.has_array, JsonObject.get_array, JsonObject.get_tags,
    JsonObject.get_bool, JsonObject.read_bits,
    read_materials, read_effects, read_array_strings, read_array_ints,
    itype.init, islot_armor.init, islot_artifact.init, bind, Except.bind, pure, Except.pure,
    Except.map]
  simp [read_array_strings, read_array_ints]

/-- The tool decoder accepts a written document without any one of its optional
members. -/
theorem tool_without_optional (r : it_artifact_tool) :
    ∀ n ∈ tool_optional_members, ∃ d, it_artifact_tool.of_json (r.serialize.without n) = .ok d := by
  rcases r with ⟨b, t, a⟩
  intro n hn
  simp only [tool_optional_members, List.mem_cons, List.mem_singleton, List.not_mem_nil,
    or_false] at hn
  rcases hn with rfl | rfl | rfl | rfl | rfl | rfl <;>
  · simp only [JsonObject.without, it_artifact_tool.serialize, serialize_common,
      serialize_enum_vector_as_int, List.cons_append, List.nil_append, List.filter,
      it_artifact_tool.of_json, it_artifact_tool.deserialize, deserialize_common, read_sym,
      JsonObject.get_string, JsonObject.get_int, JsonObject.member, JsonObject.has_int,
      JsonObject.has_string, JsonObject.has_array, JsonObject.get_array, JsonObject.get_tags,
      read_materials, read_effects, read_array_strings, read_array_ints,
      itype.init, islot_tool.init, islot_artifact.init, bind, Except.bind, pure, Except.pure,
      Except.map]
    simp [read_array_strings, read_array_ints, read_array]

/-- The armor decoder accepts a written document without any one of its
optional members. -/
theorem armor_without_optional (r : it_artifact_armor) :
    ∀ n ∈ armor_optional_members,
      ∃ d, it_artifact_armor.of_json (r.serialize.without n) = .ok d := by
  rcases r with ⟨b, t, a⟩
  intro n hn
  simp only [armor_optional_members, List.mem_cons, List.mem_singleton, List.not_mem_nil,
    or_false] at hn
  rcases hn with rfl | rfl | rfl | rfl | rfl <;>
  · simp only [JsonObject.without, it_artifact_armor.serialize, serialize_common,
      serialize_enum_vector_as_int, List.cons_append, List.nil_append, List.filter,
      it_artifact_armor.of_json, it_artifact_armor.deserialize, deserialize_common, read_sym,
      JsonObject.get_string, JsonObject.get_int, JsonObject.member, JsonObject.has_int,
      JsonObject.has_string, JsonObject.has_array, JsonObject.get_array, JsonObject.get_tags,
      JsonObject.get_bool, JsonObject.read_bits,
      read_materials, read_effects, read_array_strings, read_array_ints,
      itype.init, islot_armor.init, islot_artifact.init, bind, Except.bind, pure, Except.pure,
      Except.map]
    simp [read_array_strings, read_array_ints, read_array]

/-- C29 (as amended): for each variant, every member that the encoder writes is
`"type"`, read by `load_artifacts`, or a member that the decoder reads with a
getter that fails when the member is missing (`get_string`, `get_int`,
`get_bool`), or one of the optional members; the encoder writes every member
that the decoder requires; a document lacking `"type"` or any one of the
required members fails to decode; a written document lacking one of the
optional members still decodes: `materials` is read only when it is there,
`covers` by the non-throwing `jo.read`, `item_flags` and the effect arrays by
`get_tags` and `get_array`, which give an empty value for a missing member, and
`techniques` is not read. -/
theorem decoder_required_members (jo : JsonObject) (registry : List artifact_itype)
    (t : it_artifact_tool) (a : it_artifact_armor) :
    (∀ n ∈ t.serialize.map Prod.fst,
      n = "type" ∨ n ∈ tool_required_members ∨ n ∈ tool_optional_members) ∧
    (∀ n ∈ a.serialize.map Prod.fst,
      n = "type" ∨ n ∈ armor_required_members ∨ n ∈ armor_optional_members) ∧
    (∀ n ∈ tool_required_members, n ∈ t.serialize.map Prod.fst) ∧
    (∀ n ∈ armor_required_members, n ∈ a.serialize.map Prod.fst) ∧
    (∀ n ∈ tool_required_members, ∃ e, it_artifact_tool.of_json (jo.without n) = .error e) ∧
    (∀ n ∈ armor_required_members, ∃ e, it_artifact_armor.of_json (jo.without n) = .error e) ∧
    (∃ e, load_artifact (jo.without "type") registry = .error e) ∧
    (∀ n ∈ tool_optional_members,
      ∃ d, it_artifact_tool.of_json (t.serialize.without n) = .ok d) ∧
    (∀ n ∈ armor_optional_members,
      ∃ d, it_artifact_armor.of_json (a.serialize.without n) = .ok d) ∧
    (∃ d, it_artifact_tool.of_json (t.serialize.without "materials") = .ok d ∧
      d.materials = []) ∧
    (∃ d, it_artifact_armor.of_json ((a.serialize.without "materials").without "covers") =
      .ok d ∧ d.materials = [] ∧ d.armor.covers = 0) := by
  have kt : t.serialize.map Prod.fst = ["type", "id", "name", "description", "sym", "color",
      "price", "materials", "volume", "weight", "melee_dam", "melee_cut", "m_to_hit",
      "item_flags", "techniques", "ammo", "max_charges", "def_charges", "charges_per_use",
      "turns_per_charge", "revert_to", "charge_type", "effects_wielded", "effects_activated",
      "effects_carried"] := rfl
  have ka : a.serialize.map Prod.fst = ["type", "id", "name", "description", "sym", "color",
      "price", "materials", "volume", "weight", "melee_dam", "melee_cut", "m_to_hit",
      "item_flags", "techniques", "covers", "encumber", "coverage", "material_thickness",
      "env_resist", "warmth", "storage", "power_armor", "effects_worn"] := rfl
  refine ⟨?_, ?_, ?_, ?_, ?_, ?_, ?_, tool_without_optional t, armor_without_optional a,
    tool_without_materials t, armor_without_materials_covers a⟩
  · rw [kt]
    decide
  · rw [ka]
    decide
  · rw [kt]
    decide
  · rw [ka]
    decide
  · intro n hn
    apply except_error_of_not_ok
    intro d hd
    exact tool_of_json_reads _ d hd n hn (member_without_self jo n)
  · intro n hn
    apply except_error_of_not_ok
    intro d hd
    exact armor_of_json_reads _ d hd n hn (member_without_self jo n)
  · refine ⟨⟨"member not found", "type"⟩, ?_⟩
    simp [load_artifact, JsonObject.get_string, member_without_self, bind, Except.bind]

/-- Witness of C29 (as amended): the written tool document without its
`charge_type` is refused, and without its `"type"` it is refused by
`load_artifacts`; without its `item_flags` it decodes to a record with no
flags, and without its `effects_wielded` to a record with no wielded effects. -/
theorem decoder_required_members_witness :
    "charge_type" ∈ tool_required_members ∧
    (it_artifact_tool.of_json (written_tool_doc.without "charge_type")).toOption = none ∧
    (it_artifact_tool.of_json (written_tool_doc.without "item_flags")).toOption.map
      (fun d => d.item_tags) = some [] ∧
    (it_artifact_tool.of_json (written_tool_doc.without "effects_wielded")).toOption.map
      (fun d => d.artifact.effects_wielded) = some [] ∧
    (it_artifact_armor.of_json (written_armor_doc.without "effects_worn")).toOption.map
      (fun d => d.artifact.effects_worn) = some [] ∧
    (∃ e, it_artifact_tool.of_json (written_tool_doc.without "charge_type") = .error e) ∧
    (∃ e, load_artifact (written_tool_doc.without "type") [] = .error e) :=
  ⟨by decide, by decide, by decide, by decide, by decide,
    (decoder_required_members written_tool_doc [] bladed_staff light_robe).2.2.2.2.1
      "charge_type" (by decide),
    (decoder_required_members written_tool_doc [] bladed_staff light_robe).2.2.2.2.2.2.1⟩

/-- Counterexample to C29: `techniques` and `materials` are members of the
written tool document, yet the document without `techniques` decodes, to the
same record as the whole document, and so does the document without
`materials`; `covers` is a member of the written armor document, and the
document without it decodes. -/
theorem decoder_lacking_member_counterexample :
    "techniques" ∈ written_tool_doc.map Prod.fst ∧
    "techniques" ∉ (written_tool_doc.without "techniques").map Prod.fst ∧
    (it_artifact_tool.of_json (written_tool_doc.without "techniques")).toOption.isSome = true ∧
    (it_artifact_tool.of_json (written_tool_doc.without "techniques")).toOption =
      (it_artifact_tool.of_json written_tool_doc).toOption ∧
    "materials" ∈ written_tool_doc.map Prod.fst ∧
    "materials" ∉ (written_tool_doc.without "materials").map Prod.fst ∧
    (it_artifact_tool.of_json (written_tool_doc.without "materials")).toOption.isSome = true ∧
    "covers" ∈ written_armor_doc.map Prod.fst ∧
    "covers" ∉ (written_armor_doc.without "covers").map Prod.fst ∧
    (it_artifact_armor.of_json (written_armor_doc.without "covers")).toOption.isSome = true := by
  decide

/-- A false worn condition: a pool is empty, or a counter reached 3, or a good
effect was drawn. -/
theorem worn_cond_false (s : sel_state) (g : RNG) (h : (worn_cond s g).1 = false) :
    s.good_effects = [] ∨ s.bad_effects = [] ∨ ¬ s.num_good < 3 ∨ ¬ s.num_bad < 3 ∨
    ¬ s.num_good < 1 := by
  unfold worn_cond at h
  simp only [Cond.and_fst, Cond.or_fst, Cond.pure, Bool.and_eq_false_imp, Bool.or_eq_false_iff,
    Bool.not_eq_true', List.isEmpty_eq_false, decide_eq_true_eq, decide_eq_false_iff_not] at h
  by_cases h1 : s.good_effects = []
  · exact Or.inl h1
  by_cases h2 : s.bad_effects = []
  · exact Or.inr (Or.inl h2)
  by_cases h3 : s.num_good < 3
  swap
  · exact Or.inr (Or.inr (Or.inl h3))
  by_cases h4 : s.num_bad < 3
  swap
  · exact Or.inr (Or.inr (Or.inr (Or.inl h4)))
  exact Or.inr (Or.inr (Or.inr (Or.inr (h h1 h2 h3 h4).1)))

/-- The worn loop keeps the facts of a passive loop and stops only in an exit
state. -/
theorem worn_loop_exit (s : sel_state) (h : sel_wielded_inv s) :
    sel_wielded_inv (worn_loop s) ∧ worn_exit (worn_loop s) := by
  induction s using worn_loop.induct with
  | case1 s hc ih =>
    rw [worn_loop, if_pos hc]
    apply ih
    have hin : ({ s with rng := (worn_cond s s.rng).2 } : sel_state).in_loop :=
      worn_cond_in_loop hc
    exact sel_wielded_inv_step _ _ h hin (worn_body_draw _ hin)
  | case2 s hc =>
    rw [worn_loop, if_neg hc]
    refine ⟨h, ?_⟩
    obtain ⟨hv, h1, h2, h3, h35, h4, h5, h6⟩ := h
    obtain ⟨-, -, hg0, hb0, hb3, -⟩ := hv
    have hf : (worn_cond s s.rng).1 = false := by simpa using hc
    show 1 ≤ s.num_good ∨ s.num_bad = 3
    rcases worn_cond_false s s.rng hf with e | e | e | e | e
    · rw [e] at h1
      simp only [List.length_nil] at h1
      omega
    · rw [e] at h2
      simp only [List.length_nil] at h2
      omega
    · exact Or.inl (by omega)
    · exact Or.inr (by omega)
    · exact Or.inl (by omega)

/-- The list with which the worn loop of `new_artifact` ends has between 1 and 5
entries. -/
theorem worn_loop_effects (g : RNG) (tmp : Nat) (charges : Int) :
    worn_exit (worn_loop (sel_init g tmp fill_good_passive fill_bad_passive [] charges)) ∧
    1 ≤ (worn_loop (sel_init g tmp fill_good_passive fill_bad_passive [] charges)).effects.length
      ∧
    (worn_loop (sel_init g tmp fill_good_passive fill_bad_passive [] charges)).effects.length
      ≤ 5 := by
  obtain ⟨hi, he⟩ := worn_loop_exit _ (sel_wielded_inv_init g tmp charges)
  generalize worn_loop (sel_init g tmp fill_good_passive fill_bad_passive [] charges) = w
    at hi he
  obtain ⟨hv, h1, h2, h3, h35, h4, h5, h6⟩ := hi
  obtain ⟨-, -, hg0, hb0, hb3, -⟩ := hv
  refine ⟨he, ?_, by omega⟩
  rcases he with e | e <;> omega

/-- C31: for every random source, an armor produced by `new_artifact` has at
least one worn effect (and at most 5), and the worn loop exits only in a state
with `num_good >= 1` or `num_bad = 3`. -/
theorem worn_effects_count (env : Env) (id : String) (g : RNG) (a : it_artifact_armor)
    (h : (new_artifact env id g).1 = .armor a) :
    1 ≤ a.artifact.effects_worn.length ∧ a.artifact.effects_worn.length ≤ 5 ∧
    (∀ (g1 : RNG) (tmp : Nat) (charges : Int), worn_exit
      (worn_loop (sel_init g1 tmp fill_good_passive fill_bad_passive [] charges))) := by
  have ha : a = (armor_effects (armor_described env id (one_in 2 g).2).1
      (armor_described env id (one_in 2 g).2).2).1 := by
    unfold new_artifact at h
    split at h
    · cases h
    · exact (artifact_itype.armor.inj h).symm
  have l1 : (armor_described env id (one_in 2 g).2).1.artifact.effects_worn = [] := by
    rw [armor_described_artifact]; rfl
  have e1 : a.artifact.effects_worn =
      (worn_loop (sel_init (armor_described env id (one_in 2 g).2).2 AEP_NULL fill_good_passive
        fill_bad_passive (armor_described env id (one_in 2 g).2).1.artifact.effects_worn
        0)).effects := by
    rw [ha]; rfl
  rw [e1, l1]
  obtain ⟨w1, w2, w3⟩ := worn_loop_effects (armor_described env id (one_in 2 g).2).2 AEP_NULL 0
  exact ⟨w2, w3, fun g1 tmp charges => (worn_loop_effects g1 tmp charges).1⟩

/-- Witness of C31: the "Helm of Eldritch Suffering" has three worn effects, all
bad. -/
theorem worn_effects_count_witness :
    (new_artifact plain_env "artifact_1" (fun n => 7 * n + 3)).1 = .armor sample_armor ∧
    sample_armor.artifact.effects_worn = [37, 36, 21] ∧
    1 ≤ sample_armor.artifact.effects_worn.length :=
  ⟨by decide, by decide,
    (worn_effects_count plain_env "artifact_1" (fun n => 7 * n + 3) sample_armor
      (by decide)).1⟩

/-- A step inside a loop keeps the lists free of repetition. -/
theorem sel_distinct_step (s t : sel_state) (h : sel_distinct s) (_hin : s.in_loop)
    (hst : sel_step s t) : sel_distinct t := by
  obtain ⟨h1, h2, h3, h4, h5⟩ := h
  rcases hst with ⟨i, hi, -, -, -, e3, e4, e5⟩ | ⟨i, hi, -, -, -, e3, e4, e5⟩
  · have hx : s.good_effects[i] ∈ s.good_effects := List.getElem_mem hi
    have hm := mem_eraseIdx_nodup s.good_effects h2 i hi
    refine ⟨?_, ?_, ?_, ?_, ?_⟩
    · rw [e3]
      refine List.Nodup.append h1 (List.nodup_singleton _) ?_
      intro e he hs
      rw [List.mem_singleton] at hs
      subst hs
      exact (h4 _ he).1 hx
    · rw [e4]
      exact h2.eraseIdx i
    · rw [e5]
      exact h3
    · intro e he
      rw [e3, List.mem_append, List.mem_singleton] at he
      rw [e4, e5]
      rcases he with he | rfl
      · exact ⟨fun hh => (h4 e he).1 (List.mem_of_mem_eraseIdx hh), (h4 e he).2⟩
      · exact ⟨fun hh => ((hm _).1 hh).1 rfl, h5 _ hx⟩
    · intro e he
      rw [e4] at he
      rw [e5]
      exact h5 e (List.mem_of_mem_eraseIdx he)
  · have hx : s.bad_effects[i] ∈ s.bad_effects := List.getElem_mem hi
    have hm := mem_eraseIdx_nodup s.bad_effects h3 i hi
    refine ⟨?_, ?_, ?_, ?_, ?_⟩
    · rw [e3]
      refine List.Nodup.append h1 (List.nodup_singleton _) ?_
      intro e he hs
      rw [List.mem_singleton] at hs
      subst hs
      exact (h4 _ he).2 hx
    · rw [e4]
      exact h2
    · rw [e5]
      exact h3.eraseIdx i
    · intro e he
      rw [e3, List.mem_append, List.mem_singleton] at he
      rw [e4, e5]
      rcases he with he | rfl
      · exact ⟨(h4 e he).1, fun hh => (h4 e he).2 (List.mem_of_mem_eraseIdx hh)⟩
      · exact ⟨fun hh => h5 _ hh hx, fun hh => ((hm _).1 hh).1 rfl⟩
    · intro e he
      rw [e4] at he
      rw [e5]
      exact fun hh => h5 e he (List.mem_of_mem_eraseIdx hh)

/-- A passive loop started on an empty list and fresh pools starts free of
repetition. -/
theorem sel_distinct_init_passive (g : RNG) (tmp : Nat) (charges : Int) :
    sel_distinct (sel_init g tmp fill_good_passive fill_bad_passive [] charges) := by
  have h2 : fill_good_passive.Nodup := by decide
  have h3 : fill_bad_passive.Nodup := by decide
  have h5 : ∀ e ∈ fill_good_passive, e ∉ fill_bad_passive := by decide
  exact ⟨List.nodup_nil, h2, h3, fun e he => absurd he (List.not_mem_nil e), h5⟩

/-- The activated loop started on an empty list and fresh pools starts free of
repetition. -/
theorem sel_distinct_init_active (g : RNG) (tmp : Nat) (charges : Int) :
    sel_distinct (sel_init g tmp fill_good_active fill_bad_active [] charges) := by
  have h2 : fill_good_active.Nodup := by decide
  have h3 : fill_bad_active.Nodup := by decide
  have h5 : ∀ e ∈ fill_good_active, e ∉ fill_bad_active := by decide
  exact ⟨List.nodup_nil, h2, h3, fun e he => absurd he (List.not_mem_nil e), h5⟩

/-- The effect lists filled by `tool_effects` on a fresh artifact slot hold no id
twice. -/
theorem tool_effects_distinct (art : it_artifact_tool) (g : RNG)
    (h : art.artifact = islot_artifact.init) :
    (tool_effects art g).1.artifact.distinct := by
  simp only [tool_effects, h, islot_artifact.init, islot_artifact.distinct]
  refine ⟨?_, ?_, ?_, List.nodup_nil⟩
  · exact (wielded_loop_inv _ (fun _ _ h => h) sel_distinct_step _
      (sel_distinct_init_passive _ _ _)).1
  · exact (carried_loop_inv _ (fun _ _ h => h) sel_distinct_step _
      (sel_distinct_init_passive _ _ _)).1
  · exact (activated_loop_inv _ (fun _ _ h => h) sel_distinct_step _
      (sel_distinct_init_active _ _ _)).1

/-- The worn list filled by `armor_effects` on a fresh artifact slot holds no id
twice. -/
theorem armor_effects_distinct (art : it_artifact_armor) (g : RNG)
    (h : art.artifact = islot_artifact.init) :
    (armor_effects art g).1.artifact.distinct := by
  simp only [armor_effects, h, islot_artifact.init, islot_artifact.distinct]
  refine ⟨List.nodup_nil, List.nodup_nil, List.nodup_nil, ?_⟩
  exact (worn_loop_inv _ (fun _ _ h => h) sel_distinct_step _
    (sel_distinct_init_passive _ _ _)).1

/-- A list of a good and a bad id of one family holds no id twice. -/
theorem natural_layouts_distinct (a : islot_artifact) (h : natural_layouts a)
    (hw : a.effects_wielded = []) (hn : a.effects_worn = []) : a.distinct := by
  have hp : ∀ x ∈ fill_good_passive, ∀ y ∈ fill_bad_passive, x ≠ y := by decide
  have ha : ∀ x ∈ fill_good_active, ∀ y ∈ fill_bad_active, x ≠ y := by decide
  unfold islot_artifact.distinct
  rw [hw, hn]
  rcases h with ⟨x, hx, y, hy, e1, e2⟩ | ⟨x, hx, y, hy, e1, e2⟩ | ⟨y, hy, x, hx, e1, e2⟩
  · rw [e1, e2]
    exact ⟨List.nodup_nil, by simp [hp x hx y hy], List.nodup_nil, List.nodup_nil⟩
  · rw [e1, e2]
    exact ⟨List.nodup_nil, List.nodup_nil, by simp [ha x hx y hy], List.nodup_nil⟩
  · rw [e1, e2]
    exact ⟨List.nodup_nil, List.nodup_singleton _, List.nodup_singleton _, List.nodup_nil⟩

/-- C32: for every random source, and every caller-supplied property below
`ARTPROP_MAX`, each effect list of a record produced by `new_artifact` or
`new_natural_artifact` is free of duplicates: no effect id occurs twice within
`effects_wielded`, `effects_carried`, `effects_activated` or `effects_worn`. -/
theorem effect_lists_distinct (env : Env) (id : String) (prop : Nat) (g : RNG)
    (hprop : prop < ARTPROP_MAX) :
    (new_artifact env id g).1.artifact.distinct ∧
    (new_natural_artifact env id prop g).1.artifact.distinct := by
  refine ⟨?_, ?_⟩
  · unfold new_artifact
    split
    · exact tool_effects_distinct _ _ (tool_described_slots env id _).1
    · exact armor_effects_distinct _ _ (armor_described_artifact env id _)
  · have hrow := natural_base_row_mem env id prop g hprop
    obtain ⟨hl, hw, hn⟩ := natural_effects_layouts (natural_base env id prop g).2.1
      (natural_base env id prop g).1 (natural_base env id prop g).2.2
      (property_data_hints_in_range _ hrow) (property_data_bad_costs _ hrow) rfl
    exact natural_layouts_distinct _ hl hw hn

/-- Witness of C32: the statement at property 3 with the plain environment and
the stream `12, 16, 20, ...`, on which `new_artifact` makes a tool with the
wielded effects 13, 23, 37, 5 and 34. -/
theorem effect_lists_distinct_witness :
    3 < ARTPROP_MAX ∧
    (new_artifact plain_env "artifact_0" (fun n => 4 * n + 12)).1.artifact.effects_wielded =
      [13, 23, 37, 5, 34] ∧
    (new_artifact plain_env "artifact_0" (fun n => 4 * n + 12)).1.artifact.distinct ∧
    (new_natural_artifact plain_env "artifact_0" 3 (fun n => 4 * n + 12)).1.artifact.distinct :=
  ⟨by decide, by decide,
    effect_lists_distinct plain_env "artifact_0" 3 (fun n => 4 * n + 12) (by decide)⟩

/-- C33: for every current value `c >= 0` and every mod delta `d`, the armor-mod
rule of `new_artifact` for coverage, thickness, env_resist and storage returns
exactly `max(0, c + d)`. -/
theorem armor_mod_clamp (modinfo : artifact_armor_form_datum) (art : it_artifact_armor)
    (hc : 0 ≤ art.armor.coverage) (ht : 0 ≤ art.armor.thickness)
    (he : 0 ≤ art.armor.env_resist) (hs : 0 ≤ art.armor.storage) :
    (apply_armor_mod modinfo art).armor.coverage =
      max 0 (art.armor.coverage + modinfo.coverage) ∧
    (apply_armor_mod modinfo art).armor.thickness =
      max 0 (art.armor.thickness + modinfo.thickness) ∧
    (apply_armor_mod modinfo art).armor.env_resist =
      max 0 (art.armor.env_resist + modinfo.env_resist) ∧
    (apply_armor_mod modinfo art).armor.storage =
      max 0 (art.armor.storage + modinfo.storage) := by
  simp only [apply_armor_mod, std_abs]
  refine ⟨?_, ?_, ?_, ?_⟩
  · split_ifs <;> omega
  · split_ifs <;> omega
  · split_ifs <;> omega
  · split_ifs <;> omega

/-- Witness of C33: the Robe (coverage 90, thickness 3, env_resist 0, storage 0)
with the "very thin and light" mod (deltas -1, -1, -1, 0) gets the coverage 89,
the thickness 2, the env_resist 0 and the storage 0. -/
theorem armor_mod_clamp_witness :
    (modded_armor plain_env (it_artifact_armor.new "artifact_0") ARTARMFORM_ROBE
      ARMORMOD_LIGHT).armor.coverage = 89 ∧
    (modded_armor plain_env (it_artifact_armor.new "artifact_0") ARTARMFORM_ROBE
      ARMORMOD_LIGHT).armor.env_resist = 0 ∧
    (apply_armor_mod (artifact_armor_mod_data.getD ARMORMOD_LIGHT .none)
      (armor_copy_form plain_env (artifact_armor_form_data.getD ARTARMFORM_ROBE .none)
        (it_artifact_armor.new "artifact_0"))).armor.env_resist =
      max 0 ((armor_copy_form plain_env (artifact_armor_form_data.getD ARTARMFORM_ROBE .none)
        (it_artifact_armor.new "artifact_0")).armor.env_resist +
        (artifact_armor_mod_data.getD ARMORMOD_LIGHT .none).env_resist) :=
  ⟨by decide, by decide,
    (armor_mod_clamp (artifact_armor_mod_data.getD ARMORMOD_LIGHT .none)
      (armor_copy_form plain_env (artifact_armor_form_data.getD ARTARMFORM_ROBE .none)
        (it_artifact_armor.new "artifact_0")) (by decide) (by decide) (by decide)
      (by decide)).2.2.1⟩

/-- The value after a round trip is the original exactly when the original is a
multiple of the factor. -/
theorem legacy_round_eq_iff (v : Int) : legacy_round v = v ↔ v % legacy_volume_factor = 0 := by
  unfold legacy_round
  constructor
  · intro h
    rw [← h]
    exact Int.mul_emod_left _ _
  · intro h
    exact Int.tdiv_mul_cancel (Int.dvd_of_emod_eq_zero h)

/-- A second round trip changes nothing. -/
theorem legacy_round_idem (v : Int) : legacy_round (legacy_round v) = legacy_round v := by
  rw [legacy_round_eq_iff]
  unfold legacy_round
  exact Int.mul_emod_left _ _

/-- For a value that is not negative, the round trip rounds down to a multiple of
the factor. -/
theorem legacy_round_floor (v : Int) (h : 0 ≤ v) :
    legacy_round v ≤ v ∧ v < legacy_round v + legacy_volume_factor := by
  unfold legacy_round legacy_volume_factor
  rw [Int.tdiv_eq_ediv h (by decide)]
  omega

/-- C34: for every tool record and every armor record, decoding the document
that the encoder writes gives a volume equal to the original divided by
`units::legacy_volume_factor`, with integer division, and multiplied back; for
a volume that is not negative this is the volume rounded down to a multiple of
the factor; it equals the original exactly when the volume is a multiple of the
factor, and a second round trip changes nothing. The same holds for the storage
of an armor. -/
theorem volume_roundtrip (t : it_artifact_tool) (a : it_artifact_armor) :
    (∃ d, it_artifact_tool.of_json t.serialize = .ok d ∧
      d.volume = Int.tdiv t.volume legacy_volume_factor * legacy_volume_factor ∧
      (d.volume = t.volume ↔ t.volume % legacy_volume_factor = 0) ∧
      (0 ≤ t.volume → d.volume ≤ t.volume ∧ t.volume < d.volume + legacy_volume_factor) ∧
      ∃ d2, it_artifact_tool.of_json d.serialize = .ok d2 ∧ d2.volume = d.volume) ∧
    (∃ d, it_artifact_armor.of_json a.serialize = .ok d ∧
      d.volume = Int.tdiv a.volume legacy_volume_factor * legacy_volume_factor ∧
      d.armor.storage = Int.tdiv a.armor.storage legacy_volume_factor * legacy_volume_factor ∧
      (d.volume = a.volume ↔ a.volume % legacy_volume_factor = 0) ∧
      (d.armor.storage = a.armor.storage ↔ a.armor.storage % legacy_volume_factor = 0) ∧
      (0 ≤ a.volume → d.volume ≤ a.volume ∧ a.volume < d.volume + legacy_volume_factor) ∧
      (0 ≤ a.armor.storage → d.armor.storage ≤ a.armor.storage ∧
        a.armor.storage < d.armor.storage + legacy_volume_factor) ∧
      ∃ d2, it_artifact_armor.of_json d.serialize = .ok d2 ∧ d2.volume = d.volume ∧
        d2.armor.storage = d.armor.storage) := by
  refine ⟨⟨_, tool_roundtrip t, rfl, legacy_round_eq_iff t.volume,
      legacy_round_floor t.volume, _, tool_roundtrip _, ?_⟩,
    ⟨_, armor_roundtrip a, rfl, rfl, legacy_round_eq_iff a.volume,
      legacy_round_eq_iff a.armor.storage, legacy_round_floor a.volume,
      legacy_round_floor a.armor.storage, _, armor_roundtrip _, ?_, ?_⟩⟩
  · exact legacy_round_idem t.volume
  · exact legacy_round_idem a.volume
  · exact legacy_round_idem a.armor.storage

/-- A legacy string member, when the decoder finds it, is read as the one entry
of `string_field`; when it does not, `string_field` is empty. -/
theorem string_field_cases (jo : JsonObject) (name : String) :
    (jo.has_string name = true ∧ ∃ s, jo.get_string name = .ok s ∧
      jo.string_field name = [s]) ∨
    (jo.has_string name = false ∧ jo.string_field name = []) := by
  unfold JsonObject.has_string JsonObject.get_string JsonObject.string_field
  cases h : jo.member name with
  | none => exact Or.inr ⟨rfl, rfl⟩
  | some v =>
    cases v with
    | str s => exact Or.inl ⟨rfl, s, rfl, rfl⟩
    | int n => exact Or.inr ⟨rfl, rfl⟩
    | bool b => exact Or.inr ⟨rfl, rfl⟩
    | bits b => exact Or.inr ⟨rfl, rfl⟩
    | arr xs => exact Or.inr ⟨rfl, rfl⟩

/-- An array member, when the decoder finds it, is read as `array_field`; when
it does not, `array_field` is empty. -/
theorem array_field_cases (jo : JsonObject) (name : String) :
    (jo.has_array name = true ∧ jo.get_array name = .ok (jo.array_field name)) ∨
    (jo.has_array name = false ∧ jo.array_field name = []) := by
  unfold JsonObject.has_array JsonObject.get_array JsonObject.array_field
  cases h : jo.member name with
  | none => exact Or.inr ⟨rfl, rfl⟩
  | some v =>
    cases v with
    | str s => exact Or.inr ⟨rfl, rfl⟩
    | int n => exact Or.inr ⟨rfl, rfl⟩
    | bool b => exact Or.inr ⟨rfl, rfl⟩
    | bits b => exact Or.inr ⟨rfl, rfl⟩
    | arr xs => exact Or.inl ⟨rfl, rfl⟩

/-- One legacy statement of the decoders, `if (jo.has_string(name))
materials.push_back(jo.get_string(name))`, appends `string_field` before the
statements that follow it run. -/
theorem legacy_step {β : Type} (jo : JsonObject) (name : String) (l : List String)
    (k : List String → Except JsonError β) :
    (if jo.has_string name = true then
        (Except.map (fun m => l ++ [m]) (jo.get_string name)) >>= k
      else (pure l : Except JsonError (List String)) >>= k) =
      k (l ++ jo.string_field name) := by
  rcases string_field_cases jo name with ⟨a1, s1, g1, f1⟩ | ⟨a1, f1⟩
  · rw [a1, g1, f1]
    rfl
  · rw [a1, f1, List.append_nil]
    rfl

/-- The materials statements, when they succeed, append `m1` if present, then
`m2` if present, then the elements of the `materials` array if present. -/
theorem read_materials_concat (jo : JsonObject) (l ms : List String)
    (h : read_materials jo l = .ok ms) :
    ms.map JsonValue.str =
      (l ++ jo.string_field "m1" ++ jo.string_field "m2").map JsonValue.str ++
        jo.array_field "materials" := by
  unfold read_materials at h
  simp only [legacy_step] at h
  rcases array_field_cases jo "materials" with ⟨a3, g3⟩ | ⟨a3, f3⟩
  · rw [a3, g3] at h
    simp only [if_true] at h
    cases hx : read_array (JsonValue.as_string "materials") (jo.array_field "materials") with
    | error e => simp [hx, bind, Except.bind] at h
    | ok xs =>
      simp only [hx, bind, Except.bind, pure, Except.pure, Except.ok.injEq] at h
      rw [← h, List.map_append, read_array_strings_inv _ _ _ hx]
  · rw [a3] at h
    simp only [Bool.false_eq_true, if_false, pure, Except.pure, Except.ok.injEq] at h
    rw [← h, f3, List.append_nil]

/-- C35: for every document, the materials list that `deserialize` gives a
fresh record is the concatenation, in this order, of `[m1]` if the string
member `m1` is present, `[m2]` if the string member `m2` is present, and the
elements of the `materials` array if it is present; so a document with both
legacy members and a `materials` array decodes to two entries more than the
array holds. -/
theorem materials_concat (jo : JsonObject) :
    (∀ t, it_artifact_tool.of_json jo = .ok t →
      t.materials.map JsonValue.str =
        (jo.string_field "m1" ++ jo.string_field "m2").map JsonValue.str ++
          jo.array_field "materials") ∧
    (∀ a, it_artifact_armor.of_json jo = .ok a →
      a.materials.map JsonValue.str =
        (jo.string_field "m1" ++ jo.string_field "m2").map JsonValue.str ++
          jo.array_field "materials") ∧
    (∀ (m1 m2 : String) (xs : List JsonValue), jo.member "m1" = some (.str m1) →
      jo.member "m2" = some (.str m2) → jo.member "materials" = some (.arr xs) →
      (∀ t, it_artifact_tool.of_json jo = .ok t →
        t.materials.map JsonValue.str = JsonValue.str m1 :: JsonValue.str m2 :: xs ∧
        t.materials.length = xs.length + 2) ∧
      (∀ a, it_artifact_armor.of_json jo = .ok a →
        a.materials.map JsonValue.str = JsonValue.str m1 :: JsonValue.str m2 :: xs ∧
        a.materials.length = xs.length + 2)) := by
  have ht : ∀ t, it_artifact_tool.of_json jo = .ok t →
      t.materials.map JsonValue.str =
        (jo.string_field "m1" ++ jo.string_field "m2").map JsonValue.str ++
          jo.array_field "materials" := by
    intro t h
    have := read_materials_concat jo [] t.materials (tool_of_json_materials jo t h)
    simpa using this
  have ha : ∀ a, it_artifact_armor.of_json jo = .ok a →
      a.materials.map JsonValue.str =
        (jo.string_field "m1" ++ jo.string_field "m2").map JsonValue.str ++
          jo.array_field "materials" := by
    intro a h
    have := read_materials_concat jo [] a.materials (armor_of_json_materials jo a h)
    simpa using this
  refine ⟨ht, ha, ?_⟩
  intro m1 m2 xs h1 h2 h3
  have f1 : jo.string_field "m1" = [m1] := by simp [JsonObject.string_field, h1]
  have f2 : jo.string_field "m2" = [m2] := by simp [JsonObject.string_field, h2]
  have f3 : jo.array_field "materials" = xs := by simp [JsonObject.array_field, h3]
  constructor
  · intro t h
    have e := ht t h
    rw [f1, f2, f3] at e
    refine ⟨by simpa using e, ?_⟩
    have := congrArg List.length e
    simp only [List.length_map, List.length_cons, List.map_append, List.map_cons, List.map_nil,
      List.length_append, List.cons_append, List.nil_append, List.length_nil] at this
    omega
  · intro a h
    have e := ha a h
    rw [f1, f2, f3] at e
    refine ⟨by simpa using e, ?_⟩
    have := congrArg List.length e
    simp only [List.length_map, List.length_cons, List.map_append, List.map_cons, List.map_nil,
      List.length_append, List.cons_append, List.nil_append, List.length_nil] at this
    omega

/-- Witness of C35: the legacy tool document (`m1` wood, `m2` steel) with a
`materials` array holding "stone" decodes to the three materials wood, steel,
stone. -/
theorem materials_concat_witness :
    (it_artifact_tool.of_json mixed_materials_doc).toOption.map (fun t => t.materials) =
      some ["wood", "steel", "stone"] ∧
    mixed_materials_doc.string_field "m1" = ["wood"] ∧
    mixed_materials_doc.string_field "m2" = ["steel"] ∧
    (mixed_materials_doc.array_field "materials").length = 1 ∧
    (∀ t, it_artifact_tool.of_json mixed_materials_doc = .ok t →
      t.materials.map JsonValue.str =
        (mixed_materials_doc.string_field "m1" ++
          mixed_materials_doc.string_field "m2").map JsonValue.str ++
          mixed_materials_doc.array_field "materials") :=
  ⟨by decide, by decide, by decide, by decide, (materials_concat mixed_materials_doc).1⟩

/-- C37: every hint in `artifact_property_data` is either the null sentinel or
lies in the sub-range of its slot: `passive_good` entries strictly between
`AEP_NULL` and `AEP_SPLIT`, `passive_bad` entries strictly between `AEP_SPLIT`
and `NUM_AEPS`, `active_good` entries strictly between `AEA_NULL` and
`AEA_SPLIT`, `active_bad` entries strictly between `AEA_SPLIT` and `NUM_AEAS`;
no hint is a split sentinel. The table has `ARTPROP_MAX` rows of four hints per
slot. -/
theorem property_hints_in_subrange :
    artifact_property_data.length = ARTPROP_MAX ∧
    ∀ pd ∈ artifact_property_data,
      (pd.passive_good.length = 4 ∧ pd.passive_bad.length = 4 ∧
        pd.active_good.length = 4 ∧ pd.active_bad.length = 4) ∧
      (∀ e ∈ pd.passive_good, e = AEP_NULL ∨ (AEP_NULL < e ∧ e < AEP_SPLIT)) ∧
      (∀ e ∈ pd.passive_bad, e = AEP_NULL ∨ (AEP_SPLIT < e ∧ e < NUM_AEPS)) ∧
      (∀ e ∈ pd.active_good, e = AEA_NULL ∨ (AEA_NULL < e ∧ e < AEA_SPLIT)) ∧
      (∀ e ∈ pd.active_bad, e = AEA_NULL ∨ (AEA_SPLIT < e ∧ e < NUM_AEAS)) ∧
      (∀ e ∈ pd.passive_good ++ pd.passive_bad, e ≠ AEP_SPLIT) ∧
      (∀ e ∈ pd.active_good ++ pd.active_bad, e ≠ AEA_SPLIT) := by
  decide

/-- A subscript built from an integer index `i` with `0 <= i < n` is in bounds. -/
theorem subscript.int_in_bounds (i : Int) (n : Nat) (h0 : 0 ≤ i) (h1 : i < (n : Int)) :
    (⟨i, n⟩ : subscript).in_bounds := ⟨h0, h1⟩

/-- A subscript built from an enumerator `e < n` is in bounds. -/
theorem subscript.nat_in_bounds (e n : Nat) (h : e < n) :
    (⟨(e : Int), n⟩ : subscript).in_bounds := ⟨Int.ofNat_nonneg e, Int.ofNat_lt.mpr h⟩

/-- The end of a passive loop body subscripts the passive cost catalog with the
effect that it appends to the list; the activated body does the same with the
active cost catalog. -/
theorem body_subscript_appended (s : sel_state) :
    ((push_passive s).value = s.value + passive_effect_cost.getD s.tmp 0 ∧
      (push_passive s).effects = s.effects ++ [s.tmp]) ∧
    ∃ e, (activated_body s).value = s.value + active_effect_cost.getD e 0 ∧
      (activated_body s).effects = s.effects ++ [e] := by
  refine ⟨⟨rfl, rfl⟩, ?_⟩
  unfold activated_body
  simp only
  split <;> exact ⟨_, rfl, rfl⟩

/-- Entries below the length of the catalog give subscripts inside it. -/
theorem cost_subscripts_in_bounds (cost : List Int) (effects : List Nat)
    (h : ∀ e ∈ effects, e < cost.length) : ∀ a ∈ cost_subscripts cost effects, a.in_bounds := by
  intro a ha
  obtain ⟨e, he, rfl⟩ := List.mem_map.mp ha
  exact subscript.nat_in_bounds _ _ (h e he)

/-- The rows of the tool-form table name weapons of the weapon table, in the
base weapon and in each of the three extra weapons. -/
theorem tool_form_rows_weapons :
    ∀ info ∈ artifact_tool_form_data,
      info.base_weapon < artifact_weapon_data.length ∧ info.extra_weapons.length = 3 ∧
      ∀ w ∈ info.extra_weapons, w < artifact_weapon_data.length := by
  decide

/-- The rows of the armor-form table name mods of the mod table in each of the
five available mods. -/
theorem armor_form_rows_mods :
    ∀ info ∈ artifact_armor_form_data,
      info.available_mods.length = 5 ∧
      ∀ m ∈ info.available_mods, m < artifact_armor_mod_data.length := by
  decide

/-- Each hint array of a property row has four entries. -/
theorem property_rows_hints :
    ∀ pd ∈ artifact_property_data,
      pd.passive_good.length = 4 ∧ pd.passive_bad.length = 4 ∧
      pd.active_good.length = 4 ∧ pd.active_bad.length = 4 := by
  decide

/-- The form drawn by the tool branch is a row of the tool-form table. -/
theorem tool_form_mem (g : RNG) :
    artifact_tool_form_data.getD
      (rng (ARTTOOLFORM_NULL + 1) (NUM_ARTTOOLFORMS - 1) g).1.toNat .none ∈
      artifact_tool_form_data := by
  have h := rng_mem (ARTTOOLFORM_NULL + 1) (NUM_ARTTOOLFORMS - 1) g (by decide)
  have hl : artifact_tool_form_data.length = 6 := by decide
  simp only [ARTTOOLFORM_NULL, NUM_ARTTOOLFORMS] at h ⊢
  rw [List.getD_eq_getElem _ _ (by omega)]
  exact List.getElem_mem _

/-- The form drawn by the armor branch is a row of the armor-form table. -/
theorem armor_form_mem (g : RNG) :
    artifact_armor_form_data.getD
      (rng (ARTARMFORM_NULL + 1) (NUM_ARTARMFORMS - 1) g).1.toNat .none ∈
      artifact_armor_form_data := by
  have h := rng_mem (ARTARMFORM_NULL + 1) (NUM_ARTARMFORMS - 1) g (by decide)
  have hl : artifact_armor_form_data.length = 8 := by decide
  simp only [ARTARMFORM_NULL, NUM_ARTARMFORMS] at h ⊢
  rw [List.getD_eq_getElem _ _ (by omega)]
  exact List.getElem_mem _

/-- The two subscripts of the tool branch up to the base weapon are in bounds. -/
theorem tool_base_subscripts_in_bounds (g : RNG) :
    ∀ a ∈ tool_base_subscripts g, a.in_bounds := by
  have h := rng_mem (ARTTOOLFORM_NULL + 1) (NUM_ARTTOOLFORMS - 1) g (by decide)
  have hl : artifact_tool_form_data.length = 6 := by decide
  have hw := (tool_form_rows_weapons _ (tool_form_mem g)).1
  simp only [ARTTOOLFORM_NULL, NUM_ARTTOOLFORMS] at h
  intro a ha
  simp only [tool_base_subscripts, List.mem_cons, List.mem_singleton, List.not_mem_nil,
    or_false] at ha
  rcases ha with rfl | rfl
  · exact subscript.int_in_bounds _ _
      (by simp only [ARTTOOLFORM_NULL, NUM_ARTTOOLFORMS]; omega)
      (by rw [hl]; simp only [ARTTOOLFORM_NULL, NUM_ARTTOOLFORMS]; omega)
  · exact subscript.nat_in_bounds _ _ hw

/-- The subscripts of the extra-weapon block are in bounds when the form is a
row of the tool-form table. -/
theorem tool_extra_weapon_subscripts_in_bounds (info : artifact_tool_form_datum) (g : RNG)
    (hinfo : info ∈ artifact_tool_form_data) :
    ∀ a ∈ tool_extra_weapon_subscripts info g, a.in_bounds := by
  obtain ⟨-, h3, hw⟩ := tool_form_rows_weapons info hinfo
  have h := rng_mem 0 2 (one_in 2 g).2 (by decide)
  have hsel : (⟨(rng 0 2 (one_in 2 g).2).1, info.extra_weapons.length⟩ : subscript).in_bounds :=
    subscript.int_in_bounds _ _ h.1 (by rw [h3]; omega)
  have hentry : info.extra_weapons.getD (rng 0 2 (one_in 2 g).2).1.toNat 0 <
      artifact_weapon_data.length := by
    rw [List.getD_eq_getElem _ _ (by omega)]
    exact hw _ (List.getElem_mem _)
  intro a ha
  unfold tool_extra_weapon_subscripts at ha
  simp only at ha
  split_ifs at ha
  · simp only [List.mem_cons, List.mem_singleton, List.not_mem_nil, or_false] at ha
    rcases ha with rfl | rfl | rfl
    · exact hsel
    · exact hsel
    · exact subscript.nat_in_bounds _ _ hentry
  · simp only [List.mem_singleton] at ha
    rw [ha]; exact hsel
  · simp at ha

/-- The subscripts of the block that modifies the armor are in bounds when the
form is a row of the armor-form table. -/
theorem armor_modify_subscripts_in_bounds (info : artifact_armor_form_datum) (g : RNG)
    (hinfo : info ∈ artifact_armor_form_data) :
    ∀ a ∈ armor_modify_subscripts info g, a.in_bounds := by
  obtain ⟨h5, hm⟩ := armor_form_rows_mods info hinfo
  have h := rng_mem 0 4 (Cond.not (one_in 4) g).2 (by decide)
  have hidx : (⟨(rng 0 4 (Cond.not (one_in 4) g).2).1, info.available_mods.length⟩ :
      subscript).in_bounds :=
    subscript.int_in_bounds _ _ h.1 (by rw [h5]; omega)
  have hentry : info.available_mods.getD (rng 0 4 (Cond.not (one_in 4) g).2).1.toNat 0 <
      artifact_armor_mod_data.length := by
    rw [List.getD_eq_getElem _ _ (by omega)]
    exact hm _ (List.getElem_mem _)
  intro a ha
  unfold armor_modify_subscripts at ha
  simp only at ha
  split_ifs at ha
  · simp only [List.mem_cons, List.mem_singleton, List.not_mem_nil, or_false] at ha
    rcases ha with rfl | rfl | rfl
    · exact hidx
    · exact hidx
    · exact subscript.nat_in_bounds _ _ hentry
  · simp only [List.mem_singleton] at ha
    rw [ha]; exact hidx
  · simp at ha

/-- The passive loops start with pools and list of ids below the length of the
passive cost catalog. -/
theorem sel_below_init_passive (g : RNG) (tmp : Nat) (charges : Int) :
    sel_all (fun e => e < passive_effect_cost.length)
      (sel_init g tmp fill_good_passive fill_bad_passive [] charges) := by
  have h1 : ∀ e ∈ fill_good_passive, e < passive_effect_cost.length := by decide
  have h2 : ∀ e ∈ fill_bad_passive, e < passive_effect_cost.length := by decide
  exact ⟨h1, h2, by simp [sel_init]⟩

/-- The activated loop starts with pools and list of ids below the length of the
active cost catalog. -/
theorem sel_below_init_active (g : RNG) (tmp : Nat) (charges : Int) :
    sel_all (fun e => e < active_effect_cost.length)
      (sel_init g tmp fill_good_active fill_bad_active [] charges) := by
  have h1 : ∀ e ∈ fill_good_active, e < active_effect_cost.length := by decide
  have h2 : ∀ e ∈ fill_bad_active, e < active_effect_cost.length := by decide
  exact ⟨h1, h2, by simp [sel_init]⟩

/-- The effect lists filled by `tool_effects` on a fresh artifact slot hold ids
below the length of the cost catalog of their family. -/
theorem tool_effects_below (art : it_artifact_tool) (g : RNG)
    (h : art.artifact = islot_artifact.init) :
    (∀ e ∈ (tool_effects art g).1.artifact.effects_wielded, e < passive_effect_cost.length) ∧
    (∀ e ∈ (tool_effects art g).1.artifact.effects_carried, e < passive_effect_cost.length) ∧
    (∀ e ∈ (tool_effects art g).1.artifact.effects_activated, e < active_effect_cost.length) := by
  simp only [tool_effects, h, islot_artifact.init]
  refine ⟨?_, ?_, ?_⟩
  · exact (wielded_loop_inv _ (fun _ _ h => h) (sel_all_step _) _
      (sel_below_init_passive _ _ _)).2.2
  · exact (carried_loop_inv _ (fun _ _ h => h) (sel_all_step _) _
      (sel_below_init_passive _ _ _)).2.2
  · exact (activated_loop_inv _ (fun _ _ h => h) (sel_all_step _) _
      (sel_below_init_active _ _ _)).2.2

/-- The worn list filled by `armor_effects` on a fresh artifact slot holds ids
below the length of the passive cost catalog. -/
theorem armor_effects_below (art : it_artifact_armor) (g : RNG)
    (h : art.artifact = islot_artifact.init) :
    ∀ e ∈ (armor_effects art g).1.artifact.effects_worn, e < passive_effect_cost.length := by
  simp only [armor_effects, h, islot_artifact.init]
  exact (worn_loop_inv _ (fun _ _ h => h) (sel_all_step _) _ (sel_below_init_passive _ _ _)).2.2

/-- Every subscript of the tool branch of `new_artifact` is in bounds. -/
theorem new_artifact_tool_subscripts_in_bounds (env : Env) (id : String) (g : RNG) :
    ∀ a ∈ new_artifact_tool_subscripts env id g, a.in_bounds := by
  obtain ⟨hw, hc, ha⟩ := tool_effects_below (tool_described env id g).1
    (tool_described env id g).2 (tool_described_slots env id g).1
  intro a hmem
  simp only [new_artifact_tool_subscripts, List.mem_append] at hmem
  rcases hmem with (((hmem | hmem) | hmem) | hmem) | hmem
  · exact tool_base_subscripts_in_bounds g a hmem
  · exact tool_extra_weapon_subscripts_in_bounds _ _ (tool_form_mem g) a hmem
  · exact cost_subscripts_in_bounds _ _ hw a hmem
  · exact cost_subscripts_in_bounds _ _ hc a hmem
  · exact cost_subscripts_in_bounds _ _ ha a hmem

/-- Every subscript of the armor branch of `new_artifact` is in bounds. -/
theorem new_artifact_armor_subscripts_in_bounds (env : Env) (id : String) (g : RNG) :
    ∀ a ∈ new_artifact_armor_subscripts env id g, a.in_bounds := by
  have hw := armor_effects_below (armor_described env id g).1
    (armor_described env id g).2 (armor_described_artifact env id g)
  have h := rng_mem (ARTARMFORM_NULL + 1) (NUM_ARTARMFORMS - 1) g (by decide)
  have hl : artifact_armor_form_data.length = 8 := by decide
  simp only [ARTARMFORM_NULL, NUM_ARTARMFORMS] at h
  intro a hmem
  simp only [new_artifact_armor_subscripts, List.mem_append, List.mem_singleton] at hmem
  rcases hmem with (rfl | hmem) | hmem
  · exact subscript.int_in_bounds _ _
      (by simp only [ARTARMFORM_NULL, NUM_ARTARMFORMS]; omega)
      (by rw [hl]; simp only [ARTARMFORM_NULL, NUM_ARTARMFORMS]; omega)
  · exact armor_modify_subscripts_in_bounds _ _ (armor_form_mem g) a hmem
  · exact cost_subscripts_in_bounds _ _ hw a hmem

/-- Every subscript of one attempt of the rejection loop is in bounds when the
property row has four hints per slot, each null or of its pool, and the picks
that the layout does not make are null. -/
theorem natural_attempt_subscripts_in_bounds (pd : artifact_property_datum)
    (l : natural_layout) (s : natural_state) (hpd : pd.hints_in_range)
    (h4 : pd.passive_good.length = 4 ∧ pd.passive_bad.length = 4 ∧
      pd.active_good.length = 4 ∧ pd.active_bad.length = 4)
    (h : s.unpicked_null l) :
    ∀ a ∈ natural_attempt_subscripts pd l s, a.in_bounds := by
  have hpick : ∀ (hints : List Nat) (g : RNG), hints.length = 4 →
      ∀ a ∈ natural_pick_subscripts hints g, a.in_bounds := by
    intro hints g hl a ha
    have hr := rng_mem 0 3 g (by decide)
    simp only [natural_pick_subscripts, List.mem_singleton] at ha
    rw [ha]
    exact subscript.int_in_bounds _ _ hr.1 (by rw [hl]; omega)
  have p1 : ∀ e ∈ fill_good_passive, e < passive_effect_cost.length := by decide
  have p2 : ∀ e ∈ fill_bad_passive, e < passive_effect_cost.length := by decide
  have p3 : ∀ e ∈ fill_good_active, e < active_effect_cost.length := by decide
  have p4 : ∀ e ∈ fill_bad_active, e < active_effect_cost.length := by decide
  have n1 : AEP_NULL < passive_effect_cost.length := by decide
  have n2 : AEA_NULL < active_effect_cost.length := by decide
  obtain ⟨q1, q2, q3, q4⟩ := natural_attempt_picked pd l s hpd h
  have c1 : (natural_attempt pd l s).aep_good < passive_effect_cost.length := by
    split at q1
    · exact p1 _ q1
    · rw [q1]; exact n1
  have c2 : (natural_attempt pd l s).aep_bad < passive_effect_cost.length := by
    split at q2
    · exact p2 _ q2
    · rw [q2]; exact n1
  have c3 : (natural_attempt pd l s).aea_good < active_effect_cost.length := by
    split at q3
    · exact p3 _ q3
    · rw [q3]; exact n2
  have c4 : (natural_attempt pd l s).aea_bad < active_effect_cost.length := by
    split at q4
    · exact p4 _ q4
    · rw [q4]; exact n2
  intro a ha
  simp only [natural_attempt_subscripts, List.mem_append, List.mem_cons, List.mem_singleton,
    List.not_mem_nil, or_false] at ha
  rcases ha with (((ha | ha) | ha) | ha) | (rfl | rfl | rfl | rfl)
  · split at ha
    · exact hpick _ _ h4.1 a ha
    · simp at ha
  · split at ha
    · exact hpick _ _ h4.2.1 a ha
    · simp at ha
  · split at ha
    · exact hpick _ _ h4.2.2.1 a ha
    · simp at ha
  · split at ha
    · exact hpick _ _ h4.2.2.2 a ha
    · simp at ha
  · exact subscript.nat_in_bounds _ _ c1
  · exact subscript.nat_in_bounds _ _ c2
  · exact subscript.nat_in_bounds _ _ c3
  · exact subscript.nat_in_bounds _ _ c4

/-- Every subscript of the rejection loop is in bounds, whatever the number of
attempts. -/
theorem natural_loop_subscripts_in_bounds (pd : artifact_property_datum)
    (l : natural_layout) (s : natural_state) (hpd : pd.hints_in_range) (hb : pd.bad_costs)
    (h4 : pd.passive_good.length = 4 ∧ pd.passive_bad.length = 4 ∧
      pd.active_good.length = 4 ∧ pd.active_bad.length = 4)
    (h : s.unpicked_null l) :
    ∀ a ∈ natural_loop_subscripts pd l s, a.in_bounds := by
  induction s using natural_loop_subscripts.induct pd l with
  | case1 s hc ih =>
    rw [natural_loop_subscripts, if_pos hc]
    intro a ha
    rcases List.mem_append.mp ha with ha | ha
    · exact natural_attempt_subscripts_in_bounds pd l s hpd h4 h a ha
    · exact ih (natural_attempt_value_le pd l s hb h).2 a ha
  | case2 s hc =>
    rw [natural_loop_subscripts, if_neg hc]
    exact natural_attempt_subscripts_in_bounds pd l s hpd h4 h

/-- Every subscript of `new_natural_artifact(prop)` is in bounds for a property
below `ARTPROP_MAX`. -/
theorem new_natural_artifact_subscripts_in_bounds (env : Env) (id : String) (prop : Nat)
    (g : RNG) (hprop : prop < ARTPROP_MAX) :
    ∀ a ∈ new_natural_artifact_subscripts env id prop g, a.in_bounds := by
  have hrow := natural_base_row_mem env id prop g hprop
  have hs := rng_mem (ARTSHAPE_NULL + 1) (ARTSHAPE_MAX - 1) g (by decide)
  have hp := rng_mem (ARTPROP_NULL + 1) (ARTPROP_MAX - 1)
    (rng (ARTSHAPE_NULL + 1) (ARTSHAPE_MAX - 1) g).2 (by decide)
  have l1 : artifact_shape_data.length = 18 := by decide
  have l2 : artifact_property_data.length = 18 := by decide
  simp only [ARTSHAPE_NULL, ARTSHAPE_MAX, ARTPROP_NULL, ARTPROP_MAX] at hs hp hprop
  intro a ha
  simp only [new_natural_artifact_subscripts, List.mem_append] at ha
  rcases ha with ha | ha
  · simp only [natural_base_subscripts, List.mem_cons, List.mem_singleton, List.not_mem_nil,
      or_false] at ha
    rcases ha with rfl | rfl
    · exact subscript.int_in_bounds _ _
        (by simp only [ARTSHAPE_NULL, ARTSHAPE_MAX]; omega)
        (by rw [l1]; simp only [ARTSHAPE_NULL, ARTSHAPE_MAX]; omega)
    · refine subscript.int_in_bounds _ _ ?_ ?_
      · split
        · positivity
        · simp only [ARTSHAPE_NULL, ARTSHAPE_MAX, ARTPROP_NULL, ARTPROP_MAX]; omega
      · rw [l2]
        split
        · omega
        · simp only [ARTSHAPE_NULL, ARTSHAPE_MAX, ARTPROP_NULL, ARTPROP_MAX]; omega
  · exact natural_loop_subscripts_in_bounds _ _ _ (property_data_hints_in_range _ hrow)
      (property_data_bad_costs _ hrow) (property_rows_hints _ hrow)
      ⟨fun _ => rfl, fun _ => rfl, fun _ => rfl, fun _ => rfl⟩ a ha

/-- C36: with `rng(a, b)` inside `[a, b]`, for every random source and every
caller-supplied property below `ARTPROP_MAX`, every subscript evaluated by
`new_artifact`, `new_natural_artifact` and `architects_cube` into the static
tables (tool forms, weapons, `extra_weapons`, armor forms, `available_mods`,
armor mods, shapes, properties, hint arrays) and into `passive_effect_cost` /
`active_effect_cost` is within the bounds of the indexed array; the tables have
the numbers of elements that the source declares. -/
theorem subscripts_in_bounds (env : Env) (id : String) (prop : Nat) (g : RNG)
    (hprop : prop < ARTPROP_MAX) :
    (∀ a b : Int, a ≤ b → a ≤ (rng a b g).1 ∧ (rng a b g).1 ≤ b) ∧
    (∀ a ∈ new_artifact_subscripts env id g, a.in_bounds) ∧
    (∀ a ∈ new_natural_artifact_subscripts env id prop g, a.in_bounds) ∧
    (∀ a ∈ architects_cube_subscripts, a.in_bounds) ∧
    (passive_effect_cost.length = NUM_AEPS ∧ active_effect_cost.length = NUM_AEAS ∧
      artifact_shape_data.length = ARTSHAPE_MAX ∧
      artifact_property_data.length = ARTPROP_MAX ∧
      artifact_tool_form_data.length = NUM_ARTTOOLFORMS ∧
      artifact_weapon_data.length = NUM_ARTWEAPS ∧
      artifact_armor_form_data.length = NUM_ARTARMFORMS ∧
      artifact_armor_mod_data.length = NUM_ARMORMODS) ∧
    (∀ info ∈ artifact_tool_form_data, info.extra_weapons.length = 3) ∧
    (∀ info ∈ artifact_armor_form_data, info.available_mods.length = 5) ∧
    (∀ pd ∈ artifact_property_data, pd.passive_good.length = 4 ∧ pd.passive_bad.length = 4 ∧
      pd.active_good.length = 4 ∧ pd.active_bad.length = 4) := by
  refine ⟨fun a b h => rng_mem a b g h, ?_,
    new_natural_artifact_subscripts_in_bounds env id prop g hprop, by decide, by decide,
    fun info h => (tool_form_rows_weapons info h).2.1,
    fun info h => (armor_form_rows_mods info h).1, property_rows_hints⟩
  intro a ha
  unfold new_artifact_subscripts at ha
  split at ha
  · exact new_artifact_tool_subscripts_in_bounds env id _ a ha
  · exact new_artifact_armor_subscripts_in_bounds env id _ a ha

/-- Witness of C36: the statement at property 3 with the plain environment and
the stream `12, 16, 20, ...`, on which `new_artifact` makes a tool and evaluates
fourteen subscripts, the last one `active_effect_cost[5]`. -/
theorem subscripts_in_bounds_witness :
    3 < ARTPROP_MAX ∧
    (new_artifact_subscripts plain_env "artifact_0" (fun n => 4 * n + 12)).length = 14 ∧
    (new_artifact_subscripts plain_env "artifact_0" (fun n => 4 * n + 12)).getLast? =
      some ⟨5, 31⟩ ∧
    (new_natural_artifact_subscripts plain_env "artifact_0" 3 (fun n => 4 * n + 12)).head? =
      some ⟨13, 18⟩ ∧
    (∀ a ∈ new_artifact_subscripts plain_env "artifact_0" (fun n => 4 * n + 12), a.in_bounds) ∧
    (∀ a ∈ new_natural_artifact_subscripts plain_env "artifact_0" 3 (fun n => 4 * n + 12),
      a.in_bounds) :=
  ⟨by decide, by decide, by decide, by decide,
    (subscripts_in_bounds plain_env "artifact_0" 3 (fun n => 4 * n + 12) (by decide)).2.1,
    (subscripts_in_bounds plain_env "artifact_0" 3 (fun n => 4 * n + 12) (by decide)).2.2.1⟩

end Artifact
